import Mathlib

/-! MCSimMod: the symbol table of the model generator.

A shallow embedding of the symbol-table routines of `modd.c` and of the
dosing-function resolver of `lexfn.c` (with `lexerr.c` and the declarations of
`lex.h`, `modd.h`, `modo.h`), and the properties of the specification that were
checked against them.

Conventions of the embedding.

* A C string is a `String`; `strcmp (a, b) == 0` is `a = b`.  A `PSTR` that may
  be `NULL` is an `Option String`.
* A `PVMMAPSTRCT` (pointer to a node of a singly linked list) is the list of the
  records reachable from that node: `[]` is `NULL`, and `pvm->pvmNextVar` is the
  tail.
* `HANDLE`, `WORD` and the counters are natural numbers; the exit codes are
  integers.
* `malloc` is taken to succeed: the branches that report `RE_OUTOFMEM` after a
  failed allocation are not part of the model.
* A `double` is a rational number, an infinity or a NaN; the functions `atof`
  and `atoi` of the C library are parameters of the model (`LIBC`).  An array
  of `double` is a list, and a fresh array is a list of zeros.
* An input buffer that is read through the scanner of `lex.c` is a `TOKENBUF`:
  the counters of the buffer with the lexical elements still to come.
-/

namespace MCSimMod

/-! ## Constants -/

/-- Handle of a variable (its kind tag combined with flags or an index). -/
abbrev HANDLE := Nat

/-- The value of `EXIT_NOERROR` in `lex.h`. -/
def EXIT_NOERROR : Int := -0x10000

/-- The value of `EXIT_ERROR` in `lex.h`. -/
def EXIT_ERROR : Int := -0x10001

/-- Modelled from the spec: `mod.h`, which defines the kind tags, is not among
the sources.  The spec describes a handle as a tagged integer whose high bits
encode the kind and whose low bits hold an ordinal; `ID_TYPEMASK` selects the
kind bits.  The layout chosen here keeps one hexadecimal digit of kind above
sixteen low bits; the properties below rest only on the kinds being distinct,
non-null and unchanged by the mask. -/
def ID_TYPEMASK : HANDLE := 0xF0000

/-- Modelled from the spec: the space flag (a formatting hint kept in the
handle, below the kind bits); `mod.h` is not among the sources. -/
def ID_SPACEFLAG : HANDLE := 0x0F000

/-- Modelled from the spec: the null kind (`mod.h` is not among the sources);
the code tests it with `!hType`. -/
def ID_NULL : HANDLE := 0x00000

/-- Modelled from the spec: kind State (`mod.h` is not among the sources). -/
def ID_STATE : HANDLE := 0x10000

/-- Modelled from the spec: kind Input (`mod.h` is not among the sources). -/
def ID_INPUT : HANDLE := 0x20000

/-- Modelled from the spec: kind Output (`mod.h` is not among the sources). -/
def ID_OUTPUT : HANDLE := 0x30000

/-- Modelled from the spec: kind Parameter (`mod.h` is not among the sources). -/
def ID_PARM : HANDLE := 0x40000

/-- Modelled from the spec: kind Local-to-Dynamics (`mod.h` is not among the
sources). -/
def ID_LOCALDYN : HANDLE := 0x50000

/-- Modelled from the spec: kind Local-to-Scale (`mod.h` is not among the
sources). -/
def ID_LOCALSCALE : HANDLE := 0x60000

/-- Modelled from the spec: kind Local-to-Jacobian (`mod.h` is not among the
sources). -/
def ID_LOCALJACOB : HANDLE := 0x70000

/-- Modelled from the spec: kind Local-to-CalcOutputs (`mod.h` is not among the
sources). -/
def ID_LOCALCALCOUT : HANDLE := 0x80000

/-- Modelled from the spec: kind Local-to-Events (`mod.h` is not among the
sources). -/
def ID_LOCALEVENT : HANDLE := 0x90000

/-- Modelled from the spec: kind Local-to-Roots (`mod.h` is not among the
sources). -/
def ID_LOCALROOT : HANDLE := 0xA0000

/-- Modelled from the spec: kind Derivative (`mod.h` is not among the
sources). -/
def ID_DERIV : HANDLE := 0xB0000

/-- Modelled from the spec: kind Inline (`mod.h` is not among the sources). -/
def ID_INLINE : HANDLE := 0xC0000

/-- Modelled from the spec: kind Compartment (`mod.h` is not among the
sources). -/
def ID_COMPARTMENT : HANDLE := 0xD0000

/-- Modelled from the spec: kind Function (`mod.h` is not among the sources). -/
def ID_FUNCTION : HANDLE := 0xE0000

/-! ## Variable records and stacks -/

/-- The values of the C type `double`: a finite value is the rational number it
stands for (the two zeros are one value); beside the finite values there are
the two infinities and the NaNs, which are taken as one value. -/
inductive double where
  | finite (q : Rat)
  | infinite (negative : Bool)
  | nan
deriving DecidableEq, Repr

instance (n : Nat) : OfNat double n := ⟨double.finite n⟩

/-- The functions of the C library that the resolver calls to read a number
from the text of a lexical element: `atof` gives a `double` and `atoi` an
`int`.  Their code is not among the sources and their values depend on the
platform (rounding to the nearest `double`, texts out of the range of `int`);
they are parameters of the model, and what is proved about the resolver holds
for every such pair of functions. -/
structure LIBC where
  atof : String → double
  atoi : String → Int

/-- Dosing-function record (`IFN`), as initialised by `InitIFN` in `lexfn.c`. -/
structure IFN where
  iType : Nat
  bOn : Bool
  dTStartPeriod : double
  dMag : double
  dTper : double
  dT0 : double
  dTexp : double
  dDecay : double
  dVal : double
  hMag : HANDLE
  hTper : HANDLE
  hT0 : HANDLE
  hTexp : HANDLE
  hDecay : HANDLE
  nDoses : Int
  iDoseCur : Int
  rgT0s : Option (List double)
  rgTexps : Option (List double)
  rgMags : Option (List double)
deriving DecidableEq, Repr

/-- What the field `szEqn` of a record points to when it is not `NULL`: an owned
copy of an equation text, the global flag string `vszHasInitializer` (compared
by address in the code), or a dosing-function record stored through a cast. -/
inductive EQN where
  | text (sz : String)
  | vszHasInitializer
  | ifn (pifn : IFN)
deriving DecidableEq, Repr

/-- One node of a stack (`VMMAPSTRCT`), without its `pvmNextVar` link. -/
structure VMMAPSTRCT where
  szName : String
  szEqn : Option EQN
  hType : HANDLE
deriving DecidableEq, Repr

/-- A stack, or a pointer into one: the records from a node onwards. -/
abbrev PVMMAPSTRCT := List VMMAPSTRCT

/-- Modelled from the spec: the macro `TYPE (pvm)` of `mod.h` (not among the
sources): the kind bits of the record pointed to, or the null kind for `NULL`. -/
def TYPE : PVMMAPSTRCT → HANDLE
  | [] => ID_NULL
  | pvm :: _ => pvm.hType &&& ID_TYPEMASK

/-- The exit test of `PROPAGATE_EXIT` and its variants in `lex.h`. -/
def isExit (ret : Int) : Bool :=
  ret == EXIT_NOERROR || ret == EXIT_ERROR

/-- `CopyString` of `modd.c`: the status and the buffer written to `*szBuf`
(`NULL` for a `NULL` original). -/
def CopyString (szOrg : Option String) : Int × Option String :=
  match szOrg with
  | some sz => (0, some sz)
  | none => (0, none)

/-- `AddEquation` of `modd.c`: the status and the new value of `*ppvm` (`none`
when `ppvm` itself is `NULL`). -/
def AddEquation (ppvm : Option PVMMAPSTRCT) (szName : Option String) (szEqn : Option String)
    (hType : HANDLE) : Int × Option PVMMAPSTRCT :=
  match ppvm, szName with
  | none, _ => (0, none)
  | some pvm, none => (0, some pvm)
  | some pvm, some sz =>
    let rName := CopyString (some sz)
    if isExit rName.1 then (rName.1, some pvm) else
    let rEqn := CopyString szEqn
    if isExit rEqn.1 then (rEqn.1, some pvm) else
    match rName.2 with
    | none => (0, some pvm)
    | some szNew =>
      (0, some ({ szName := szNew, szEqn := rEqn.2.map EQN.text, hType := hType } :: pvm))

/-- `SetVarType` of `modd.c`: the stack after the call. -/
def SetVarType : PVMMAPSTRCT → String → HANDLE → PVMMAPSTRCT
  | [], _, _ => []
  | pvm :: pvmNextVar, szName, hType =>
    if szName = pvm.szName then { pvm with hType := hType } :: pvmNextVar
    else pvm :: SetVarType pvmNextVar szName hType

/-- `GetVarPTR` of `modd.c`: the node found, or `[]` for `NULL`. -/
def GetVarPTR : PVMMAPSTRCT → String → PVMMAPSTRCT
  | [], _ => []
  | pvm :: pvmNextVar, szName =>
    if szName = pvm.szName then pvm :: pvmNextVar else GetVarPTR pvmNextVar szName

/-- `GetVarType` of `modd.c`. -/
def GetVarType (pvm : PVMMAPSTRCT) (szName : String) : HANDLE :=
  TYPE (GetVarPTR pvm szName)

/-- The counting loop of `CalculateVarHandle`: `hType` is `pvmVar->hType`. -/
def CalculateVarHandle.loop (hType : HANDLE) : PVMMAPSTRCT → Nat → Nat
  | [], cSameType => cSameType
  | pvm :: pvmNextVar, cSameType =>
    if pvm.hType = hType then CalculateVarHandle.loop hType pvmNextVar (cSameType + 1)
    else cSameType

/-- `CalculateVarHandle` of `modd.c`. -/
def CalculateVarHandle (pvm : PVMMAPSTRCT) (sz : String) : HANDLE :=
  match GetVarPTR pvm sz with
  | [] => 0
  | pvmVar :: pvmNextVar => pvmVar.hType ||| CalculateVarHandle.loop pvmVar.hType pvmNextVar 0

/-- The loop of `ReversePointers`: the nodes already relinked are `pvmPrev`. -/
def ReversePointers.loop (pvmPrev : PVMMAPSTRCT) : PVMMAPSTRCT → PVMMAPSTRCT
  | [] => pvmPrev
  | pvm :: pvmNext => ReversePointers.loop (pvm :: pvmPrev) pvmNext

/-- Modelled from the spec: `ReversePointers` is declared in `modo.h` and called
in `modiSBML.c`, but its body (`modo.c`) is not among the sources.  The spec:
`reverse(stack)` is a single O(n) pass that turns the most-recent-first stack
into declaration order. -/
def ReversePointers (ppvm : PVMMAPSTRCT) : PVMMAPSTRCT :=
  ReversePointers.loop [] ppvm

/-- The arguments of one `AddEquation` call on a stack: name, equation text (if
any) and kind. -/
structure INSERTION where
  szName : String
  szEqn : Option String
  hType : HANDLE
deriving DecidableEq, Repr

/-- The record that `AddEquation` builds for an insertion. -/
def INSERTION.record (x : INSERTION) : VMMAPSTRCT :=
  { szName := x.szName, szEqn := x.szEqn.map EQN.text, hType := x.hType }

/-- The stack obtained by calling `AddEquation` for each insertion in turn. -/
def insertAll : PVMMAPSTRCT → List INSERTION → PVMMAPSTRCT
  | pvm, [] => pvm
  | pvm, x :: xs =>
    insertAll ((AddEquation (some pvm) (some x.szName) x.szEqn x.hType).2.getD pvm) xs

/-- The number of records of a stack that have the given kind field. -/
def countSameType (hType : HANDLE) (pvm : PVMMAPSTRCT) : Nat :=
  (pvm.filter (fun q => q.hType = hType)).length

/-! ## Error reports -/

/-- The value of `MAX_ERRORS` in `lex.h`. -/
def MAX_ERRORS : Nat := 20

/-- The value of `RE_FATAL` in `lex.h`. -/
def RE_FATAL : Nat := 0x8000

/-- The value of `RE_WARNING` in `lex.h`. -/
def RE_WARNING : Nat := 0x4000

/-- The value of `RE_UNEXPECTED` in `lex.h`. -/
def RE_UNEXPECTED : Nat := 0x0011

/-- The value of `RE_BADCONTEXT` in `lex.h`. -/
def RE_BADCONTEXT : Nat := 0x0100 + 1

/-- The value of `RE_DUPDECL` in `lex.h`. -/
def RE_DUPDECL : Nat := 0x0100 + 2

/-- The value of `RE_REDEF` in `lex.h`. -/
def RE_REDEF : Nat := 0x0100 + 3

/-- The value of `RE_UNDEFINED` in `lex.h`. -/
def RE_UNDEFINED : Nat := 0x0100 + 6

/-- Modelled from the spec: the section contexts of `mod.h` (not among the
sources), one bit each; `CN_END` is the absence of a context. -/
def CN_END : Nat := 0x0000

/-- Modelled from the spec: context Global (`mod.h` is not among the sources). -/
def CN_GLOBAL : Nat := 0x0001

/-- Modelled from the spec: context Dynamics (`mod.h` is not among the
sources). -/
def CN_DYNAMICS : Nat := 0x0002

/-- Modelled from the spec: context Scale (`mod.h` is not among the sources). -/
def CN_SCALE : Nat := 0x0004

/-- Modelled from the spec: context Jacobian (`mod.h` is not among the
sources). -/
def CN_JACOB : Nat := 0x0008

/-- Modelled from the spec: context CalcOutputs (`mod.h` is not among the
sources). -/
def CN_CALCOUTPUTS : Nat := 0x0010

/-- Modelled from the spec: context Events (`mod.h` is not among the sources). -/
def CN_EVENTS : Nat := 0x0020

/-- Modelled from the spec: context Roots (`mod.h` is not among the sources). -/
def CN_ROOTS : Nat := 0x0040

/-- Modelled from the spec: keyword code of `States` (`mod.h` is not among the
sources). -/
def KM_STATES : Int := 1

/-- Modelled from the spec: keyword code of `Inputs` (`mod.h` is not among the
sources). -/
def KM_INPUTS : Int := 2

/-- Modelled from the spec: keyword code of `Outputs` (`mod.h` is not among the
sources). -/
def KM_OUTPUTS : Int := 3

/-- Modelled from the spec: keyword code of `dt` (`mod.h` is not among the
sources). -/
def KM_DXDT : Int := 10

/-- Modelled from the spec: keyword code of `Inline` (`mod.h` is not among the
sources). -/
def KM_INLINE : Int := 11

/-- Modelled from the spec: keyword code of `Compartments` (`mod.h` is not among
the sources). -/
def KM_COMPARTMENTS : Int := 14

/-- Modelled from the spec: keyword code of a function definition (`mod.h` is
not among the sources). -/
def KM_FUNCTION : Int := 15

/-- Modelled from the spec: the reserved time variable (`VSZ_TIME` of `mod.h`,
not among the sources). -/
def VSZ_TIME : String := "t"

/-- Modelled from the spec: the SBML name of the time variable (`VSZ_TIME_SBML`
of `mod.h`, not among the sources). -/
def VSZ_TIME_SBML : String := "time"

/-- The value of `LX_NULL` in `lex.h`. -/
def LX_NULL : Nat := 0x0000

/-- The value of `LX_IDENTIFIER` in `lex.h`. -/
def LX_IDENTIFIER : Nat := 0x0001

/-- The value of `LX_INTEGER` in `lex.h`. -/
def LX_INTEGER : Nat := 0x0002

/-- The value of `LX_FLOAT` in `lex.h`. -/
def LX_FLOAT : Nat := 0x0004

/-- The value of `LX_PUNCT` in `lex.h`. -/
def LX_PUNCT : Nat := 0x0008

/-- The value of `LX_STRING` in `lex.h`. -/
def LX_STRING : Nat := 0x0010

/-- The value of `LX_EQNPUNCT` in `lex.h`. -/
def LX_EQNPUNCT : Nat := 0x0020

/-- Modelled from the spec: the code of no input function (`IFN_NULL` of
`lexfn.h`, not among the sources). -/
def IFN_NULL : Nat := 0

/-- Modelled from the spec: the code of `PerDose` (`lexfn.h` is not among the
sources). -/
def IFN_PERDOSE : Nat := 2

/-- Modelled from the spec: the code of `PerRate` (`lexfn.h` is not among the
sources). -/
def IFN_PERRATE : Nat := 3

/-- Modelled from the spec: the code of `PerExp` (`lexfn.h` is not among the
sources). -/
def IFN_PEREXP : Nat := 4

/-- Modelled from the spec: the code of `NDoses` (`lexfn.h` is not among the
sources). -/
def IFN_NDOSES : Nat := 5

/-- The analysis state (`INPUTINFO`), as initialised by `InitInfo` in `mod.c`:
the section context, the flags, and the nine stacks. -/
structure INPUTINFO where
  wContext : Nat
  bDelays : Bool
  bforR : Bool
  bTemplateInUse : Bool
  scale_eqns_cnt : Int
  pvmGloVars : PVMMAPSTRCT
  pvmDynEqns : PVMMAPSTRCT
  pvmScaleEqns : PVMMAPSTRCT
  pvmJacobEqns : PVMMAPSTRCT
  pvmCalcOutEqns : PVMMAPSTRCT
  pvmEventEqns : PVMMAPSTRCT
  pvmRootEqns : PVMMAPSTRCT
  pvmCpts : PVMMAPSTRCT
  pvmLocalCpts : PVMMAPSTRCT
deriving DecidableEq, Repr

/-- The fields of `INPUTBUF` (`lex.h`) that the analysis reads or writes: the
line numbers, the error count and the analysis state behind `pInfo`.  The file
and character buffer belong to the scanner. -/
structure INPUTBUF where
  iLineNum : Int
  iLNPrev : Int
  cErrors : Nat
  pInfo : INPUTINFO
deriving DecidableEq, Repr

/-- What one call of `ReportError` writes to the error channel: the code
without its severity flags, whether the line was a warning, whether the call
ended as fatal, and the two message arguments. -/
structure REPORT where
  wCode : Nat
  bWarning : Bool
  bFatal : Bool
  szMsg : String
  szAltMsg : Option String
deriving DecidableEq, Repr

/-- `ReportError` of `lexerr.c`: the status, the buffer afterwards and the
report written. -/
def ReportError (pibIn : Option INPUTBUF) (wCode : Nat) (szMsg szAltMsg : Option String) :
    Int × Option INPUTBUF × REPORT :=
  let bFatal := (wCode &&& RE_FATAL) != 0
  let bWarning := (wCode &&& RE_WARNING) != 0
  let wCode1 := wCode ^^^ (wCode &&& (RE_FATAL ||| RE_WARNING))
  let szMsg1 := szMsg.getD ""
  if wCode1 != 0 && !bWarning then
    match pibIn with
    | some pib =>
      let bFatal1 := bFatal || decide (pib.cErrors > MAX_ERRORS)
      (if bFatal1 then EXIT_ERROR else 0, some { pib with cErrors := pib.cErrors + 1 },
        ⟨wCode1, bWarning, bFatal1, szMsg1, szAltMsg⟩)
    | none => (if bFatal then EXIT_ERROR else 0, none, ⟨wCode1, bWarning, bFatal, szMsg1, szAltMsg⟩)
  else
    (if bFatal then EXIT_ERROR else 0, pibIn, ⟨wCode1, bWarning, bFatal, szMsg1, szAltMsg⟩)

/-- The result of a routine that works on the input buffer: its status, the
buffer afterwards and the reports it wrote, in order. -/
structure OUTCOME where
  ret : Int
  pib : INPUTBUF
  out : List REPORT
deriving DecidableEq, Repr

/-- A call `ReportError (pibIn, ...)` on a buffer that is not `NULL`. -/
def report (pibIn : INPUTBUF) (wCode : Nat) (szMsg : String) (szAltMsg : Option String) :
    OUTCOME :=
  let r := ReportError (some pibIn) wCode (some szMsg) szAltMsg
  ⟨r.1, r.2.1.getD pibIn, [r.2.2]⟩

/-- The statement `PROPAGATE_EXIT (f)` followed by the rest `k` of the routine:
an exit code of `f` is returned at once, any other status is dropped.  `none`
stands for a failed `assert`. -/
def propagate (r : Option OUTCOME) (k : INPUTBUF → Option OUTCOME) : Option OUTCOME :=
  match r with
  | none => none
  | some o =>
    if isExit o.ret then some o
    else (k o.pib).map (fun o2 => { o2 with out := o.out ++ o2.out })

/-- The expression `PROPAGATE_EXIT_OR_RETURN_RESULT (f)` followed by the rest `k`
of the routine, which receives the status of `f`. -/
def propagateResult (r : Option OUTCOME) (k : Int → INPUTBUF → Option OUTCOME) :
    Option OUTCOME :=
  match r with
  | none => none
  | some o =>
    if isExit o.ret then some o
    else (k o.ret o.pib).map (fun o2 => { o2 with out := o.out ++ o2.out })

/-- The call `AddEquation (&pinfo->pvmGloVars, ...)`. -/
def AddEquationGlo (pibIn : INPUTBUF) (szName : String) (szEqn : Option String)
    (hType : HANDLE) : Option OUTCOME :=
  let r := AddEquation (some pibIn.pInfo.pvmGloVars) (some szName) szEqn hType
  some ⟨r.1, { pibIn with pInfo :=
    { pibIn.pInfo with pvmGloVars := r.2.getD pibIn.pInfo.pvmGloVars } }, []⟩

/-- The call `AddEquation (&pinfo->pvmDynEqns, ...)`. -/
def AddEquationDyn (pibIn : INPUTBUF) (szName : String) (szEqn : Option String)
    (hType : HANDLE) : Option OUTCOME :=
  let r := AddEquation (some pibIn.pInfo.pvmDynEqns) (some szName) szEqn hType
  some ⟨r.1, { pibIn with pInfo :=
    { pibIn.pInfo with pvmDynEqns := r.2.getD pibIn.pInfo.pvmDynEqns } }, []⟩

/-- The call `AddEquation (&pinfo->pvmScaleEqns, ...)`. -/
def AddEquationScale (pibIn : INPUTBUF) (szName : String) (szEqn : Option String)
    (hType : HANDLE) : Option OUTCOME :=
  let r := AddEquation (some pibIn.pInfo.pvmScaleEqns) (some szName) szEqn hType
  some ⟨r.1, { pibIn with pInfo :=
    { pibIn.pInfo with pvmScaleEqns := r.2.getD pibIn.pInfo.pvmScaleEqns } }, []⟩

/-- The call `AddEquation (&pinfo->pvmJacobEqns, ...)`. -/
def AddEquationJacob (pibIn : INPUTBUF) (szName : String) (szEqn : Option String)
    (hType : HANDLE) : Option OUTCOME :=
  let r := AddEquation (some pibIn.pInfo.pvmJacobEqns) (some szName) szEqn hType
  some ⟨r.1, { pibIn with pInfo :=
    { pibIn.pInfo with pvmJacobEqns := r.2.getD pibIn.pInfo.pvmJacobEqns } }, []⟩

/-- The call `AddEquation (&pinfo->pvmCalcOutEqns, ...)`. -/
def AddEquationCalcOut (pibIn : INPUTBUF) (szName : String) (szEqn : Option String)
    (hType : HANDLE) : Option OUTCOME :=
  let r := AddEquation (some pibIn.pInfo.pvmCalcOutEqns) (some szName) szEqn hType
  some ⟨r.1, { pibIn with pInfo :=
    { pibIn.pInfo with pvmCalcOutEqns := r.2.getD pibIn.pInfo.pvmCalcOutEqns } }, []⟩

/-- The call `AddEquation (&pinfo->pvmEventEqns, ...)`. -/
def AddEquationEvent (pibIn : INPUTBUF) (szName : String) (szEqn : Option String)
    (hType : HANDLE) : Option OUTCOME :=
  let r := AddEquation (some pibIn.pInfo.pvmEventEqns) (some szName) szEqn hType
  some ⟨r.1, { pibIn with pInfo :=
    { pibIn.pInfo with pvmEventEqns := r.2.getD pibIn.pInfo.pvmEventEqns } }, []⟩

/-- The call `AddEquation (&pinfo->pvmRootEqns, ...)`. -/
def AddEquationRoot (pibIn : INPUTBUF) (szName : String) (szEqn : Option String)
    (hType : HANDLE) : Option OUTCOME :=
  let r := AddEquation (some pibIn.pInfo.pvmRootEqns) (some szName) szEqn hType
  some ⟨r.1, { pibIn with pInfo :=
    { pibIn.pInfo with pvmRootEqns := r.2.getD pibIn.pInfo.pvmRootEqns } }, []⟩

/-- The call `AddEquation (&pinfo->pvmCpts, ...)`. -/
def AddEquationCpts (pibIn : INPUTBUF) (szName : String) (szEqn : Option String)
    (hType : HANDLE) : Option OUTCOME :=
  let r := AddEquation (some pibIn.pInfo.pvmCpts) (some szName) szEqn hType
  some ⟨r.1, { pibIn with pInfo :=
    { pibIn.pInfo with pvmCpts := r.2.getD pibIn.pInfo.pvmCpts } }, []⟩

/-! ## Declarations and definitions -/

/-- One result of `NextLex`: its status, the lexical element and its type. -/
structure LEXEME where
  ret : Int
  szLex : String
  iType : Nat
deriving DecidableEq, Repr

/-- What a call of `GetInputFn` leaves behind: its status (an exit code, `TRUE`
or `FALSE`), the error count of the buffer afterwards, the reports written and
the contents of the dosing-function record. -/
structure INPUTFN where
  ret : Int
  cErrors : Nat
  out : List REPORT
  ifn : IFN

/-- Modelled from the spec: the collaborators of the analysis that are not
among the sources.  `NextLex` is the Token Source (`lex.c`): the results of the
successive `NextLex` calls on an equation text re-lexed as its own buffer, up to
the end of that buffer.  `GetKeywordCode` is the keyword table of the grammar
driver (`modi.c`): the keyword code (0 for no keyword) and the context flags.
`MyStrcmp` is the string comparison of `strutil.c`.  `GetInputFn` is the outcome
of the Dosing-Function Resolver on a buffer and a specification text; the
resolver (`lexfn.c`) reads its arguments through the scanner of `lex.c`. -/
structure SCANNER where
  NextLex : String → List LEXEME
  GetKeywordCode : String → Int × Nat
  MyStrcmp : String → String → Int
  GetInputFn : INPUTBUF → String → INPUTFN

/-- The table `vrgszMathFuncs` of `modd.c`, without its end flag. -/
def vrgszMathFuncs : List String :=
  ["acos", "asin", "atan", "atan2", "ceil", "cos", "cosh", "exp", "fabs", "floor", "fmax",
   "fmin", "fmod", "log", "log10", "pow", "sin", "sinh", "sqrt", "tan", "tanh",
   "CDFNormal", "erfc", "lnDFNormal", "lnGamma", "piecewise",
   "and", "leq", "lt",
   "BetaRandom", "BinomialBetaRandom", "BinomialRandom", "CauchyRandom", "Chi2Random",
   "ExpRandom", "GammaRandom", "GetSeed", "GGammaRandom", "InvGGammaRandom", "LogNormalRandom",
   "LogUniformRandom", "NormalRandom", "PiecewiseRandom", "PoissonRandom", "SetSeed",
   "StudentTRandom", "TruncInvGGammaRandom", "TruncLogNormalRandom", "TruncNormalRandom",
   "UniformRandom"]

/-- `IsMathFunc` of `modd.c`. -/
def IsMathFunc (sz : String) : Bool :=
  decide (sz ∈ vrgszMathFuncs)

/-- `IsDelayFunc` of `modd.c`: the result and the flag `*bDelays` afterwards. -/
def IsDelayFunc (bDelays : Bool) (sz : String) : Bool × Bool :=
  let bIsDelay := decide ("CalcDelay" = sz)
  (bIsDelay, if bIsDelay && !bDelays then true else bDelays)

/-- The table `vrgifmMap` of `lexfn.c`, without its end flag. -/
def vrgifmMap : List (String × Nat) :=
  [("PerDose", IFN_PERDOSE), ("PerRate", IFN_PERRATE), ("PerExp", IFN_PEREXP),
   ("NDoses", IFN_NDOSES)]

/-- The search loop of `GetFnType`. -/
def GetFnType.loop (X : SCANNER) (szName : String) : List (String × Nat) → Nat
  | [] => IFN_NULL
  | pifm :: rest => if X.MyStrcmp szName pifm.1 ≠ 0 then GetFnType.loop X szName rest else pifm.2

/-- `GetFnType` of `lexfn.c`. -/
def GetFnType (X : SCANNER) (szName : String) : Nat :=
  GetFnType.loop X szName vrgifmMap

/-- The case `LX_IDENTIFIER` of the `switch` in `VerifyEqn`: the reports made
(with an exit code as status when one of them is propagated) and the value of
`bOK` afterwards. -/
def VerifyEqn.identifier (X : SCANNER) (pibIn : INPUTBUF) (szLex : String) (bOK : Bool) :
    OUTCOME × Bool :=
  let kw := X.GetKeywordCode szLex
  if kw.1 ≠ 0 then
    let bOK1 := decide (kw.1 = KM_DXDT) && ((kw.2 &&& pibIn.pInfo.wContext) != 0)
    if !bOK1 then (report pibIn (RE_BADCONTEXT ||| RE_FATAL) szLex none, bOK1)
    else (⟨0, pibIn, []⟩, bOK1)
  else
    let o1 : OUTCOME :=
      if GetFnType X szLex ≠ 0 then report pibIn (RE_BADCONTEXT ||| RE_FATAL) szLex none
      else ⟨0, pibIn, []⟩
    if isExit o1.ret then (o1, bOK) else
    let pib1 := o1.pib
    let bVar := GetVarType pib1.pInfo.pvmGloVars szLex != 0
    let bMath := IsMathFunc szLex
    let dl := IsDelayFunc pib1.pInfo.bDelays szLex
    let bTime := (pib1.pInfo.wContext == CN_DYNAMICS || pib1.pInfo.wContext == CN_SCALE ||
        pib1.pInfo.wContext == CN_CALCOUTPUTS) &&
      (szLex == VSZ_TIME || szLex == VSZ_TIME_SBML)
    let pib2 : INPUTBUF :=
      if bVar || bMath then pib1
      else { pib1 with pInfo := { pib1.pInfo with bDelays := dl.2 } }
    let bOK1 := bVar || bMath || dl.1 || bTime
    if !bOK1 then
      let o2 := report pib2 (RE_UNDEFINED ||| RE_FATAL) szLex none
      ({ o2 with out := o1.out ++ o2.out }, bOK1)
    else (⟨0, pib2, o1.out⟩, bOK1)

/-- The `switch (iType)` of `VerifyEqn` for one lexical element: the reports
made (with an exit code as status when one of them is propagated) and the value
of `bOK` afterwards. -/
def VerifyEqn.switch (X : SCANNER) (pibIn : INPUTBUF) (lx : LEXEME) (bOK : Bool) :
    OUTCOME × Bool :=
  if lx.iType = LX_IDENTIFIER then VerifyEqn.identifier X pibIn lx.szLex bOK
  else if lx.iType = LX_EQNPUNCT then
    if lx.szLex = "!" ∨ lx.szLex = "=" then
      (report pibIn RE_UNEXPECTED lx.szLex (some ".. in equation"), false)
    else (⟨0, pibIn, []⟩, bOK)
  else if lx.iType = LX_PUNCT then
    (report pibIn RE_UNEXPECTED lx.szLex (some ".. in equation"), false)
  else if lx.iType = LX_INTEGER ∨ lx.iType = LX_FLOAT then (⟨0, pibIn, []⟩, bOK)
  else (report pibIn RE_UNEXPECTED lx.szLex (some ".. in equation"), false)

/-- The loop of `VerifyEqn` over the lexical elements of the equation; the
status is an exit code, or `bReturn` as 1 or 0. -/
def VerifyEqn.loop (X : SCANNER) : List LEXEME → INPUTBUF → Bool → Bool → OUTCOME
  | [], pibIn, bReturn, _ => ⟨if bReturn then 1 else 0, pibIn, []⟩
  | lx :: rest, pibIn, bReturn, bOK =>
    if isExit lx.ret then ⟨lx.ret, pibIn, []⟩ else
    let s := VerifyEqn.switch X pibIn lx bOK
    if isExit s.1.ret then s.1 else
    let r := VerifyEqn.loop X rest s.1.pib (bReturn && s.2) s.2
    { r with out := s.1.out ++ r.out }

/-- `VerifyEqn` of `modd.c`. -/
def VerifyEqn (X : SCANNER) (pibIn : INPUTBUF) (szEqn : String) : OUTCOME :=
  VerifyEqn.loop X (X.NextLex szEqn) pibIn true true

/-- The stack after the assignment `pvm->szEqn = szEqn` to the node that lies
`k` links behind the head. -/
def storeEqn : PVMMAPSTRCT → Nat → Option EQN → PVMMAPSTRCT
  | [], _, _ => []
  | pvm :: pvmNextVar, 0, szEqn => { pvm with szEqn := szEqn } :: pvmNextVar
  | pvm :: pvmNextVar, k + 1, szEqn => pvm :: storeEqn pvmNextVar k szEqn

/-- The buffer after the assignment `pvm->szEqn = szEqn`, where `pvm` is a node
of Global Variables. -/
def storeGloEqn (pibIn : INPUTBUF) (pvm : PVMMAPSTRCT) (szEqn : Option EQN) : INPUTBUF :=
  let pvmGloVars := pibIn.pInfo.pvmGloVars
  let glo := storeEqn pvmGloVars (pvmGloVars.length - pvm.length) szEqn
  { pibIn with pInfo := { pibIn.pInfo with pvmGloVars := glo } }

/-- `DefineGlobalVar` of `modd.c`; `pvm` is a node of Global Variables or
`NULL`. -/
def DefineGlobalVar (X : SCANNER) (pibIn : INPUTBUF) (pvm : PVMMAPSTRCT) (szName szEqn : String)
    (hType : HANDLE) : Option OUTCOME :=
  let done : INPUTBUF → Option OUTCOME := fun pib => some ⟨0, pib, []⟩
  if szName = "Inline" then
    propagate (AddEquationGlo pibIn szName (some szEqn) ID_INLINE) done
  else if hType = ID_NULL then
    propagate (AddEquationGlo pibIn szName (some szEqn) ID_PARM) done
  else if hType = ID_INPUT ∨ hType = ID_OUTPUT ∨ hType = ID_STATE then
    match pvm with
    | [] => none
    | node :: _ =>
      if node.szEqn = none then
        if hType = ID_INPUT then
          let g := X.GetInputFn pibIn szEqn
          propagateResult (some ⟨g.ret, { pibIn with cErrors := g.cErrors }, g.out⟩)
            (fun ret pib =>
              if ret ≠ 0 then done (storeGloEqn pib pvm (some (EQN.ifn g.ifn)))
              else done (storeGloEqn pib pvm none))
        else
          propagate
            (AddEquationGlo (storeGloEqn pibIn pvm (some EQN.vszHasInitializer)) szName
              (some szEqn) hType)
            done
      else propagate (some (report pibIn (RE_REDEF ||| RE_WARNING) szName none)) done
  else if hType = ID_PARM then
    propagate (some (report pibIn (RE_REDEF ||| RE_WARNING) szName none)) done
  else
    propagate (some (report pibIn RE_BADCONTEXT szName none)) done

/-- The space flag test of the section rules: `hNewType`, with `ID_SPACEFLAG`
set when more than one line lies between this equation and the previous one. -/
def spaceFlag (pibIn : INPUTBUF) (hNewType : HANDLE) : HANDLE :=
  if pibIn.iLineNum - pibIn.iLNPrev - 1 ≠ 0 then hNewType ||| ID_SPACEFLAG else hNewType

/-- The end of a section rule: `pibIn->iLNPrev = pibIn->iLineNum; return 0`. -/
def endEqn (pibIn : INPUTBUF) : Option OUTCOME :=
  some ⟨0, { pibIn with iLNPrev := pibIn.iLineNum }, []⟩

/-- `DefineDynamicsEqn` of `modd.c`. -/
def DefineDynamicsEqn (pibIn : INPUTBUF) (szName szEqn : String) (hType : HANDLE) :
    Option OUTCOME :=
  let hNewType := (if hType ≠ 0 then hType else ID_LOCALDYN) ||| ID_SPACEFLAG
  if szName = "Inline" then
    propagate (AddEquationDyn pibIn szName (some szEqn) ID_INLINE) endEqn
  else if hType = ID_NULL then
    propagate (AddEquationGlo pibIn szName none hNewType) (fun pib =>
      propagate (AddEquationDyn pib szName (some szEqn) hNewType) endEqn)
  else if hType = ID_LOCALDYN then
    propagate (AddEquationDyn pibIn szName (some szEqn) hNewType) endEqn
  else if hType = ID_FUNCTION then
    propagate (AddEquationGlo pibIn szName none hNewType) endEqn
  else if hType = ID_DERIV ∨ hType = ID_STATE ∨ hType = ID_OUTPUT then
    propagate (AddEquationDyn pibIn szName (some szEqn) hNewType) endEqn
  else if hType = ID_INPUT ∨ hType = ID_PARM then
    propagate (some (report pibIn (RE_REDEF ||| RE_WARNING) szName
      (some "  Inputs and parameters cannot be assigned in Dynamics\n"))) endEqn
  else endEqn pibIn

/-- `DefineScaleEqn` of `modd.c`. -/
def DefineScaleEqn (pibIn : INPUTBUF) (szName szEqn : String) (hType : HANDLE) :
    Option OUTCOME :=
  let hNewType := spaceFlag pibIn (if hType ≠ 0 then hType else ID_LOCALSCALE)
  let count : INPUTBUF → INPUTBUF := fun pib =>
    { pib with pInfo := { pib.pInfo with scale_eqns_cnt := pib.pInfo.scale_eqns_cnt + 1 } }
  if szName = "Inline" then
    propagate (AddEquationScale pibIn szName (some szEqn) ID_INLINE) (fun pib =>
      endEqn (count pib))
  else
    propagate (if hType = 0 then AddEquationGlo pibIn szName none hNewType
        else some ⟨0, pibIn, []⟩) (fun pib =>
      if (hType &&& ID_LOCALSCALE) ≠ 0 ∨ GetVarPTR pib.pInfo.pvmScaleEqns szName = [] then
        propagate (AddEquationScale pib szName (some szEqn) hNewType) (fun pib1 =>
          endEqn (count pib1))
      else
        propagate (some (report pib (RE_REDEF ||| RE_WARNING) szName (some "* Ignoring")))
          endEqn)

/-- `DefineCalcOutEqn` of `modd.c`. -/
def DefineCalcOutEqn (pibIn : INPUTBUF) (szName szEqn : String) (hType : HANDLE) :
    Option OUTCOME :=
  let hNewType := spaceFlag pibIn (if hType ≠ 0 then hType else ID_LOCALCALCOUT)
  if szName = "Inline" then
    propagate (AddEquationCalcOut pibIn szName (some szEqn) ID_INLINE) endEqn
  else
    propagate (if hType = 0 then AddEquationGlo pibIn szName none hNewType
        else some ⟨0, pibIn, []⟩) (fun pib =>
      propagate (AddEquationCalcOut pib szName (some szEqn) hNewType) endEqn)

/-- `DefineJacobEqn` of `modd.c`. -/
def DefineJacobEqn (pibIn : INPUTBUF) (szName szEqn : String) (hType : HANDLE) :
    Option OUTCOME :=
  let hNewType := spaceFlag pibIn (if hType ≠ 0 then hType else ID_LOCALJACOB)
  if szName = "Inline" then
    propagate (AddEquationJacob pibIn szName (some szEqn) ID_INLINE) endEqn
  else
    propagate (if hType = 0 then AddEquationGlo pibIn szName none hNewType
        else some ⟨0, pibIn, []⟩) (fun pib =>
      if (hType &&& ID_LOCALJACOB) ≠ 0 ∨ GetVarPTR pib.pInfo.pvmJacobEqns szName = [] then
        propagate (AddEquationJacob pib szName (some szEqn) hNewType) endEqn
      else
        propagate (some (report pib (RE_REDEF ||| RE_WARNING) szName (some "* Ignoring")))
          endEqn)

/-- `DefineEventEqn` of `modd.c`. -/
def DefineEventEqn (pibIn : INPUTBUF) (szName szEqn : String) (hType : HANDLE) :
    Option OUTCOME :=
  let hNewType := spaceFlag pibIn (if hType ≠ 0 then hType else ID_LOCALJACOB)
  if szName = "Inline" then
    propagate (AddEquationEvent pibIn szName (some szEqn) ID_INLINE) endEqn
  else
    propagate (if hType = 0 then AddEquationGlo pibIn szName none hNewType
        else some ⟨0, pibIn, []⟩) (fun pib =>
      if (hType &&& ID_LOCALJACOB) ≠ 0 ∨ GetVarPTR pib.pInfo.pvmEventEqns szName = [] then
        propagate (AddEquationEvent pib szName (some szEqn) hNewType) endEqn
      else
        propagate (some (report pib (RE_REDEF ||| RE_WARNING) szName (some "* Ignoring")))
          endEqn)

/-- `DefineRootEqn` of `modd.c`. -/
def DefineRootEqn (pibIn : INPUTBUF) (szName szEqn : String) (hType : HANDLE) :
    Option OUTCOME :=
  let hNewType := spaceFlag pibIn (if hType ≠ 0 then hType else ID_LOCALJACOB)
  if szName = "Inline" then
    propagate (AddEquationRoot pibIn szName (some szEqn) ID_INLINE) endEqn
  else
    propagate (if hType = 0 then AddEquationGlo pibIn szName none hNewType
        else some ⟨0, pibIn, []⟩) (fun pib =>
      if (hType &&& ID_LOCALJACOB) ≠ 0 ∨ GetVarPTR pib.pInfo.pvmRootEqns szName = [] then
        propagate (AddEquationRoot pib szName (some szEqn) hNewType) endEqn
      else
        propagate (some (report pib (RE_REDEF ||| RE_WARNING) szName (some "* Ignoring")))
          endEqn)

/-- The test of `DefineVariable` for a name that Global Variables knows as local
to another section than the current one. -/
def foreignLocal (wContext : Nat) (hGloVarType : HANDLE) : Bool :=
  (wContext == CN_DYNAMICS &&
    (hGloVarType == ID_LOCALSCALE || hGloVarType == ID_LOCALJACOB ||
      hGloVarType == ID_LOCALEVENT || hGloVarType == ID_LOCALROOT ||
      hGloVarType == ID_LOCALCALCOUT)) ||
  (wContext == CN_SCALE &&
    (hGloVarType == ID_LOCALDYN || hGloVarType == ID_LOCALJACOB ||
      hGloVarType == ID_LOCALEVENT || hGloVarType == ID_LOCALROOT ||
      hGloVarType == ID_LOCALCALCOUT)) ||
  (wContext == CN_JACOB &&
    (hGloVarType == ID_LOCALDYN || hGloVarType == ID_LOCALSCALE ||
      hGloVarType == ID_LOCALEVENT || hGloVarType == ID_LOCALROOT ||
      hGloVarType == ID_LOCALCALCOUT)) ||
  (wContext == CN_EVENTS &&
    (hGloVarType == ID_LOCALDYN || hGloVarType == ID_LOCALSCALE ||
      hGloVarType == ID_LOCALJACOB || hGloVarType == ID_LOCALROOT ||
      hGloVarType == ID_LOCALCALCOUT)) ||
  (wContext == CN_ROOTS &&
    (hGloVarType == ID_LOCALDYN || hGloVarType == ID_LOCALSCALE ||
      hGloVarType == ID_LOCALJACOB || hGloVarType == ID_LOCALEVENT ||
      hGloVarType == ID_LOCALCALCOUT)) ||
  (wContext == CN_CALCOUTPUTS &&
    (hGloVarType == ID_LOCALDYN || hGloVarType == ID_LOCALSCALE ||
      hGloVarType == ID_LOCALEVENT || hGloVarType == ID_LOCALROOT ||
      hGloVarType == ID_LOCALJACOB))

/-- The `switch (pinfo->wContext)` of `DefineVariable`. -/
def DefineVariable.dispatch (X : SCANNER) (pibIn : INPUTBUF) (pvm : PVMMAPSTRCT)
    (szName szEqn : String) (iKWCode : Int) (hGloVarType : HANDLE) : Option OUTCOME :=
  let done : INPUTBUF → Option OUTCOME := fun pib => some ⟨0, pib, []⟩
  let wContext := pibIn.pInfo.wContext
  if wContext = CN_GLOBAL then
    propagate (DefineGlobalVar X pibIn pvm szName szEqn hGloVarType) done
  else if wContext = CN_DYNAMICS then
    propagate
      (if iKWCode = KM_DXDT then DefineDynamicsEqn pibIn szName szEqn ID_DERIV
       else if iKWCode = KM_FUNCTION then DefineDynamicsEqn pibIn szName szEqn ID_FUNCTION
       else DefineDynamicsEqn pibIn szName szEqn hGloVarType)
      (fun pib =>
        if hGloVarType = ID_STATE ∧ iKWCode ≠ KM_DXDT then
          propagate (some (report pib (RE_REDEF ||| RE_WARNING) szName
            (some ("Non-standard assignment in Dynamics section. " ++
              "Potential state discontinuity.\n")))) done
        else done pib)
  else if wContext = CN_JACOB then
    propagate (DefineJacobEqn pibIn szName szEqn hGloVarType) done
  else if wContext = CN_EVENTS then
    propagate (DefineEventEqn pibIn szName szEqn hGloVarType) done
  else if wContext = CN_ROOTS then
    propagate (DefineRootEqn pibIn szName szEqn hGloVarType) done
  else if wContext = CN_SCALE then
    propagate (DefineScaleEqn pibIn szName szEqn hGloVarType) done
  else if wContext = CN_CALCOUTPUTS then
    if hGloVarType = ID_OUTPUT ∨ hGloVarType = ID_NULL ∨ hGloVarType = ID_LOCALCALCOUT ∨
        iKWCode = KM_INLINE then
      propagate (DefineCalcOutEqn pibIn szName szEqn hGloVarType) done
    else
      propagate (some (report pibIn (RE_BADCONTEXT ||| RE_FATAL) szName
        (some ("Only outputs and local variables can be " ++
          "defined in CalcOutputs{} section.")))) done
  else done pibIn

/-- `DefineVariable` of `modd.c`; `none` stands for a failed `assert`. -/
def DefineVariable (X : SCANNER) (pibIn : INPUTBUF) (szName szEqn : Option String)
    (iKWCode : Int) : Option OUTCOME :=
  if pibIn.pInfo.wContext = CN_END then none else
  match szName, szEqn with
  | none, _ => some ⟨0, pibIn, []⟩
  | some _, none => some ⟨0, pibIn, []⟩
  | some szName, some szEqn =>
    let pvm0 := GetVarPTR pibIn.pInfo.pvmGloVars szName
    let pvm := if foreignLocal pibIn.pInfo.wContext (TYPE pvm0) then [] else pvm0
    let hGloVarType := TYPE pvm
    let verified : OUTCOME :=
      if iKWCode ≠ KM_INLINE ∧ (hGloVarType ≠ ID_INPUT ∨ pibIn.pInfo.wContext ≠ CN_GLOBAL) then
        VerifyEqn X pibIn szEqn
      else ⟨1, pibIn, []⟩
    propagateResult (some verified) (fun ret pib =>
      if ret = 0 then some ⟨0, pib, []⟩
      else DefineVariable.dispatch X pib pvm szName szEqn iKWCode hGloVarType)

/-- The translation of a keyword code to a kind in `DeclareModelVar`. -/
def declaredKind (iKWCode : Int) : HANDLE :=
  if iKWCode = KM_STATES then ID_STATE
  else if iKWCode = KM_INPUTS then ID_INPUT
  else if iKWCode = KM_OUTPUTS then ID_OUTPUT
  else ID_COMPARTMENT

/-- `DeclareModelVar` of `modd.c`; `none` stands for a failed `assert`. -/
def DeclareModelVar (pibIn : INPUTBUF) (szName : String) (iKWCode : Int) : Option OUTCOME :=
  let done : INPUTBUF → Option OUTCOME := fun pib => some ⟨0, pib, []⟩
  if iKWCode = KM_STATES ∨ iKWCode = KM_INPUTS ∨ iKWCode = KM_OUTPUTS ∨
      iKWCode = KM_COMPARTMENTS then
    let iKWCode1 : HANDLE := declaredKind iKWCode
    let hType := GetVarType pibIn.pInfo.pvmGloVars szName
    if hType = 0 then
      if iKWCode1 = ID_COMPARTMENT then propagate (AddEquationCpts pibIn szName none iKWCode1) done
      else propagate (AddEquationGlo pibIn szName none iKWCode1) done
    else if hType = iKWCode1 then
      propagate (some (report pibIn (RE_DUPDECL ||| RE_WARNING) szName none)) done
    else if hType = ID_PARM then
      propagate (some (report pibIn (RE_DUPDECL ||| RE_WARNING) szName
          (some "Model variable initialized before declaration")))
        (fun pib => done { pib with pInfo := { pib.pInfo with
          pvmGloVars := SetVarType pib.pInfo.pvmGloVars szName iKWCode1 } })
    else
      propagate (some (report pibIn (RE_DUPDECL ||| RE_FATAL) szName none)) done
  else none

/-- `InitInfo` of `mod.c`: the analysis state at the start, with the Global
context and nine empty stacks. -/
def InitInfo : INPUTINFO :=
  { wContext := CN_GLOBAL, bDelays := false, bforR := false, bTemplateInUse := false,
    scale_eqns_cnt := 0,
    pvmGloVars := [], pvmDynEqns := [], pvmScaleEqns := [], pvmJacobEqns := [],
    pvmCalcOutEqns := [], pvmEventEqns := [], pvmRootEqns := [],
    pvmCpts := [], pvmLocalCpts := [] }

/-- One call made by the grammar driver: a declaration or a definition, with
the line number the scanner has reached when the call is made. -/
inductive CALL where
  | declare (iLineNum : Int) (szName : String) (iKWCode : Int)
  | define (iLineNum : Int) (szName szEqn : Option String) (iKWCode : Int)
deriving DecidableEq, Repr

/-- The effect of one call of the driver on the buffer. -/
def CALL.exec (X : SCANNER) (pibIn : INPUTBUF) : CALL → Option OUTCOME
  | CALL.declare iLineNum szName iKWCode =>
    DeclareModelVar { pibIn with iLineNum := iLineNum } szName iKWCode
  | CALL.define iLineNum szName szEqn iKWCode =>
    DefineVariable X { pibIn with iLineNum := iLineNum } szName szEqn iKWCode

/-- The buffer after a sequence of calls of the driver; `none` when an `assert`
failed on the way. -/
def run (X : SCANNER) : INPUTBUF → List CALL → Option INPUTBUF
  | pibIn, [] => some pibIn
  | pibIn, c :: cs =>
    match c.exec X pibIn with
    | none => none
    | some o => run X o.pib cs

/-- The stacks of a table, in the order Global Variables, Dynamics, Scale,
Jacobian, CalcOutputs, Events, Roots, Compartments, Local Compartments. -/
def allStacks (pinfo : INPUTINFO) : List PVMMAPSTRCT :=
  [pinfo.pvmGloVars, pinfo.pvmDynEqns, pinfo.pvmScaleEqns, pinfo.pvmJacobEqns,
   pinfo.pvmCalcOutEqns, pinfo.pvmEventEqns, pinfo.pvmRootEqns, pinfo.pvmCpts,
   pinfo.pvmLocalCpts]

/-- The records of a stack that carry the given name, in stack order. -/
def named (pvm : PVMMAPSTRCT) (szName : String) : PVMMAPSTRCT :=
  pvm.filter (fun q => q.szName = szName)

/-- A token source that reads any text as one float literal, and knows no
keyword; used to run the examples on numeric initial values. -/
def numberScanner : SCANNER :=
  { NextLex := fun sz => [⟨0, sz, LX_FLOAT⟩],
    GetKeywordCode := fun _ => (0, 0),
    MyStrcmp := fun a b => if a = b then 0 else 1,
    GetInputFn := fun pibIn _ =>
      ⟨0, pibIn.cErrors, [],
        { iType := 0, bOn := false, dTStartPeriod := 0, dMag := 0, dTper := 0, dT0 := 0,
          dTexp := 0, dDecay := 0, dVal := 0, hMag := 0, hTper := 0, hT0 := 0, hTexp := 0,
          hDecay := 0, nDoses := 0, iDoseCur := 0, rgT0s := none, rgTexps := none,
          rgMags := none }⟩ }

/-- A buffer at the start of the analysis. -/
def startBuf : INPUTBUF :=
  { iLineNum := 1, iLNPrev := 0, cErrors := 0, pInfo := InitInfo }

/-- The Global Variables stack after `c = 2;`, `States { b };`, `a = 1;`: a State
declared between two Parameters. -/
def mixedStack : PVMMAPSTRCT :=
  insertAll [] [⟨"c", some "2", ID_PARM⟩, ⟨"b", none, ID_STATE⟩, ⟨"a", some "1", ID_PARM⟩]

/-- The shape of the records that carry one name in Global Variables while the
analysis stays in the Global section: none, one record of a non-null kind, or
two records for a State or Output with an initial value (the record with the
value in front of the declaration, which is flagged `vszHasInitializer`). -/
def oneOrInitialised : PVMMAPSTRCT → Bool
  | [] => true
  | [r] => (r.hType &&& ID_TYPEMASK) != 0
  | [d, r] =>
    d.szEqn.isSome && (d.hType == ID_STATE || d.hType == ID_OUTPUT) &&
      (r.szEqn == some EQN.vszHasInitializer) && ((r.hType &&& ID_TYPEMASK) == d.hType)
  | _ => false

/-- A buffer with the error count and the delay flag reset: what is left are
the line numbers, the section context, the other flags and the nine stacks. -/
def core (pibIn : INPUTBUF) : INPUTBUF :=
  { pibIn with cErrors := 0, pInfo := { pibIn.pInfo with bDelays := false } }

/-- The stack after the assignment `pvm->szEqn = szEqn` to the first record
that carries the name `szName`. -/
def setFirstEqn : PVMMAPSTRCT → String → Option EQN → PVMMAPSTRCT
  | [], _, _ => []
  | pvm :: pvmNextVar, szName, szEqn =>
    if szName = pvm.szName then { pvm with szEqn := szEqn } :: pvmNextVar
    else pvm :: setFirstEqn pvmNextVar szName szEqn

/-- Two declarations of one name in a row: the outcomes of both calls. -/
def declareTwice (pibIn : INPUTBUF) (szName : String) (K1 K2 : Int) :
    Option (OUTCOME × OUTCOME) :=
  match DeclareModelVar pibIn szName K1 with
  | none => none
  | some o1 =>
    match DeclareModelVar o1.pib szName K2 with
    | none => none
    | some o2 => some (o1, o2)

/-- A definition followed by a declaration of the same name: the outcomes of
both calls. -/
def defineThenDeclare (X : SCANNER) (pibIn : INPUTBUF) (szName szEqn : String)
    (iKWCode K : Int) : Option (OUTCOME × OUTCOME) :=
  match DefineVariable X pibIn (some szName) (some szEqn) iKWCode with
  | none => none
  | some o1 =>
    match DeclareModelVar o1.pib szName K with
    | none => none
    | some o2 => some (o1, o2)

/-- A buffer in the Global section whose table holds the single Parameter
`k1 = 1.0`. -/
def parmBuf : INPUTBUF :=
  { startBuf with pInfo :=
      { InitInfo with pvmGloVars := [⟨"k1", some (EQN.text "1.0"), ID_PARM⟩] } }

/-- Every name other than `Inline` has, in the stack, none, one or (for an
initialised State or Output) two records, as described by `oneOrInitialised`. -/
def NameOK (pvm : PVMMAPSTRCT) : Prop :=
  ∀ szName : String, szName ≠ "Inline" → oneOrInitialised (named pvm szName) = true

/-- The table of an analysis that has stayed in the Global section: the context
is Global, the six section stacks and Local Compartments are empty, and Global
Variables satisfies `NameOK`. -/
def GlobalInv (pinfo : INPUTINFO) : Prop :=
  pinfo.wContext = CN_GLOBAL ∧
  (pinfo.pvmDynEqns = [] ∧ pinfo.pvmScaleEqns = [] ∧ pinfo.pvmJacobEqns = [] ∧
    pinfo.pvmCalcOutEqns = [] ∧ pinfo.pvmEventEqns = [] ∧ pinfo.pvmRootEqns = [] ∧
    pinfo.pvmLocalCpts = []) ∧
  NameOK pinfo.pvmGloVars

/-- The calls made for `States { A };` followed by `A = 1.0;` in the Global
section. -/
def initialiseCalls : List CALL :=
  [CALL.declare 1 "A" KM_STATES, CALL.define 2 (some "A") (some "1.0") 0]

/-- The buffer after `initialiseCalls` on `startBuf`. -/
def initialisedBuf : INPUTBUF :=
  { iLineNum := 2, iLNPrev := 0, cErrors := 0,
    pInfo := { InitInfo with pvmGloVars :=
      [⟨"A", some (EQN.text "1.0"), ID_STATE⟩, ⟨"A", some EQN.vszHasInitializer, ID_STATE⟩] } }

/-- The name and the kind field of each record of a stack, in stack order. -/
def kinds (pvm : PVMMAPSTRCT) : List (String × HANDLE) :=
  pvm.map (fun r => (r.szName, r.hType))

/-- The names of the records of a stack, in stack order. -/
def names (pvm : PVMMAPSTRCT) : List String :=
  pvm.map (fun r => r.szName)

/-- Every stack of the table `old` is, name for name and kind for kind, what the
same stack of the table `new` ends with: records were only put in front. -/
def Grows (old new : INPUTINFO) : Prop :=
  kinds old.pvmGloVars <:+ kinds new.pvmGloVars ∧
  kinds old.pvmDynEqns <:+ kinds new.pvmDynEqns ∧
  kinds old.pvmScaleEqns <:+ kinds new.pvmScaleEqns ∧
  kinds old.pvmJacobEqns <:+ kinds new.pvmJacobEqns ∧
  kinds old.pvmCalcOutEqns <:+ kinds new.pvmCalcOutEqns ∧
  kinds old.pvmEventEqns <:+ kinds new.pvmEventEqns ∧
  kinds old.pvmRootEqns <:+ kinds new.pvmRootEqns ∧
  kinds old.pvmCpts <:+ kinds new.pvmCpts ∧
  kinds old.pvmLocalCpts <:+ kinds new.pvmLocalCpts

/-- Every stack of the table `old` is, name for name, what the same stack of the
table `new` ends with. -/
def NamesGrow (old new : INPUTINFO) : Prop :=
  names old.pvmGloVars <:+ names new.pvmGloVars ∧
  names old.pvmDynEqns <:+ names new.pvmDynEqns ∧
  names old.pvmScaleEqns <:+ names new.pvmScaleEqns ∧
  names old.pvmJacobEqns <:+ names new.pvmJacobEqns ∧
  names old.pvmCalcOutEqns <:+ names new.pvmCalcOutEqns ∧
  names old.pvmEventEqns <:+ names new.pvmEventEqns ∧
  names old.pvmRootEqns <:+ names new.pvmRootEqns ∧
  names old.pvmCpts <:+ names new.pvmCpts ∧
  names old.pvmLocalCpts <:+ names new.pvmLocalCpts

/-- Whatever buffer the call `r` ends with, its table has grown from the table
of `pibIn`. -/
def GrowsTo (pibIn : INPUTBUF) (r : Option OUTCOME) : Prop :=
  ∀ o, r = some o → Grows pibIn.pInfo o.pib.pInfo

/-- The calls made for `x = 1.0;` followed by `Compartments { x };`: the outcomes
of both calls. -/
def parameterThenCompartment : Option (OUTCOME × OUTCOME) :=
  defineThenDeclare numberScanner startBuf "x" "1.0" 0 KM_COMPARTMENTS

/-- A token source that reads any text as one identifier, and knows no keyword;
used to run the examples on equations made of one name. -/
def wordScanner : SCANNER :=
  { numberScanner with NextLex := fun sz => [⟨0, sz, LX_IDENTIFIER⟩] }

/-- A token source that reads any text as one punctuation element, and knows no
keyword; used to run the examples on equations made of one punctuation mark. -/
def punctScanner : SCANNER :=
  { numberScanner with NextLex := fun sz => [⟨0, sz, LX_PUNCT⟩] }

/-- A buffer in the Dynamics section, on line 3, whose table holds the single
declared Input `Dose`. -/
def inputDoseBuf : INPUTBUF :=
  { iLineNum := 3, iLNPrev := 0, cErrors := 0,
    pInfo := { InitInfo with wContext := CN_DYNAMICS,
                             pvmGloVars := [⟨"Dose", none, ID_INPUT⟩] } }

/-! ## The dosing-function resolver -/

/-- The lexical type `LX_NUMBER` of `lex.h`. -/
def LX_NUMBER : Nat := LX_INTEGER ||| LX_FLOAT

/-- The character `CH_LPAREN` of `lex.h`. -/
def CH_LPAREN : Char := '('

/-- The character `CH_RPAREN` of `lex.h`. -/
def CH_RPAREN : Char := ')'

/-- The error code `RE_EXPECTED` of `lex.h`. -/
def RE_EXPECTED : Nat := 0x0014

/-- The error code `RE_LEXEXPECTED` of `lex.h`. -/
def RE_LEXEXPECTED : Nat := 0x0015

/-- Modelled from the spec: the code of a constant input (`IFN_CONSTANT` of
`lexfn.h`, not among the sources). -/
def IFN_CONSTANT : Nat := 1

/-- An input buffer as the resolver sees it: the counters and the analysis
state of `INPUTBUF`, and the lexical elements that are still to be read from
the file or string behind the buffer, in order. -/
structure TOKENBUF where
  pib : INPUTBUF
  lex : List LEXEME
deriving DecidableEq, Repr

/-- The result of a scanner routine: its status, the lexical element left in
`szLex` and its type, the buffer afterwards and the reports written. -/
structure LEXRESULT where
  ret : Int
  szLex : String
  iType : Nat
  buf : TOKENBUF
  out : List REPORT
deriving DecidableEq, Repr

/-- Modelled from the spec: `NextLex` of `lex.c` (not among the sources) on a
buffer of lexical elements.  It takes the next element; at the end of the
buffer it delivers the null element. -/
def NextLex (pibIn : TOKENBUF) : LEXRESULT :=
  match pibIn.lex with
  | [] => ⟨0, "", LX_NULL, pibIn, []⟩
  | lx :: rest => ⟨lx.ret, lx.szLex, lx.iType, { pibIn with lex := rest }, []⟩

/-- Modelled from the spec: the names of the lexical types used in the messages
of the scanner (`vrgszLexTypes` of `lex.c`, not among the sources). -/
def vrgszLexTypes : List String :=
  ["null-type", "identifier", "integer", "integer-or-id", "floating-point", "float-or-id",
   "number", "number-or-id", "punctuation"]

/-- Modelled from the spec: `ENextLex` of `lex.c` (not among the sources).  It
takes the next lexical element and flags an error (`TRUE`, with a report that an
element of the type was expected) when the type of the element is none of the
types `iType`. -/
def ENextLex (pibIn : TOKENBUF) (iType : Nat) : LEXRESULT :=
  let l := NextLex pibIn
  if isExit l.ret then l else
  if (iType &&& l.iType) = 0 then
    let e := report l.buf.pib RE_LEXEXPECTED (vrgszLexTypes.getD iType "") (some l.szLex)
    ⟨if isExit e.ret then e.ret else 1, l.szLex, l.iType, { l.buf with pib := e.pib }, e.out⟩
  else ⟨0, l.szLex, l.iType, l.buf, []⟩

/-- Modelled from the spec: `EGetPunct` of `lex.c` (not among the sources).  It
takes the next lexical element and flags an error (`TRUE`, with a report that
the character was expected) unless the element is punctuation that starts with
`chPunct`. -/
def EGetPunct (pibIn : TOKENBUF) (chPunct : Char) : LEXRESULT :=
  let l := NextLex pibIn
  if isExit l.ret then l else
  if l.iType = LX_PUNCT ∧ l.szLex.data.head? = some chPunct then
    ⟨0, l.szLex, l.iType, l.buf, []⟩
  else
    let e := report l.buf.pib RE_EXPECTED (String.singleton chPunct) none
    ⟨if isExit e.ret then e.ret else 1, l.szLex, l.iType, { l.buf with pib := e.pib }, e.out⟩

/-- Modelled from the spec: `GetOptPunct` of `lex.c` (not among the sources).
When the next lexical element is punctuation that starts with `chPunct` it is
taken and the result is `TRUE`; otherwise the buffer is left as it is and the
result is `FALSE`. -/
def GetOptPunct (pibIn : TOKENBUF) (chPunct : Char) : LEXRESULT :=
  match pibIn.lex with
  | [] => ⟨0, "", LX_NULL, pibIn, []⟩
  | lx :: _ =>
    if lx.iType = LX_PUNCT ∧ lx.szLex.data.head? = some chPunct then
      let l := NextLex pibIn
      ⟨if isExit l.ret then l.ret else 1, l.szLex, l.iType, l.buf, []⟩
    else ⟨0, "", LX_NULL, pibIn, []⟩

/-- The number written by a run of decimal digits. -/
def digitsVal (cs : List Char) : Nat :=
  cs.foldl (fun n c => 10 * n + (c.toNat - 48)) 0

/-- The integer written by an optional sign and decimal digits. -/
def decimals.integer (sz : String) : Int :=
  match sz.data with
  | '-' :: cs => - (digitsVal (cs.takeWhile Char.isDigit) : Int)
  | '+' :: cs => (digitsVal (cs.takeWhile Char.isDigit) : Int)
  | cs => (digitsVal (cs.takeWhile Char.isDigit) : Int)

/-- The number written by decimal digits with an optional fraction. -/
def decimals.magnitude (cs : List Char) : Rat :=
  let ip := cs.takeWhile Char.isDigit
  match cs.dropWhile Char.isDigit with
  | '.' :: fs =>
    let fp := fs.takeWhile Char.isDigit
    mkRat (digitsVal (ip ++ fp)) (10 ^ fp.length)
  | _ => (digitsVal ip : Rat)

/-- The number written by an optional sign, decimal digits and an optional
fraction. -/
def decimals.number (sz : String) : Rat :=
  match sz.data with
  | '-' :: cs => - decimals.magnitude cs
  | '+' :: cs => decimals.magnitude cs
  | cs => decimals.magnitude cs

/-- Library functions for the examples: they read a short decimal text as the
number it writes.  The examples use texts whose number is an `int` or a
`double` (`2`, `10`, `24`, `0.5`), for which `atoi` and `atof` give that
number. -/
def decimals : LIBC :=
  { atof := fun sz => double.finite (decimals.number sz),
    atoi := decimals.integer }

/-- `InitIFN` of `lexfn.c`: every field but `iType` is reset. -/
def InitIFN (pifn : IFN) : IFN :=
  { pifn with
    dTStartPeriod := 0, bOn := false,
    dMag := 0, dTper := 0, dT0 := 0, dTexp := 0, dDecay := 0, dVal := 0,
    hMag := 0, hTper := 0, hT0 := 0, hTexp := 0, hDecay := 0,
    nDoses := 0, iDoseCur := 0,
    rgT0s := none, rgTexps := none, rgMags := none }

/-- The macro `IsIdentifier` of `lexfn.c`, on a text that is not `NULL`. -/
def IsIdentifier (sz : String) : Bool :=
  match sz.data.head? with
  | some c => c.isAlpha || c == '_'
  | none => false

/-- The result of `DefDepParm`: its status and the contents of `*pdValue` and
`*phvar` afterwards, with the reports written. -/
structure DEPPARM where
  ret : Int
  dValue : double
  hvar : HANDLE
  out : List REPORT
deriving DecidableEq, Repr

/-- `DefDepParm` of `lexfn.c`; `vpvmGlo` is the static of that name, and
`dValue` and `hvar` are the contents of `*pdValue` and `*phvar` before the
call. -/
def DefDepParm (L : LIBC) (vpvmGlo : PVMMAPSTRCT) (szLex : String) (dValue : double)
    (hvar : HANDLE) :
    DEPPARM :=
  if IsIdentifier szLex then
    let hvar1 := CalculateVarHandle vpvmGlo szLex
    if hvar1 = 0 then
      let e := ReportError none RE_UNDEFINED (some szLex) none
      ⟨if isExit e.1 then e.1 else 0, dValue, hvar1, [e.2.2]⟩
    else ⟨1, dValue, hvar1, []⟩
  else ⟨1, L.atof szLex, hvar, []⟩

/-- What `GetFuncArgs` delivers: its status, the texts of the arguments, their
lower and upper array bounds (-1 for none), the buffer afterwards and the
reports written. -/
structure FUNCARGS where
  ret : Int
  rgszLex : List String
  rgiLowerB : List Int
  rgiUpperB : List Int
  buf : TOKENBUF
  out : List REPORT
deriving DecidableEq, Repr

/-- Modelled from the spec: the signature of `GetFuncArgs` of `lex.c` (not
among the sources): from a buffer, the number of arguments and the types
allowed for each argument to what the call delivers. -/
abbrev GETFUNCARGS := TOKENBUF → Nat → List Nat → FUNCARGS

/-- The loop of `GetInputArgs` over the array bounds of the arguments with the
given indices. -/
def GetInputArgs.bounds (a : FUNCARGS) : List Nat → INPUTBUF → OUTCOME
  | [], pibIn => ⟨0, pibIn, []⟩
  | i :: rest, pibIn =>
    if a.rgiLowerB.getD i (-1) ≠ -1 ∨ a.rgiUpperB.getD i (-1) ≠ -1 then
      let e := report pibIn (RE_BADCONTEXT ||| RE_FATAL) "array bounds"
        (some "Arrays cannot be used as input function parameters")
      if isExit e.ret then e else
      let r := GetInputArgs.bounds a rest e.pib
      { r with out := e.out ++ r.out }
    else GetInputArgs.bounds a rest pibIn

/-- The value of `bReturn &= ret` for a `bReturn` that is 0 or 1: bit 0 of `ret`
when `bReturn` is 1. -/
def andBOOL (bReturn ret : Int) : Int :=
  if bReturn = 1 ∧ ret % 2 = 1 then 1 else 0

/-- The result of a routine that fills a dosing-function record: its status,
the buffer afterwards, the record and the reports written. -/
structure IFNRESULT where
  ret : Int
  buf : TOKENBUF
  ifn : IFN
  out : List REPORT
deriving DecidableEq, Repr

/-- `GetInputArgs` of `lexfn.c`; `G` stands for `GetFuncArgs` and `vpvmGlo` for
the static of that name. -/
def GetInputArgs (L : LIBC) (G : GETFUNCARGS) (vpvmGlo : PVMMAPSTRCT) (pibIn : TOKENBUF)
    (pifn : IFN) :
    IFNRESULT :=
  let a := G pibIn 4 (List.replicate 4 (LX_INTEGER ||| LX_FLOAT ||| LX_IDENTIFIER))
  if isExit a.ret then ⟨a.ret, a.buf, pifn, a.out⟩ else
  if a.ret ≠ 0 then
    let b := GetInputArgs.bounds a [0, 1, 2, 3] a.buf.pib
    if isExit b.ret then ⟨b.ret, { a.buf with pib := b.pib }, pifn, a.out ++ b.out⟩ else
    let d0 := DefDepParm L vpvmGlo (a.rgszLex.getD 0 "") pifn.dMag pifn.hMag
    let d1 := DefDepParm L vpvmGlo (a.rgszLex.getD 1 "") pifn.dTper pifn.hTper
    let d2 := DefDepParm L vpvmGlo (a.rgszLex.getD 2 "") pifn.dT0 pifn.hT0
    let d3 :=
      if pifn.iType = IFN_PEREXP then
        DefDepParm L vpvmGlo (a.rgszLex.getD 3 "") pifn.dDecay pifn.hDecay
      else DefDepParm L vpvmGlo (a.rgszLex.getD 3 "") pifn.dTexp pifn.hTexp
    let pifn1 : IFN :=
      { pifn with dMag := d0.dValue, hMag := d0.hvar, dTper := d1.dValue, hTper := d1.hvar,
                  dT0 := d2.dValue, hT0 := d2.hvar }
    let pifn2 : IFN :=
      if pifn.iType = IFN_PEREXP then { pifn1 with dDecay := d3.dValue, hDecay := d3.hvar }
      else { pifn1 with dTexp := d3.dValue, hTexp := d3.hvar }
    let bReturn := andBOOL (andBOOL (andBOOL (andBOOL 1 d0.ret) d1.ret) d2.ret) d3.ret
    let out := a.out ++ b.out ++ d0.out ++ d1.out ++ d2.out ++ d3.out
    if bReturn = 0 then
      let e := report b.pib RE_EXPECTED "input-spec" none
      ⟨if isExit e.ret then e.ret else bReturn, { a.buf with pib := e.pib }, pifn2, out ++ e.out⟩
    else ⟨bReturn, { a.buf with pib := b.pib }, pifn2, out⟩
  else ⟨0, a.buf, pifn, a.out⟩

/-- The result of `GetNNumbers`: its status (an exit code, or `bErr` as 1 or
0), the buffer afterwards, the array `rgd` and the reports written. -/
structure NUMBERS where
  ret : Int
  buf : TOKENBUF
  rgd : List double
  out : List REPORT
deriving DecidableEq, Repr

/-- The loop of `GetNNumbers`: the number of rounds still to go, the index `i`,
the buffer and the array. -/
def GetNNumbers.loop (L : LIBC) : Nat → Nat → TOKENBUF → List double → NUMBERS
  | 0, _, pibIn, rgd => ⟨0, pibIn, rgd, []⟩
  | k + 1, i, pibIn, rgd =>
    let p := if i ≠ 0 then GetOptPunct pibIn ',' else ⟨0, "", LX_NULL, pibIn, []⟩
    if isExit p.ret then ⟨p.ret, p.buf, rgd, p.out⟩ else
    let e := ENextLex p.buf LX_NUMBER
    if isExit e.ret then ⟨e.ret, e.buf, rgd, p.out ++ e.out⟩ else
    if e.ret ≠ 0 then ⟨e.ret, e.buf, rgd, p.out ++ e.out⟩ else
    let r := GetNNumbers.loop L k (i + 1) e.buf (rgd.set i (L.atof e.szLex))
    { r with out := p.out ++ e.out ++ r.out }

/-- `GetNNumbers` of `lexfn.c`. -/
def GetNNumbers (L : LIBC) (pibIn : TOKENBUF) (nNumbers : Int) (rgd : List double) : NUMBERS :=
  GetNNumbers.loop L nNumbers.toNat 0 pibIn rgd

/-- `GetNDosesCleanUp` of `lexfn.c`. -/
def GetNDosesCleanUp (pifn : IFN) : IFN :=
  { pifn with rgT0s := none, rgTexps := none, rgMags := none }

/-- The label `Exit_GetNDoses` of `GetNDoses`, reached with the flag `bErr`. -/
def GetNDoses.exit (bErr : Int) (pibIn : TOKENBUF) (pifn : IFN) (out : List REPORT) :
    IFNRESULT :=
  if bErr ≠ 0 then ⟨0, pibIn, GetNDosesCleanUp pifn, out⟩ else ⟨1, pibIn, pifn, out⟩

/-- The end of `GetNDoses`: the closing parenthesis is read unless `bErr` is
set, and the label `Exit_GetNDoses` is reached. -/
def GetNDoses.close (bErr : Int) (pibIn : TOKENBUF) (pifn : IFN) (out : List REPORT) :
    IFNRESULT :=
  let p : LEXRESULT :=
    if bErr = 0 then EGetPunct pibIn CH_RPAREN else ⟨bErr, "", LX_NULL, pibIn, []⟩
  if bErr = 0 ∧ isExit p.ret then ⟨p.ret, p.buf, GetNDosesCleanUp pifn, out ++ p.out⟩ else
  GetNDoses.exit p.ret p.buf pifn (out ++ p.out)

/-- The part of `GetNDoses` from the comma in front of the exposure times: they
are read unless `bErr` is set. -/
def GetNDoses.exposures (L : LIBC) (bErr : Int) (pibIn : TOKENBUF) (pifn : IFN)
    (out : List REPORT) :
    IFNRESULT :=
  let c := GetOptPunct pibIn ','
  if isExit c.ret then ⟨c.ret, c.buf, GetNDosesCleanUp pifn, out ++ c.out⟩ else
  let e : NUMBERS :=
    if bErr = 0 then GetNNumbers L c.buf pifn.nDoses (pifn.rgTexps.getD [])
    else ⟨bErr, c.buf, pifn.rgTexps.getD [], []⟩
  let pifn1 : IFN := { pifn with rgTexps := some e.rgd }
  if bErr = 0 ∧ isExit e.ret then
    ⟨e.ret, e.buf, GetNDosesCleanUp pifn1, out ++ c.out ++ e.out⟩
  else GetNDoses.close e.ret e.buf pifn1 (out ++ c.out ++ e.out)

/-- The part of `GetNDoses` from the comma in front of the start times: they
are read unless `bErr` is set. -/
def GetNDoses.starts (L : LIBC) (bErr : Int) (pibIn : TOKENBUF) (pifn : IFN) (out : List REPORT) :
    IFNRESULT :=
  let c := GetOptPunct pibIn ','
  if isExit c.ret then ⟨c.ret, c.buf, GetNDosesCleanUp pifn, out ++ c.out⟩ else
  let t : NUMBERS :=
    if bErr = 0 then GetNNumbers L c.buf pifn.nDoses (pifn.rgT0s.getD [])
    else ⟨bErr, c.buf, pifn.rgT0s.getD [], []⟩
  let pifn1 : IFN := { pifn with rgT0s := some t.rgd }
  if bErr = 0 ∧ isExit t.ret then
    ⟨t.ret, t.buf, GetNDosesCleanUp pifn1, out ++ c.out ++ t.out⟩
  else GetNDoses.exposures L t.ret t.buf pifn1 (out ++ c.out ++ t.out)

/-- The part of `GetNDoses` that reads the three lists and the closing
parenthesis, once the arrays are allocated.  The status of the call of
`GetNNumbers` for the magnitudes is stored in `bErr` as it is. -/
def GetNDoses.lists (L : LIBC) (pibIn : TOKENBUF) (pifn : IFN) : IFNRESULT :=
  let c := GetOptPunct pibIn ','
  if isExit c.ret then ⟨c.ret, c.buf, GetNDosesCleanUp pifn, c.out⟩ else
  let m := GetNNumbers L c.buf pifn.nDoses (pifn.rgMags.getD [])
  GetNDoses.starts L m.ret m.buf { pifn with rgMags := some m.rgd } (c.out ++ m.out)

/-- `GetNDoses` of `lexfn.c`.  The allocations are taken to succeed; a fresh
array is modelled as a list of zeros of the allocated length.  The syntax hint
printed at the label `Exit_GetNDoses` is not a report and is left out. -/
def GetNDoses (L : LIBC) (pibIn : TOKENBUF) (pifn : IFN) : IFNRESULT :=
  let p := EGetPunct pibIn CH_LPAREN
  if isExit p.ret then ⟨p.ret, p.buf, pifn, p.out⟩ else
  if p.ret ≠ 0 then GetNDoses.exit p.ret p.buf pifn p.out else
  let e := ENextLex p.buf LX_INTEGER
  if isExit e.ret then ⟨e.ret, e.buf, pifn, p.out ++ e.out⟩ else
  if e.ret ≠ 0 then GetNDoses.exit e.ret e.buf pifn (p.out ++ e.out) else
  let pifn1 : IFN := { pifn with nDoses := L.atoi e.szLex }
  if pifn1.nDoses ≤ 0 then
    let r := report e.buf.pib RE_LEXEXPECTED "positive-integer" (some e.szLex)
    if isExit r.ret then ⟨r.ret, { e.buf with pib := r.pib }, pifn1, p.out ++ e.out ++ r.out⟩
    else GetNDoses.exit 1 { e.buf with pib := r.pib } pifn1 (p.out ++ e.out ++ r.out)
  else
    let rgd : List double := List.replicate pifn1.nDoses.toNat 0
    let pifn2 : IFN := { pifn1 with rgT0s := some rgd, rgTexps := some rgd, rgMags := some rgd }
    let r := GetNDoses.lists L e.buf pifn2
    { r with out := p.out ++ e.out ++ r.out }

/-- Modelled from the spec: `MakeStringBuffer` of `lex.c` (not among the
sources): a fresh buffer over the lexical elements of a text, which shares the
analysis state of `pBuf`. -/
def MakeStringBuffer (pBuf : INPUTBUF) (toks : List LEXEME) : TOKENBUF :=
  ⟨{ iLineNum := 0, iLNPrev := 0, cErrors := 0, pInfo := pBuf.pInfo }, toks⟩

/-- `GetInputFn` of `lexfn.c`, for a buffer and a record that are not `NULL`;
`G` stands for `GetFuncArgs`.  With a text `sz` the resolver reads from a string
buffer of its own and `pibIn` only counts the errors reported on it; without, it
reads from `pibIn`. -/
def GetInputFn (L : LIBC) (X : SCANNER) (G : GETFUNCARGS) (pibIn : TOKENBUF) (sz : Option String)
    (pifn : IFN) : IFNRESULT :=
  let vpvmGlo := pibIn.pib.pInfo.pvmGloVars
  let pibDum : TOKENBUF :=
    match sz with
    | some s => MakeStringBuffer pibIn.pib (X.NextLex s)
    | none => pibIn
  let back : TOKENBUF → TOKENBUF := fun d => if sz.isSome then pibIn else d
  let l := NextLex pibDum
  if isExit l.ret then ⟨l.ret, back l.buf, pifn, l.out⟩ else
  if l.iType = LX_FLOAT ∨ l.iType = LX_INTEGER ∨ l.iType = LX_IDENTIFIER then
    let pifn1 := InitIFN pifn
    if l.iType = LX_IDENTIFIER then
      let pifn2 : IFN := { pifn1 with iType := GetFnType X l.szLex }
      if pifn2.iType = IFN_NDOSES then
        let r := GetNDoses L l.buf pifn2
        ⟨r.ret, back r.buf, r.ifn, r.out⟩
      else if pifn2.iType = IFN_PERDOSE ∨ pifn2.iType = IFN_PERRATE ∨
          pifn2.iType = IFN_PEREXP then
        let r := GetInputArgs L G vpvmGlo l.buf pifn2
        ⟨r.ret, back r.buf, r.ifn, r.out⟩
      else
        let e := report (back l.buf).pib RE_LEXEXPECTED "input-spec" (some l.szLex)
        ⟨if isExit e.ret then e.ret else 0, { back l.buf with pib := e.pib },
          { pifn2 with iType := IFN_NULL }, e.out⟩
    else
      ⟨1, back l.buf,
        { pifn1 with iType := IFN_CONSTANT, dMag := L.atof l.szLex, dVal := L.atof l.szLex,
                     bOn := true }, []⟩
  else
    let e := report (back l.buf).pib RE_LEXEXPECTED "input-spec" none
    ⟨if isExit e.ret then e.ret else 0, { back l.buf with pib := e.pib }, pifn, e.out⟩

/-- The loop of the model of `GetFuncArgs` over the types of the arguments that
are still to be read; `i` is the index of the next argument. -/
def GetFuncArgs.loop : List Nat → Nat → TOKENBUF → FUNCARGS
  | [], _, pibIn => ⟨1, [], [], [], pibIn, []⟩
  | iType :: rest, i, pibIn =>
    let c := if i ≠ 0 then EGetPunct pibIn ',' else ⟨0, "", LX_NULL, pibIn, []⟩
    if c.ret ≠ 0 then ⟨if isExit c.ret then c.ret else 0, [], [], [], c.buf, c.out⟩ else
    let e := ENextLex c.buf iType
    if e.ret ≠ 0 then ⟨if isExit e.ret then e.ret else 0, [], [], [], e.buf, c.out ++ e.out⟩
    else
      let r := GetFuncArgs.loop rest (i + 1) e.buf
      ⟨r.ret, e.szLex :: r.rgszLex, -1 :: r.rgiLowerB, -1 :: r.rgiUpperB, r.buf,
        c.out ++ e.out ++ r.out⟩

/-- Modelled from the spec: `GetFuncArgs` of `lex.c` (not among the sources) for
arguments without array bounds: an opening parenthesis, `nArgs` lexical elements
of the allowed types separated by commas, and a closing parenthesis.  The result
is `TRUE` when all of them were found. -/
def GetFuncArgs : GETFUNCARGS := fun pibIn nArgs rgiArgTypes =>
  let p := EGetPunct pibIn CH_LPAREN
  if p.ret ≠ 0 then ⟨if isExit p.ret then p.ret else 0, [], [], [], p.buf, p.out⟩ else
  let r := GetFuncArgs.loop (rgiArgTypes.take nArgs) 0 p.buf
  if r.ret ≠ 1 then { r with out := p.out ++ r.out } else
  let q := EGetPunct r.buf CH_RPAREN
  ⟨if q.ret ≠ 0 then (if isExit q.ret then q.ret else 0) else 1, r.rgszLex, r.rgiLowerB,
    r.rgiUpperB, q.buf, p.out ++ r.out ++ q.out⟩

/-- The array after the assignments `rgd[i] = v` for the values `v` of a list,
from the index `i` upwards. -/
def fill : List double → Nat → List double → List double
  | rgd, _, [] => rgd
  | rgd, i, v :: vs => fill (rgd.set i v) (i + 1) vs

/-- The punctuation element `,`. -/
def commaLex : LEXEME := ⟨0, ",", LX_PUNCT⟩

/-- The lexical elements of a list of arguments, each with or without a comma
in front of it. -/
def sepd : List (Bool × LEXEME) → List LEXEME
  | [] => []
  | (true, lx) :: rest => commaLex :: lx :: sepd rest
  | (false, lx) :: rest => lx :: sepd rest

/-- The lexical elements of `(2, 10, 20, 0, 5, 1, 1)`. -/
def twoDoses : List LEXEME :=
  [⟨0, "(", LX_PUNCT⟩, ⟨0, "2", LX_INTEGER⟩, commaLex, ⟨0, "10", LX_INTEGER⟩,
   commaLex, ⟨0, "20", LX_INTEGER⟩, commaLex, ⟨0, "0", LX_INTEGER⟩,
   commaLex, ⟨0, "5", LX_INTEGER⟩, commaLex, ⟨0, "1", LX_INTEGER⟩,
   commaLex, ⟨0, "1", LX_INTEGER⟩, ⟨0, ")", LX_PUNCT⟩]

/-- A dosing-function record with every field null. -/
def nullIFN : IFN :=
  { iType := 0, bOn := false, dTStartPeriod := 0, dMag := 0, dTper := 0, dT0 := 0,
    dTexp := 0, dDecay := 0, dVal := 0, hMag := 0, hTper := 0, hT0 := 0, hTexp := 0,
    hDecay := 0, nDoses := 0, iDoseCur := 0, rgT0s := none, rgTexps := none,
    rgMags := none }

/-- A lexical element that is delivered without an exit code and is an integer
or a floating-point literal. -/
def numeric (lx : LEXEME) : Prop :=
  isExit lx.ret = false ∧ (lx.iType = LX_INTEGER ∨ lx.iType = LX_FLOAT)

/-- The lexical elements that are left when a comma in front has been taken. -/
def skipComma : List LEXEME → List LEXEME
  | [] => []
  | lx :: rest =>
    if lx.iType = LX_PUNCT ∧ lx.szLex.data.head? = some ',' then rest else lx :: rest

/-- The value that `atof` gives to the text of an argument. -/
def litVal (L : LIBC) (x : Bool × LEXEME) : double :=
  L.atof x.2.szLex

instance (lx : LEXEME) : Decidable (numeric lx) :=
  inferInstanceAs (Decidable (_ ∧ _))

/-- A token source that reads every text as the given lexical elements, knows
no keyword and compares names as strings; used to run the resolver on the
elements of a specification. -/
def fixedScanner (toks : List LEXEME) : SCANNER :=
  { numberScanner with NextLex := fun _ => toks }

/-- The lexical elements of `NDoses (0, 10, 0, 1)`. -/
def zeroDoses : List LEXEME :=
  [⟨0, "NDoses", LX_IDENTIFIER⟩, ⟨0, "(", LX_PUNCT⟩, ⟨0, "0", LX_INTEGER⟩, commaLex,
   ⟨0, "10", LX_INTEGER⟩, commaLex, ⟨0, "0", LX_INTEGER⟩, commaLex, ⟨0, "1", LX_INTEGER⟩,
   ⟨0, ")", LX_PUNCT⟩]

/-- The literal field of a slot that starts at 0, as the resolution rule gives
it for an argument: the number written by a numeric argument, and 0 for an
identifier. -/
def literalOf (L : LIBC) (szLex : String) : double :=
  if IsIdentifier szLex then 0 else L.atof szLex

/-- The handle field of a slot that starts at 0, as the resolution rule gives
it for an argument: the handle calculated from Global Variables for an
identifier, and 0 for a numeric argument. -/
def handleOf (vpvmGlo : PVMMAPSTRCT) (szLex : String) : HANDLE :=
  if IsIdentifier szLex then CalculateVarHandle vpvmGlo szLex else 0

/-- The lexical elements of `(k1, 24, 0, 0.5)`. -/
def fourArgs : List LEXEME :=
  [⟨0, "(", LX_PUNCT⟩, ⟨0, "k1", LX_IDENTIFIER⟩, commaLex, ⟨0, "24", LX_INTEGER⟩, commaLex,
   ⟨0, "0", LX_INTEGER⟩, commaLex, ⟨0, "0.5", LX_FLOAT⟩, ⟨0, ")", LX_PUNCT⟩]

/-- The lexical elements of `PerDose (k, 1, 0, 1)`. -/
def perDoseOfK : List LEXEME :=
  [⟨0, "PerDose", LX_IDENTIFIER⟩, ⟨0, "(", LX_PUNCT⟩, ⟨0, "k", LX_IDENTIFIER⟩, commaLex,
   ⟨0, "1", LX_INTEGER⟩, commaLex, ⟨0, "0", LX_INTEGER⟩, commaLex, ⟨0, "1", LX_INTEGER⟩,
   ⟨0, ")", LX_PUNCT⟩]

/-- The lexical elements of `Sin (1)`. -/
def sinOfOne : List LEXEME :=
  [⟨0, "Sin", LX_IDENTIFIER⟩, ⟨0, "(", LX_PUNCT⟩, ⟨0, "1", LX_INTEGER⟩, ⟨0, ")", LX_PUNCT⟩]

/-- Every lexical element of a list is delivered without an exit code. -/
def clean (t : List LEXEME) : Prop :=
  ∀ l ∈ t, isExit l.ret = false

instance (t : List LEXEME) : Decidable (clean t) :=
  inferInstanceAs (Decidable (∀ l ∈ t, isExit l.ret = false))

/-- The lexical elements have come to their end or go on with an element that
is no number. -/
def noNumber (t : List LEXEME) : Bool :=
  match t with
  | [] => true
  | lx :: _ => (LX_NUMBER &&& lx.iType) == 0

/-- Where a number is expected, with or without a comma in front of it, the
lexical elements have come to their end or go on with an element that is no
number. -/
def missingNumber (t : List LEXEME) : Bool :=
  noNumber (skipComma t)

/-- Where the closing parenthesis is expected, the lexical elements have come
to their end or go on with an element that is not punctuation starting with
`)`. -/
def missingParen (t : List LEXEME) : Bool :=
  match t with
  | [] => true
  | lx :: _ => !(decide (lx.iType = LX_PUNCT) && decide (lx.szLex.data.head? = some ')'))

/-- All three arrays of the record are `NULL`. -/
def released (pifn : IFN) : Prop :=
  pifn.rgMags = none ∧ pifn.rgT0s = none ∧ pifn.rgTexps = none

/-- The lexical elements of `(2, 10, 20, 0, x, 1, 1)`: the second start time is
a name. -/
def badDoses : List LEXEME :=
  [⟨0, "(", LX_PUNCT⟩, ⟨0, "2", LX_INTEGER⟩, commaLex, ⟨0, "10", LX_INTEGER⟩,
   commaLex, ⟨0, "20", LX_INTEGER⟩, commaLex, ⟨0, "0", LX_INTEGER⟩,
   commaLex, ⟨0, "x", LX_IDENTIFIER⟩, commaLex, ⟨0, "1", LX_INTEGER⟩,
   commaLex, ⟨0, "1", LX_INTEGER⟩, ⟨0, ")", LX_PUNCT⟩]

/-- The error code `RE_OUTOFMEM` of `lex.h`. -/
def RE_OUTOFMEM : Nat := 0x0004

/-- The statuses of successive `ReportError` calls with the given codes on one
buffer. -/
def reportRets : INPUTBUF → List Nat → List Int
  | _, [] => []
  | pibIn, wCode :: rest =>
    (report pibIn wCode "" none).ret :: reportRets (report pibIn wCode "" none).pib rest

/-- A buffer at the start of a section: the empty table with the given
context. -/
def sectionBuf (wContext : Nat) : INPUTBUF :=
  { startBuf with pInfo := { InitInfo with wContext := wContext } }

/-- The buffer when the grammar driver has entered a section: only the context
changes. -/
def enter (pibIn : INPUTBUF) (wContext : Nat) : INPUTBUF :=
  { pibIn with pInfo := { pibIn.pInfo with wContext := wContext } }

/-- Two plain assignments to one name on successive lines: the outcomes of both
calls. -/
def assignTwice (X : SCANNER) (pibIn : INPUTBUF) (szName szEqn1 szEqn2 : String) :
    Option (OUTCOME × OUTCOME) :=
  match DefineVariable X pibIn (some szName) (some szEqn1) 0 with
  | none => none
  | some o1 =>
    match DefineVariable X { o1.pib with iLineNum := o1.pib.iLineNum + 1 } (some szName)
        (some szEqn2) 0 with
    | none => none
    | some o2 => some (o1, o2)

/-- The lexical elements of the equation `-0.1 * A`. -/
def decayOfA : List LEXEME :=
  [⟨0, "-", LX_EQNPUNCT⟩, ⟨0, "0.1", LX_FLOAT⟩, ⟨0, "*", LX_EQNPUNCT⟩, ⟨0, "A", LX_IDENTIFIER⟩]

/-- The calls made for `States { A };` followed, in the Dynamics section, by
`dt (A) = -0.1 * A;`: the outcomes of both calls. -/
def stateWithDecay : Option (OUTCOME × OUTCOME) :=
  match DeclareModelVar startBuf "A" KM_STATES with
  | none => none
  | some o1 =>
    match DefineVariable (fixedScanner decayOfA)
        (enter { o1.pib with iLineNum := 2 } CN_DYNAMICS) (some "A") (some "-0.1 * A")
        KM_DXDT with
    | none => none
    | some o2 => some (o1, o2)

/-- The equation passes verification: `VerifyEqn` returns neither an exit code
nor 0, so that `DefineVariable` goes on to its section rule. -/
def accepted (X : SCANNER) (pibIn : INPUTBUF) (szEqn : String) : Prop :=
  isExit (VerifyEqn X pibIn szEqn).ret = false ∧ (VerifyEqn X pibIn szEqn).ret ≠ 0

instance (X : SCANNER) (pibIn : INPUTBUF) (szEqn : String) : Decidable (accepted X pibIn szEqn) :=
  inferInstanceAs (Decidable (_ ∧ _))

/-- The node `pvm` that `DefineVariable` works with: the node found in Global
Variables, or `NULL` when the name is known there as local to another section
than the current one. -/
def shadowedPTR (pinfo : INPUTINFO) (szName : String) : PVMMAPSTRCT :=
  if foreignLocal pinfo.wContext (TYPE (GetVarPTR pinfo.pvmGloVars szName)) then []
  else GetVarPTR pinfo.pvmGloVars szName

/-- The kind `hGloVarType` that `DefineVariable` works with. -/
def shadowedKind (pinfo : INPUTINFO) (szName : String) : HANDLE :=
  TYPE (shadowedPTR pinfo szName)

/-- The payload `szEqn` of the node that the lookup of a name finds; `none` for
a name that is not found as for a node without payload. -/
def valueOf (pvm : PVMMAPSTRCT) (szName : String) : Option EQN :=
  match GetVarPTR pvm szName with
  | [] => none
  | node :: _ => node.szEqn

/-- A buffer in the CalcOutputs section whose table holds the declared Output
`y` and the declared State `A`. -/
def calcOutBuf : INPUTBUF :=
  { startBuf with iLineNum := 5, iLNPrev := 4, pInfo := { InitInfo with
      wContext := CN_CALCOUTPUTS,
      pvmGloVars := [⟨"y", none, ID_OUTPUT⟩, ⟨"A", none, ID_STATE⟩] } }

/-- A buffer in the Global section whose table holds the declared State `A`,
without a value. -/
def stateBuf : INPUTBUF :=
  { startBuf with pInfo := { InitInfo with pvmGloVars := [⟨"A", none, ID_STATE⟩] } }

/-- The buffer whose Global Variables holds no record of the name `szName`: the
table as it would be if the name were absent from Global Variables. -/
def absent (pibIn : INPUTBUF) (szName : String) : INPUTBUF :=
  { pibIn with pInfo := { pibIn.pInfo with
      pvmGloVars := pibIn.pInfo.pvmGloVars.filter (fun q => q.szName ≠ szName) } }

/-- An outcome, read on the table without the records of the name `szName`. -/
def absentOutcome (o : OUTCOME) (szName : String) : OUTCOME :=
  { o with pib := absent o.pib szName }

/-- The buffer with the records `g` put below the last record of Global
Variables. -/
def glue (pibIn : INPUTBUF) (g : PVMMAPSTRCT) : INPUTBUF :=
  { pibIn with pInfo := { pibIn.pInfo with pvmGloVars := pibIn.pInfo.pvmGloVars ++ g } }

/-- An outcome, with the records `g` put below the last record of Global
Variables. -/
def glueOutcome (o : OUTCOME) (g : PVMMAPSTRCT) : OUTCOME :=
  { o with pib := glue o.pib g }

/-- The buffer with an empty Global Variables stack. -/
def bare (pibIn : INPUTBUF) : INPUTBUF :=
  { pibIn with pInfo := { pibIn.pInfo with pvmGloVars := [] } }

/-- The kind that marks a name as local to the section of a context, as the
description of the kinds gives it: Local-to-Dynamics for Dynamics, and so on;
the null kind for a context that is no section with local names. -/
def localKindOf (wContext : Nat) : HANDLE :=
  if wContext = CN_DYNAMICS then ID_LOCALDYN
  else if wContext = CN_SCALE then ID_LOCALSCALE
  else if wContext = CN_JACOB then ID_LOCALJACOB
  else if wContext = CN_EVENTS then ID_LOCALEVENT
  else if wContext = CN_ROOTS then ID_LOCALROOT
  else if wContext = CN_CALCOUTPUTS then ID_LOCALCALCOUT
  else ID_NULL

/-- The condition of the shadowing rule in the words of its description: the
kind is one of the six local kinds, and not the one of the current section. -/
def localElsewhere (wContext : Nat) (hType : HANDLE) : Bool :=
  (hType == ID_LOCALDYN || hType == ID_LOCALSCALE || hType == ID_LOCALJACOB ||
    hType == ID_LOCALEVENT || hType == ID_LOCALROOT || hType == ID_LOCALCALCOUT) &&
  hType != localKindOf wContext

/-- The buffer at the start of the Scale section of a model whose Dynamics
section holds the one assignment `x = 1.0;` to the undeclared name `x`. -/
def scaleAfterDynamics : INPUTBUF :=
  { iLineNum := 4, iLNPrev := 2, cErrors := 0, pInfo := { InitInfo with
      wContext := CN_SCALE,
      pvmGloVars := [⟨"x", none, ID_LOCALDYN ||| ID_SPACEFLAG⟩],
      pvmDynEqns := [⟨"x", some (EQN.text "1.0"), ID_LOCALDYN ||| ID_SPACEFLAG⟩] } }

/-- The buffer in the Dynamics section of a model whose Scale section holds the
one assignment `x = 1.0;` to the undeclared name `x`. -/
def dynamicsAfterScale : INPUTBUF :=
  { iLineNum := 4, iLNPrev := 1, cErrors := 0, pInfo := { InitInfo with
      wContext := CN_DYNAMICS, scale_eqns_cnt := 1,
      pvmGloVars := [⟨"x", none, ID_LOCALSCALE⟩],
      pvmScaleEqns := [⟨"x", some (EQN.text "1.0"), ID_LOCALSCALE⟩] } }

/-- A buffer in the Global section whose table holds the single declared Input
`Dose`, without a value. -/
def globalDoseBuf : INPUTBUF :=
  { startBuf with pInfo := { InitInfo with pvmGloVars := [⟨"Dose", none, ID_INPUT⟩] } }

/-- A buffer in the Dynamics section, on line 3, whose table holds the single
declared State `A`, without a value. -/
def dynamicsStateBuf : INPUTBUF :=
  { iLineNum := 3, iLNPrev := 0, cErrors := 0,
    pInfo := { InitInfo with wContext := CN_DYNAMICS,
                             pvmGloVars := [⟨"A", none, ID_STATE⟩] } }

/-! ## Release of the table and the entry point -/

/-- One of the first eight loops of `Cleanup` in `mod.c`, on the stack it
releases: `next` is read from the head of that same stack, the name, the
equation and the head are given to `free`, and the loop goes on with `next`;
the value is the stack pointer at the end of the loop.  An equation text and a
dosing-function record are allocated blocks; the flag string
`vszHasInitializer` is a static array of `modd.c`, and `none` stands for the
undefined behaviour of `free` on it. -/
def Cleanup.release : PVMMAPSTRCT → Option PVMMAPSTRCT
  | [] => some []
  | pvm :: next =>
    if pvm.szEqn = some EQN.vszHasInitializer then none else Cleanup.release next

/-- The last loop of `Cleanup`, on Local Compartments: `next` is read as
`pinfo->pvmJacobEqns->pvmNextVar`.  `none` stands for undefined behaviour: the
read through `pvmJacobEqns` when that pointer is `NULL`, `free` on the static
flag string, or, when the Jacobian stack has two nodes or more, the second pass
of the loop on a node that the first pass has made the head and the second has
released.  With one Jacobian node the loop ends after one pass, with `next`
equal to `NULL`. -/
def Cleanup.releaseLocalCpts (pvmJacobEqns pvmLocalCpts : PVMMAPSTRCT) : Option PVMMAPSTRCT :=
  match pvmLocalCpts with
  | [] => some []
  | pvm :: _ =>
    match pvmJacobEqns with
    | [] => none
    | [_] => if pvm.szEqn = some EQN.vszHasInitializer then none else some []
    | _ :: _ :: _ => none

/-- `Cleanup` of `mod.c`: the table afterwards, or `none` for undefined
behaviour. -/
def Cleanup (pinfo : INPUTINFO) : Option INPUTINFO :=
  (Cleanup.release pinfo.pvmGloVars).bind fun pvmGloVars =>
  (Cleanup.release pinfo.pvmDynEqns).bind fun pvmDynEqns =>
  (Cleanup.release pinfo.pvmScaleEqns).bind fun pvmScaleEqns =>
  (Cleanup.release pinfo.pvmJacobEqns).bind fun pvmJacobEqns =>
  (Cleanup.release pinfo.pvmCalcOutEqns).bind fun pvmCalcOutEqns =>
  (Cleanup.release pinfo.pvmEventEqns).bind fun pvmEventEqns =>
  (Cleanup.release pinfo.pvmRootEqns).bind fun pvmRootEqns =>
  (Cleanup.release pinfo.pvmCpts).bind fun pvmCpts =>
  (Cleanup.releaseLocalCpts pvmJacobEqns pinfo.pvmLocalCpts).bind fun pvmLocalCpts =>
  some { pinfo with
    pvmGloVars := pvmGloVars, pvmDynEqns := pvmDynEqns, pvmScaleEqns := pvmScaleEqns,
    pvmJacobEqns := pvmJacobEqns, pvmCalcOutEqns := pvmCalcOutEqns,
    pvmEventEqns := pvmEventEqns, pvmRootEqns := pvmRootEqns, pvmCpts := pvmCpts,
    pvmLocalCpts := pvmLocalCpts }

/-- No record of the stack holds the static flag string `vszHasInitializer`:
every equation in it is an allocated block. -/
def Cleanup.allocated (pvm : PVMMAPSTRCT) : Prop :=
  ∀ q ∈ pvm, q.szEqn ≠ some EQN.vszHasInitializer

instance (pvm : PVMMAPSTRCT) : Decidable (Cleanup.allocated pvm) :=
  inferInstanceAs (Decidable (∀ q ∈ pvm, q.szEqn ≠ some EQN.vszHasInitializer))

/-- None of the first eight stacks of the table holds the static flag string. -/
def Cleanup.releasable (pinfo : INPUTINFO) : Prop :=
  Cleanup.allocated pinfo.pvmGloVars ∧ Cleanup.allocated pinfo.pvmDynEqns ∧
  Cleanup.allocated pinfo.pvmScaleEqns ∧ Cleanup.allocated pinfo.pvmJacobEqns ∧
  Cleanup.allocated pinfo.pvmCalcOutEqns ∧ Cleanup.allocated pinfo.pvmEventEqns ∧
  Cleanup.allocated pinfo.pvmRootEqns ∧ Cleanup.allocated pinfo.pvmCpts

instance (pinfo : INPUTINFO) : Decidable (Cleanup.releasable pinfo) :=
  inferInstanceAs (Decidable (_ ∧ _ ∧ _ ∧ _ ∧ _ ∧ _ ∧ _ ∧ _))

/-- Modelled from the spec: the routines that `c_mod` calls and whose code is
not part of the model.  `ReadModel` (of `modi.c`) and the two writers (of
`modo.c`) are not among the sources; `GetCmdLineArgs` of `mod.c` works through
`getopt` and, without file names, the standard input.  Each is given by its
status and the table it leaves behind; the second table of `ReadModel`
(`tempinfo`, which `c_mod` only initialises) and the file names are left out. -/
structure DRIVER where
  GetCmdLineArgs : INPUTINFO → Int × INPUTINFO
  ReadModel : INPUTINFO → Int × INPUTINFO
  Write_R_Model : INPUTINFO → Int × INPUTINFO
  WriteModel : INPUTINFO → Int × INPUTINFO

/-- The routines called by `c_mod`, as they appear in the record of a run. -/
inductive STAGE where
  | GetCmdLineArgs
  | ReadModel
  | Write_R_Model
  | WriteModel
  | Cleanup
deriving DecidableEq, Repr

/-- A run of `c_mod`: the value returned (`none` when `Cleanup` ran into
undefined behaviour, so that no value is returned) and the routines called, in
order. -/
structure CMOD where
  ret : Option Int
  calls : List STAGE
deriving DecidableEq, Repr

/-- `c_mod` of `mod.c`. -/
def c_mod (D : DRIVER) : CMOD :=
  let info := InitInfo
  let a := D.GetCmdLineArgs info
  if a.1 = EXIT_ERROR ∨ a.1 = EXIT_NOERROR then
    ⟨(Cleanup a.2).map (fun _ => -1), [STAGE.GetCmdLineArgs, STAGE.Cleanup]⟩
  else
    let r := D.ReadModel a.2
    if r.1 = EXIT_ERROR ∨ r.1 = EXIT_NOERROR then
      ⟨(Cleanup r.2).map (fun _ => -1), [STAGE.GetCmdLineArgs, STAGE.ReadModel, STAGE.Cleanup]⟩
    else
      let w := if r.2.bforR = true then D.Write_R_Model r.2 else D.WriteModel r.2
      let writer := if r.2.bforR = true then STAGE.Write_R_Model else STAGE.WriteModel
      if w.1 = EXIT_ERROR ∨ w.1 = EXIT_NOERROR then
        ⟨(Cleanup w.2).map (fun _ => -1),
          [STAGE.GetCmdLineArgs, STAGE.ReadModel, writer, STAGE.Cleanup]⟩
      else
        ⟨(Cleanup w.2).map (fun _ => 0),
          [STAGE.GetCmdLineArgs, STAGE.ReadModel, writer, STAGE.Cleanup]⟩

/-- The table with every stack empty. -/
def emptied (pinfo : INPUTINFO) : INPUTINFO :=
  { pinfo with
      pvmGloVars := [], pvmDynEqns := [], pvmScaleEqns := [], pvmJacobEqns := [],
      pvmCalcOutEqns := [], pvmEventEqns := [], pvmRootEqns := [], pvmCpts := [],
      pvmLocalCpts := [] }

/-- The table at the end of the analysis of a model made of the one Parameter
`k1 = 1.0`. -/
def parmInfo : INPUTINFO :=
  { InitInfo with
      wContext := CN_END, bforR := true,
      pvmGloVars := [⟨"k1", some (EQN.text "1.0"), ID_PARM⟩] }

/-- The table at the end of the analysis of a template model with one SBML
compartment `liver`: the Local Compartments stack still holds its record. -/
def templateInfo : INPUTINFO :=
  { parmInfo with
      bTemplateInUse := true,
      pvmLocalCpts := [⟨"liver", some (EQN.text "1.0"), ID_COMPARTMENT⟩] }

/-- A run in which every routine finishes with status 0 and the analysis leaves
the given table. -/
def quietDriver (pinfo : INPUTINFO) : DRIVER :=
  { GetCmdLineArgs := fun info => (0, { info with bforR := true }),
    ReadModel := fun _ => (0, pinfo),
    Write_R_Model := fun info => (0, info),
    WriteModel := fun info => (0, info) }

/-- A run in which the analysis ends with the given exit code and the given
table. -/
def failedDriver (ret : Int) (pinfo : INPUTINFO) : DRIVER :=
  { quietDriver pinfo with ReadModel := fun _ => (ret, pinfo) }

/-- The value of the counter `cSameType` when `CalculateVarHandle` returns: the
ordinal that is combined with `hType` into the handle (0 when the name is not
found). -/
def CalculateVarHandle.count (pvm : PVMMAPSTRCT) (sz : String) : Nat :=
  match GetVarPTR pvm sz with
  | [] => 0
  | pvmVar :: pvmNextVar => CalculateVarHandle.loop pvmVar.hType pvmNextVar 0

/-- Global Variables after the two Scale assignments `a = 1.0;` on line 1 and,
after a blank line, `b = 2.0;` on line 3, to undeclared names: two records
local to Scale, the second with the space flag. -/
def flaggedLocals : PVMMAPSTRCT :=
  [⟨"b", none, ID_LOCALSCALE ||| ID_SPACEFLAG⟩, ⟨"a", none, ID_LOCALSCALE⟩]

/-- A stack of three Parameters. -/
def threeParms : PVMMAPSTRCT :=
  [⟨"c", some (EQN.text "3"), ID_PARM⟩, ⟨"b", some (EQN.text "2"), ID_PARM⟩,
   ⟨"a", some (EQN.text "1"), ID_PARM⟩]

/-- The counter `scale_eqns_cnt` minus the number of records in Scale
Equations. -/
def scaleSlack (pinfo : INPUTINFO) : Int :=
  pinfo.scale_eqns_cnt - pinfo.pvmScaleEqns.length

/-- One step of the grammar driver between `InitInfo` and the end of the model
file: the opening of a section, which only sets `wContext`, or a call of
`DeclareModelVar` or `DefineVariable`. -/
inductive STEP where
  | enter (wContext : Nat)
  | call (c : CALL)
deriving DecidableEq, Repr

/-- The buffer after a sequence of steps of the driver; `none` when an `assert`
failed on the way. -/
def walk (X : SCANNER) : INPUTBUF → List STEP → Option INPUTBUF
  | pibIn, [] => some pibIn
  | pibIn, STEP.enter wContext :: rest =>
    walk X (enter pibIn wContext) rest
  | pibIn, STEP.call c :: rest =>
    match c.exec X pibIn with
    | none => none
    | some o => walk X o.pib rest

/-- A model that declares the State `A`, opens the Scale section, assigns a
local variable twice there and, after a blank line, the State twice. -/
def scaleSteps : List STEP :=
  [STEP.call (CALL.declare 1 "A" KM_STATES),
   STEP.enter CN_SCALE,
   STEP.call (CALL.define 3 (some "x") (some "1.0") 0),
   STEP.call (CALL.define 4 (some "x") (some "2.0") 0),
   STEP.call (CALL.define 6 (some "A") (some "3.0") 0),
   STEP.call (CALL.define 7 (some "A") (some "4.0") 0)]

/-- The buffer at the end of `scaleSteps`. -/
def scaleEnd : INPUTBUF :=
  (walk numberScanner startBuf scaleSteps).getD startBuf

/-! ## Differential equations built from SBML reactions -/

/-- `MAX_LEX` of `lex.h`. -/
def MAX_LEX : Nat := 0x03FF

/-- `RE_BADSTATE` of `lex.h`. -/
def RE_BADSTATE : Nat := 0x0100 + 5

/-- `VARTYPES` of `modiSBML.c`. -/
inductive VARTYPES where
  | product
  | reactant
  | parameter
deriving DecidableEq, Repr

/-- `OPSIGNS` of `modiSBML.c`. -/
inductive OPSIGNS where
  | plus
  | minus
deriving DecidableEq, Repr

/-- `strlen`: every character of the string counts as one `char`. -/
def strlen (sz : String) : Nat :=
  sz.length

/-- `snprintf (buf, n, ...)` with a positive `n`, where `sz` is the expanded
format: the string left in `buf`, at most `n - 1` characters of `sz`. -/
def snprintf (n : Nat) (sz : String) : String :=
  ⟨sz.data.take (n - 1)⟩

/-- `AugmentEquation` of `modiSBML.c`: the status and the nodes from `pvm` on
after the call.  `none` stands for undefined behaviour (`strlen` of a `NULL`
equation or of a dosing record, `free` of the static flag string) and for a
length that does not fit the `int buf_len`. -/
def AugmentEquation (pvm : PVMMAPSTRCT) (szEqn szStoi : Option String) (sign : OPSIGNS) :
    Option (Int × PVMMAPSTRCT) :=
  match pvm, szEqn, szStoi with
  | [], _, _ => some (0, [])
  | pvm1 :: pvmNextVar, none, _ => some (0, pvm1 :: pvmNextVar)
  | pvm1 :: pvmNextVar, some _, none => some (0, pvm1 :: pvmNextVar)
  | pvm1 :: pvmNextVar, some szEqn, some szStoi =>
    let szSymbol :=
      match sign with
      | OPSIGNS.plus => snprintf MAX_LEX " + "
      | OPSIGNS.minus => snprintf MAX_LEX " - "
    match pvm1.szEqn with
    | some (EQN.text sz) =>
      let buf_len := strlen sz + strlen szSymbol + strlen szStoi + strlen szEqn + 5
      if 2 ^ 31 ≤ buf_len then none
      else
        let szBuf :=
          if szStoi = "1" then snprintf buf_len (sz ++ szSymbol ++ szEqn)
          else snprintf buf_len (sz ++ szSymbol ++ " " ++ szStoi ++ " * " ++ szEqn)
        some (0, { pvm1 with szEqn := some (EQN.text szBuf) } :: pvmNextVar)
    | _ => none

/-- The species name after the padding step of `ConstructEqn`: a name that is
not in Global Variables gets `_` and the name of the first local compartment
appended.  `none` stands for the read through a `NULL` Local Compartments,
`some none` for the return of `EXIT_ERROR` on a name longer than `MAX_LEX`. -/
def ConstructEqn.pad (pinfo : INPUTINFO) (szSName : String) : Option (Option String) :=
  if GetVarPTR pinfo.pvmGloVars szSName = [] then
    match pinfo.pvmLocalCpts with
    | [] => none
    | cpt :: _ =>
      let len := strlen szSName + strlen cpt.szName + 1 + 1 + 1
      if len > MAX_LEX then some none
      else some (some (snprintf len (szSName ++ "_" ++ cpt.szName)))
  else some (some szSName)

/-- `ConstructEqn` of `modiSBML.c`, from the point where the species name
`szSName` and the stoichiometry `szStoichio` have been scanned from the buffer
(by `GetIdentifier` and `GetNumber` of `lex.c`); the progress line written with
`Rprintf` is not a report.  `none` stands for undefined behaviour or a failed
`assert`. -/
def ConstructEqn (X : SCANNER) (pibIn : INPUTBUF) (szRName : String) (eType : VARTYPES)
    (szSName szStoichio : String) : Option OUTCOME :=
  match ConstructEqn.pad pibIn.pInfo szSName with
  | none => none
  | some none => some ⟨EXIT_ERROR, pibIn, []⟩
  | some (some szSName) =>
    let hType := GetVarType pibIn.pInfo.pvmGloVars szSName
    if hType = ID_STATE then
      propagate
        (if GetVarPTR pibIn.pInfo.pvmDynEqns szSName = [] then
          DefineVariable X pibIn (some szSName) (some "") KM_DXDT
        else some ⟨0, pibIn, []⟩)
        (fun pib =>
          let pvmDynEqns := pib.pInfo.pvmDynEqns
          let pvm := GetVarPTR pvmDynEqns szSName
          match AugmentEquation pvm (some szRName) (some szStoichio)
              (if eType = VARTYPES.reactant then OPSIGNS.minus else OPSIGNS.plus) with
          | none => none
          | some (ret, pvm1) =>
            let pib1 : INPUTBUF := { pib with pInfo := { pib.pInfo with
              pvmDynEqns := pvmDynEqns.take (pvmDynEqns.length - pvm.length) ++ pvm1 } }
            propagate (some ⟨ret, pib1, []⟩) (fun pib2 => some ⟨0, pib2, []⟩))
    else if hType ≠ ID_PARM then
      let r := ReportError none (RE_BADSTATE ||| RE_FATAL) (some szSName) none
      propagate (some ⟨r.1, pibIn, [r.2.2]⟩) (fun pib => some ⟨0, pib, []⟩)
    else some ⟨0, pibIn, []⟩

/-- The equation text the specification gives for a record with text `e` after
`AugmentEquation` with reaction name `r`, stoichiometry `s` and a sign. -/
def augmented (e r s : String) (sign : OPSIGNS) : String :=
  let symbol := match sign with
    | OPSIGNS.plus => " + "
    | OPSIGNS.minus => " - "
  if s = "1" then e ++ symbol ++ r else e ++ symbol ++ " " ++ s ++ " * " ++ r

/-- The table of a reaction model at the reading of differentials: the States
`A` and `B` in Global Variables, and in Dynamics a derivative of `B` with text
`k * B` above a derivative of `A` with empty text. -/
def reactionBuf : INPUTBUF :=
  { iLineNum := 3, iLNPrev := 0, cErrors := 0,
    pInfo := { InitInfo with
      wContext := CN_DYNAMICS,
      pvmGloVars := [⟨"B", none, ID_STATE⟩, ⟨"A", none, ID_STATE⟩],
      pvmDynEqns := [⟨"B", some (EQN.text "k * B"), ID_DERIV ||| ID_SPACEFLAG⟩,
                     ⟨"A", some (EQN.text ""), ID_DERIV ||| ID_SPACEFLAG⟩] } }

/-! ## Lookup, insertion, handles and reversal -/

theorem AddEquation_some (pvm : PVMMAPSTRCT) (szName : String) (szEqn : Option String)
    (hType : HANDLE) :
    AddEquation (some pvm) (some szName) szEqn hType
      = (0, some ({ szName := szName, szEqn := szEqn.map EQN.text, hType := hType } :: pvm)) := by
  cases szEqn <;> simp [AddEquation, CopyString, isExit, EXIT_NOERROR, EXIT_ERROR]

theorem GetVarPTR_split (pvm : PVMMAPSTRCT) (szName : String) :
    ∃ pre, pvm = pre ++ GetVarPTR pvm szName ∧ ∀ q ∈ pre, q.szName ≠ szName := by
  induction pvm with
  | nil => exact ⟨[], by simp [GetVarPTR]⟩
  | cons r rest ih =>
    by_cases h : szName = r.szName
    · exact ⟨[], by simp [GetVarPTR, h]⟩
    · obtain ⟨pre, hpre, hne⟩ := ih
      refine ⟨r :: pre, ?_, ?_⟩
      · simp only [GetVarPTR, if_neg h, List.cons_append]
        exact congrArg _ hpre
      · intro q hq
        rcases List.mem_cons.mp hq with rfl | hq
        · exact fun e => h e.symm
        · exact hne q hq

theorem GetVarPTR_head (pvm : PVMMAPSTRCT) (szName : String) :
    ∀ q ∈ (GetVarPTR pvm szName).head?, q.szName = szName := by
  induction pvm with
  | nil => simp [GetVarPTR]
  | cons r rest ih =>
    by_cases h : szName = r.szName
    · simp [GetVarPTR, h]
    · simpa [GetVarPTR, h] using ih

theorem GetVarPTR_eq_nil (pvm : PVMMAPSTRCT) (szName : String) :
    GetVarPTR pvm szName = [] ↔ ∀ q ∈ pvm, q.szName ≠ szName := by
  induction pvm with
  | nil => simp [GetVarPTR]
  | cons r rest ih =>
    by_cases h : szName = r.szName
    · simp [GetVarPTR, h]
    · simp [GetVarPTR, h, ih, Ne.symm h]

/-- C1: `GetVarPTR` splits the stack into a prefix of records with another name
and the node it returns; the returned node, when there is one, carries exactly
the name asked for, and `NULL` is returned iff no record has that name. -/
theorem C1_GetVarPTR_first_match (pvm : PVMMAPSTRCT) (szName : String) :
    (∃ pre, pvm = pre ++ GetVarPTR pvm szName ∧ ∀ q ∈ pre, q.szName ≠ szName) ∧
    (∀ q ∈ (GetVarPTR pvm szName).head?, q.szName = szName) ∧
    (GetVarPTR pvm szName = [] ↔ ∀ q ∈ pvm, q.szName ≠ szName) :=
  ⟨GetVarPTR_split pvm szName, GetVarPTR_head pvm szName, GetVarPTR_eq_nil pvm szName⟩

/-- C2: with a non-null name, `AddEquation` returns 0 and makes the head of the
stack a record with the given name, kind and equation (absent for an absent
text, present for a present one, so the empty text is not the absent one), in
front of the old stack; a lookup of the name then returns the new record. -/
theorem C2_AddEquation_prepends (pvm : PVMMAPSTRCT) (szName : String) (szEqn : Option String)
    (hType : HANDLE) :
    (AddEquation (some pvm) (some szName) szEqn hType).1 = 0 ∧
    (AddEquation (some pvm) (some szName) szEqn hType).2
      = some ({ szName := szName, szEqn := szEqn.map EQN.text, hType := hType } :: pvm) ∧
    ((szEqn.map EQN.text = none ↔ szEqn = none) ∧
      (none : Option String).map EQN.text ≠ (some "").map EQN.text) ∧
    GetVarPTR ((AddEquation (some pvm) (some szName) szEqn hType).2.getD pvm) szName
      = { szName := szName, szEqn := szEqn.map EQN.text, hType := hType } :: pvm := by
  rw [AddEquation_some]
  refine ⟨rfl, rfl, ⟨?_, by simp⟩, ?_⟩
  · cases szEqn <;> simp
  · simp [GetVarPTR]

theorem ReversePointers_loop_eq (pvmPrev pvm : PVMMAPSTRCT) :
    ReversePointers.loop pvmPrev pvm = pvm.reverse ++ pvmPrev := by
  induction pvm generalizing pvmPrev with
  | nil => simp [ReversePointers.loop]
  | cons r rest ih => simp [ReversePointers.loop, ih]

theorem insertAll_eq (pvm : PVMMAPSTRCT) (xs : List INSERTION) :
    insertAll pvm xs = (xs.map INSERTION.record).reverse ++ pvm := by
  induction xs generalizing pvm with
  | nil => simp [insertAll]
  | cons x xs ih => simp [insertAll, AddEquation_some, ih, INSERTION.record]

/-- C3: on the stack `a` (Parameter), `b` (State), `c` (Parameter), the handle
that `CalculateVarHandle` computes for `a` is the Parameter tag with ordinal 0,
although one Parameter record (`c`) comes after `a`: the count stops at `b`. -/
theorem C3_CalculateVarHandle_stops_at_other_kind :
    mixedStack = [⟨"a", some (EQN.text "1"), ID_PARM⟩, ⟨"b", none, ID_STATE⟩,
      ⟨"c", some (EQN.text "2"), ID_PARM⟩] ∧
    CalculateVarHandle mixedStack "a" = ID_PARM ||| 0 ∧
    countSameType ID_PARM (GetVarPTR mixedStack "a").tail = 1 ∧
    CalculateVarHandle mixedStack "a" ≠ ID_PARM ||| 1 := by
  decide

/-- C4: on the stack `a` (Parameter), `b` (State), `c` (Parameter), whose names
are pairwise distinct and which holds two Parameters, `CalculateVarHandle` gives
both Parameters the same handle, with ordinal 0: the ordinals are not 0 and 1. -/
theorem C4_handles_collide_when_interleaved :
    (mixedStack.map (fun q => q.szName)).Nodup ∧
    countSameType ID_PARM mixedStack = 2 ∧
    CalculateVarHandle mixedStack "a" = CalculateVarHandle mixedStack "c" ∧
    ["a", "c"].map (fun sz => CalculateVarHandle mixedStack sz ^^^ ID_PARM) = [0, 0] := by
  decide

/-- C5: reversing the stack built by a sequence of `AddEquation` calls on the
empty stack gives the records in the order of the calls, and reversing any
stack twice gives it back. -/
theorem C5_ReversePointers_restores_order (xs : List INSERTION) (pvm : PVMMAPSTRCT) :
    ReversePointers (insertAll [] xs) = xs.map INSERTION.record ∧
    ReversePointers (ReversePointers pvm) = pvm := by
  simp [ReversePointers, ReversePointers_loop_eq, insertAll_eq]

/-! ## Declarations -/

theorem isExit_zero : isExit 0 = false := by decide

theorem isExit_EXIT_ERROR : isExit EXIT_ERROR = true := by decide

theorem report_pInfo (pibIn : INPUTBUF) (wCode : Nat) (szMsg : String) (szAltMsg : Option String) :
    (report pibIn wCode szMsg szAltMsg).pib.pInfo = pibIn.pInfo := by
  simp only [report, ReportError]
  split <;> simp

theorem report_DUPDECL_WARNING (pibIn : INPUTBUF) (szMsg : String) (szAltMsg : Option String) :
    report pibIn (RE_DUPDECL ||| RE_WARNING) szMsg szAltMsg
      = ⟨0, pibIn, [⟨RE_DUPDECL, true, false, szMsg, szAltMsg⟩]⟩ := by
  have h1 : (RE_DUPDECL ||| RE_WARNING) &&& RE_FATAL = 0 := by decide
  have h2 : (RE_DUPDECL ||| RE_WARNING) &&& RE_WARNING = RE_WARNING := by decide
  have h3 : (RE_DUPDECL ||| RE_WARNING) ^^^
      ((RE_DUPDECL ||| RE_WARNING) &&& (RE_FATAL ||| RE_WARNING)) = RE_DUPDECL := by decide
  have h4 : RE_WARNING ≠ 0 := by decide
  simp [report, ReportError, h1, h2, h3, h4]

theorem report_DUPDECL_FATAL (pibIn : INPUTBUF) (szMsg : String) (szAltMsg : Option String) :
    report pibIn (RE_DUPDECL ||| RE_FATAL) szMsg szAltMsg
      = ⟨EXIT_ERROR, { pibIn with cErrors := pibIn.cErrors + 1 },
          [⟨RE_DUPDECL, false, true, szMsg, szAltMsg⟩]⟩ := by
  have h1 : (RE_DUPDECL ||| RE_FATAL) &&& RE_FATAL = RE_FATAL := by decide
  have h2 : (RE_DUPDECL ||| RE_FATAL) &&& RE_WARNING = 0 := by decide
  have h3 : (RE_DUPDECL ||| RE_FATAL) ^^^
      ((RE_DUPDECL ||| RE_FATAL) &&& (RE_FATAL ||| RE_WARNING)) = RE_DUPDECL := by decide
  have h4 : RE_FATAL ≠ 0 := by decide
  have h5 : RE_DUPDECL ≠ 0 := by decide
  simp [report, ReportError, h1, h2, h3, h4, h5]

theorem AddEquationGlo_eq (pibIn : INPUTBUF) (szName : String) (szEqn : Option String)
    (hType : HANDLE) :
    AddEquationGlo pibIn szName szEqn hType
      = some ⟨0, { pibIn with pInfo := { pibIn.pInfo with pvmGloVars :=
          ⟨szName, szEqn.map EQN.text, hType⟩ :: pibIn.pInfo.pvmGloVars } }, []⟩ := by
  simp [AddEquationGlo, AddEquation_some]

theorem AddEquationCpts_eq (pibIn : INPUTBUF) (szName : String) (szEqn : Option String)
    (hType : HANDLE) :
    AddEquationCpts pibIn szName szEqn hType
      = some ⟨0, { pibIn with pInfo := { pibIn.pInfo with pvmCpts :=
          ⟨szName, szEqn.map EQN.text, hType⟩ :: pibIn.pInfo.pvmCpts } }, []⟩ := by
  simp [AddEquationCpts, AddEquation_some]

/-- The four branches of `DeclareModelVar`, for a keyword code that passes its
`assert`. -/
theorem DeclareModelVar_eq (pibIn : INPUTBUF) (szName : String) (iKWCode : Int)
    (hK : iKWCode = KM_STATES ∨ iKWCode = KM_INPUTS ∨ iKWCode = KM_OUTPUTS ∨
      iKWCode = KM_COMPARTMENTS) :
    DeclareModelVar pibIn szName iKWCode =
      if GetVarType pibIn.pInfo.pvmGloVars szName = 0 then
        if declaredKind iKWCode = ID_COMPARTMENT then
          some ⟨0, { pibIn with pInfo := { pibIn.pInfo with pvmCpts :=
            ⟨szName, none, declaredKind iKWCode⟩ :: pibIn.pInfo.pvmCpts } }, []⟩
        else
          some ⟨0, { pibIn with pInfo := { pibIn.pInfo with pvmGloVars :=
            ⟨szName, none, declaredKind iKWCode⟩ :: pibIn.pInfo.pvmGloVars } }, []⟩
      else if GetVarType pibIn.pInfo.pvmGloVars szName = declaredKind iKWCode then
        some ⟨0, pibIn, [⟨RE_DUPDECL, true, false, szName, none⟩]⟩
      else if GetVarType pibIn.pInfo.pvmGloVars szName = ID_PARM then
        some ⟨0, { pibIn with pInfo := { pibIn.pInfo with pvmGloVars :=
            (SetVarType pibIn.pInfo.pvmGloVars szName (declaredKind iKWCode)) } },
          [⟨RE_DUPDECL, true, false, szName,
            some "Model variable initialized before declaration"⟩]⟩
      else
        some ⟨EXIT_ERROR, { pibIn with cErrors := pibIn.cErrors + 1 },
          [⟨RE_DUPDECL, false, true, szName, none⟩]⟩ := by
  unfold DeclareModelVar
  rw [if_pos hK]
  simp only [AddEquationGlo_eq, AddEquationCpts_eq, report_DUPDECL_WARNING, report_DUPDECL_FATAL,
    propagate, isExit_zero, isExit_EXIT_ERROR]
  split_ifs <;> first | contradiction | simp

theorem declaredKind_mask (iKWCode : Int) :
    declaredKind iKWCode &&& ID_TYPEMASK = declaredKind iKWCode := by
  unfold declaredKind
  split_ifs <;> decide

theorem declaredKind_ne_zero (iKWCode : Int) : declaredKind iKWCode ≠ 0 := by
  unfold declaredKind
  split_ifs <;> decide

theorem declaredKind_ne_PARM (iKWCode : Int) : declaredKind iKWCode ≠ ID_PARM := by
  unfold declaredKind
  split_ifs <;> decide

theorem declaredKind_ne_COMPARTMENT (iKWCode : Int)
    (hK : iKWCode = KM_STATES ∨ iKWCode = KM_INPUTS ∨ iKWCode = KM_OUTPUTS) :
    declaredKind iKWCode ≠ ID_COMPARTMENT := by
  rcases hK with h | h | h <;> subst h <;> decide

theorem declaredKind_injective (K1 K2 : Int)
    (h1 : K1 = KM_STATES ∨ K1 = KM_INPUTS ∨ K1 = KM_OUTPUTS ∨ K1 = KM_COMPARTMENTS)
    (h2 : K2 = KM_STATES ∨ K2 = KM_INPUTS ∨ K2 = KM_OUTPUTS ∨ K2 = KM_COMPARTMENTS)
    (h : declaredKind K1 = declaredKind K2) : K1 = K2 := by
  rcases h1 with h1 | h1 | h1 | h1 <;> rcases h2 with h2 | h2 | h2 | h2 <;> subst h1 <;>
    subst h2 <;> first | rfl | (exfalso; revert h; decide)

theorem GetVarType_cons_self (szName : String) (szEqn : Option EQN) (hType : HANDLE)
    (pvm : PVMMAPSTRCT) :
    GetVarType (⟨szName, szEqn, hType⟩ :: pvm) szName = hType &&& ID_TYPEMASK := by
  simp [GetVarType, GetVarPTR, TYPE]

theorem GetVarType_ne_zero_iff_found (pvm : PVMMAPSTRCT) (szName : String)
    (h : GetVarType pvm szName ≠ 0) : GetVarPTR pvm szName ≠ [] := by
  intro h0
  apply h
  simp [GetVarType, h0, TYPE, ID_NULL]

theorem GetVarPTR_SetVarType (pvm : PVMMAPSTRCT) (szName : String) (hType : HANDLE) :
    GetVarPTR (SetVarType pvm szName hType) szName =
      match GetVarPTR pvm szName with
      | [] => []
      | r :: rest => { r with hType := hType } :: rest := by
  induction pvm with
  | nil => simp [SetVarType, GetVarPTR]
  | cons r rest ih =>
    by_cases h : szName = r.szName
    · simp [SetVarType, GetVarPTR, h]
    · simp [SetVarType, GetVarPTR, h, ih]

theorem GetVarType_SetVarType (pvm : PVMMAPSTRCT) (szName : String) (hType : HANDLE)
    (h : GetVarPTR pvm szName ≠ []) :
    GetVarType (SetVarType pvm szName hType) szName = hType &&& ID_TYPEMASK := by
  unfold GetVarType
  rw [GetVarPTR_SetVarType]
  cases hp : GetVarPTR pvm szName with
  | nil => exact absurd hp h
  | cons r rest => simp [TYPE]

theorem named_SetVarType_length (pvm : PVMMAPSTRCT) (szName szOther : String) (hType : HANDLE) :
    (named (SetVarType pvm szName hType) szOther).length = (named pvm szOther).length := by
  induction pvm with
  | nil => simp [SetVarType, named]
  | cons r rest ih =>
    by_cases h : szName = r.szName
    · by_cases h2 : r.szName = szOther <;> simp [SetVarType, named, h, h2]
    · by_cases h2 : r.szName = szOther
      · simp only [SetVarType, if_neg h]
        simp only [named] at ih ⊢
        simp [h2, ih]
      · simp only [SetVarType, if_neg h]
        simp only [named] at ih ⊢
        simp [h2, ih]

/-- C6: when Global Variables holds exactly one record for a name and that
record is a Parameter, declaring the name as State, Input or Output returns 0,
makes `GetVarType` return the declared kind, and leaves exactly one record for
the name. -/
theorem C6_promotion_in_place (pibIn : INPUTBUF) (szName : String) (iKWCode : Int)
    (hK : iKWCode = KM_STATES ∨ iKWCode = KM_INPUTS ∨ iKWCode = KM_OUTPUTS)
    (hone : (named pibIn.pInfo.pvmGloVars szName).length = 1)
    (hparm : GetVarType pibIn.pInfo.pvmGloVars szName = ID_PARM) :
    ∃ o, DeclareModelVar pibIn szName iKWCode = some o ∧ o.ret = 0 ∧
      GetVarType o.pib.pInfo.pvmGloVars szName = declaredKind iKWCode ∧
      (declaredKind iKWCode = ID_STATE ∨ declaredKind iKWCode = ID_INPUT ∨
        declaredKind iKWCode = ID_OUTPUT) ∧
      (named o.pib.pInfo.pvmGloVars szName).length = 1 := by
  have hK4 : iKWCode = KM_STATES ∨ iKWCode = KM_INPUTS ∨ iKWCode = KM_OUTPUTS ∨
      iKWCode = KM_COMPARTMENTS := by tauto
  have hne0 : GetVarType pibIn.pInfo.pvmGloVars szName ≠ 0 := by rw [hparm]; decide
  have hneK : GetVarType pibIn.pInfo.pvmGloVars szName ≠ declaredKind iKWCode := by
    rw [hparm]; exact fun e => declaredKind_ne_PARM iKWCode e.symm
  rw [DeclareModelVar_eq _ _ _ hK4, if_neg hne0, if_neg hneK, if_pos hparm]
  refine ⟨_, rfl, rfl, ?_, ?_, ?_⟩
  · simp only
    rw [GetVarType_SetVarType _ _ _ (GetVarType_ne_zero_iff_found _ _ hne0), declaredKind_mask]
  · rcases hK with h | h | h <;> subst h <;> decide
  · simp only
    rw [named_SetVarType_length, hone]

theorem C6_promotion_in_place_witness :
    (named parmBuf.pInfo.pvmGloVars "k1").length = 1 ∧
    GetVarType parmBuf.pInfo.pvmGloVars "k1" = ID_PARM ∧
    ∃ o, DeclareModelVar parmBuf "k1" KM_STATES = some o ∧ o.ret = 0 ∧
      GetVarType o.pib.pInfo.pvmGloVars "k1" = declaredKind KM_STATES ∧
      (declaredKind KM_STATES = ID_STATE ∨ declaredKind KM_STATES = ID_INPUT ∨
        declaredKind KM_STATES = ID_OUTPUT) ∧
      (named o.pib.pInfo.pvmGloVars "k1").length = 1 :=
  ⟨by decide, by decide,
    C6_promotion_in_place parmBuf "k1" KM_STATES (Or.inl rfl) (by decide) (by decide)⟩

/-- After a non-fatal declaration of a name as State, Input or Output, the name
is visible in Global Variables with the declared kind. -/
theorem GetVarType_after_DeclareModelVar (pibIn : INPUTBUF) (szName : String) (iKWCode : Int)
    (hK : iKWCode = KM_STATES ∨ iKWCode = KM_INPUTS ∨ iKWCode = KM_OUTPUTS)
    (o : OUTCOME) (hcall : DeclareModelVar pibIn szName iKWCode = some o) (hret : o.ret = 0) :
    GetVarType o.pib.pInfo.pvmGloVars szName = declaredKind iKWCode := by
  have hK4 : iKWCode = KM_STATES ∨ iKWCode = KM_INPUTS ∨ iKWCode = KM_OUTPUTS ∨
      iKWCode = KM_COMPARTMENTS := by tauto
  rw [DeclareModelVar_eq _ _ _ hK4] at hcall
  have hnc := declaredKind_ne_COMPARTMENT iKWCode hK
  by_cases h0 : GetVarType pibIn.pInfo.pvmGloVars szName = 0
  · rw [if_pos h0, if_neg hnc] at hcall
    cases hcall
    simp [GetVarType_cons_self, declaredKind_mask]
  · rw [if_neg h0] at hcall
    by_cases hs : GetVarType pibIn.pInfo.pvmGloVars szName = declaredKind iKWCode
    · rw [if_pos hs] at hcall
      cases hcall
      exact hs
    · rw [if_neg hs] at hcall
      by_cases hp : GetVarType pibIn.pInfo.pvmGloVars szName = ID_PARM
      · rw [if_pos hp] at hcall
        cases hcall
        simp only
        rw [GetVarType_SetVarType _ _ _ (GetVarType_ne_zero_iff_found _ _ h0), declaredKind_mask]
      · rw [if_neg hp] at hcall
        cases hcall
        simp [EXIT_ERROR] at hret

/-- C7 (as stated, refuted): from the empty table, declaring `x` as Compartment
and then as State makes the second call return 0, not the fatal exit code, and
the second call adds a State record to Global Variables. -/
theorem C7_counterexample_compartment_then_state :
    (declareTwice startBuf "x" KM_COMPARTMENTS KM_STATES).map
        (fun p => (p.1.ret, p.2.ret, p.1.pib.pInfo.pvmGloVars, p.2.pib.pInfo.pvmGloVars,
          p.2.pib.pInfo.pvmCpts))
      = some (0, 0, [], [⟨"x", none, ID_STATE⟩], [⟨"x", none, ID_COMPARTMENT⟩]) ∧
    (0 : Int) ≠ EXIT_ERROR := by
  decide

/-- C7 (amended): when a name has been declared as State, Input or Output by a
non-fatal call, declaring it with a different kind among State, Input, Output
and Compartment returns the fatal exit code, reports a fatal duplicate
declaration, and leaves the table (all stacks) as it was before that call. -/
theorem C7_conflicting_redeclaration_is_fatal (pibIn : INPUTBUF) (szName : String) (K1 K2 : Int)
    (h1 : K1 = KM_STATES ∨ K1 = KM_INPUTS ∨ K1 = KM_OUTPUTS)
    (h2 : K2 = KM_STATES ∨ K2 = KM_INPUTS ∨ K2 = KM_OUTPUTS ∨ K2 = KM_COMPARTMENTS)
    (hne : K1 ≠ K2)
    (o1 : OUTCOME) (hfirst : DeclareModelVar pibIn szName K1 = some o1) (hret : o1.ret = 0) :
    ∃ o2, DeclareModelVar o1.pib szName K2 = some o2 ∧ o2.ret = EXIT_ERROR ∧
      o2.out = [⟨RE_DUPDECL, false, true, szName, none⟩] ∧
      o2.pib.pInfo = o1.pib.pInfo := by
  have hty := GetVarType_after_DeclareModelVar pibIn szName K1 h1 o1 hfirst hret
  have h14 : K1 = KM_STATES ∨ K1 = KM_INPUTS ∨ K1 = KM_OUTPUTS ∨ K1 = KM_COMPARTMENTS := by tauto
  have hne0 : GetVarType o1.pib.pInfo.pvmGloVars szName ≠ 0 := by
    rw [hty]; exact declaredKind_ne_zero K1
  have hneK : GetVarType o1.pib.pInfo.pvmGloVars szName ≠ declaredKind K2 := by
    rw [hty]; exact fun e => hne (declaredKind_injective K1 K2 h14 h2 e)
  have hneP : GetVarType o1.pib.pInfo.pvmGloVars szName ≠ ID_PARM := by
    rw [hty]; exact declaredKind_ne_PARM K1
  rw [DeclareModelVar_eq _ _ _ h2, if_neg hne0, if_neg hneK, if_neg hneP]
  exact ⟨_, rfl, rfl, rfl, rfl⟩

theorem C7_conflicting_redeclaration_is_fatal_witness :
    DeclareModelVar startBuf "x" KM_STATES
      = some ⟨0, { startBuf with pInfo :=
          { InitInfo with pvmGloVars := [⟨"x", none, ID_STATE⟩] } }, []⟩ ∧
    ∃ o2, DeclareModelVar ({ startBuf with pInfo :=
          { InitInfo with pvmGloVars := [⟨"x", none, ID_STATE⟩] } }) "x" KM_OUTPUTS = some o2 ∧
      o2.ret = EXIT_ERROR ∧ o2.out = [⟨RE_DUPDECL, false, true, "x", none⟩] ∧
      o2.pib.pInfo = { InitInfo with pvmGloVars := [⟨"x", none, ID_STATE⟩] } :=
  ⟨by decide,
    C7_conflicting_redeclaration_is_fatal startBuf "x" KM_STATES KM_OUTPUTS (Or.inl rfl)
      (Or.inr (Or.inr (Or.inl rfl))) (by decide)
      ⟨0, { startBuf with pInfo := { InitInfo with pvmGloVars := [⟨"x", none, ID_STATE⟩] } }, []⟩
      (by decide) rfl⟩

/-- C9 (as stated, refuted): from the empty table, declaring `x` as Compartment
twice reports nothing at the second call and leaves two records named `x` in the
Compartments stack. -/
theorem C9_counterexample_compartment_twice :
    (declareTwice startBuf "x" KM_COMPARTMENTS KM_COMPARTMENTS).map
        (fun p => (p.2.ret, p.2.out, p.1.pib.pInfo.pvmCpts, p.2.pib.pInfo.pvmCpts))
      = some (0, [], [⟨"x", none, ID_COMPARTMENT⟩],
          [⟨"x", none, ID_COMPARTMENT⟩, ⟨"x", none, ID_COMPARTMENT⟩]) := by
  decide

/-- C9 (amended): when a name has been declared as State, Input or Output by a
non-fatal call, declaring it again with the same kind reports one
duplicate-declaration warning, returns 0 and leaves the buffer, hence every
stack, unchanged. -/
theorem C9_same_kind_redeclaration_warns (pibIn : INPUTBUF) (szName : String) (K : Int)
    (hK : K = KM_STATES ∨ K = KM_INPUTS ∨ K = KM_OUTPUTS)
    (o1 : OUTCOME) (hfirst : DeclareModelVar pibIn szName K = some o1) (hret : o1.ret = 0) :
    ∃ o2, DeclareModelVar o1.pib szName K = some o2 ∧ o2.ret = 0 ∧
      o2.out = [⟨RE_DUPDECL, true, false, szName, none⟩] ∧
      o2.pib = o1.pib := by
  have hty := GetVarType_after_DeclareModelVar pibIn szName K hK o1 hfirst hret
  have hK4 : K = KM_STATES ∨ K = KM_INPUTS ∨ K = KM_OUTPUTS ∨ K = KM_COMPARTMENTS := by tauto
  have hne0 : GetVarType o1.pib.pInfo.pvmGloVars szName ≠ 0 := by
    rw [hty]; exact declaredKind_ne_zero K
  rw [DeclareModelVar_eq _ _ _ hK4, if_neg hne0, if_pos hty]
  exact ⟨_, rfl, rfl, rfl, rfl⟩

theorem C9_same_kind_redeclaration_warns_witness :
    DeclareModelVar startBuf "x" KM_INPUTS
      = some ⟨0, { startBuf with pInfo :=
          { InitInfo with pvmGloVars := [⟨"x", none, ID_INPUT⟩] } }, []⟩ ∧
    ∃ o2, DeclareModelVar ({ startBuf with pInfo :=
          { InitInfo with pvmGloVars := [⟨"x", none, ID_INPUT⟩] } }) "x" KM_INPUTS = some o2 ∧
      o2.ret = 0 ∧ o2.out = [⟨RE_DUPDECL, true, false, "x", none⟩] ∧
      o2.pib = { startBuf with pInfo :=
          { InitInfo with pvmGloVars := [⟨"x", none, ID_INPUT⟩] } } :=
  ⟨by decide,
    C9_same_kind_redeclaration_warns startBuf "x" KM_INPUTS (Or.inr (Or.inl rfl))
      ⟨0, { startBuf with pInfo := { InitInfo with pvmGloVars := [⟨"x", none, ID_INPUT⟩] } }, []⟩
      (by decide) rfl⟩

/-! ## The Global section -/

theorem core_report (pibIn : INPUTBUF) (wCode : Nat) (szMsg : String) (szAltMsg : Option String) :
    core (report pibIn wCode szMsg szAltMsg).pib = core pibIn := by
  simp only [report, ReportError]
  split <;> simp [core]

theorem core_bDelays (pibIn : INPUTBUF) (b : Bool) :
    core { pibIn with pInfo := { pibIn.pInfo with bDelays := b } } = core pibIn := by
  simp [core]

theorem VerifyEqn_identifier_core (X : SCANNER) (pibIn : INPUTBUF) (szLex : String) (bOK : Bool) :
    core (VerifyEqn.identifier X pibIn szLex bOK).1.pib = core pibIn := by
  unfold VerifyEqn.identifier
  simp only []
  split_ifs <;> simp [core_report, core_bDelays]

theorem VerifyEqn_switch_core (X : SCANNER) (pibIn : INPUTBUF) (lx : LEXEME) (bOK : Bool) :
    core (VerifyEqn.switch X pibIn lx bOK).1.pib = core pibIn := by
  unfold VerifyEqn.switch
  split_ifs <;> simp [core_report, VerifyEqn_identifier_core]

theorem VerifyEqn_loop_core (X : SCANNER) (toks : List LEXEME) :
    ∀ (pibIn : INPUTBUF) (bReturn bOK : Bool),
      core (VerifyEqn.loop X toks pibIn bReturn bOK).pib = core pibIn := by
  induction toks with
  | nil => intro p b1 b2; simp [VerifyEqn.loop]
  | cons lx rest ih =>
    intro p b1 b2
    simp only [VerifyEqn.loop]
    split_ifs <;> simp [ih, VerifyEqn_switch_core]

/-- `VerifyEqn` changes nothing in the buffer but the error count and the delay
flag: the stacks and the context are as before. -/
theorem VerifyEqn_core (X : SCANNER) (pibIn : INPUTBUF) (szEqn : String) :
    core (VerifyEqn X pibIn szEqn).pib = core pibIn :=
  VerifyEqn_loop_core X _ pibIn true true

theorem core_eq_elim (p q : INPUTBUF) (h : core q = core p) :
    q = { p with cErrors := q.cErrors, pInfo := { p.pInfo with bDelays := q.pInfo.bDelays } } := by
  obtain ⟨a1, a2, a3, ⟨b1, b2, b3, b4, b5, b6, b7, b8, b9, b10, b11, b12, b13, b14⟩⟩ := q
  obtain ⟨c1, c2, c3, ⟨d1, d2, d3, d4, d5, d6, d7, d8, d9, d10, d11, d12, d13, d14⟩⟩ := p
  simp only [core, INPUTBUF.mk.injEq, INPUTINFO.mk.injEq] at h
  simp only [INPUTBUF.mk.injEq, INPUTINFO.mk.injEq]
  tauto

theorem named_cons (r : VMMAPSTRCT) (pvm : PVMMAPSTRCT) (szName : String) :
    named (r :: pvm) szName = if r.szName = szName then r :: named pvm szName
      else named pvm szName := by
  by_cases h : r.szName = szName <;> simp [named, h]

theorem GetVarPTR_named (pvm : PVMMAPSTRCT) (szName : String) :
    (GetVarPTR pvm szName).head? = (named pvm szName).head? := by
  induction pvm with
  | nil => simp [GetVarPTR, named]
  | cons r rest ih =>
    by_cases h : szName = r.szName
    · simp [GetVarPTR, named_cons, h]
    · rw [named_cons, if_neg (fun e => h e.symm)]
      simpa [GetVarPTR, h] using ih

theorem TYPE_head (a b : PVMMAPSTRCT) (h : a.head? = b.head?) : TYPE a = TYPE b := by
  cases a <;> cases b <;> simp_all [TYPE]

theorem GetVarType_named (pvm : PVMMAPSTRCT) (szName : String) :
    GetVarType pvm szName = TYPE (named pvm szName) :=
  TYPE_head _ _ (GetVarPTR_named pvm szName)

theorem named_SetVarType_ne (pvm : PVMMAPSTRCT) (szName szOther : String) (hType : HANDLE)
    (hne : szOther ≠ szName) :
    named (SetVarType pvm szName hType) szOther = named pvm szOther := by
  induction pvm with
  | nil => simp [SetVarType]
  | cons r rest ih =>
    by_cases h : szName = r.szName
    · have h2 : ¬ r.szName = szOther := fun e => hne (e.symm.trans h.symm)
      simp [SetVarType, h, named_cons, h2]
    · simp only [SetVarType, if_neg h, named_cons, ih]

theorem named_SetVarType_self (pvm : PVMMAPSTRCT) (szName : String) (hType : HANDLE) :
    named (SetVarType pvm szName hType) szName =
      match named pvm szName with
      | [] => []
      | r :: rest => { r with hType := hType } :: rest := by
  induction pvm with
  | nil => simp [SetVarType, named]
  | cons r rest ih =>
    by_cases h : szName = r.szName
    · simp [SetVarType, h, named_cons]
    · have h2 : ¬ r.szName = szName := fun e => h e.symm
      simp only [SetVarType, if_neg h, named_cons, if_neg h2, ih]

theorem named_setFirstEqn_ne (pvm : PVMMAPSTRCT) (szName szOther : String) (szEqn : Option EQN)
    (hne : szOther ≠ szName) :
    named (setFirstEqn pvm szName szEqn) szOther = named pvm szOther := by
  induction pvm with
  | nil => simp [setFirstEqn]
  | cons r rest ih =>
    by_cases h : szName = r.szName
    · have h2 : ¬ r.szName = szOther := fun e => hne (e.symm.trans h.symm)
      simp [setFirstEqn, h, named_cons, h2]
    · simp only [setFirstEqn, if_neg h, named_cons, ih]

theorem named_setFirstEqn_self (pvm : PVMMAPSTRCT) (szName : String) (szEqn : Option EQN) :
    named (setFirstEqn pvm szName szEqn) szName =
      match named pvm szName with
      | [] => []
      | r :: rest => { r with szEqn := szEqn } :: rest := by
  induction pvm with
  | nil => simp [setFirstEqn, named]
  | cons r rest ih =>
    by_cases h : szName = r.szName
    · simp [setFirstEqn, h, named_cons]
    · have h2 : ¬ r.szName = szName := fun e => h e.symm
      simp only [setFirstEqn, if_neg h, named_cons, if_neg h2, ih]

theorem GetVarPTR_length_le (pvm : PVMMAPSTRCT) (szName : String) :
    (GetVarPTR pvm szName).length ≤ pvm.length := by
  induction pvm with
  | nil => simp [GetVarPTR]
  | cons r rest ih =>
    by_cases h : szName = r.szName
    · simp [GetVarPTR, h]
    · simp only [GetVarPTR, if_neg h, List.length_cons]
      omega

theorem storeEqn_length (pvm : PVMMAPSTRCT) (szEqn : Option EQN) :
    storeEqn pvm pvm.length szEqn = pvm := by
  induction pvm with
  | nil => simp [storeEqn]
  | cons r rest ih => simp [storeEqn, ih]

/-- Writing the field `szEqn` through the pointer returned by `GetVarPTR` changes
the first record that carries the name. -/
theorem storeEqn_GetVarPTR (pvm : PVMMAPSTRCT) (szName : String) (szEqn : Option EQN) :
    storeEqn pvm (pvm.length - (GetVarPTR pvm szName).length) szEqn
      = setFirstEqn pvm szName szEqn := by
  induction pvm with
  | nil => simp [storeEqn, setFirstEqn]
  | cons r rest ih =>
    by_cases h : szName = r.szName
    · simp [GetVarPTR, setFirstEqn, h, storeEqn]
    · have hle := GetVarPTR_length_le rest szName
      have hpos : (r :: rest).length - (GetVarPTR rest szName).length
          = (rest.length - (GetVarPTR rest szName).length) + 1 := by
        simp only [List.length_cons]; omega
      simp only [GetVarPTR, if_neg h, setFirstEqn, hpos, storeEqn, ih]

theorem oneOrInitialised_cases (l : PVMMAPSTRCT) (h : oneOrInitialised l = true) :
    l = [] ∨ (∃ r, l = [r] ∧ r.hType &&& ID_TYPEMASK ≠ 0) ∨
    (∃ d r, l = [d, r] ∧ d.szEqn.isSome = true ∧ (d.hType = ID_STATE ∨ d.hType = ID_OUTPUT) ∧
      r.szEqn = some EQN.vszHasInitializer ∧ r.hType &&& ID_TYPEMASK = d.hType) := by
  match l, h with
  | [], _ => exact Or.inl rfl
  | [r], h =>
    refine Or.inr (Or.inl ⟨r, rfl, ?_⟩)
    simpa [oneOrInitialised] using h
  | [d, r], h =>
    refine Or.inr (Or.inr ⟨d, r, rfl, ?_⟩)
    simpa [oneOrInitialised, and_assoc] using h
  | _ :: _ :: _ :: _, h => simp [oneOrInitialised] at h

theorem TYPE_STATE_OUTPUT_ne (d : VMMAPSTRCT) (rest : PVMMAPSTRCT)
    (hd : d.hType = ID_STATE ∨ d.hType = ID_OUTPUT) :
    TYPE (d :: rest) = d.hType ∧ TYPE (d :: rest) ≠ 0 ∧ TYPE (d :: rest) ≠ ID_PARM ∧
      TYPE (d :: rest) ≠ ID_INPUT := by
  rcases hd with h | h <;> simp only [TYPE, h] <;> decide

theorem NameOK_cons (pvm : PVMMAPSTRCT) (szName : String) (szEqn : Option EQN) (hType : HANDLE)
    (hok : NameOK pvm)
    (hnew : szName = "Inline" ∨ (GetVarType pvm szName = 0 ∧ hType &&& ID_TYPEMASK ≠ 0)) :
    NameOK (⟨szName, szEqn, hType⟩ :: pvm) := by
  intro m hm
  rw [named_cons]
  by_cases h : szName = m
  · subst h
    rcases hnew with hi | ⟨h0, hk⟩
    · exact absurd hi hm
    · rw [if_pos rfl]
      rw [GetVarType_named] at h0
      rcases oneOrInitialised_cases _ (hok szName hm) with h1 | ⟨r, h1, hr⟩ | ⟨d, r, h1, -, hd, -, -⟩
      · rw [h1]; simpa [oneOrInitialised] using hk
      · rw [h1] at h0; exact absurd h0 hr
      · rw [h1] at h0; exact absurd h0 (TYPE_STATE_OUTPUT_ne d [r] hd).2.1
  · rw [if_neg h]
    exact hok m hm

theorem NameOK_SetVarType (pvm : PVMMAPSTRCT) (szName : String) (hType : HANDLE)
    (hok : NameOK pvm) (hparm : GetVarType pvm szName = ID_PARM)
    (hk : hType &&& ID_TYPEMASK ≠ 0) :
    NameOK (SetVarType pvm szName hType) := by
  intro m hm
  by_cases h : m = szName
  · subst h
    rw [named_SetVarType_self]
    rw [GetVarType_named] at hparm
    rcases oneOrInitialised_cases _ (hok m hm) with h1 | ⟨r, h1, -⟩ | ⟨d, r, h1, -, hd, -, -⟩
    · rw [h1]; rfl
    · rw [h1]; simpa [oneOrInitialised] using hk
    · rw [h1] at hparm; exact absurd hparm (TYPE_STATE_OUTPUT_ne d [r] hd).2.2.1
  · rw [named_SetVarType_ne _ _ _ _ h]
    exact hok m hm

theorem NameOK_setFirstEqn (pvm : PVMMAPSTRCT) (szName : String) (szEqn : Option EQN)
    (hok : NameOK pvm) (hinput : GetVarType pvm szName = ID_INPUT) :
    NameOK (setFirstEqn pvm szName szEqn) := by
  intro m hm
  by_cases h : m = szName
  · subst h
    rw [named_setFirstEqn_self]
    rw [GetVarType_named] at hinput
    rcases oneOrInitialised_cases _ (hok m hm) with h1 | ⟨r, h1, hr⟩ | ⟨d, r, h1, -, hd, -, -⟩
    · rw [h1]; rfl
    · rw [h1]; simpa [oneOrInitialised] using hr
    · rw [h1] at hinput; exact absurd hinput (TYPE_STATE_OUTPUT_ne d [r] hd).2.2.2
  · rw [named_setFirstEqn_ne _ _ _ _ h]
    exact hok m hm

theorem NameOK_initialise (pvm : PVMMAPSTRCT) (szName szEqn : String) (node : VMMAPSTRCT)
    (rest : PVMMAPSTRCT) (hok : NameOK pvm)
    (hnode : GetVarPTR pvm szName = node :: rest) (hnone : node.szEqn = none)
    (hkind : GetVarType pvm szName = ID_OUTPUT ∨ GetVarType pvm szName = ID_STATE) :
    NameOK (⟨szName, some (EQN.text szEqn), GetVarType pvm szName⟩ ::
      setFirstEqn pvm szName (some EQN.vszHasInitializer)) := by
  intro m hm
  rw [named_cons]
  by_cases h : szName = m
  · subst h
    rw [if_pos rfl, named_setFirstEqn_self]
    have hhead := GetVarPTR_named pvm szName
    rw [hnode] at hhead
    have hty := GetVarType_named pvm szName
    rcases oneOrInitialised_cases _ (hok szName hm) with h1 | ⟨r, h1, -⟩ | ⟨d, r, h1, hd, -, -, -⟩
    · rw [h1] at hhead; simp at hhead
    · rw [h1] at hty ⊢
      have hk : (r.hType &&& ID_TYPEMASK = ID_STATE ∨ r.hType &&& ID_TYPEMASK = ID_OUTPUT) := by
        rw [hty] at hkind; simpa [TYPE, or_comm] using hkind
      simp only [oneOrInitialised, hty, TYPE]
      rcases hk with hk | hk <;> simp [hk]
    · rw [h1] at hhead
      simp only [List.head?_cons, Option.some.injEq] at hhead
      rw [← hhead, hnone] at hd
      simp at hd
  · rw [if_neg h, named_setFirstEqn_ne _ _ _ _ (fun e => h e.symm)]
    exact hok m hm

theorem GlobalInv_glo (pinfo : INPUTINFO) (pvm : PVMMAPSTRCT) (hinv : GlobalInv pinfo)
    (hok : NameOK pvm) : GlobalInv { pinfo with pvmGloVars := pvm } :=
  ⟨hinv.1, hinv.2.1, hok⟩

theorem GlobalInv_cpts (pinfo : INPUTINFO) (pvm : PVMMAPSTRCT) (hinv : GlobalInv pinfo) :
    GlobalInv { pinfo with pvmCpts := pvm } :=
  ⟨hinv.1, hinv.2.1, hinv.2.2⟩

theorem GlobalInv_bDelays (pinfo : INPUTINFO) (b : Bool) (hinv : GlobalInv pinfo) :
    GlobalInv { pinfo with bDelays := b } :=
  ⟨hinv.1, hinv.2.1, hinv.2.2⟩

theorem propagate_done_pib (r o : OUTCOME)
    (h : propagate (some r) (fun pib => some ⟨0, pib, []⟩) = some o) : o.pib = r.pib := by
  simp only [propagate] at h
  split_ifs at h <;> simp at h <;> rw [← h]

theorem DeclareModelVar_valid (pibIn : INPUTBUF) (szName : String) (iKWCode : Int) (o : OUTCOME)
    (h : DeclareModelVar pibIn szName iKWCode = some o) :
    iKWCode = KM_STATES ∨ iKWCode = KM_INPUTS ∨ iKWCode = KM_OUTPUTS ∨
      iKWCode = KM_COMPARTMENTS := by
  by_contra hK
  simp [DeclareModelVar, hK] at h

/-- A declaration keeps the table of an analysis that stays in the Global
section well formed. -/
theorem DeclareModelVar_GlobalInv (pibIn : INPUTBUF) (szName : String) (iKWCode : Int)
    (o : OUTCOME) (hinv : GlobalInv pibIn.pInfo)
    (h : DeclareModelVar pibIn szName iKWCode = some o) : GlobalInv o.pib.pInfo := by
  have hK := DeclareModelVar_valid pibIn szName iKWCode o h
  rw [DeclareModelVar_eq _ _ _ hK] at h
  split_ifs at h with h0 hc hs hp <;> cases h
  · exact GlobalInv_cpts _ _ hinv
  · exact GlobalInv_glo _ _ hinv
      (NameOK_cons _ _ _ _ hinv.2.2 (Or.inr ⟨h0, by
        rw [declaredKind_mask]; exact declaredKind_ne_zero iKWCode⟩))
  · exact hinv
  · exact GlobalInv_glo _ _ hinv
      (NameOK_SetVarType _ _ _ hinv.2.2 hp (by
        rw [declaredKind_mask]; exact declaredKind_ne_zero iKWCode))
  · exact hinv


theorem storeGloEqn_GetVarPTR (pibIn : INPUTBUF) (szName : String) (szEqn : Option EQN) :
    storeGloEqn pibIn (GetVarPTR pibIn.pInfo.pvmGloVars szName) szEqn
      = { pibIn with pInfo := { pibIn.pInfo with pvmGloVars :=
            (setFirstEqn pibIn.pInfo.pvmGloVars szName szEqn) } } := by
  simp only [storeGloEqn, storeEqn_GetVarPTR]

/-- A definition in the Global section keeps the table of an analysis that stays
in that section well formed. -/
theorem DefineGlobalVar_GlobalInv (X : SCANNER) (pibIn : INPUTBUF) (szName szEqn : String)
    (o : OUTCOME) (hinv : GlobalInv pibIn.pInfo)
    (h : DefineGlobalVar X pibIn (GetVarPTR pibIn.pInfo.pvmGloVars szName) szName szEqn
      (GetVarType pibIn.pInfo.pvmGloVars szName) = some o) : GlobalInv o.pib.pInfo := by
  unfold DefineGlobalVar at h
  simp only [AddEquationGlo_eq] at h
  by_cases hin : szName = "Inline"
  · rw [if_pos hin] at h
    rw [propagate_done_pib _ _ h]
    exact GlobalInv_glo _ _ hinv (NameOK_cons _ _ _ _ hinv.2.2 (Or.inl hin))
  rw [if_neg hin] at h
  by_cases h0 : GetVarType pibIn.pInfo.pvmGloVars szName = ID_NULL
  · rw [if_pos h0] at h
    rw [propagate_done_pib _ _ h]
    exact GlobalInv_glo _ _ hinv (NameOK_cons _ _ _ _ hinv.2.2 (Or.inr ⟨h0, by decide⟩))
  rw [if_neg h0] at h
  by_cases hk : GetVarType pibIn.pInfo.pvmGloVars szName = ID_INPUT ∨
      GetVarType pibIn.pInfo.pvmGloVars szName = ID_OUTPUT ∨
      GetVarType pibIn.pInfo.pvmGloVars szName = ID_STATE
  · rw [if_pos hk] at h
    cases hnode : GetVarPTR pibIn.pInfo.pvmGloVars szName with
    | nil => rw [hnode] at h; simp at h
    | cons node rest =>
      have hstore := storeGloEqn_GetVarPTR pibIn szName
      have hstore2 := fun c => storeGloEqn_GetVarPTR { pibIn with cErrors := c } szName
      rw [hnode] at h hstore
      simp only [hnode] at hstore2
      simp only at h
      by_cases hnone : node.szEqn = none
      · rw [if_pos hnone] at h
        by_cases hinp : GetVarType pibIn.pInfo.pvmGloVars szName = ID_INPUT
        · rw [if_pos hinp] at h
          simp only [propagateResult, hstore2] at h
          have hset := fun e => GlobalInv_glo _ _ hinv
            (NameOK_setFirstEqn _ szName e hinv.2.2 hinp)
          split_ifs at h <;> simp at h <;> rw [← h] <;> first | exact hinv | exact hset _
        · rw [if_neg hinp, hstore] at h
          rw [propagate_done_pib _ _ h]
          have hk2 : GetVarType pibIn.pInfo.pvmGloVars szName = ID_OUTPUT ∨
              GetVarType pibIn.pInfo.pvmGloVars szName = ID_STATE := by tauto
          exact ⟨hinv.1, hinv.2.1, NameOK_initialise _ _ _ node rest hinv.2.2 hnode hnone hk2⟩
      · rw [if_neg hnone] at h
        rw [propagate_done_pib _ _ h, report_pInfo]
        exact hinv
  rw [if_neg hk] at h
  split_ifs at h <;> rw [propagate_done_pib _ _ h, report_pInfo] <;> exact hinv


theorem foreignLocal_GLOBAL (hGloVarType : HANDLE) : foreignLocal CN_GLOBAL hGloVarType = false := by
  have h1 : (CN_GLOBAL == CN_DYNAMICS) = false := by decide
  have h2 : (CN_GLOBAL == CN_SCALE) = false := by decide
  have h3 : (CN_GLOBAL == CN_JACOB) = false := by decide
  have h4 : (CN_GLOBAL == CN_EVENTS) = false := by decide
  have h5 : (CN_GLOBAL == CN_ROOTS) = false := by decide
  have h6 : (CN_GLOBAL == CN_CALCOUTPUTS) = false := by decide
  simp only [foreignLocal, h1, h2, h3, h4, h5, h6, Bool.false_and, Bool.or_self]

theorem propagate_done_some (r : Option OUTCOME) (o : OUTCOME)
    (h : propagate r (fun pib => some ⟨0, pib, []⟩) = some o) :
    ∃ o1, r = some o1 ∧ o.pib = o1.pib := by
  cases r with
  | none => simp [propagate] at h
  | some o1 => exact ⟨o1, rfl, propagate_done_pib o1 o h⟩

theorem DefineVariable_dispatch_GlobalInv (X : SCANNER) (pibIn : INPUTBUF)
    (szName szEqn : String) (iKWCode : Int) (o : OUTCOME) (hinv : GlobalInv pibIn.pInfo)
    (h : DefineVariable.dispatch X pibIn (GetVarPTR pibIn.pInfo.pvmGloVars szName) szName szEqn
      iKWCode (GetVarType pibIn.pInfo.pvmGloVars szName) = some o) :
    GlobalInv o.pib.pInfo := by
  unfold DefineVariable.dispatch at h
  simp only [hinv.1, if_true] at h
  obtain ⟨o1, h1, h2⟩ := propagate_done_some _ _ h
  rw [h2]
  exact DefineGlobalVar_GlobalInv X pibIn szName szEqn o1 hinv h1

/-- A call of `DefineVariable` in the Global section keeps the table of an
analysis that stays in that section well formed. -/
theorem DefineVariable_GlobalInv (X : SCANNER) (pibIn : INPUTBUF) (szName szEqn : Option String)
    (iKWCode : Int) (o : OUTCOME) (hinv : GlobalInv pibIn.pInfo)
    (h : DefineVariable X pibIn szName szEqn iKWCode = some o) : GlobalInv o.pib.pInfo := by
  unfold DefineVariable at h
  have hctx : ¬ pibIn.pInfo.wContext = CN_END := by rw [hinv.1]; decide
  rw [if_neg hctx] at h
  match szName, szEqn, h with
  | none, _, h => simp at h; rw [← h]; exact hinv
  | some _, none, h => simp at h; rw [← h]; exact hinv
  | some szName, some szEqn, h =>
    simp only [hinv.1, foreignLocal_GLOBAL, Bool.false_eq_true, if_false] at h
    have key : ∀ v : OUTCOME, core v.pib = core pibIn →
        propagateResult (some v) (fun ret pib =>
          if ret = 0 then some ⟨0, pib, []⟩
          else DefineVariable.dispatch X pib (GetVarPTR pibIn.pInfo.pvmGloVars szName) szName
            szEqn iKWCode (TYPE (GetVarPTR pibIn.pInfo.pvmGloVars szName))) = some o →
        GlobalInv o.pib.pInfo := by
      intro v hv hp
      have hq := core_eq_elim pibIn v.pib hv
      have hinvq : GlobalInv v.pib.pInfo := by
        rw [hq]; exact GlobalInv_bDelays _ _ hinv
      have hglo : v.pib.pInfo.pvmGloVars = pibIn.pInfo.pvmGloVars := by rw [hq]
      simp only [propagateResult] at hp
      split_ifs at hp with hex h0
      · simp at hp; rw [← hp]; exact hinvq
      · simp at hp; rw [← hp]; exact hinvq
      · simp only [Option.map_eq_some'] at hp
        obtain ⟨o2, hd, ho⟩ := hp
        rw [← ho]
        rw [← hglo] at hd
        exact DefineVariable_dispatch_GlobalInv X v.pib szName szEqn iKWCode o2 hinvq hd
    split_ifs at h
    · exact key _ (VerifyEqn_core X pibIn szEqn) h
    · exact key _ rfl h

theorem run_GlobalInv (X : SCANNER) (calls : List CALL) :
    ∀ (pibIn pibOut : INPUTBUF), GlobalInv pibIn.pInfo → run X pibIn calls = some pibOut →
      GlobalInv pibOut.pInfo := by
  induction calls with
  | nil =>
    intro p q hinv h
    simp only [run, Option.some.injEq] at h
    rw [← h]; exact hinv
  | cons c cs ih =>
    intro p q hinv h
    simp only [run] at h
    cases hc : c.exec X p with
    | none => rw [hc] at h; simp at h
    | some o =>
      rw [hc] at h
      refine ih o.pib q ?_ h
      cases c with
      | declare l n k => exact DeclareModelVar_GlobalInv { p with iLineNum := l } n k o hinv hc
      | define l n e k => exact DefineVariable_GlobalInv X { p with iLineNum := l } n e k o hinv hc

theorem GlobalInv_InitInfo : GlobalInv InitInfo :=
  ⟨rfl, ⟨rfl, rfl, rfl, rfl, rfl, rfl, rfl⟩, fun _ _ => rfl⟩


/-- C10 (as stated, refuted): from the empty table, `States { A };` followed by
`A = 1.0;` in the Global section leaves two records named `A` in Global
Variables: the record with the initial value and the flagged declaration. -/
theorem C10_counterexample_initialised_state :
    startBuf.pInfo = InitInfo ∧
    (run numberScanner startBuf initialiseCalls).map (fun p => p.pInfo.pvmGloVars)
      = some [⟨"A", some (EQN.text "1.0"), ID_STATE⟩,
          ⟨"A", some EQN.vszHasInitializer, ID_STATE⟩] ∧
    "A" ≠ "Inline" := by
  decide

/-- C10 (amended): in every table state reached from the initial table
(`InitInfo`) by `DeclareModelVar` and `DefineVariable` calls alone (which leave
the section context at Global), no stack other than Global Variables and
Compartments holds a record, and every name other than `Inline` has in Global
Variables no record, one record, or exactly two records: the record with the
initial value of a State or Output, in front of its declaration, which is
flagged `vszHasInitializer`. -/
theorem C10_global_section_records_per_name (X : SCANNER) (pibIn pibOut : INPUTBUF)
    (calls : List CALL) (hstart : pibIn.pInfo = InitInfo)
    (hrun : run X pibIn calls = some pibOut) :
    (pibOut.pInfo.pvmDynEqns = [] ∧ pibOut.pInfo.pvmScaleEqns = [] ∧
      pibOut.pInfo.pvmJacobEqns = [] ∧ pibOut.pInfo.pvmCalcOutEqns = [] ∧
      pibOut.pInfo.pvmEventEqns = [] ∧ pibOut.pInfo.pvmRootEqns = [] ∧
      pibOut.pInfo.pvmLocalCpts = []) ∧
    ∀ szName : String, szName ≠ "Inline" →
      named pibOut.pInfo.pvmGloVars szName = [] ∨
      (∃ r, named pibOut.pInfo.pvmGloVars szName = [r] ∧ r.hType &&& ID_TYPEMASK ≠ 0) ∨
      (∃ d r, named pibOut.pInfo.pvmGloVars szName = [d, r] ∧ d.szEqn.isSome = true ∧
        (d.hType = ID_STATE ∨ d.hType = ID_OUTPUT) ∧
        r.szEqn = some EQN.vszHasInitializer ∧ r.hType &&& ID_TYPEMASK = d.hType) := by
  have hinv : GlobalInv pibIn.pInfo := by rw [hstart]; exact GlobalInv_InitInfo
  have hout := run_GlobalInv X calls pibIn pibOut hinv hrun
  exact ⟨hout.2.1, fun szName hne => oneOrInitialised_cases _ (hout.2.2 szName hne)⟩

theorem C10_global_section_records_per_name_witness :
    startBuf.pInfo = InitInfo ∧
    run numberScanner startBuf initialiseCalls = some initialisedBuf ∧
    ((initialisedBuf.pInfo.pvmDynEqns = [] ∧ initialisedBuf.pInfo.pvmScaleEqns = [] ∧
      initialisedBuf.pInfo.pvmJacobEqns = [] ∧ initialisedBuf.pInfo.pvmCalcOutEqns = [] ∧
      initialisedBuf.pInfo.pvmEventEqns = [] ∧ initialisedBuf.pInfo.pvmRootEqns = [] ∧
      initialisedBuf.pInfo.pvmLocalCpts = []) ∧
    ∀ szName : String, szName ≠ "Inline" →
      named initialisedBuf.pInfo.pvmGloVars szName = [] ∨
      (∃ r, named initialisedBuf.pInfo.pvmGloVars szName = [r] ∧ r.hType &&& ID_TYPEMASK ≠ 0) ∨
      (∃ d r, named initialisedBuf.pInfo.pvmGloVars szName = [d, r] ∧ d.szEqn.isSome = true ∧
        (d.hType = ID_STATE ∨ d.hType = ID_OUTPUT) ∧
        r.szEqn = some EQN.vszHasInitializer ∧ r.hType &&& ID_TYPEMASK = d.hType)) :=
  ⟨rfl, by decide,
    C10_global_section_records_per_name numberScanner startBuf initialisedBuf initialiseCalls rfl
      (by decide)⟩

/-- C8 (as stated, refuted): from the empty table, `k1 = 1.0;` in the Global
section makes `k1` a Parameter, and declaring `k1` in `States` afterwards
returns 0 with a warning, not the fatal exit code; `k1` becomes a State. -/
theorem C8_counterexample_parameter_then_state :
    (defineThenDeclare numberScanner startBuf "k1" "1.0" 0 KM_STATES).map
        (fun p => (p.1.pib.pInfo.pvmGloVars, p.2.ret, p.2.out, p.2.pib.pInfo.pvmGloVars))
      = some ([⟨"k1", some (EQN.text "1.0"), ID_PARM⟩], 0,
          [⟨RE_DUPDECL, true, false, "k1",
            some "Model variable initialized before declaration"⟩],
          [⟨"k1", some (EQN.text "1.0"), ID_STATE⟩]) ∧
    (0 : Int) ≠ EXIT_ERROR := by
  decide


/-- C8 (amended): in the Global section, giving a value to a name that Global
Variables does not hold yet makes it a Parameter, and declaring the name in
`States` afterwards is not fatal: `DeclareModelVar` returns 0, reports the
warning that the variable was initialised before its declaration, and turns the
Parameter record into a State record in place. -/
theorem C8_initialised_parameter_is_promoted (X : SCANNER) (pibIn : INPUTBUF)
    (szName szEqn : String) (iKWCode : Int)
    (hctx : pibIn.pInfo.wContext = CN_GLOBAL)
    (hnew : GetVarPTR pibIn.pInfo.pvmGloVars szName = [])
    (hin : szName ≠ "Inline") (hkw : iKWCode ≠ KM_INLINE)
    (hver : (VerifyEqn X pibIn szEqn).ret = 1) :
    ∃ o1 o2, DefineVariable X pibIn (some szName) (some szEqn) iKWCode = some o1 ∧
      o1.ret = 0 ∧
      o1.pib.pInfo.pvmGloVars
        = ⟨szName, some (EQN.text szEqn), ID_PARM⟩ :: pibIn.pInfo.pvmGloVars ∧
      DeclareModelVar o1.pib szName KM_STATES = some o2 ∧ o2.ret = 0 ∧
      o2.out = [⟨RE_DUPDECL, true, false, szName,
        some "Model variable initialized before declaration"⟩] ∧
      o2.pib.pInfo.pvmGloVars
        = ⟨szName, some (EQN.text szEqn), ID_STATE⟩ :: pibIn.pInfo.pvmGloVars := by
  have hq := core_eq_elim pibIn (VerifyEqn X pibIn szEqn).pib (VerifyEqn_core X pibIn szEqn)
  have hvglo : (VerifyEqn X pibIn szEqn).pib.pInfo.pvmGloVars = pibIn.pInfo.pvmGloVars := by
    rw [hq]
  have hvctx : (VerifyEqn X pibIn szEqn).pib.pInfo.wContext = CN_GLOBAL := by
    rw [hq]; exact hctx
  have hend : ¬ pibIn.pInfo.wContext = CN_END := by rw [hctx]; decide
  have hex1 : isExit 1 = false := by decide
  have hnull : ¬ (ID_NULL = ID_INPUT) := by decide
  have hdef : DefineVariable X pibIn (some szName) (some szEqn) iKWCode
      = some ⟨0, { (VerifyEqn X pibIn szEqn).pib with pInfo :=
          { (VerifyEqn X pibIn szEqn).pib.pInfo with pvmGloVars :=
            (⟨szName, some (EQN.text szEqn), ID_PARM⟩ :: pibIn.pInfo.pvmGloVars) } },
          (VerifyEqn X pibIn szEqn).out⟩ := by
    unfold DefineVariable
    rw [if_neg hend]
    simp only [hctx, foreignLocal_GLOBAL, hnew, TYPE, Bool.false_eq_true, if_false, ne_eq, hkw,
      not_false_eq_true, hnull, true_or, and_self, if_true, propagateResult, hver, hex1,
      one_ne_zero, DefineVariable.dispatch, hvctx, DefineGlobalVar, hin, AddEquationGlo_eq,
      propagate, isExit_zero, hvglo]
    simp
  have hdecl : ∀ q : INPUTBUF,
      q.pInfo.pvmGloVars = ⟨szName, some (EQN.text szEqn), ID_PARM⟩ :: pibIn.pInfo.pvmGloVars →
      ∃ o2, DeclareModelVar q szName KM_STATES = some o2 ∧ o2.ret = 0 ∧
        o2.out = [⟨RE_DUPDECL, true, false, szName,
          some "Model variable initialized before declaration"⟩] ∧
        o2.pib.pInfo.pvmGloVars
          = ⟨szName, some (EQN.text szEqn), ID_STATE⟩ :: pibIn.pInfo.pvmGloVars := by
    intro q hq
    have h1 : ¬ (ID_PARM &&& ID_TYPEMASK = 0) := by decide
    have h2 : ¬ (ID_PARM &&& ID_TYPEMASK = declaredKind KM_STATES) := by decide
    have h3 : ID_PARM &&& ID_TYPEMASK = ID_PARM := by decide
    rw [DeclareModelVar_eq _ _ _ (Or.inl rfl), hq, GetVarType_cons_self, if_neg h1, if_neg h2,
      if_pos h3]
    refine ⟨_, rfl, rfl, rfl, ?_⟩
    simp [SetVarType, declaredKind]
  have hdef1 : ∃ o1, DefineVariable X pibIn (some szName) (some szEqn) iKWCode = some o1 ∧
      o1.ret = 0 ∧
      o1.pib.pInfo.pvmGloVars
        = ⟨szName, some (EQN.text szEqn), ID_PARM⟩ :: pibIn.pInfo.pvmGloVars :=
    ⟨_, hdef, rfl, rfl⟩
  obtain ⟨o1, ha, hb, hc⟩ := hdef1
  obtain ⟨o2, hd1, hd2, hd3, hd4⟩ := hdecl o1.pib hc
  exact ⟨o1, o2, ha, hb, hc, hd1, hd2, hd3, hd4⟩


theorem C8_initialised_parameter_is_promoted_witness :
    startBuf.pInfo.wContext = CN_GLOBAL ∧
    GetVarPTR startBuf.pInfo.pvmGloVars "k1" = [] ∧
    "k1" ≠ "Inline" ∧ (0 : Int) ≠ KM_INLINE ∧
    (VerifyEqn numberScanner startBuf "1.0").ret = 1 ∧
    ∃ o1 o2, DefineVariable numberScanner startBuf (some "k1") (some "1.0") 0 = some o1 ∧
      o1.ret = 0 ∧
      o1.pib.pInfo.pvmGloVars
        = ⟨"k1", some (EQN.text "1.0"), ID_PARM⟩ :: startBuf.pInfo.pvmGloVars ∧
      DeclareModelVar o1.pib "k1" KM_STATES = some o2 ∧ o2.ret = 0 ∧
      o2.out = [⟨RE_DUPDECL, true, false, "k1",
        some "Model variable initialized before declaration"⟩] ∧
      o2.pib.pInfo.pvmGloVars
        = ⟨"k1", some (EQN.text "1.0"), ID_STATE⟩ :: startBuf.pInfo.pvmGloVars :=
  ⟨by decide, by decide, by decide, by decide, by decide,
    C8_initialised_parameter_is_promoted numberScanner startBuf "k1" "1.0" 0 (by decide)
      (by decide) (by decide) (by decide) (by decide)⟩

/-! ## Records stay in place -/

theorem Grows_refl (pinfo : INPUTINFO) : Grows pinfo pinfo :=
  ⟨List.suffix_refl _, List.suffix_refl _, List.suffix_refl _, List.suffix_refl _,
    List.suffix_refl _, List.suffix_refl _, List.suffix_refl _, List.suffix_refl _,
    List.suffix_refl _⟩

theorem Grows_trans (a b c : INPUTINFO) (h1 : Grows a b) (h2 : Grows b c) : Grows a c :=
  ⟨h1.1.trans h2.1, h1.2.1.trans h2.2.1, h1.2.2.1.trans h2.2.2.1,
    h1.2.2.2.1.trans h2.2.2.2.1, h1.2.2.2.2.1.trans h2.2.2.2.2.1,
    h1.2.2.2.2.2.1.trans h2.2.2.2.2.2.1, h1.2.2.2.2.2.2.1.trans h2.2.2.2.2.2.2.1,
    h1.2.2.2.2.2.2.2.1.trans h2.2.2.2.2.2.2.2.1, h1.2.2.2.2.2.2.2.2.trans h2.2.2.2.2.2.2.2.2⟩

theorem names_eq_kinds (pvm : PVMMAPSTRCT) : names pvm = (kinds pvm).map Prod.fst := by
  simp [names, kinds]

theorem names_suffix_of_kinds (a b : PVMMAPSTRCT) (h : kinds a <:+ kinds b) :
    names a <:+ names b := by
  rw [names_eq_kinds, names_eq_kinds]
  obtain ⟨t, ht⟩ := h
  exact ⟨t.map Prod.fst, by rw [← ht, List.map_append]⟩

theorem NamesGrow_of_Grows (a b : INPUTINFO) (h : Grows a b) : NamesGrow a b :=
  ⟨names_suffix_of_kinds _ _ h.1, names_suffix_of_kinds _ _ h.2.1,
    names_suffix_of_kinds _ _ h.2.2.1, names_suffix_of_kinds _ _ h.2.2.2.1,
    names_suffix_of_kinds _ _ h.2.2.2.2.1, names_suffix_of_kinds _ _ h.2.2.2.2.2.1,
    names_suffix_of_kinds _ _ h.2.2.2.2.2.2.1, names_suffix_of_kinds _ _ h.2.2.2.2.2.2.2.1,
    names_suffix_of_kinds _ _ h.2.2.2.2.2.2.2.2⟩

theorem kinds_cons_suffix (r : VMMAPSTRCT) (pvm : PVMMAPSTRCT) :
    kinds pvm <:+ kinds (r :: pvm) :=
  ⟨[(r.szName, r.hType)], rfl⟩

theorem kinds_setFirstEqn (pvm : PVMMAPSTRCT) (szName : String) (szEqn : Option EQN) :
    kinds (setFirstEqn pvm szName szEqn) = kinds pvm := by
  induction pvm with
  | nil => rfl
  | cons r rest ih =>
    by_cases h : szName = r.szName
    · simp [setFirstEqn, h, kinds]
    · simp only [setFirstEqn, if_neg h]
      simp only [kinds, List.map_cons] at ih ⊢
      rw [ih]

theorem kinds_storeEqn (pvm : PVMMAPSTRCT) (k : Nat) (szEqn : Option EQN) :
    kinds (storeEqn pvm k szEqn) = kinds pvm := by
  induction pvm generalizing k with
  | nil => rfl
  | cons r rest ih =>
    cases k with
    | zero => simp [storeEqn, kinds]
    | succ k =>
      simp only [storeEqn]
      simp only [kinds, List.map_cons] at ih ⊢
      rw [ih]

theorem names_SetVarType (pvm : PVMMAPSTRCT) (szName : String) (hType : HANDLE) :
    names (SetVarType pvm szName hType) = names pvm := by
  induction pvm with
  | nil => rfl
  | cons r rest ih =>
    by_cases h : szName = r.szName
    · simp [SetVarType, h, names]
    · simp only [SetVarType, if_neg h]
      simp only [names, List.map_cons] at ih ⊢
      rw [ih]

theorem Grows_of_core (p q : INPUTBUF) (h : core q = core p) : Grows p.pInfo q.pInfo := by
  rw [core_eq_elim p q h]
  exact Grows_refl _

theorem GrowsTo_some (pibIn : INPUTBUF) (o : OUTCOME) (h : Grows pibIn.pInfo o.pib.pInfo) :
    GrowsTo pibIn (some o) := by
  intro o1 ho
  cases ho
  exact h

theorem GrowsTo_none (pibIn : INPUTBUF) : GrowsTo pibIn none := by
  intro o ho
  cases ho

theorem GrowsTo_done (pibIn : INPUTBUF) (ret : Int) (out : List REPORT) :
    GrowsTo pibIn (some ⟨ret, pibIn, out⟩) :=
  GrowsTo_some _ _ (Grows_refl _)

theorem GrowsTo_report (pibIn : INPUTBUF) (wCode : Nat) (szMsg : String)
    (szAltMsg : Option String) : GrowsTo pibIn (some (report pibIn wCode szMsg szAltMsg)) := by
  apply GrowsTo_some
  rw [report_pInfo]
  exact Grows_refl _

theorem GrowsTo_propagate (pibIn : INPUTBUF) (r : Option OUTCOME)
    (k : INPUTBUF → Option OUTCOME) (hr : GrowsTo pibIn r) (hk : ∀ q, GrowsTo q (k q)) :
    GrowsTo pibIn (propagate r k) := by
  intro o ho
  cases r with
  | none => simp [propagate] at ho
  | some o1 =>
    have h1 := hr o1 rfl
    simp only [propagate] at ho
    split_ifs at ho
    · cases ho; exact h1
    · simp only [Option.map_eq_some'] at ho
      obtain ⟨o2, h2, h3⟩ := ho
      rw [← h3]
      exact Grows_trans _ _ _ h1 (hk o1.pib o2 h2)

theorem GrowsTo_propagateResult (pibIn : INPUTBUF) (r : Option OUTCOME)
    (k : Int → INPUTBUF → Option OUTCOME) (hr : GrowsTo pibIn r)
    (hk : ∀ ret q, GrowsTo q (k ret q)) :
    GrowsTo pibIn (propagateResult r k) := by
  intro o ho
  cases r with
  | none => simp [propagateResult] at ho
  | some o1 =>
    have h1 := hr o1 rfl
    simp only [propagateResult] at ho
    split_ifs at ho
    · cases ho; exact h1
    · simp only [Option.map_eq_some'] at ho
      obtain ⟨o2, h2, h3⟩ := ho
      rw [← h3]
      exact Grows_trans _ _ _ h1 (hk o1.ret o1.pib o2 h2)

theorem GrowsTo_endEqn (pibIn : INPUTBUF) : GrowsTo pibIn (endEqn pibIn) :=
  GrowsTo_some _ _ (Grows_refl _)

theorem GrowsTo_AddEquationGlo (pibIn : INPUTBUF) (szName : String) (szEqn : Option String)
    (hType : HANDLE) : GrowsTo pibIn (AddEquationGlo pibIn szName szEqn hType) := by
  rw [AddEquationGlo_eq]
  apply GrowsTo_some
  have h := Grows_refl pibIn.pInfo
  exact ⟨kinds_cons_suffix _ _, h.2⟩

theorem GrowsTo_AddEquationDyn (pibIn : INPUTBUF) (szName : String) (szEqn : Option String)
    (hType : HANDLE) : GrowsTo pibIn (AddEquationDyn pibIn szName szEqn hType) := by
  simp only [AddEquationDyn, AddEquation_some, Option.getD_some]
  apply GrowsTo_some
  have h := Grows_refl pibIn.pInfo
  exact ⟨h.1, kinds_cons_suffix _ _, h.2.2⟩

theorem GrowsTo_AddEquationScale (pibIn : INPUTBUF) (szName : String) (szEqn : Option String)
    (hType : HANDLE) : GrowsTo pibIn (AddEquationScale pibIn szName szEqn hType) := by
  simp only [AddEquationScale, AddEquation_some, Option.getD_some]
  apply GrowsTo_some
  have h := Grows_refl pibIn.pInfo
  exact ⟨h.1, h.2.1, kinds_cons_suffix _ _, h.2.2.2⟩

theorem GrowsTo_AddEquationJacob (pibIn : INPUTBUF) (szName : String) (szEqn : Option String)
    (hType : HANDLE) : GrowsTo pibIn (AddEquationJacob pibIn szName szEqn hType) := by
  simp only [AddEquationJacob, AddEquation_some, Option.getD_some]
  apply GrowsTo_some
  have h := Grows_refl pibIn.pInfo
  exact ⟨h.1, h.2.1, h.2.2.1, kinds_cons_suffix _ _, h.2.2.2.2⟩

theorem GrowsTo_AddEquationCalcOut (pibIn : INPUTBUF) (szName : String) (szEqn : Option String)
    (hType : HANDLE) : GrowsTo pibIn (AddEquationCalcOut pibIn szName szEqn hType) := by
  simp only [AddEquationCalcOut, AddEquation_some, Option.getD_some]
  apply GrowsTo_some
  have h := Grows_refl pibIn.pInfo
  exact ⟨h.1, h.2.1, h.2.2.1, h.2.2.2.1, kinds_cons_suffix _ _, h.2.2.2.2.2⟩

theorem GrowsTo_AddEquationEvent (pibIn : INPUTBUF) (szName : String) (szEqn : Option String)
    (hType : HANDLE) : GrowsTo pibIn (AddEquationEvent pibIn szName szEqn hType) := by
  simp only [AddEquationEvent, AddEquation_some, Option.getD_some]
  apply GrowsTo_some
  have h := Grows_refl pibIn.pInfo
  exact ⟨h.1, h.2.1, h.2.2.1, h.2.2.2.1, h.2.2.2.2.1, kinds_cons_suffix _ _, h.2.2.2.2.2.2⟩

theorem GrowsTo_AddEquationRoot (pibIn : INPUTBUF) (szName : String) (szEqn : Option String)
    (hType : HANDLE) : GrowsTo pibIn (AddEquationRoot pibIn szName szEqn hType) := by
  simp only [AddEquationRoot, AddEquation_some, Option.getD_some]
  apply GrowsTo_some
  have h := Grows_refl pibIn.pInfo
  exact ⟨h.1, h.2.1, h.2.2.1, h.2.2.2.1, h.2.2.2.2.1, h.2.2.2.2.2.1, kinds_cons_suffix _ _,
    h.2.2.2.2.2.2.2⟩

theorem GrowsTo_AddEquationCpts (pibIn : INPUTBUF) (szName : String) (szEqn : Option String)
    (hType : HANDLE) : GrowsTo pibIn (AddEquationCpts pibIn szName szEqn hType) := by
  rw [AddEquationCpts_eq]
  apply GrowsTo_some
  have h := Grows_refl pibIn.pInfo
  exact ⟨h.1, h.2.1, h.2.2.1, h.2.2.2.1, h.2.2.2.2.1, h.2.2.2.2.2.1, h.2.2.2.2.2.2.1,
    kinds_cons_suffix _ _, h.2.2.2.2.2.2.2.2⟩

theorem Grows_storeGloEqn (pibIn : INPUTBUF) (pvm : PVMMAPSTRCT) (szEqn : Option EQN) :
    Grows pibIn.pInfo (storeGloEqn pibIn pvm szEqn).pInfo := by
  have h := Grows_refl pibIn.pInfo
  refine ⟨?_, h.2⟩
  simp only [storeGloEqn, kinds_storeEqn]
  exact List.suffix_refl _

theorem GrowsTo_trans (p q : INPUTBUF) (r : Option OUTCOME) (h1 : Grows p.pInfo q.pInfo)
    (h2 : GrowsTo q r) : GrowsTo p r :=
  fun o ho => Grows_trans _ _ _ h1 (h2 o ho)

theorem GrowsTo_DefineGlobalVar (X : SCANNER) (pibIn : INPUTBUF) (pvm : PVMMAPSTRCT)
    (szName szEqn : String) (hType : HANDLE) :
    GrowsTo pibIn (DefineGlobalVar X pibIn pvm szName szEqn hType) := by
  unfold DefineGlobalVar
  simp only []
  repeat' first
    | exact GrowsTo_none _
    | exact GrowsTo_endEqn _
    | exact GrowsTo_done _ _ _
    | exact GrowsTo_some _ _ (Grows_refl _)
    | exact GrowsTo_some _ _ (Grows_storeGloEqn _ _ _)
    | exact GrowsTo_report _ _ _ _
    | exact GrowsTo_AddEquationGlo _ _ _ _
    | exact GrowsTo_AddEquationDyn _ _ _ _
    | exact GrowsTo_AddEquationScale _ _ _ _
    | exact GrowsTo_AddEquationJacob _ _ _ _
    | exact GrowsTo_AddEquationCalcOut _ _ _ _
    | exact GrowsTo_AddEquationEvent _ _ _ _
    | exact GrowsTo_AddEquationRoot _ _ _ _
    | exact GrowsTo_AddEquationCpts _ _ _ _
    | exact GrowsTo_trans _ _ _ (Grows_storeGloEqn _ _ _) (GrowsTo_AddEquationGlo _ _ _ _)
    | (refine GrowsTo_propagate _ _ _ ?_ (fun q => ?_) <;> try beta_reduce)
    | (refine GrowsTo_propagateResult _ _ _ ?_ (fun ret q => ?_) <;> try beta_reduce)
    | split_ifs
    | split

theorem GrowsTo_DefineDynamicsEqn (pibIn : INPUTBUF) (szName szEqn : String) (hType : HANDLE) :
    GrowsTo pibIn (DefineDynamicsEqn pibIn szName szEqn hType) := by
  unfold DefineDynamicsEqn
  simp only []
  repeat' first
    | exact GrowsTo_none _
    | exact GrowsTo_endEqn _
    | exact GrowsTo_done _ _ _
    | exact GrowsTo_some _ _ (Grows_refl _)
    | exact GrowsTo_some _ _ (Grows_storeGloEqn _ _ _)
    | exact GrowsTo_report _ _ _ _
    | exact GrowsTo_AddEquationGlo _ _ _ _
    | exact GrowsTo_AddEquationDyn _ _ _ _
    | exact GrowsTo_AddEquationScale _ _ _ _
    | exact GrowsTo_AddEquationJacob _ _ _ _
    | exact GrowsTo_AddEquationCalcOut _ _ _ _
    | exact GrowsTo_AddEquationEvent _ _ _ _
    | exact GrowsTo_AddEquationRoot _ _ _ _
    | exact GrowsTo_AddEquationCpts _ _ _ _
    | exact GrowsTo_trans _ _ _ (Grows_storeGloEqn _ _ _) (GrowsTo_AddEquationGlo _ _ _ _)
    | (refine GrowsTo_propagate _ _ _ ?_ (fun q => ?_) <;> try beta_reduce)
    | split_ifs

theorem GrowsTo_DefineScaleEqn (pibIn : INPUTBUF) (szName szEqn : String) (hType : HANDLE) :
    GrowsTo pibIn (DefineScaleEqn pibIn szName szEqn hType) := by
  unfold DefineScaleEqn
  simp only []
  repeat' first
    | exact GrowsTo_none _
    | exact GrowsTo_endEqn _
    | exact GrowsTo_done _ _ _
    | exact GrowsTo_some _ _ (Grows_refl _)
    | exact GrowsTo_some _ _ (Grows_storeGloEqn _ _ _)
    | exact GrowsTo_report _ _ _ _
    | exact GrowsTo_AddEquationGlo _ _ _ _
    | exact GrowsTo_AddEquationDyn _ _ _ _
    | exact GrowsTo_AddEquationScale _ _ _ _
    | exact GrowsTo_AddEquationJacob _ _ _ _
    | exact GrowsTo_AddEquationCalcOut _ _ _ _
    | exact GrowsTo_AddEquationEvent _ _ _ _
    | exact GrowsTo_AddEquationRoot _ _ _ _
    | exact GrowsTo_AddEquationCpts _ _ _ _
    | exact GrowsTo_trans _ _ _ (Grows_storeGloEqn _ _ _) (GrowsTo_AddEquationGlo _ _ _ _)
    | (refine GrowsTo_propagate _ _ _ ?_ (fun q => ?_) <;> try beta_reduce)
    | split_ifs

theorem GrowsTo_DefineCalcOutEqn (pibIn : INPUTBUF) (szName szEqn : String) (hType : HANDLE) :
    GrowsTo pibIn (DefineCalcOutEqn pibIn szName szEqn hType) := by
  unfold DefineCalcOutEqn
  simp only []
  repeat' first
    | exact GrowsTo_none _
    | exact GrowsTo_endEqn _
    | exact GrowsTo_done _ _ _
    | exact GrowsTo_some _ _ (Grows_refl _)
    | exact GrowsTo_some _ _ (Grows_storeGloEqn _ _ _)
    | exact GrowsTo_report _ _ _ _
    | exact GrowsTo_AddEquationGlo _ _ _ _
    | exact GrowsTo_AddEquationDyn _ _ _ _
    | exact GrowsTo_AddEquationScale _ _ _ _
    | exact GrowsTo_AddEquationJacob _ _ _ _
    | exact GrowsTo_AddEquationCalcOut _ _ _ _
    | exact GrowsTo_AddEquationEvent _ _ _ _
    | exact GrowsTo_AddEquationRoot _ _ _ _
    | exact GrowsTo_AddEquationCpts _ _ _ _
    | exact GrowsTo_trans _ _ _ (Grows_storeGloEqn _ _ _) (GrowsTo_AddEquationGlo _ _ _ _)
    | (refine GrowsTo_propagate _ _ _ ?_ (fun q => ?_) <;> try beta_reduce)
    | split_ifs

theorem GrowsTo_DefineJacobEqn (pibIn : INPUTBUF) (szName szEqn : String) (hType : HANDLE) :
    GrowsTo pibIn (DefineJacobEqn pibIn szName szEqn hType) := by
  unfold DefineJacobEqn
  simp only []
  repeat' first
    | exact GrowsTo_none _
    | exact GrowsTo_endEqn _
    | exact GrowsTo_done _ _ _
    | exact GrowsTo_some _ _ (Grows_refl _)
    | exact GrowsTo_some _ _ (Grows_storeGloEqn _ _ _)
    | exact GrowsTo_report _ _ _ _
    | exact GrowsTo_AddEquationGlo _ _ _ _
    | exact GrowsTo_AddEquationDyn _ _ _ _
    | exact GrowsTo_AddEquationScale _ _ _ _
    | exact GrowsTo_AddEquationJacob _ _ _ _
    | exact GrowsTo_AddEquationCalcOut _ _ _ _
    | exact GrowsTo_AddEquationEvent _ _ _ _
    | exact GrowsTo_AddEquationRoot _ _ _ _
    | exact GrowsTo_AddEquationCpts _ _ _ _
    | exact GrowsTo_trans _ _ _ (Grows_storeGloEqn _ _ _) (GrowsTo_AddEquationGlo _ _ _ _)
    | (refine GrowsTo_propagate _ _ _ ?_ (fun q => ?_) <;> try beta_reduce)
    | split_ifs

theorem GrowsTo_DefineEventEqn (pibIn : INPUTBUF) (szName szEqn : String) (hType : HANDLE) :
    GrowsTo pibIn (DefineEventEqn pibIn szName szEqn hType) := by
  unfold DefineEventEqn
  simp only []
  repeat' first
    | exact GrowsTo_none _
    | exact GrowsTo_endEqn _
    | exact GrowsTo_done _ _ _
    | exact GrowsTo_some _ _ (Grows_refl _)
    | exact GrowsTo_some _ _ (Grows_storeGloEqn _ _ _)
    | exact GrowsTo_report _ _ _ _
    | exact GrowsTo_AddEquationGlo _ _ _ _
    | exact GrowsTo_AddEquationDyn _ _ _ _
    | exact GrowsTo_AddEquationScale _ _ _ _
    | exact GrowsTo_AddEquationJacob _ _ _ _
    | exact GrowsTo_AddEquationCalcOut _ _ _ _
    | exact GrowsTo_AddEquationEvent _ _ _ _
    | exact GrowsTo_AddEquationRoot _ _ _ _
    | exact GrowsTo_AddEquationCpts _ _ _ _
    | exact GrowsTo_trans _ _ _ (Grows_storeGloEqn _ _ _) (GrowsTo_AddEquationGlo _ _ _ _)
    | (refine GrowsTo_propagate _ _ _ ?_ (fun q => ?_) <;> try beta_reduce)
    | split_ifs

theorem GrowsTo_DefineRootEqn (pibIn : INPUTBUF) (szName szEqn : String) (hType : HANDLE) :
    GrowsTo pibIn (DefineRootEqn pibIn szName szEqn hType) := by
  unfold DefineRootEqn
  simp only []
  repeat' first
    | exact GrowsTo_none _
    | exact GrowsTo_endEqn _
    | exact GrowsTo_done _ _ _
    | exact GrowsTo_some _ _ (Grows_refl _)
    | exact GrowsTo_some _ _ (Grows_storeGloEqn _ _ _)
    | exact GrowsTo_report _ _ _ _
    | exact GrowsTo_AddEquationGlo _ _ _ _
    | exact GrowsTo_AddEquationDyn _ _ _ _
    | exact GrowsTo_AddEquationScale _ _ _ _
    | exact GrowsTo_AddEquationJacob _ _ _ _
    | exact GrowsTo_AddEquationCalcOut _ _ _ _
    | exact GrowsTo_AddEquationEvent _ _ _ _
    | exact GrowsTo_AddEquationRoot _ _ _ _
    | exact GrowsTo_AddEquationCpts _ _ _ _
    | exact GrowsTo_trans _ _ _ (Grows_storeGloEqn _ _ _) (GrowsTo_AddEquationGlo _ _ _ _)
    | (refine GrowsTo_propagate _ _ _ ?_ (fun q => ?_) <;> try beta_reduce)
    | split_ifs

theorem GrowsTo_ite (pibIn : INPUTBUF) (c : Prop) [Decidable c] (a b : Option OUTCOME)
    (ha : GrowsTo pibIn a) (hb : GrowsTo pibIn b) : GrowsTo pibIn (if c then a else b) := by
  split_ifs
  · exact ha
  · exact hb

theorem GrowsTo_dispatch (X : SCANNER) (pibIn : INPUTBUF) (pvm : PVMMAPSTRCT)
    (szName szEqn : String) (iKWCode : Int) (hGloVarType : HANDLE) :
    GrowsTo pibIn (DefineVariable.dispatch X pibIn pvm szName szEqn iKWCode hGloVarType) := by
  unfold DefineVariable.dispatch
  simp only []
  split_ifs <;> simp only [GrowsTo_propagate, GrowsTo_ite, GrowsTo_done, GrowsTo_report,
    GrowsTo_DefineGlobalVar, GrowsTo_DefineDynamicsEqn, GrowsTo_DefineScaleEqn,
    GrowsTo_DefineCalcOutEqn, GrowsTo_DefineJacobEqn, GrowsTo_DefineEventEqn,
    GrowsTo_DefineRootEqn, implies_true]

/-- A call of `DefineVariable`, in any section, only puts records in front of
the stacks: the records that were there keep their place, name and kind. -/
theorem GrowsTo_DefineVariable (X : SCANNER) (pibIn : INPUTBUF) (szName szEqn : Option String)
    (iKWCode : Int) : GrowsTo pibIn (DefineVariable X pibIn szName szEqn iKWCode) := by
  unfold DefineVariable
  split_ifs
  · exact GrowsTo_none _
  · match szName, szEqn with
    | none, _ => exact GrowsTo_done _ _ _
    | some _, none => exact GrowsTo_done _ _ _
    | some szName, some szEqn =>
      simp only []
      refine GrowsTo_propagateResult _ _ _ ?_ (fun ret q => ?_)
      · split_ifs <;> first
          | exact GrowsTo_some _ _ (Grows_of_core _ _ (VerifyEqn_core X pibIn szEqn))
          | exact GrowsTo_done _ _ _
      · split_ifs <;> first
          | exact GrowsTo_done _ _ _
          | exact GrowsTo_dispatch _ _ _ _ _ _ _

theorem NamesGrow_glo (pinfo : INPUTINFO) (pvm : PVMMAPSTRCT)
    (h : names pinfo.pvmGloVars <:+ names pvm) :
    NamesGrow pinfo { pinfo with pvmGloVars := pvm } :=
  ⟨h, List.suffix_refl _, List.suffix_refl _, List.suffix_refl _, List.suffix_refl _,
    List.suffix_refl _, List.suffix_refl _, List.suffix_refl _, List.suffix_refl _⟩

/-- C11: from the empty table, `x = 1.0;` makes `x` a Parameter, and
`Compartments { x };` then returns 0 and changes the kind of that record to
Compartment, which is none of State, Input and Output: the kind of an existing
record changes outside the promotion to State, Input or Output.  No record is
added to the Compartments stack, where the declaration of a new name as
Compartment is stored. -/
theorem C11_parameter_becomes_compartment :
    parameterThenCompartment.map
        (fun p => (p.1.pib.pInfo.pvmGloVars, p.2.ret, p.2.pib.pInfo.pvmGloVars,
          p.2.pib.pInfo.pvmCpts))
      = some ([⟨"x", some (EQN.text "1.0"), ID_PARM⟩], 0,
          [⟨"x", some (EQN.text "1.0"), ID_COMPARTMENT⟩], []) ∧
    ID_COMPARTMENT ≠ ID_STATE ∧ ID_COMPARTMENT ≠ ID_INPUT ∧ ID_COMPARTMENT ≠ ID_OUTPUT := by
  decide

/-- A `DefineVariable` call leaves every record that was in a stack in place,
with its name and kind (each old stack is what the new one ends with); a
`DeclareModelVar` call leaves every record in place with its name, and with its
kind too unless the Global kind of the declared name is Parameter; in that
case, for a declaration as State, Input or Output, the table changes by
`SetVarType` alone: the record found for the name takes the declared kind. -/
theorem records_stay_in_place :
    (∀ (X : SCANNER) (pibIn : INPUTBUF) (szName szEqn : Option String) (iKWCode : Int)
        (o : OUTCOME), DefineVariable X pibIn szName szEqn iKWCode = some o →
        Grows pibIn.pInfo o.pib.pInfo ∧ NamesGrow pibIn.pInfo o.pib.pInfo) ∧
    (∀ (pibIn : INPUTBUF) (szName : String) (iKWCode : Int) (o : OUTCOME),
        DeclareModelVar pibIn szName iKWCode = some o →
        NamesGrow pibIn.pInfo o.pib.pInfo ∧
        (GetVarType pibIn.pInfo.pvmGloVars szName ≠ ID_PARM → Grows pibIn.pInfo o.pib.pInfo) ∧
        (GetVarType pibIn.pInfo.pvmGloVars szName = ID_PARM →
          iKWCode = KM_STATES ∨ iKWCode = KM_INPUTS ∨ iKWCode = KM_OUTPUTS →
          (declaredKind iKWCode = ID_STATE ∨ declaredKind iKWCode = ID_INPUT ∨
            declaredKind iKWCode = ID_OUTPUT) ∧
          o.pib.pInfo = { pibIn.pInfo with pvmGloVars :=
            (SetVarType pibIn.pInfo.pvmGloVars szName (declaredKind iKWCode)) })) := by
  refine ⟨fun X pibIn szName szEqn iKWCode o h => ?_, fun pibIn szName iKWCode o h => ?_⟩
  · have hg := GrowsTo_DefineVariable X pibIn szName szEqn iKWCode o h
    exact ⟨hg, NamesGrow_of_Grows _ _ hg⟩
  · have hK := DeclareModelVar_valid pibIn szName iKWCode o h
    rw [DeclareModelVar_eq _ _ _ hK] at h
    have hparm0 : ID_PARM ≠ 0 := by decide
    have hr := Grows_refl pibIn.pInfo
    split_ifs at h with h0 hc hs hp <;> cases h
    · have hg : Grows pibIn.pInfo { pibIn.pInfo with pvmCpts :=
          (⟨szName, none, declaredKind iKWCode⟩ :: pibIn.pInfo.pvmCpts) } :=
        ⟨hr.1, hr.2.1, hr.2.2.1, hr.2.2.2.1, hr.2.2.2.2.1, hr.2.2.2.2.2.1, hr.2.2.2.2.2.2.1,
          kinds_cons_suffix _ _, hr.2.2.2.2.2.2.2.2⟩
      exact ⟨NamesGrow_of_Grows _ _ hg, fun _ => hg, fun hp => absurd (hp ▸ h0) hparm0⟩
    · have hg : Grows pibIn.pInfo { pibIn.pInfo with pvmGloVars :=
          (⟨szName, none, declaredKind iKWCode⟩ :: pibIn.pInfo.pvmGloVars) } :=
        ⟨kinds_cons_suffix _ _, hr.2⟩
      exact ⟨NamesGrow_of_Grows _ _ hg, fun _ => hg, fun hp => absurd (hp ▸ h0) hparm0⟩
    · exact ⟨NamesGrow_of_Grows _ _ hr, fun _ => hr,
        fun hp' => absurd (hs.symm.trans hp') (declaredKind_ne_PARM iKWCode)⟩
    · refine ⟨NamesGrow_glo _ _ ?_, fun hn => absurd hp hn, fun _ hk => ⟨?_, rfl⟩⟩
      · rw [names_SetVarType]
      · rcases hk with h | h | h <;> subst h <;> decide
    · exact ⟨NamesGrow_of_Grows _ _ hr, fun _ => hr, fun hp' => absurd hp' hp⟩

theorem records_stay_in_place_example :
    DefineVariable numberScanner startBuf (some "x") (some "1.0") 0 =
      some ⟨0, { startBuf with pInfo :=
        { InitInfo with pvmGloVars := [⟨"x", some (EQN.text "1.0"), ID_PARM⟩] } }, []⟩ ∧
    Grows startBuf.pInfo
      { InitInfo with pvmGloVars := [⟨"x", some (EQN.text "1.0"), ID_PARM⟩] } ∧
    NamesGrow startBuf.pInfo
      { InitInfo with pvmGloVars := [⟨"x", some (EQN.text "1.0"), ID_PARM⟩] } :=
  ⟨by decide,
    records_stay_in_place.1 numberScanner startBuf (some "x") (some "1.0") 0
      ⟨0, { startBuf with pInfo :=
        { InitInfo with pvmGloVars := [⟨"x", some (EQN.text "1.0"), ID_PARM⟩] } }, []⟩
      (by decide)⟩

/-! ## Verification of equations -/

/-- The status of `ReportError` on a buffer: fatal when the fatal flag is set, or
when the report counts as an error and the error count already exceeds
`MAX_ERRORS`. -/
theorem report_ret (pibIn : INPUTBUF) (wCode : Nat) (szMsg : String) (szAltMsg : Option String) :
    (report pibIn wCode szMsg szAltMsg).ret =
      if (wCode &&& RE_FATAL) ≠ 0 ∨
          ((wCode ^^^ (wCode &&& (RE_FATAL ||| RE_WARNING))) ≠ 0 ∧ (wCode &&& RE_WARNING) = 0 ∧
            pibIn.cErrors > MAX_ERRORS)
      then EXIT_ERROR else 0 := by
  simp only [report, ReportError]
  by_cases hf : (wCode &&& RE_FATAL) = 0 <;> by_cases hw : (wCode &&& RE_WARNING) = 0 <;>
    by_cases hc : (wCode ^^^ (wCode &&& (RE_FATAL ||| RE_WARNING))) = 0 <;>
    by_cases hm : pibIn.cErrors > MAX_ERRORS <;> simp [hf, hw, hc, hm]

theorem report_ret_cases (pibIn : INPUTBUF) (wCode : Nat) (szMsg : String)
    (szAltMsg : Option String) :
    (report pibIn wCode szMsg szAltMsg).ret = 0 ∨
      (report pibIn wCode szMsg szAltMsg).ret = EXIT_ERROR := by
  rw [report_ret]
  split_ifs
  · exact Or.inr rfl
  · exact Or.inl rfl

theorem report_ret_fatal (pibIn : INPUTBUF) (wCode : Nat) (szMsg : String)
    (szAltMsg : Option String) (h : (wCode &&& RE_FATAL) ≠ 0) :
    (report pibIn wCode szMsg szAltMsg).ret = EXIT_ERROR := by
  rw [report_ret, if_pos (Or.inl h)]

theorem VerifyEqn_identifier_ret (X : SCANNER) (pibIn : INPUTBUF) (szLex : String) (bOK : Bool) :
    (VerifyEqn.identifier X pibIn szLex bOK).1.ret = 0 ∨
      (VerifyEqn.identifier X pibIn szLex bOK).1.ret = EXIT_ERROR := by
  unfold VerifyEqn.identifier
  simp only []
  split_ifs <;> first
    | exact report_ret_cases _ _ _ _
    | exact Or.inl rfl

theorem VerifyEqn_switch_ret (X : SCANNER) (pibIn : INPUTBUF) (lx : LEXEME) (bOK : Bool) :
    (VerifyEqn.switch X pibIn lx bOK).1.ret = 0 ∨
      (VerifyEqn.switch X pibIn lx bOK).1.ret = EXIT_ERROR := by
  unfold VerifyEqn.switch
  split_ifs <;> first
    | exact VerifyEqn_identifier_ret _ _ _ _
    | exact report_ret_cases _ _ _ _
    | exact Or.inl rfl

/-- The identifier case of `VerifyEqn` on a name that is no keyword, no declared
variable, no built-in function, not the delay function and not an admissible
time variable: the status is the fatal exit code. -/
theorem VerifyEqn_identifier_undefined (X : SCANNER) (pibIn : INPUTBUF) (szLex : String)
    (bOK : Bool) (hkw : (X.GetKeywordCode szLex).1 = 0)
    (hvar : GetVarType pibIn.pInfo.pvmGloVars szLex = 0) (hmath : IsMathFunc szLex = false)
    (hdelay : szLex ≠ "CalcDelay")
    (htime : ¬ ((pibIn.pInfo.wContext = CN_DYNAMICS ∨ pibIn.pInfo.wContext = CN_SCALE ∨
        pibIn.pInfo.wContext = CN_CALCOUTPUTS) ∧ (szLex = VSZ_TIME ∨ szLex = VSZ_TIME_SBML))) :
    (VerifyEqn.identifier X pibIn szLex bOK).1.ret = EXIT_ERROR := by
  have hf1 : ((RE_BADCONTEXT ||| RE_FATAL) &&& RE_FATAL) ≠ 0 := by decide
  have hf2 : ((RE_UNDEFINED ||| RE_FATAL) &&& RE_FATAL) ≠ 0 := by decide
  have hd : ¬ ("CalcDelay" = szLex) := fun e => hdelay e.symm
  unfold VerifyEqn.identifier
  simp only [hkw, ne_eq, not_true_eq_false, if_false]
  by_cases hfn : GetFnType X szLex = 0
  · have htime2 : ((pibIn.pInfo.wContext == CN_DYNAMICS || pibIn.pInfo.wContext == CN_SCALE ||
          pibIn.pInfo.wContext == CN_CALCOUTPUTS) &&
        (szLex == VSZ_TIME || szLex == VSZ_TIME_SBML)) = false := by
      rw [Bool.eq_false_iff]
      intro h
      apply htime
      simpa [or_assoc] using h
    simp only [hfn, not_true_eq_false, if_false, isExit_zero, Bool.false_eq_true, hvar,
      bne_self_eq_false, hmath, Bool.or_self, IsDelayFunc, hd, decide_False, htime2,
      Bool.not_false, if_true]
    exact report_ret_fatal _ _ _ _ hf2
  · have hex : isExit (report pibIn (RE_BADCONTEXT ||| RE_FATAL) szLex none).ret = true := by
      rw [report_ret_fatal _ _ _ _ hf1]; exact isExit_EXIT_ERROR
    simp only [hfn, not_false_eq_true, if_true, hex]
    exact report_ret_fatal _ _ _ _ hf1

theorem VerifyEqn_loop_undefined (X : SCANNER) (pibIn : INPUTBUF) (lx : LEXEME)
    (hid : lx.iType = LX_IDENTIFIER) (hkw : (X.GetKeywordCode lx.szLex).1 = 0)
    (hvar : GetVarType pibIn.pInfo.pvmGloVars lx.szLex = 0)
    (hmath : IsMathFunc lx.szLex = false) (hdelay : lx.szLex ≠ "CalcDelay")
    (htime : ¬ ((pibIn.pInfo.wContext = CN_DYNAMICS ∨ pibIn.pInfo.wContext = CN_SCALE ∨
        pibIn.pInfo.wContext = CN_CALCOUTPUTS) ∧
      (lx.szLex = VSZ_TIME ∨ lx.szLex = VSZ_TIME_SBML)))
    (toks : List LEXEME) :
    ∀ (p : INPUTBUF) (bReturn bOK : Bool), core p = core pibIn →
      (∀ l ∈ toks, isExit l.ret = false) → lx ∈ toks →
      (VerifyEqn.loop X toks p bReturn bOK).ret = EXIT_ERROR := by
  induction toks with
  | nil => intro p b1 b2 _ _ hmem; simp at hmem
  | cons l rest ih =>
    intro p b1 b2 hp hlex hmem
    have hl : isExit l.ret = false := hlex l (List.mem_cons_self _ _)
    have hq := core_eq_elim pibIn p hp
    simp only [VerifyEqn.loop, hl, Bool.false_eq_true, if_false]
    by_cases hs : isExit (VerifyEqn.switch X p l b2).1.ret = true
    · rw [if_pos hs]
      rcases VerifyEqn_switch_ret X p l b2 with h0 | h1
      · rw [h0, isExit_zero] at hs; exact absurd hs (by decide)
      · exact h1
    · rw [if_neg hs]
      have hne : lx ≠ l := by
        intro e
        subst e
        apply hs
        have hundef : (VerifyEqn.identifier X p lx.szLex b2).1.ret = EXIT_ERROR := by
          apply VerifyEqn_identifier_undefined X p lx.szLex b2 hkw _ hmath hdelay
          · rw [hq]; exact htime
          · rw [hq]; exact hvar
        simp only [VerifyEqn.switch, hid, if_true, hundef, isExit_EXIT_ERROR]
      have hrest : lx ∈ rest := by
        rcases List.mem_cons.mp hmem with h | h
        · exact absurd h hne
        · exact h
      exact ih _ _ _ ((VerifyEqn_switch_core X p l b2).trans hp)
        (fun l' hl' => hlex l' (List.mem_cons_of_mem _ hl')) hrest

/-- C18: when the lexical elements of an equation are delivered without an exit
code, an identifier among them that is no keyword, no declared variable of
Global Variables, no whitelisted built-in function and not the delay function
makes `VerifyEqn` return the fatal exit code, unless it is the time variable
(`t` or `time`) and the context is Dynamics, Scale or CalcOutputs; so the time
variable is rejected in every other context. -/
theorem C18_undefined_identifier_is_fatal (X : SCANNER) (pibIn : INPUTBUF) (szEqn : String)
    (lx : LEXEME) (hmem : lx ∈ X.NextLex szEqn)
    (hlex : ∀ l ∈ X.NextLex szEqn, isExit l.ret = false)
    (hid : lx.iType = LX_IDENTIFIER) (hkw : (X.GetKeywordCode lx.szLex).1 = 0)
    (hvar : GetVarType pibIn.pInfo.pvmGloVars lx.szLex = 0)
    (hmath : IsMathFunc lx.szLex = false) (hdelay : lx.szLex ≠ "CalcDelay")
    (htime : ¬ ((pibIn.pInfo.wContext = CN_DYNAMICS ∨ pibIn.pInfo.wContext = CN_SCALE ∨
        pibIn.pInfo.wContext = CN_CALCOUTPUTS) ∧
      (lx.szLex = VSZ_TIME ∨ lx.szLex = VSZ_TIME_SBML))) :
    (VerifyEqn X pibIn szEqn).ret = EXIT_ERROR :=
  VerifyEqn_loop_undefined X pibIn lx hid hkw hvar hmath hdelay htime _ pibIn true true rfl
    hlex hmem

theorem C18_undefined_identifier_is_fatal_witness :
    (⟨0, "t", LX_IDENTIFIER⟩ : LEXEME) ∈ wordScanner.NextLex "t" ∧
    (∀ l ∈ wordScanner.NextLex "t", isExit l.ret = false) ∧
    (wordScanner.GetKeywordCode "t").1 = 0 ∧
    GetVarType startBuf.pInfo.pvmGloVars "t" = 0 ∧ IsMathFunc "t" = false ∧
    "t" ≠ "CalcDelay" ∧ startBuf.pInfo.wContext = CN_GLOBAL ∧ "t" = VSZ_TIME ∧
    (VerifyEqn wordScanner startBuf "t").ret = EXIT_ERROR :=
  ⟨by decide, by decide, by decide, by decide, by decide, by decide, by decide, by decide,
    C18_undefined_identifier_is_fatal wordScanner startBuf "t" ⟨0, "t", LX_IDENTIFIER⟩
      (by decide) (by decide) (by decide) (by decide) (by decide) (by decide) (by decide)
      (by decide)⟩

/-! ## Punctuation in equations -/

theorem VerifyEqn_switch_punct (X : SCANNER) (pibIn : INPUTBUF) (lx : LEXEME) (bOK : Bool)
    (hp : lx.iType = LX_PUNCT) : (VerifyEqn.switch X pibIn lx bOK).2 = false := by
  have h1 : LX_PUNCT ≠ LX_IDENTIFIER := by decide
  have h2 : LX_PUNCT ≠ LX_EQNPUNCT := by decide
  simp only [VerifyEqn.switch, hp, h1, h2, if_false, if_true]

/-- Once `bReturn` is false, or when a punctuation element is still to come, the
loop of `VerifyEqn` ends with `FALSE` or with the fatal exit code. -/
theorem VerifyEqn_loop_punct (X : SCANNER) (lx : LEXEME) (hp : lx.iType = LX_PUNCT)
    (toks : List LEXEME) :
    ∀ (p : INPUTBUF) (bReturn bOK : Bool), (∀ l ∈ toks, isExit l.ret = false) →
      (lx ∈ toks ∨ bReturn = false) →
      (VerifyEqn.loop X toks p bReturn bOK).ret = 0 ∨
        (VerifyEqn.loop X toks p bReturn bOK).ret = EXIT_ERROR := by
  induction toks with
  | nil =>
    intro p b1 b2 _ h
    rcases h with h | h
    · simp at h
    · left; simp [VerifyEqn.loop, h]
  | cons l rest ih =>
    intro p b1 b2 hlex h
    have hl : isExit l.ret = false := hlex l (List.mem_cons_self _ _)
    simp only [VerifyEqn.loop, hl, Bool.false_eq_true, if_false]
    by_cases hs : isExit (VerifyEqn.switch X p l b2).1.ret = true
    · rw [if_pos hs]
      exact VerifyEqn_switch_ret X p l b2
    · rw [if_neg hs]
      apply ih _ _ _ (fun l' hl' => hlex l' (List.mem_cons_of_mem _ hl'))
      rcases h with h | h
      · rcases List.mem_cons.mp h with e | e
        · right
          subst e
          rw [VerifyEqn_switch_punct X p lx b2 hp, Bool.and_false]
        · exact Or.inl e
      · right
        rw [h, Bool.false_and]

/-- The `switch` of `VerifyEqn` on an element that is no identifier, while the
error count does not exceed `MAX_ERRORS`: no exit code, and at most one error
more. -/
theorem VerifyEqn_switch_budget (X : SCANNER) (pibIn : INPUTBUF) (lx : LEXEME) (bOK : Bool)
    (hid : lx.iType ≠ LX_IDENTIFIER) (hc : pibIn.cErrors ≤ MAX_ERRORS) :
    (VerifyEqn.switch X pibIn lx bOK).1.ret = 0 ∧
      (VerifyEqn.switch X pibIn lx bOK).1.pib.cErrors ≤ pibIn.cErrors + 1 := by
  have hu1 : (RE_UNEXPECTED &&& RE_FATAL) = 0 := by decide
  have hu2 : (RE_UNEXPECTED &&& RE_WARNING) = 0 := by decide
  have hu3 : (RE_UNEXPECTED ^^^ (RE_UNEXPECTED &&& (RE_FATAL ||| RE_WARNING))) ≠ 0 := by decide
  have hm : ¬ pibIn.cErrors > MAX_ERRORS := Nat.not_lt.mpr hc
  have hr : ∀ sz alt, (report pibIn RE_UNEXPECTED sz alt).ret = 0 ∧
      (report pibIn RE_UNEXPECTED sz alt).pib.cErrors ≤ pibIn.cErrors + 1 := by
    intro sz alt
    refine ⟨?_, ?_⟩
    · rw [report_ret]
      simp [hu1, hm]
    · simp [report, ReportError, hu2, hu3]
  unfold VerifyEqn.switch
  rw [if_neg hid]
  split_ifs <;> first
    | exact hr _ _
    | exact ⟨rfl, Nat.le_succ _⟩

theorem VerifyEqn_loop_budget (X : SCANNER) (toks : List LEXEME) :
    ∀ (p : INPUTBUF) (bReturn bOK : Bool), (∀ l ∈ toks, isExit l.ret = false) →
      (∀ l ∈ toks, l.iType ≠ LX_IDENTIFIER) → p.cErrors + toks.length ≤ MAX_ERRORS + 1 →
      (VerifyEqn.loop X toks p bReturn bOK).ret ≠ EXIT_ERROR := by
  induction toks with
  | nil =>
    intro p b1 b2 _ _ _
    cases b1 <;> simp [VerifyEqn.loop] <;> decide
  | cons l rest ih =>
    intro p b1 b2 hlex hid hc
    have hl : isExit l.ret = false := hlex l (List.mem_cons_self _ _)
    have hc1 : p.cErrors ≤ MAX_ERRORS := by
      simp only [List.length_cons] at hc
      omega
    obtain ⟨h0, h1⟩ := VerifyEqn_switch_budget X p l b2 (hid l (List.mem_cons_self _ _)) hc1
    simp only [VerifyEqn.loop, hl, Bool.false_eq_true, if_false, h0, isExit_zero]
    apply ih _ _ _ (fun l' hl' => hlex l' (List.mem_cons_of_mem _ hl'))
      (fun l' hl' => hid l' (List.mem_cons_of_mem _ hl'))
    simp only [List.length_cons] at hc
    omega

/-- The kind that `DefineVariable` works with, after names local to another
section have been set aside, is the Input kind only if the Global kind is. -/
theorem TYPE_foreignLocal_INPUT (pvm : PVMMAPSTRCT) (wContext : Nat)
    (h : TYPE (if foreignLocal wContext (TYPE pvm) then [] else pvm) = ID_INPUT) :
    TYPE pvm = ID_INPUT := by
  split_ifs at h
  · exact absurd h (by decide)
  · exact h

/-- When `DefineVariable` consults `VerifyEqn` and the equation is not accepted,
it returns what `VerifyEqn` returned. -/
theorem DefineVariable_rejected (X : SCANNER) (pibIn : INPUTBUF) (szName szEqn : String)
    (iKWCode : Int) (hctx : pibIn.pInfo.wContext ≠ CN_END) (hkw : iKWCode ≠ KM_INLINE)
    (hin : GetVarType pibIn.pInfo.pvmGloVars szName ≠ ID_INPUT ∨
      pibIn.pInfo.wContext ≠ CN_GLOBAL)
    (hret : (VerifyEqn X pibIn szEqn).ret = 0 ∨ (VerifyEqn X pibIn szEqn).ret = EXIT_ERROR) :
    DefineVariable X pibIn (some szName) (some szEqn) iKWCode = some (VerifyEqn X pibIn szEqn) := by
  have hcond : iKWCode ≠ KM_INLINE ∧
      (TYPE (if foreignLocal pibIn.pInfo.wContext (TYPE (GetVarPTR pibIn.pInfo.pvmGloVars szName))
          then [] else GetVarPTR pibIn.pInfo.pvmGloVars szName) ≠ ID_INPUT ∨
        pibIn.pInfo.wContext ≠ CN_GLOBAL) := by
    refine ⟨hkw, ?_⟩
    rcases hin with h | h
    · exact Or.inl (fun e => h (TYPE_foreignLocal_INPUT _ _ e))
    · exact Or.inr h
  unfold DefineVariable
  simp only [if_neg hctx, if_pos hcond, propagateResult]
  rcases hret with h | h
  · simp only [h, isExit_zero, Bool.false_eq_true, if_false, if_true, Option.map_some',
      List.append_nil]
    rw [← h]
  · simp [h, isExit_EXIT_ERROR]

/-- C19 (as stated, refuted): in the Global section of the empty table, an
equation that consists of the punctuation mark `;` makes `VerifyEqn` report the
unexpected element as a plain error and return `FALSE`, and `DefineVariable`
return 0, not the fatal exit code; no record is added. -/
theorem C19_counterexample_punctuation_is_not_fatal :
    VerifyEqn punctScanner startBuf ";" =
      ⟨0, { startBuf with cErrors := 1 },
        [⟨RE_UNEXPECTED, false, false, ";", some ".. in equation"⟩]⟩ ∧
    DefineVariable punctScanner startBuf (some "x") (some ";") 0 =
      some ⟨0, { startBuf with cErrors := 1 },
        [⟨RE_UNEXPECTED, false, false, ";", some ".. in equation"⟩]⟩ ∧
    (0 : Int) ≠ EXIT_ERROR := by
  decide

/-- C19 (amended): when the lexical elements of an equation are delivered
without an exit code and one of them is a raw punctuation element, `VerifyEqn`
does not accept the equation: it returns `FALSE` (0) or the fatal exit code, and
changes nothing in the table but the error count and the delay flag.  The
punctuation is not fatal by itself: if no element is an identifier and the
error count plus the number of elements does not exceed `MAX_ERRORS + 1`, the
status is `FALSE`.  `DefineVariable`, when it consults `VerifyEqn` (the keyword
code is not that of `Inline`, and the name is not an Input defined in the Global
section), returns what `VerifyEqn` returned, so it adds no record. -/
theorem C19_raw_punctuation_is_rejected (X : SCANNER) (pibIn : INPUTBUF) (szEqn : String)
    (lx : LEXEME) (hmem : lx ∈ X.NextLex szEqn)
    (hlex : ∀ l ∈ X.NextLex szEqn, isExit l.ret = false) (hp : lx.iType = LX_PUNCT) :
    ((VerifyEqn X pibIn szEqn).ret = 0 ∨ (VerifyEqn X pibIn szEqn).ret = EXIT_ERROR) ∧
    core (VerifyEqn X pibIn szEqn).pib = core pibIn ∧
    ((∀ l ∈ X.NextLex szEqn, l.iType ≠ LX_IDENTIFIER) →
      pibIn.cErrors + (X.NextLex szEqn).length ≤ MAX_ERRORS + 1 →
      (VerifyEqn X pibIn szEqn).ret = 0) ∧
    (∀ (szName : String) (iKWCode : Int), pibIn.pInfo.wContext ≠ CN_END →
      iKWCode ≠ KM_INLINE →
      (GetVarType pibIn.pInfo.pvmGloVars szName ≠ ID_INPUT ∨ pibIn.pInfo.wContext ≠ CN_GLOBAL) →
      DefineVariable X pibIn (some szName) (some szEqn) iKWCode =
        some (VerifyEqn X pibIn szEqn)) := by
  have hret := VerifyEqn_loop_punct X lx hp (X.NextLex szEqn) pibIn true true hlex (Or.inl hmem)
  refine ⟨hret, VerifyEqn_core X pibIn szEqn, ?_, ?_⟩
  · intro hid hc
    rcases hret with h | h
    · exact h
    · exact absurd h (VerifyEqn_loop_budget X (X.NextLex szEqn) pibIn true true hlex hid hc)
  · intro szName iKWCode hctx hkw hin
    exact DefineVariable_rejected X pibIn szName szEqn iKWCode hctx hkw hin hret

theorem C19_raw_punctuation_is_rejected_witness :
    (⟨0, ";", LX_PUNCT⟩ : LEXEME) ∈ punctScanner.NextLex ";" ∧
    (∀ l ∈ punctScanner.NextLex ";", isExit l.ret = false) ∧
    (VerifyEqn punctScanner startBuf ";").ret = 0 ∧
    DefineVariable punctScanner startBuf (some "x") (some ";") 0 =
      some (VerifyEqn punctScanner startBuf ";") :=
  ⟨by decide, by decide,
    (C19_raw_punctuation_is_rejected punctScanner startBuf ";" ⟨0, ";", LX_PUNCT⟩
      (by decide) (by decide) (by decide)).2.2.1 (by decide) (by decide),
    (C19_raw_punctuation_is_rejected punctScanner startBuf ";" ⟨0, ";", LX_PUNCT⟩
      (by decide) (by decide) (by decide)).2.2.2 "x" 0 (by decide) (by decide)
      (Or.inl (by decide))⟩

/-! ## Assignments to Inputs in Dynamics -/

theorem foreignLocal_INPUT (wContext : Nat) : foreignLocal wContext ID_INPUT = false := by
  have h1 : (ID_INPUT == ID_LOCALDYN) = false := by decide
  have h2 : (ID_INPUT == ID_LOCALSCALE) = false := by decide
  have h3 : (ID_INPUT == ID_LOCALJACOB) = false := by decide
  have h4 : (ID_INPUT == ID_LOCALEVENT) = false := by decide
  have h5 : (ID_INPUT == ID_LOCALROOT) = false := by decide
  have h6 : (ID_INPUT == ID_LOCALCALCOUT) = false := by decide
  simp only [foreignLocal, h1, h2, h3, h4, h5, h6, Bool.or_self, Bool.and_false]

/-- The warning of `DefineDynamicsEqn` for an assignment to an Input or a
Parameter. -/
theorem report_REDEF_WARNING (pibIn : INPUTBUF) (szMsg : String) (szAltMsg : Option String) :
    report pibIn (RE_REDEF ||| RE_WARNING) szMsg szAltMsg =
      ⟨0, pibIn, [⟨RE_REDEF, true, false, szMsg, szAltMsg⟩]⟩ := by
  have h1 : ((RE_REDEF ||| RE_WARNING) &&& RE_FATAL) = 0 := by decide
  have h2 : ((RE_REDEF ||| RE_WARNING) &&& RE_WARNING) ≠ 0 := by decide
  have h3 : ((RE_REDEF ||| RE_WARNING) ^^^ ((RE_REDEF ||| RE_WARNING) &&&
      (RE_FATAL ||| RE_WARNING))) = RE_REDEF := by decide
  simp [report, ReportError, h1, h2, h3]

/-- The Dynamics rule of `DefineVariable.dispatch` for a plain assignment to a
name of Input kind: a warning, status 0, and only `iLNPrev` is updated. -/
theorem DefineVariable_dispatch_INPUT (X : SCANNER) (pibIn : INPUTBUF) (pvm : PVMMAPSTRCT)
    (szName szEqn : String) (iKWCode : Int) (hctx : pibIn.pInfo.wContext = CN_DYNAMICS)
    (hname : szName ≠ "Inline") (hdxdt : iKWCode ≠ KM_DXDT) (hfn : iKWCode ≠ KM_FUNCTION) :
    DefineVariable.dispatch X pibIn pvm szName szEqn iKWCode ID_INPUT =
      some ⟨0, { pibIn with iLNPrev := pibIn.iLineNum },
        [⟨RE_REDEF, true, false, szName,
          some "  Inputs and parameters cannot be assigned in Dynamics\n"⟩]⟩ := by
  have c1 : CN_DYNAMICS ≠ CN_GLOBAL := by decide
  have t1 : ID_INPUT ≠ ID_NULL := by decide
  have t2 : ID_INPUT ≠ ID_LOCALDYN := by decide
  have t3 : ID_INPUT ≠ ID_FUNCTION := by decide
  have t4 : ¬ (ID_INPUT = ID_DERIV ∨ ID_INPUT = ID_STATE ∨ ID_INPUT = ID_OUTPUT) := by decide
  have t6 : ¬ (ID_INPUT = ID_STATE ∧ iKWCode ≠ KM_DXDT) := fun h => absurd h.1 (by decide)
  simp only [DefineVariable.dispatch, hctx, c1, if_false, if_true, hdxdt, hfn, DefineDynamicsEqn,
    hname, t1, t2, t3, t4, t6, true_or, report_REDEF_WARNING, propagate, endEqn, isExit_zero,
    Bool.false_eq_true, Option.map_some', List.append_nil, List.nil_append]

/-- C20 (as stated, refuted): in the Dynamics section, with `Dose` declared as
an Input, the assignment `Dose = 1.0;` makes `DefineVariable` return 0 with a
redefinition warning, not the fatal exit code; no record is added. -/
theorem C20_counterexample_input_assigned_in_dynamics :
    GetVarType inputDoseBuf.pInfo.pvmGloVars "Dose" = ID_INPUT ∧
    inputDoseBuf.pInfo.wContext = CN_DYNAMICS ∧
    DefineVariable numberScanner inputDoseBuf (some "Dose") (some "1.0") 0 =
      some ⟨0, { inputDoseBuf with iLNPrev := 3 },
        [⟨RE_REDEF, true, false, "Dose",
          some "  Inputs and parameters cannot be assigned in Dynamics\n"⟩]⟩ ∧
    (0 : Int) ≠ EXIT_ERROR := by
  decide

/-- C20 (amended): in the Dynamics context, a plain assignment (the keyword code
is none of `dt`, `Function` and `Inline`) to a name other than `Inline` whose
Global kind is Input adds no record to any stack and is not fatal by itself:
`DefineVariable` returns an exit code only when `VerifyEqn` returned one for the
equation, and 0 otherwise; for an equation that `VerifyEqn` accepts it reports
the redefinition warning that inputs and parameters cannot be assigned in
Dynamics, and changes the buffer after `VerifyEqn` only in `iLNPrev`. -/
theorem C20_input_assignment_in_dynamics_warns (X : SCANNER) (pibIn : INPUTBUF)
    (szName szEqn : String) (iKWCode : Int) (hctx : pibIn.pInfo.wContext = CN_DYNAMICS)
    (hin : GetVarType pibIn.pInfo.pvmGloVars szName = ID_INPUT) (hname : szName ≠ "Inline")
    (hdxdt : iKWCode ≠ KM_DXDT) (hfn : iKWCode ≠ KM_FUNCTION) (hinl : iKWCode ≠ KM_INLINE) :
    ∃ o, DefineVariable X pibIn (some szName) (some szEqn) iKWCode = some o ∧
      allStacks o.pib.pInfo = allStacks pibIn.pInfo ∧
      o.ret = (if isExit (VerifyEqn X pibIn szEqn).ret then (VerifyEqn X pibIn szEqn).ret else 0) ∧
      (isExit (VerifyEqn X pibIn szEqn).ret = false → (VerifyEqn X pibIn szEqn).ret ≠ 0 →
        o.pib = { (VerifyEqn X pibIn szEqn).pib with
          iLNPrev := (VerifyEqn X pibIn szEqn).pib.iLineNum } ∧
        o.out = (VerifyEqn X pibIn szEqn).out ++ [⟨RE_REDEF, true, false, szName,
          some "  Inputs and parameters cannot be assigned in Dynamics\n"⟩]) := by
  have hq := core_eq_elim pibIn (VerifyEqn X pibIn szEqn).pib (VerifyEqn_core X pibIn szEqn)
  have hstacks : allStacks (VerifyEqn X pibIn szEqn).pib.pInfo = allStacks pibIn.pInfo := by
    rw [hq]
    rfl
  have hT : TYPE (GetVarPTR pibIn.pInfo.pvmGloVars szName) = ID_INPUT := hin
  have c0 : CN_DYNAMICS ≠ CN_END := by decide
  have c1 : CN_DYNAMICS ≠ CN_GLOBAL := by decide
  have hctx2 : (VerifyEqn X pibIn szEqn).pib.pInfo.wContext = CN_DYNAMICS := by
    rw [hq]; exact hctx
  unfold DefineVariable
  simp only [hctx, c0, if_false, hT, foreignLocal_INPUT, Bool.false_eq_true, hinl, ne_eq,
    not_false_eq_true, c1, or_true, and_self, if_true, propagateResult]
  by_cases hex : isExit (VerifyEqn X pibIn szEqn).ret = true
  · simp only [hex, if_true]
    exact ⟨_, rfl, hstacks, rfl, fun h => absurd h (by decide)⟩
  · by_cases h0 : (VerifyEqn X pibIn szEqn).ret = 0
    · simp only [hex, Bool.false_eq_true, if_false, h0, if_true, Option.map_some',
        List.append_nil]
      exact ⟨_, rfl, hstacks, rfl, fun _ h => absurd trivial h⟩
    · simp only [hex, Bool.false_eq_true, if_false, h0,
        DefineVariable_dispatch_INPUT X _ (GetVarPTR pibIn.pInfo.pvmGloVars szName) szName szEqn
          iKWCode hctx2 hname hdxdt hfn, Option.map_some']
      exact ⟨_, rfl, hstacks, rfl, fun _ _ => ⟨rfl, rfl⟩⟩

theorem C20_input_assignment_in_dynamics_warns_witness :
    inputDoseBuf.pInfo.wContext = CN_DYNAMICS ∧
    GetVarType inputDoseBuf.pInfo.pvmGloVars "Dose" = ID_INPUT ∧
    ∃ o, DefineVariable numberScanner inputDoseBuf (some "Dose") (some "1.0") 0 = some o ∧
      allStacks o.pib.pInfo = allStacks inputDoseBuf.pInfo ∧
      o.ret = (if isExit (VerifyEqn numberScanner inputDoseBuf "1.0").ret
        then (VerifyEqn numberScanner inputDoseBuf "1.0").ret else 0) ∧
      (isExit (VerifyEqn numberScanner inputDoseBuf "1.0").ret = false →
        (VerifyEqn numberScanner inputDoseBuf "1.0").ret ≠ 0 →
        o.pib = { (VerifyEqn numberScanner inputDoseBuf "1.0").pib with
          iLNPrev := (VerifyEqn numberScanner inputDoseBuf "1.0").pib.iLineNum } ∧
        o.out = (VerifyEqn numberScanner inputDoseBuf "1.0").out ++ [⟨RE_REDEF, true, false, "Dose",
          some "  Inputs and parameters cannot be assigned in Dynamics\n"⟩]) :=
  ⟨by decide, by decide,
    C20_input_assignment_in_dynamics_warns numberScanner inputDoseBuf "Dose" "1.0" 0
      (by decide) (by decide) (by decide) (by decide) (by decide) (by decide)⟩

/-! ## Dose lists -/

theorem numeric_not_punct (lx : LEXEME) (h : numeric lx) (ch : Char) :
    ¬ (lx.iType = LX_PUNCT ∧ lx.szLex.data.head? = some ch) := by
  rintro ⟨hp, _⟩
  rcases h.2 with h | h
  · rw [h] at hp; exact absurd hp (by decide)
  · rw [h] at hp; exact absurd hp (by decide)

theorem numeric_number (lx : LEXEME) (h : numeric lx) : (LX_NUMBER &&& lx.iType) ≠ 0 := by
  rcases h.2 with h | h <;> rw [h] <;> decide

theorem EGetPunct_found (pib : INPUTBUF) (lx : LEXEME) (t : List LEXEME) (ch : Char)
    (hx : isExit lx.ret = false) (hp : lx.iType = LX_PUNCT)
    (hc : lx.szLex.data.head? = some ch) :
    EGetPunct ⟨pib, lx :: t⟩ ch = ⟨0, lx.szLex, lx.iType, ⟨pib, t⟩, []⟩ := by
  simp [EGetPunct, NextLex, hx, hp, hc]

theorem ENextLex_found (pib : INPUTBUF) (lx : LEXEME) (t : List LEXEME) (iType : Nat)
    (hx : isExit lx.ret = false) (ht : (iType &&& lx.iType) ≠ 0) :
    ENextLex ⟨pib, lx :: t⟩ iType = ⟨0, lx.szLex, lx.iType, ⟨pib, t⟩, []⟩ := by
  simp [ENextLex, NextLex, hx, ht]

theorem GetOptPunct_buf (pib : INPUTBUF) (t : List LEXEME) :
    (GetOptPunct ⟨pib, t⟩ ',').buf = ⟨pib, skipComma t⟩ ∧ (GetOptPunct ⟨pib, t⟩ ',').out = [] := by
  cases t with
  | nil => simp [GetOptPunct, skipComma]
  | cons lx rest =>
    by_cases h : lx.iType = LX_PUNCT ∧ lx.szLex.data.head? = some ','
    · simp [GetOptPunct, skipComma, h, NextLex]
    · simp only [GetOptPunct, skipComma, if_neg h, and_self]

theorem GetOptPunct_ret (pib : INPUTBUF) (t : List LEXEME)
    (h : ∀ l ∈ t, isExit l.ret = false) : isExit (GetOptPunct ⟨pib, t⟩ ',').ret = false := by
  cases t with
  | nil => simp [GetOptPunct, isExit_zero]
  | cons lx rest =>
    have hx := h lx (List.mem_cons_self _ _)
    by_cases hp : lx.iType = LX_PUNCT ∧ lx.szLex.data.head? = some ','
    · simp only [GetOptPunct, if_pos hp, NextLex, hx, Bool.false_eq_true, if_false]
      decide
    · simp only [GetOptPunct, if_neg hp, isExit_zero]

theorem skipComma_sepd (x : Bool × LEXEME) (xs : List (Bool × LEXEME)) (t : List LEXEME)
    (hx : numeric x.2) : skipComma (sepd (x :: xs) ++ t) = x.2 :: (sepd xs ++ t) := by
  obtain ⟨b, lx⟩ := x
  have hc : commaLex.iType = LX_PUNCT ∧ commaLex.szLex.data.head? = some ',' := by decide
  cases b
  · simp only [sepd, List.cons_append, skipComma, if_neg (numeric_not_punct lx hx ',')]
  · simp only [sepd, List.cons_append, skipComma, if_pos hc]

theorem sepd_ret (xs : List (Bool × LEXEME)) (hxs : ∀ x ∈ xs, numeric x.2) :
    ∀ l ∈ sepd xs, isExit l.ret = false := by
  induction xs with
  | nil => intro l hl; simp [sepd] at hl
  | cons x xs ih =>
    obtain ⟨b, lx⟩ := x
    have hx : numeric lx := hxs (b, lx) (List.mem_cons_self _ _)
    have ih2 := ih (fun y hy => hxs y (List.mem_cons_of_mem _ hy))
    intro l hl
    cases b <;> simp only [sepd, List.mem_cons] at hl
    · rcases hl with h | h
      · rw [h]; exact hx.1
      · exact ih2 l h
    · rcases hl with h | h | h
      · rw [h]; decide
      · rw [h]; exact hx.1
      · exact ih2 l h

theorem isExit_one : isExit 1 = false := by decide

theorem GetOptPunct_sepd_ret (pib : INPUTBUF) (xs : List (Bool × LEXEME)) (t : List LEXEME)
    (hxs : ∀ x ∈ xs, numeric x.2) (hne : xs ≠ []) :
    isExit (GetOptPunct ⟨pib, sepd xs ++ t⟩ ',').ret = false := by
  cases xs with
  | nil => exact absurd rfl hne
  | cons x xs =>
    obtain ⟨b, lx⟩ := x
    have hx : numeric lx := hxs (b, lx) (List.mem_cons_self _ _)
    cases b
    · simp only [sepd, List.cons_append, GetOptPunct,
        if_neg (numeric_not_punct lx hx ','), isExit_zero]
    · simp [sepd, GetOptPunct, NextLex, commaLex, LX_PUNCT, isExit_zero, isExit_one]

/-- The rounds of `GetNNumbers` from an index other than 0, over as many
numeric arguments as there are rounds: every argument is stored. -/
theorem GetNNumbers_loop_numeric (L : LIBC) (pib : INPUTBUF) (t : List LEXEME)
    (xs : List (Bool × LEXEME)) :
    ∀ (i : Nat) (rgd : List double), i ≠ 0 → (∀ x ∈ xs, numeric x.2) →
      GetNNumbers.loop L xs.length i ⟨pib, sepd xs ++ t⟩ rgd =
        ⟨0, ⟨pib, t⟩, fill rgd i (xs.map (litVal L)), []⟩ := by
  induction xs with
  | nil => intro i rgd _ _; simp [GetNNumbers.loop, sepd, fill]
  | cons x xs ih =>
    intro i rgd hi hxs
    have hx : numeric x.2 := hxs x (List.mem_cons_self _ _)
    have hret : isExit (GetOptPunct ⟨pib, sepd (x :: xs) ++ t⟩ ',').ret = false :=
      GetOptPunct_sepd_ret pib (x :: xs) t hxs (List.cons_ne_nil _ _)
    obtain ⟨hbuf, hout⟩ := GetOptPunct_buf pib (sepd (x :: xs) ++ t)
    rw [skipComma_sepd x xs t hx] at hbuf
    simp only [List.length_cons, GetNNumbers.loop, hi, ne_eq, not_false_eq_true, if_true, hret,
      Bool.false_eq_true, if_false, hbuf, hout, ENextLex_found pib x.2 _ LX_NUMBER hx.1
        (numeric_number x.2 hx), isExit_zero, not_true_eq_false, List.nil_append,
      ih (i + 1) _ (Nat.succ_ne_zero i) (fun y hy => hxs y (List.mem_cons_of_mem _ hy)),
      List.map_cons, fill, litVal]

theorem fill_fresh (vs : List double) : ∀ (pre : List double),
    fill (pre ++ List.replicate vs.length 0) pre.length vs = pre ++ vs := by
  induction vs with
  | nil => intro pre; simp [fill]
  | cons v vs ih =>
    intro pre
    have h := ih (pre ++ [v])
    simp only [List.length_append, List.length_singleton, List.append_assoc,
      List.singleton_append] at h
    simp only [fill, List.length_cons, List.replicate_succ]
    rw [← h]
    congr 1
    simp [List.set_append]

/-- A fresh array of the length of a list holds, after the assignments from
index 0, the values of the list. -/
theorem fill_replicate (vs : List double) (n : Nat) (h : vs.length = n) :
    fill (List.replicate n 0) 0 vs = vs := by
  subst h
  simpa using fill_fresh vs []

/-- A call of `GetNNumbers` for `n` numbers on a fresh array, when the comma in
front of the first number has been taken and `n` numeric arguments follow:
no error, and the array holds their values. -/
theorem GetNNumbers_numeric (L : LIBC) (pib : INPUTBUF) (t : List LEXEME)
    (xs : List (Bool × LEXEME))
    (n : Nat) (hn : xs.length = n) (hxs : ∀ x ∈ xs, numeric x.2) :
    GetNNumbers L ⟨pib, skipComma (sepd xs ++ t)⟩ (n : Int) (List.replicate n 0) =
      ⟨0, ⟨pib, if n = 0 then skipComma t else t⟩, xs.map (litVal L), []⟩ := by
  subst hn
  cases xs with
  | nil => simp [GetNNumbers, GetNNumbers.loop, sepd]
  | cons x xs =>
    have hx : numeric x.2 := hxs x (List.mem_cons_self _ _)
    have hfill := fill_replicate ((x :: xs).map (litVal L)) (xs.length + 1) (by simp)
    simp only [List.map_cons, fill] at hfill
    simp only [skipComma_sepd x xs t hx, GetNNumbers, List.length_cons, Int.toNat_ofNat,
      GetNNumbers.loop, ne_eq, not_true_eq_false, if_false, isExit_zero, Bool.false_eq_true,
      ENextLex_found pib x.2 _ LX_NUMBER hx.1 (numeric_number x.2 hx), List.nil_append,
      Nat.zero_add,
      GetNNumbers_loop_numeric L pib t xs 1 _ (by decide)
        (fun y hy => hxs y (List.mem_cons_of_mem _ hy)),
      Nat.succ_ne_zero, List.map_cons, litVal]
    simp only [litVal] at hfill
    rw [hfill]

/-- C12: for a dose count `n >= 1` and `3n` numeric arguments, each with or
without a comma in front of it, closed by a right parenthesis, `GetNDoses`
returns `TRUE`, consumes the arguments and the parenthesis without a report,
and leaves `nDoses = n` and three arrays of length `n`: the values of the first
`n` arguments as magnitudes, of the next `n` as start times and of the last `n`
as exposure times. -/
theorem C12_GetNDoses_reads_three_lists (L : LIBC) (pib : INPUTBUF) (pifn : IFN) (cnt : LEXEME)
    (n : Nat)
    (ms ss es : List (Bool × LEXEME)) (rest : List LEXEME) (hn : 1 ≤ n)
    (hcnt : cnt.iType = LX_INTEGER) (hret : isExit cnt.ret = false)
    (hval : L.atoi cnt.szLex = (n : Int))
    (hms : ms.length = n) (hss : ss.length = n) (hes : es.length = n)
    (hnum : ∀ x ∈ ms ++ ss ++ es, numeric x.2) :
    GetNDoses L ⟨pib, ⟨0, "(", LX_PUNCT⟩ :: cnt ::
        (sepd ms ++ (sepd ss ++ (sepd es ++ ⟨0, ")", LX_PUNCT⟩ :: rest)))⟩ pifn =
      ⟨1, ⟨pib, rest⟩,
        { pifn with nDoses := n, rgMags := some (ms.map (litVal L)), rgT0s := some (ss.map (litVal L)),
                    rgTexps := some (es.map (litVal L)) }, []⟩ ∧
    (ms.map (litVal L)).length = n ∧ (ss.map (litVal L)).length = n ∧ (es.map (litVal L)).length = n := by
  refine ⟨?_, by simp [hms], by simp [hss], by simp [hes]⟩
  have hm : ∀ x ∈ ms, numeric x.2 := fun x hx => hnum x (by simp [hx])
  have hs : ∀ x ∈ ss, numeric x.2 := fun x hx => hnum x (by simp [hx])
  have he : ∀ x ∈ es, numeric x.2 := fun x hx => hnum x (by simp [hx])
  have hn0 : n ≠ 0 := by omega
  have hpos : ¬ ((n : Int) ≤ 0) := by omega
  have hint : (LX_INTEGER &&& cnt.iType) ≠ 0 := by rw [hcnt]; decide
  have hlp : EGetPunct ⟨pib, ⟨0, "(", LX_PUNCT⟩ :: cnt ::
      (sepd ms ++ (sepd ss ++ (sepd es ++ ⟨0, ")", LX_PUNCT⟩ :: rest)))⟩ CH_LPAREN =
      ⟨0, "(", LX_PUNCT, ⟨pib, cnt ::
        (sepd ms ++ (sepd ss ++ (sepd es ++ ⟨0, ")", LX_PUNCT⟩ :: rest)))⟩, []⟩ :=
    EGetPunct_found pib ⟨0, "(", LX_PUNCT⟩ _ CH_LPAREN (by decide) rfl (by decide)
  have hrp : EGetPunct ⟨pib, ⟨0, ")", LX_PUNCT⟩ :: rest⟩ CH_RPAREN =
      ⟨0, ")", LX_PUNCT, ⟨pib, rest⟩, []⟩ :=
    EGetPunct_found pib ⟨0, ")", LX_PUNCT⟩ _ CH_RPAREN (by decide) rfl (by decide)
  have h1 := GetOptPunct_buf pib (sepd ms ++ (sepd ss ++ (sepd es ++ ⟨0, ")", LX_PUNCT⟩ :: rest)))
  have h2 := GetOptPunct_buf pib (sepd ss ++ (sepd es ++ ⟨0, ")", LX_PUNCT⟩ :: rest))
  have h3 := GetOptPunct_buf pib (sepd es ++ ⟨0, ")", LX_PUNCT⟩ :: rest)
  have hclean : ∀ (xs : List (Bool × LEXEME)) (t : List LEXEME), (∀ x ∈ xs, numeric x.2) →
      xs ≠ [] → isExit (GetOptPunct ⟨pib, sepd xs ++ t⟩ ',').ret = false :=
    fun xs t hxs hne => GetOptPunct_sepd_ret pib xs t hxs hne
  have hne : ∀ xs : List (Bool × LEXEME), xs.length = n → xs ≠ [] := by
    intro xs hl e
    rw [e] at hl
    exact hn0 hl.symm
  simp only [GetNDoses, hlp, isExit_zero, Bool.false_eq_true, if_false, ne_eq, not_true_eq_false,
    ENextLex_found pib cnt _ LX_INTEGER hret hint, hval, hpos, Int.toNat_ofNat,
    GetNDoses.lists, GetNDoses.starts, GetNDoses.exposures, GetNDoses.close,
    hclean ms _ hm (hne ms hms), hclean ss _ hs (hne ss hss),
    hclean es _ he (hne es hes), h1.1, h1.2, h2.1, h2.2, h3.1, h3.2, Option.getD_some,
    GetNNumbers_numeric L pib _ ms n hms hm, GetNNumbers_numeric L pib _ ss n hss hs,
    GetNNumbers_numeric L pib _ es n hes he, hn0, true_and, hrp, GetNDoses.exit, List.append_nil,
    if_true]

theorem C12_GetNDoses_reads_three_lists_witness :
    (1 ≤ 2) ∧ decimals.atoi "2" = 2 ∧
    (∀ x ∈ [(true, (⟨0, "10", LX_INTEGER⟩ : LEXEME)), (true, ⟨0, "20", LX_INTEGER⟩),
        (true, ⟨0, "0", LX_INTEGER⟩), (true, ⟨0, "5", LX_INTEGER⟩),
        (true, ⟨0, "1", LX_INTEGER⟩), (true, ⟨0, "1", LX_INTEGER⟩)], numeric x.2) ∧
    GetNDoses decimals ⟨startBuf, twoDoses⟩ nullIFN =
      ⟨1, ⟨startBuf, []⟩,
        { nullIFN with nDoses := 2, rgMags := some [10, 20], rgT0s := some [0, 5],
                       rgTexps := some [1, 1] }, []⟩ :=
  ⟨by decide, by decide, by decide,
    (C12_GetNDoses_reads_three_lists decimals startBuf nullIFN ⟨0, "2", LX_INTEGER⟩ 2
      [(true, ⟨0, "10", LX_INTEGER⟩), (true, ⟨0, "20", LX_INTEGER⟩)]
      [(true, ⟨0, "0", LX_INTEGER⟩), (true, ⟨0, "5", LX_INTEGER⟩)]
      [(true, ⟨0, "1", LX_INTEGER⟩), (true, ⟨0, "1", LX_INTEGER⟩)] []
      (by decide) (by decide) (by decide) (by decide) (by decide) (by decide) (by decide)
      (by decide)).1.trans (by decide)⟩

/-! ## Dose counts -/

/-- An error report without severity flag on a buffer: counted, and fatal only
when the error count already exceeds `MAX_ERRORS`. -/
theorem report_plain (pibIn : INPUTBUF) (wCode : Nat) (szMsg : String)
    (szAltMsg : Option String) (h0 : wCode ≠ 0) (hf : (wCode &&& RE_FATAL) = 0)
    (hw : (wCode &&& RE_WARNING) = 0) :
    report pibIn wCode szMsg szAltMsg =
      ⟨if pibIn.cErrors > MAX_ERRORS then EXIT_ERROR else 0,
        { pibIn with cErrors := pibIn.cErrors + 1 },
        [⟨wCode, false, decide (pibIn.cErrors > MAX_ERRORS), szMsg, szAltMsg⟩]⟩ := by
  have hx : (wCode &&& (RE_FATAL ||| RE_WARNING)) = 0 := by
    rw [Nat.and_or_distrib_left, hf, hw]
    rfl
  simp [report, ReportError, hf, hw, hx, h0]

/-- C14 (as stated, refuted): for `NDoses (0, 10, 0, 1)` read at the start of
the analysis, `GetNDoses` returns `FALSE` with a plain error report, not the
fatal exit code, and so does `GetInputFn`; no array is allocated. -/
theorem C14_counterexample_zero_count_is_not_fatal :
    decimals.atoi "0" = 0 ∧
    GetNDoses decimals ⟨startBuf, zeroDoses.tail⟩ (InitIFN nullIFN) =
      ⟨0, ⟨{ startBuf with cErrors := 1 }, zeroDoses.drop 3⟩, nullIFN,
        [⟨RE_LEXEXPECTED, false, false, "positive-integer", some "0"⟩]⟩ ∧
    GetInputFn decimals (fixedScanner zeroDoses) GetFuncArgs ⟨startBuf, []⟩ (some "NDoses (0, 10, 0, 1)")
        nullIFN =
      ⟨0, ⟨startBuf, []⟩, { nullIFN with iType := IFN_NDOSES },
        [⟨RE_LEXEXPECTED, false, false, "positive-integer", some "0"⟩]⟩ ∧
    (0 : Int) ≠ EXIT_ERROR := by
  decide

/-- C14 (amended): a dose count that is zero or negative is reported as a plain
error (a positive integer was expected) and is not fatal by itself.
`GetNDoses` then returns `FALSE` with all three arrays null, unless the error
count of the buffer already exceeds `MAX_ERRORS`, in which case it returns the
fatal exit code and leaves the arrays of the record as they were; in both cases
it allocates nothing.  `GetInputFn` on a specification text reads from a fresh
string buffer, so it returns `FALSE` with the three arrays null. -/
theorem C14_nonpositive_count_is_plain_error (L : LIBC) (pib : INPUTBUF) (pifn : IFN) (cnt : LEXEME)
    (rest : List LEXEME) (hcnt : cnt.iType = LX_INTEGER) (hret : isExit cnt.ret = false)
    (hval : L.atoi cnt.szLex ≤ 0) :
    GetNDoses L ⟨pib, ⟨0, "(", LX_PUNCT⟩ :: cnt :: rest⟩ pifn =
      (if pib.cErrors > MAX_ERRORS then
        ⟨EXIT_ERROR, ⟨{ pib with cErrors := pib.cErrors + 1 }, rest⟩,
          { pifn with nDoses := L.atoi cnt.szLex },
          [⟨RE_LEXEXPECTED, false, true, "positive-integer", some cnt.szLex⟩]⟩
      else
        ⟨0, ⟨{ pib with cErrors := pib.cErrors + 1 }, rest⟩,
          GetNDosesCleanUp { pifn with nDoses := L.atoi cnt.szLex },
          [⟨RE_LEXEXPECTED, false, false, "positive-integer", some cnt.szLex⟩]⟩) ∧
    (∀ (X : SCANNER) (G : GETFUNCARGS) (pibIn : TOKENBUF) (sz : String) (fn : LEXEME),
      X.NextLex sz = fn :: ⟨0, "(", LX_PUNCT⟩ :: cnt :: rest → isExit fn.ret = false →
      fn.iType = LX_IDENTIFIER → GetFnType X fn.szLex = IFN_NDOSES →
      GetInputFn L X G pibIn (some sz) pifn =
        ⟨0, pibIn, { InitIFN pifn with iType := IFN_NDOSES, nDoses := L.atoi cnt.szLex },
          [⟨RE_LEXEXPECTED, false, false, "positive-integer", some cnt.szLex⟩]⟩) := by
  have hint : (LX_INTEGER &&& cnt.iType) ≠ 0 := by rw [hcnt]; decide
  have hlp : ∀ (p : INPUTBUF) (t : List LEXEME),
      EGetPunct ⟨p, ⟨0, "(", LX_PUNCT⟩ :: t⟩ CH_LPAREN = ⟨0, "(", LX_PUNCT, ⟨p, t⟩, []⟩ :=
    fun p t => EGetPunct_found p ⟨0, "(", LX_PUNCT⟩ t CH_LPAREN (by decide) rfl (by decide)
  have hrep : ∀ p : INPUTBUF, report p RE_LEXEXPECTED "positive-integer" (some cnt.szLex) =
      ⟨if p.cErrors > MAX_ERRORS then EXIT_ERROR else 0, { p with cErrors := p.cErrors + 1 },
        [⟨RE_LEXEXPECTED, false, decide (p.cErrors > MAX_ERRORS), "positive-integer",
          some cnt.szLex⟩]⟩ :=
    fun p => report_plain p RE_LEXEXPECTED _ _ (by decide) (by decide) (by decide)
  have hmain : ∀ (p : INPUTBUF) (q : IFN), GetNDoses L ⟨p, ⟨0, "(", LX_PUNCT⟩ :: cnt :: rest⟩ q =
      (if p.cErrors > MAX_ERRORS then
        ⟨EXIT_ERROR, ⟨{ p with cErrors := p.cErrors + 1 }, rest⟩,
          { q with nDoses := L.atoi cnt.szLex },
          [⟨RE_LEXEXPECTED, false, true, "positive-integer", some cnt.szLex⟩]⟩
      else
        ⟨0, ⟨{ p with cErrors := p.cErrors + 1 }, rest⟩,
          GetNDosesCleanUp { q with nDoses := L.atoi cnt.szLex },
          [⟨RE_LEXEXPECTED, false, false, "positive-integer", some cnt.szLex⟩]⟩) := by
    intro p q
    simp only [GetNDoses, hlp, isExit_zero, Bool.false_eq_true, if_false, ne_eq,
      not_true_eq_false, ENextLex_found p cnt _ LX_INTEGER hret hint, hval, if_true, hrep,
      List.nil_append, GetNDoses.exit]
    by_cases hc : p.cErrors > MAX_ERRORS
    · simp [hc, isExit_EXIT_ERROR]
    · simp [hc, isExit_zero]
  refine ⟨hmain pib pifn, ?_⟩
  intro X G pibIn sz fn hlex hfn hid hty
  have h0 : ¬ ((0 : Nat) > MAX_ERRORS) := by decide
  simp only [GetInputFn, hlex, MakeStringBuffer, NextLex, hfn, Bool.false_eq_true, if_false, hid,
    or_true, if_true, hty, hmain, h0, Option.isSome_some]
  simp [GetNDosesCleanUp, InitIFN]

theorem C14_nonpositive_count_is_plain_error_witness :
    decimals.atoi "0" ≤ 0 ∧
    GetNDoses decimals ⟨startBuf, [⟨0, "(", LX_PUNCT⟩, ⟨0, "0", LX_INTEGER⟩, ⟨0, ")", LX_PUNCT⟩]⟩ nullIFN =
      (if startBuf.cErrors > MAX_ERRORS then
        ⟨EXIT_ERROR, ⟨{ startBuf with cErrors := startBuf.cErrors + 1 }, [⟨0, ")", LX_PUNCT⟩]⟩,
          { nullIFN with nDoses := decimals.atoi "0" },
          [⟨RE_LEXEXPECTED, false, true, "positive-integer", some "0"⟩]⟩
      else
        ⟨0, ⟨{ startBuf with cErrors := startBuf.cErrors + 1 }, [⟨0, ")", LX_PUNCT⟩]⟩,
          GetNDosesCleanUp { nullIFN with nDoses := decimals.atoi "0" },
          [⟨RE_LEXEXPECTED, false, false, "positive-integer", some "0"⟩]⟩) :=
  ⟨by decide,
    (C14_nonpositive_count_is_plain_error decimals startBuf nullIFN ⟨0, "0", LX_INTEGER⟩
      [⟨0, ")", LX_PUNCT⟩] (by decide) (by decide) (by decide)).1⟩

/-! ## Input specifications -/

theorem GetFnType_other (X : SCANNER) (szName : String)
    (h : ∀ p ∈ vrgifmMap, X.MyStrcmp szName p.1 ≠ 0) : GetFnType X szName = IFN_NULL := by
  have h1 := h ("PerDose", IFN_PERDOSE) (by simp [vrgifmMap])
  have h2 := h ("PerRate", IFN_PERRATE) (by simp [vrgifmMap])
  have h3 := h ("PerExp", IFN_PEREXP) (by simp [vrgifmMap])
  have h4 := h ("NDoses", IFN_NDOSES) (by simp [vrgifmMap])
  simp only at h1 h2 h3 h4
  simp [GetFnType, vrgifmMap, GetFnType.loop, h1, h2, h3, h4]

/-- C17 (as stated, refuted): at the start of the analysis the specification
`Sin (1)` makes `GetInputFn` return `FALSE` with a plain error report that names
`Sin`, not the fatal exit code. -/
theorem C17_counterexample_unknown_name_is_not_fatal :
    GetFnType (fixedScanner sinOfOne) "Sin" = IFN_NULL ∧
    GetInputFn decimals (fixedScanner sinOfOne) GetFuncArgs ⟨startBuf, []⟩ (some "Sin (1)") nullIFN =
      ⟨0, ⟨{ startBuf with cErrors := 1 }, []⟩, nullIFN,
        [⟨RE_LEXEXPECTED, false, false, "input-spec", some "Sin"⟩]⟩ ∧
    (0 : Int) ≠ EXIT_ERROR := by
  decide

/-- C17 (amended): a specification text that starts with an identifier which
`MyStrcmp` finds different from `PerDose`, `PerRate`, `PerExp` and `NDoses` is
reported as a plain error (an input specification was expected) that names the
identifier, and counted on the buffer; the record is reset with the null type.
`GetInputFn` returns `FALSE`; it returns the fatal exit code only when the error
count of the buffer already exceeds `MAX_ERRORS`. -/
theorem C17_unknown_name_is_plain_error (L : LIBC) (X : SCANNER) (G : GETFUNCARGS)
    (pibIn : TOKENBUF)
    (sz : String) (pifn : IFN) (fn : LEXEME) (rest : List LEXEME)
    (hlex : X.NextLex sz = fn :: rest) (hret : isExit fn.ret = false)
    (hid : fn.iType = LX_IDENTIFIER)
    (hother : ∀ p ∈ vrgifmMap, X.MyStrcmp fn.szLex p.1 ≠ 0) :
    GetInputFn L X G pibIn (some sz) pifn =
      ⟨if pibIn.pib.cErrors > MAX_ERRORS then EXIT_ERROR else 0,
        { pibIn with pib := { pibIn.pib with cErrors := pibIn.pib.cErrors + 1 } },
        { InitIFN pifn with iType := IFN_NULL },
        [⟨RE_LEXEXPECTED, false, decide (pibIn.pib.cErrors > MAX_ERRORS), "input-spec",
          some fn.szLex⟩]⟩ := by
  have hty := GetFnType_other X fn.szLex hother
  have n1 : IFN_NULL ≠ IFN_NDOSES := by decide
  have n2 : ¬ (IFN_NULL = IFN_PERDOSE ∨ IFN_NULL = IFN_PERRATE ∨ IFN_NULL = IFN_PEREXP) := by
    decide
  have hrep := report_plain pibIn.pib RE_LEXEXPECTED "input-spec" (some fn.szLex) (by decide)
    (by decide) (by decide)
  simp only [GetInputFn, hlex, MakeStringBuffer, NextLex, hret, Bool.false_eq_true, if_false,
    hid, or_true, if_true, hty, n1, n2, Option.isSome_some, hrep]
  by_cases hc : pibIn.pib.cErrors > MAX_ERRORS
  · simp [hc, isExit_EXIT_ERROR]
  · simp [hc, isExit_zero]

theorem C17_unknown_name_is_plain_error_witness :
    (fixedScanner sinOfOne).NextLex "Sin (1)" = ⟨0, "Sin", LX_IDENTIFIER⟩ :: sinOfOne.tail ∧
    (∀ p ∈ vrgifmMap, (fixedScanner sinOfOne).MyStrcmp "Sin" p.1 ≠ 0) ∧
    GetInputFn decimals (fixedScanner sinOfOne) GetFuncArgs ⟨startBuf, []⟩ (some "Sin (1)") nullIFN =
      ⟨if startBuf.cErrors > MAX_ERRORS then EXIT_ERROR else 0,
        ⟨{ startBuf with cErrors := startBuf.cErrors + 1 }, []⟩,
        { InitIFN nullIFN with iType := IFN_NULL },
        [⟨RE_LEXEXPECTED, false, decide (startBuf.cErrors > MAX_ERRORS), "input-spec",
          some "Sin"⟩]⟩ :=
  ⟨by decide, by decide,
    C17_unknown_name_is_plain_error decimals (fixedScanner sinOfOne) GetFuncArgs ⟨startBuf, []⟩ "Sin (1)"
      nullIFN ⟨0, "Sin", LX_IDENTIFIER⟩ sinOfOne.tail (by decide) (by decide) (by decide)
      (by decide)⟩

/-! ## Arguments of the periodic input functions -/

/-- The three outcomes of `DefDepParm`: an identifier without a handle is
reported as a plain error and gives `FALSE`; an identifier with a handle sets
the handle; any other text sets the value. -/
theorem DefDepParm_eq (L : LIBC) (vpvmGlo : PVMMAPSTRCT) (szLex : String) (dValue : double)
    (hvar : HANDLE) :
    DefDepParm L vpvmGlo szLex dValue hvar =
      if IsIdentifier szLex then
        if CalculateVarHandle vpvmGlo szLex = 0 then
          ⟨0, dValue, 0, [⟨RE_UNDEFINED, false, false, szLex, none⟩]⟩
        else ⟨1, dValue, CalculateVarHandle vpvmGlo szLex, []⟩
      else ⟨1, L.atof szLex, hvar, []⟩ := by
  have h1 : (RE_UNDEFINED &&& RE_FATAL) = 0 := by decide
  have h2 : (RE_UNDEFINED &&& RE_WARNING) = 0 := by decide
  have h3 : (RE_UNDEFINED ^^^ (RE_UNDEFINED &&& (RE_FATAL ||| RE_WARNING))) = RE_UNDEFINED := by
    decide
  have h4 : RE_UNDEFINED ≠ 0 := by decide
  unfold DefDepParm
  by_cases hi : IsIdentifier szLex = true
  · by_cases h0 : CalculateVarHandle vpvmGlo szLex = 0
    · simp [ReportError, hi, h0, h1, h2, h3, h4, isExit_zero]
    · simp [hi, h0]
  · simp [hi]

theorem DefDepParm_fields (L : LIBC) (vpvmGlo : PVMMAPSTRCT) (szLex : String) :
    (DefDepParm L vpvmGlo szLex 0 0).dValue = literalOf L szLex ∧
      (DefDepParm L vpvmGlo szLex 0 0).hvar = handleOf vpvmGlo szLex := by
  rw [DefDepParm_eq]
  unfold literalOf handleOf
  split_ifs with hi h0
  · exact ⟨rfl, h0.symm⟩
  · exact ⟨rfl, rfl⟩
  · exact ⟨rfl, rfl⟩

theorem DefDepParm_ret (L : LIBC) (vpvmGlo : PVMMAPSTRCT) (szLex : String) (dValue : double)
    (hvar : HANDLE) :
    (DefDepParm L vpvmGlo szLex dValue hvar).ret =
      if IsIdentifier szLex = true ∧ CalculateVarHandle vpvmGlo szLex = 0 then 0 else 1 := by
  rw [DefDepParm_eq]
  split_ifs <;> simp_all

theorem GetInputArgs_bounds_none (a : FUNCARGS) (pibIn : INPUTBUF)
    (hlb : a.rgiLowerB = [-1, -1, -1, -1]) (hub : a.rgiUpperB = [-1, -1, -1, -1]) :
    GetInputArgs.bounds a [0, 1, 2, 3] pibIn = ⟨0, pibIn, []⟩ := by
  simp [GetInputArgs.bounds, hlb, hub]

theorem andBOOL_cases (r0 r1 r2 r3 : Int) (h0 : r0 = 0 ∨ r0 = 1) (h1 : r1 = 0 ∨ r1 = 1)
    (h2 : r2 = 0 ∨ r2 = 1) (h3 : r3 = 0 ∨ r3 = 1) :
    andBOOL (andBOOL (andBOOL (andBOOL 1 r0) r1) r2) r3 =
      if r0 = 1 ∧ r1 = 1 ∧ r2 = 1 ∧ r3 = 1 then 1 else 0 := by
  rcases h0 with h0 | h0 <;> rcases h1 with h1 | h1 <;> rcases h2 with h2 | h2 <;>
    rcases h3 with h3 | h3 <;> subst h0 <;> subst h1 <;> subst h2 <;> subst h3 <;> decide

/-- C15: when `GetFuncArgs` delivers four arguments without array bounds,
`GetInputArgs` resolves each argument on its own into a record fresh from
`InitIFN`: an identifier sets the handle field of its slot to
`CalculateVarHandle` of Global Variables and leaves the literal field at 0, any
other argument sets the literal field by `atof` and leaves the handle field at
0.  The slots are magnitude, period and start time, and for the fourth argument
exposure time, except for `PerExp`, where it is decay and the exposure-time
fields stay 0.  The status is `TRUE` when every identifier has a handle. -/
theorem C15_arguments_resolved_independently (L : LIBC) (G : GETFUNCARGS) (vpvmGlo : PVMMAPSTRCT)
    (pibIn : TOKENBUF) (pifn : IFN) (iType : Nat) (a0 a1 a2 a3 : String)
    (hret : isExit (G pibIn 4 (List.replicate 4
      (LX_INTEGER ||| LX_FLOAT ||| LX_IDENTIFIER))).ret = false)
    (hok : (G pibIn 4 (List.replicate 4 (LX_INTEGER ||| LX_FLOAT ||| LX_IDENTIFIER))).ret ≠ 0)
    (hargs : (G pibIn 4 (List.replicate 4
      (LX_INTEGER ||| LX_FLOAT ||| LX_IDENTIFIER))).rgszLex = [a0, a1, a2, a3])
    (hlb : (G pibIn 4 (List.replicate 4
      (LX_INTEGER ||| LX_FLOAT ||| LX_IDENTIFIER))).rgiLowerB = [-1, -1, -1, -1])
    (hub : (G pibIn 4 (List.replicate 4
      (LX_INTEGER ||| LX_FLOAT ||| LX_IDENTIFIER))).rgiUpperB = [-1, -1, -1, -1]) :
    (GetInputArgs L G vpvmGlo pibIn { InitIFN pifn with iType := iType }).ifn =
      (if iType = IFN_PEREXP then
        { InitIFN pifn with
          iType := iType, dMag := literalOf L a0, hMag := handleOf vpvmGlo a0,
          dTper := literalOf L a1, hTper := handleOf vpvmGlo a1,
          dT0 := literalOf L a2, hT0 := handleOf vpvmGlo a2,
          dDecay := literalOf L a3, hDecay := handleOf vpvmGlo a3 }
      else
        { InitIFN pifn with
          iType := iType, dMag := literalOf L a0, hMag := handleOf vpvmGlo a0,
          dTper := literalOf L a1, hTper := handleOf vpvmGlo a1,
          dT0 := literalOf L a2, hT0 := handleOf vpvmGlo a2,
          dTexp := literalOf L a3, hTexp := handleOf vpvmGlo a3 }) ∧
    ((∀ sz ∈ [a0, a1, a2, a3], IsIdentifier sz = true → CalculateVarHandle vpvmGlo sz ≠ 0) →
      (GetInputArgs L G vpvmGlo pibIn { InitIFN pifn with iType := iType }).ret = 1) := by
  have f0 := DefDepParm_fields L vpvmGlo a0
  have f1 := DefDepParm_fields L vpvmGlo a1
  have f2 := DefDepParm_fields L vpvmGlo a2
  have f3 := DefDepParm_fields L vpvmGlo a3
  have hb := GetInputArgs_bounds_none _ (G pibIn 4 (List.replicate 4
      (LX_INTEGER ||| LX_FLOAT ||| LX_IDENTIFIER))).buf.pib hlb hub
  constructor
  · simp only [GetInputArgs, hret, Bool.false_eq_true, if_false, hok, ne_eq, not_false_eq_true,
      if_true, hb, isExit_zero, hargs, List.getD_cons_zero, List.getD_cons_succ, InitIFN]
    simp only [InitIFN] at f0 f1 f2 f3
    split_ifs <;> simp [f0.1, f0.2, f1.1, f1.2, f2.1, f2.2, f3.1, f3.2]
  · intro hall
    have r : ∀ sz ∈ [a0, a1, a2, a3], ∀ (d : double) (h : HANDLE),
        (DefDepParm L vpvmGlo sz d h).ret = 1 := by
      intro sz hsz d h
      rw [DefDepParm_ret, if_neg]
      rintro ⟨hi, h0⟩
      exact hall sz hsz hi h0
    have r0 := r a0 (by simp)
    have r1 := r a1 (by simp)
    have r2 := r a2 (by simp)
    have r3 := r a3 (by simp)
    have hand : andBOOL (andBOOL (andBOOL (andBOOL 1 1) 1) 1) 1 = 1 := by decide
    simp only [GetInputArgs, hret, Bool.false_eq_true, if_false, hok, ne_eq, not_false_eq_true,
      if_true, hb, isExit_zero, hargs, List.getD_cons_zero, List.getD_cons_succ, r0, r1, r2, r3,
      hand]
    split_ifs <;> simp_all

theorem C15_arguments_resolved_independently_witness :
    isExit (GetFuncArgs ⟨parmBuf, fourArgs⟩ 4 (List.replicate 4
      (LX_INTEGER ||| LX_FLOAT ||| LX_IDENTIFIER))).ret = false ∧
    (GetFuncArgs ⟨parmBuf, fourArgs⟩ 4 (List.replicate 4
      (LX_INTEGER ||| LX_FLOAT ||| LX_IDENTIFIER))).ret ≠ 0 ∧
    (GetFuncArgs ⟨parmBuf, fourArgs⟩ 4 (List.replicate 4
      (LX_INTEGER ||| LX_FLOAT ||| LX_IDENTIFIER))).rgszLex = ["k1", "24", "0", "0.5"] ∧
    (GetInputArgs decimals GetFuncArgs parmBuf.pInfo.pvmGloVars ⟨parmBuf, fourArgs⟩
        { InitIFN nullIFN with iType := IFN_PEREXP }).ifn =
      { nullIFN with iType := IFN_PEREXP, hMag := ID_PARM, dTper := 24,
                     dDecay := double.finite (mkRat 1 2) } ∧
    (GetInputArgs decimals GetFuncArgs parmBuf.pInfo.pvmGloVars ⟨parmBuf, fourArgs⟩
        { InitIFN nullIFN with iType := IFN_PEREXP }).ret = 1 :=
  ⟨by decide, by decide, by decide,
    (C15_arguments_resolved_independently decimals GetFuncArgs parmBuf.pInfo.pvmGloVars
      ⟨parmBuf, fourArgs⟩ nullIFN IFN_PEREXP "k1" "24" "0" "0.5" (by decide) (by decide)
      (by decide) (by decide) (by decide)).1.trans (by decide),
    (C15_arguments_resolved_independently decimals GetFuncArgs parmBuf.pInfo.pvmGloVars
      ⟨parmBuf, fourArgs⟩ nullIFN IFN_PEREXP "k1" "24" "0" "0.5" (by decide) (by decide)
      (by decide) (by decide) (by decide)).2 (by decide)⟩

theorem andBOOL_zero_left (ret : Int) : andBOOL 0 ret = 0 := by
  simp [andBOOL]

theorem andBOOL_zero_right (bReturn : Int) : andBOOL bReturn 0 = 0 := by
  simp [andBOOL]

/-- An identifier among the four arguments that has no handle: `GetInputArgs`
reports it as undefined, then reports that an input specification was expected,
both as plain errors, and returns `FALSE` unless the error count of the buffer
already exceeds `MAX_ERRORS`. -/
theorem GetInputArgs_undefined (L : LIBC) (G : GETFUNCARGS) (vpvmGlo : PVMMAPSTRCT)
    (pibIn : TOKENBUF)
    (pifn : IFN) (a0 a1 a2 a3 aj : String)
    (hret : isExit (G pibIn 4 (List.replicate 4
      (LX_INTEGER ||| LX_FLOAT ||| LX_IDENTIFIER))).ret = false)
    (hok : (G pibIn 4 (List.replicate 4 (LX_INTEGER ||| LX_FLOAT ||| LX_IDENTIFIER))).ret ≠ 0)
    (hargs : (G pibIn 4 (List.replicate 4
      (LX_INTEGER ||| LX_FLOAT ||| LX_IDENTIFIER))).rgszLex = [a0, a1, a2, a3])
    (hlb : (G pibIn 4 (List.replicate 4
      (LX_INTEGER ||| LX_FLOAT ||| LX_IDENTIFIER))).rgiLowerB = [-1, -1, -1, -1])
    (hub : (G pibIn 4 (List.replicate 4
      (LX_INTEGER ||| LX_FLOAT ||| LX_IDENTIFIER))).rgiUpperB = [-1, -1, -1, -1])
    (hmem : aj ∈ [a0, a1, a2, a3]) (hident : IsIdentifier aj = true)
    (hundef : CalculateVarHandle vpvmGlo aj = 0) :
    (GetInputArgs L G vpvmGlo pibIn pifn).ret =
      (if (G pibIn 4 (List.replicate 4
          (LX_INTEGER ||| LX_FLOAT ||| LX_IDENTIFIER))).buf.pib.cErrors > MAX_ERRORS
        then EXIT_ERROR else 0) ∧
    (⟨RE_UNDEFINED, false, false, aj, none⟩ : REPORT) ∈ (GetInputArgs L G vpvmGlo pibIn pifn).out ∧
    (GetInputArgs L G vpvmGlo pibIn pifn).out.getLast? =
      some ⟨RE_EXPECTED, false,
        decide ((G pibIn 4 (List.replicate 4
          (LX_INTEGER ||| LX_FLOAT ||| LX_IDENTIFIER))).buf.pib.cErrors > MAX_ERRORS),
        "input-spec", none⟩ := by
  have hb := GetInputArgs_bounds_none _ (G pibIn 4 (List.replicate 4
      (LX_INTEGER ||| LX_FLOAT ||| LX_IDENTIFIER))).buf.pib hlb hub
  have key : ∀ (d : double) (h : HANDLE), DefDepParm L vpvmGlo aj d h =
      ⟨0, d, 0, [⟨RE_UNDEFINED, false, false, aj, none⟩]⟩ := by
    intro d h
    rw [DefDepParm_eq, if_pos hident, if_pos hundef]
  have hrep := report_plain (G pibIn 4 (List.replicate 4
      (LX_INTEGER ||| LX_FLOAT ||| LX_IDENTIFIER))).buf.pib RE_EXPECTED "input-spec" none
    (by decide) (by decide) (by decide)
  have hB : andBOOL (andBOOL (andBOOL (andBOOL 1
        (DefDepParm L vpvmGlo a0 pifn.dMag pifn.hMag).ret)
        (DefDepParm L vpvmGlo a1 pifn.dTper pifn.hTper).ret)
        (DefDepParm L vpvmGlo a2 pifn.dT0 pifn.hT0).ret)
        (if pifn.iType = IFN_PEREXP then DefDepParm L vpvmGlo a3 pifn.dDecay pifn.hDecay
          else DefDepParm L vpvmGlo a3 pifn.dTexp pifn.hTexp).ret = 0 := by
    simp only [List.mem_cons, List.mem_singleton, List.not_mem_nil, or_false] at hmem
    rcases hmem with h | h | h | h <;> subst h
    · simp only [key, andBOOL_zero_right, andBOOL_zero_left]
    · simp only [key, andBOOL_zero_right, andBOOL_zero_left]
    · simp only [key, andBOOL_zero_right, andBOOL_zero_left]
    · split_ifs <;> simp only [key, andBOOL_zero_right, andBOOL_zero_left]
  have hU : (⟨RE_UNDEFINED, false, false, aj, none⟩ : REPORT) ∈
      (DefDepParm L vpvmGlo a0 pifn.dMag pifn.hMag).out ++
        (DefDepParm L vpvmGlo a1 pifn.dTper pifn.hTper).out ++
        (DefDepParm L vpvmGlo a2 pifn.dT0 pifn.hT0).out ++
        (if pifn.iType = IFN_PEREXP then DefDepParm L vpvmGlo a3 pifn.dDecay pifn.hDecay
          else DefDepParm L vpvmGlo a3 pifn.dTexp pifn.hTexp).out := by
    simp only [List.mem_cons, List.mem_singleton, List.not_mem_nil, or_false] at hmem
    rcases hmem with h | h | h | h <;> subst h
    · simp [key]
    · simp [key]
    · simp [key]
    · split_ifs <;> simp [key]
  simp only [GetInputArgs, hret, Bool.false_eq_true, if_false, hok, ne_eq, not_false_eq_true,
    if_true, hb, isExit_zero, hargs, List.getD_cons_zero, List.getD_cons_succ, hB, hrep,
    List.append_nil, List.nil_append]
  refine ⟨?_, ?_, ?_⟩
  · by_cases hc : (G pibIn 4 (List.replicate 4
        (LX_INTEGER ||| LX_FLOAT ||| LX_IDENTIFIER))).buf.pib.cErrors > MAX_ERRORS
    · rw [if_pos hc, if_pos isExit_EXIT_ERROR]
    · rw [if_neg hc]
      split_ifs <;> rfl
  · simp only [List.append_assoc] at hU ⊢
    simp only [List.mem_append] at hU ⊢
    tauto
  · simp

/-- C16 (as stated, refuted): at the start of the analysis, with no record in
Global Variables, the specification `PerDose (k, 1, 0, 1)` makes `GetInputFn`
return `FALSE` after two plain error reports (`k` is undefined, an input
specification was expected), not the fatal exit code. -/
theorem C16_counterexample_undefined_argument_is_not_fatal :
    GetVarPTR startBuf.pInfo.pvmGloVars "k" = [] ∧
    GetInputFn decimals (fixedScanner perDoseOfK) GetFuncArgs ⟨startBuf, []⟩
        (some "PerDose (k, 1, 0, 1)") nullIFN =
      ⟨0, ⟨startBuf, []⟩, { nullIFN with iType := IFN_PERDOSE, dTper := 1, dTexp := 1 },
        [⟨RE_UNDEFINED, false, false, "k", none⟩,
         ⟨RE_EXPECTED, false, false, "input-spec", none⟩]⟩ ∧
    (0 : Int) ≠ EXIT_ERROR := by
  decide

/-- C16 (amended): in a `PerDose`, `PerRate` or `PerExp` specification text
whose four arguments `GetFuncArgs` delivers without array bounds, an identifier
argument that names no record of Global Variables is reported as undefined, and
then an input specification is reported as expected, both as plain errors on
the string buffer of the resolver.  `GetInputFn` returns `FALSE` and leaves its
own buffer as it was; it returns the fatal exit code only when the error count
of the string buffer exceeds `MAX_ERRORS` by then. -/
theorem C16_undefined_argument_is_plain_error (L : LIBC) (X : SCANNER) (G : GETFUNCARGS)
    (pibIn : TOKENBUF) (sz : String) (pifn : IFN) (fn : LEXEME) (rest : List LEXEME)
    (a0 a1 a2 a3 aj : String)
    (hlex : X.NextLex sz = fn :: rest) (hfn : isExit fn.ret = false)
    (hid : fn.iType = LX_IDENTIFIER)
    (hty : GetFnType X fn.szLex = IFN_PERDOSE ∨ GetFnType X fn.szLex = IFN_PERRATE ∨
      GetFnType X fn.szLex = IFN_PEREXP)
    (hret : isExit (G (MakeStringBuffer pibIn.pib rest) 4 (List.replicate 4
      (LX_INTEGER ||| LX_FLOAT ||| LX_IDENTIFIER))).ret = false)
    (hok : (G (MakeStringBuffer pibIn.pib rest) 4 (List.replicate 4
      (LX_INTEGER ||| LX_FLOAT ||| LX_IDENTIFIER))).ret ≠ 0)
    (hargs : (G (MakeStringBuffer pibIn.pib rest) 4 (List.replicate 4
      (LX_INTEGER ||| LX_FLOAT ||| LX_IDENTIFIER))).rgszLex = [a0, a1, a2, a3])
    (hlb : (G (MakeStringBuffer pibIn.pib rest) 4 (List.replicate 4
      (LX_INTEGER ||| LX_FLOAT ||| LX_IDENTIFIER))).rgiLowerB = [-1, -1, -1, -1])
    (hub : (G (MakeStringBuffer pibIn.pib rest) 4 (List.replicate 4
      (LX_INTEGER ||| LX_FLOAT ||| LX_IDENTIFIER))).rgiUpperB = [-1, -1, -1, -1])
    (hmem : aj ∈ [a0, a1, a2, a3]) (hident : IsIdentifier aj = true)
    (hundef : GetVarPTR pibIn.pib.pInfo.pvmGloVars aj = []) :
    (GetInputFn L X G pibIn (some sz) pifn).ret =
      (if (G (MakeStringBuffer pibIn.pib rest) 4 (List.replicate 4
          (LX_INTEGER ||| LX_FLOAT ||| LX_IDENTIFIER))).buf.pib.cErrors > MAX_ERRORS
        then EXIT_ERROR else 0) ∧
    (GetInputFn L X G pibIn (some sz) pifn).buf = pibIn ∧
    (⟨RE_UNDEFINED, false, false, aj, none⟩ : REPORT) ∈
      (GetInputFn L X G pibIn (some sz) pifn).out ∧
    (GetInputFn L X G pibIn (some sz) pifn).out.getLast? =
      some ⟨RE_EXPECTED, false,
        decide ((G (MakeStringBuffer pibIn.pib rest) 4 (List.replicate 4
          (LX_INTEGER ||| LX_FLOAT ||| LX_IDENTIFIER))).buf.pib.cErrors > MAX_ERRORS),
        "input-spec", none⟩ := by
  have h0 : CalculateVarHandle pibIn.pib.pInfo.pvmGloVars aj = 0 := by
    simp [CalculateVarHandle, hundef]
  have hne : GetFnType X fn.szLex ≠ IFN_NDOSES := by
    rcases hty with h | h | h <;> rw [h] <;> decide
  have hmk : NextLex (MakeStringBuffer pibIn.pib (fn :: rest)) =
      ⟨fn.ret, fn.szLex, fn.iType, MakeStringBuffer pibIn.pib rest, []⟩ := rfl
  simp only [GetInputFn, hlex, hmk, hfn, Bool.false_eq_true, if_false, hid,
    or_true, if_true, hne, hty, Option.isSome_some]
  exact ⟨(GetInputArgs_undefined L G _ _ _ a0 a1 a2 a3 aj hret hok hargs hlb hub hmem hident h0).1,
    trivial,
    (GetInputArgs_undefined L G _ _ _ a0 a1 a2 a3 aj hret hok hargs hlb hub hmem hident h0).2⟩

theorem C16_undefined_argument_is_plain_error_witness :
    (fixedScanner perDoseOfK).NextLex "PerDose (k, 1, 0, 1)" =
      ⟨0, "PerDose", LX_IDENTIFIER⟩ :: perDoseOfK.tail ∧
    GetFnType (fixedScanner perDoseOfK) "PerDose" = IFN_PERDOSE ∧
    (GetFuncArgs (MakeStringBuffer startBuf perDoseOfK.tail) 4 (List.replicate 4
      (LX_INTEGER ||| LX_FLOAT ||| LX_IDENTIFIER))).rgszLex = ["k", "1", "0", "1"] ∧
    IsIdentifier "k" = true ∧ GetVarPTR startBuf.pInfo.pvmGloVars "k" = [] ∧
    (GetInputFn decimals (fixedScanner perDoseOfK) GetFuncArgs ⟨startBuf, []⟩
      (some "PerDose (k, 1, 0, 1)") nullIFN).ret =
      (if (GetFuncArgs (MakeStringBuffer startBuf perDoseOfK.tail) 4 (List.replicate 4
          (LX_INTEGER ||| LX_FLOAT ||| LX_IDENTIFIER))).buf.pib.cErrors > MAX_ERRORS
        then EXIT_ERROR else 0) :=
  ⟨by decide, by decide, by decide, by decide, by decide,
    (C16_undefined_argument_is_plain_error decimals (fixedScanner perDoseOfK) GetFuncArgs ⟨startBuf, []⟩
      "PerDose (k, 1, 0, 1)" nullIFN ⟨0, "PerDose", LX_IDENTIFIER⟩ perDoseOfK.tail
      "k" "1" "0" "1" "k" (by decide) (by decide) (by decide) (by decide) (by decide)
      (by decide) (by decide) (by decide) (by decide) (by decide) (by decide) (by decide)).1⟩

/-! ## Malformed dose lists -/

theorem released_CleanUp (pifn : IFN) : released (GetNDosesCleanUp pifn) :=
  ⟨rfl, rfl, rfl⟩

theorem clean_skipComma (t : List LEXEME) (h : clean t) : clean (skipComma t) := by
  cases t with
  | nil => exact h
  | cons lx rest =>
    simp only [skipComma]
    split_ifs
    · exact fun l hl => h l (List.mem_cons_of_mem _ hl)
    · exact h

theorem clean_append (a b : List LEXEME) (ha : clean a) (hb : clean b) : clean (a ++ b) := by
  intro l hl
  rcases List.mem_append.mp hl with h | h
  · exact ha l h
  · exact hb l h

theorem clean_tail (lx : LEXEME) (t : List LEXEME) (h : clean (lx :: t)) : clean t :=
  fun l hl => h l (List.mem_cons_of_mem _ hl)

/-- On lexical elements without exit codes `GetOptPunct` gives no exit code and
no report, and leaves the elements behind an optional comma. -/
theorem GetOptPunct_clean (pib : INPUTBUF) (t : List LEXEME) (h : clean t) :
    isExit (GetOptPunct ⟨pib, t⟩ ',').ret = false ∧
      (GetOptPunct ⟨pib, t⟩ ',').buf = ⟨pib, skipComma t⟩ ∧ (GetOptPunct ⟨pib, t⟩ ',').out = [] :=
  ⟨GetOptPunct_ret pib t h, (GetOptPunct_buf pib t).1, (GetOptPunct_buf pib t).2⟩

/-- A call of `ENextLex` for a number where none is to be read: one plain error
report, fatal only when the error count already exceeds `MAX_ERRORS`. -/
theorem ENextLex_missing (pib : INPUTBUF) (t : List LEXEME) (h : clean t)
    (hbad : noNumber t = true) :
    (ENextLex ⟨pib, t⟩ LX_NUMBER).ret = (if pib.cErrors > MAX_ERRORS then EXIT_ERROR else 1) ∧
      (ENextLex ⟨pib, t⟩ LX_NUMBER).buf = ⟨{ pib with cErrors := pib.cErrors + 1 }, t.tail⟩ := by
  have hrep : ∀ sz alt, report pib RE_LEXEXPECTED sz alt =
      ⟨if pib.cErrors > MAX_ERRORS then EXIT_ERROR else 0, { pib with cErrors := pib.cErrors + 1 },
        [⟨RE_LEXEXPECTED, false, decide (pib.cErrors > MAX_ERRORS), sz, alt⟩]⟩ :=
    fun sz alt => report_plain pib RE_LEXEXPECTED sz alt (by decide) (by decide) (by decide)
  have h0 : (LX_NUMBER &&& LX_NULL) = 0 := by decide
  cases t with
  | nil =>
    simp only [ENextLex, NextLex, isExit_zero, Bool.false_eq_true, if_false, h0, if_true, hrep,
      List.tail_nil]
    by_cases hc : pib.cErrors > MAX_ERRORS
    · simp [hc, isExit_EXIT_ERROR]
    · simp [hc, isExit_zero]
  | cons lx rest =>
    have hx := h lx (List.mem_cons_self _ _)
    have hb : (LX_NUMBER &&& lx.iType) = 0 := by simpa [noNumber] using hbad
    simp only [ENextLex, NextLex, hx, Bool.false_eq_true, if_false, hb, if_true, hrep,
      List.tail_cons]
    by_cases hc : pib.cErrors > MAX_ERRORS
    · simp [hc, isExit_EXIT_ERROR]
    · simp [hc, isExit_zero]

theorem failed_ne_zero (c : Prop) [Decidable c] : (if c then EXIT_ERROR else (1 : Int)) ≠ 0 := by
  split_ifs <;> decide

/-- The rounds of `GetNNumbers` from an index other than 0, when fewer numeric
arguments follow than there are rounds: the round with the missing number sets
`bErr`, or ends with the fatal exit code when the error count already exceeds
`MAX_ERRORS`. -/
theorem GetNNumbers_loop_missing (L : LIBC) (pib : INPUTBUF) (t : List LEXEME) (ht : clean t)
    (hbad : missingNumber t = true) (xs : List (Bool × LEXEME)) :
    ∀ (i k : Nat) (rgd : List double), i ≠ 0 → (∀ x ∈ xs, numeric x.2) →
      (GetNNumbers.loop L (xs.length + (k + 1)) i ⟨pib, sepd xs ++ t⟩ rgd).ret =
          (if pib.cErrors > MAX_ERRORS then EXIT_ERROR else 1) ∧
        clean (GetNNumbers.loop L (xs.length + (k + 1)) i ⟨pib, sepd xs ++ t⟩ rgd).buf.lex := by
  induction xs with
  | nil =>
    intro i k rgd hi _
    obtain ⟨hp1, hp2, hp3⟩ := GetOptPunct_clean pib t ht
    have hcs := clean_skipComma t ht
    obtain ⟨he1, he2⟩ := ENextLex_missing pib (skipComma t) hcs hbad
    have hne := failed_ne_zero (pib.cErrors > MAX_ERRORS)
    have hclean : clean (skipComma t).tail := by
      cases hsk : skipComma t with
      | nil => intro l hl; simp at hl
      | cons a b => rw [hsk] at hcs; exact clean_tail a b hcs
    simp only [List.length_nil, Nat.zero_add, sepd, List.nil_append, GetNNumbers.loop, hi, ne_eq,
      not_false_eq_true, if_true, hp1, Bool.false_eq_true, if_false, hp2, he1, he2, hne]
    split_ifs <;> exact ⟨rfl, hclean⟩
  | cons x xs ih =>
    intro i k rgd hi hxs
    have hx : numeric x.2 := hxs x (List.mem_cons_self _ _)
    have hret : isExit (GetOptPunct ⟨pib, sepd (x :: xs) ++ t⟩ ',').ret = false :=
      GetOptPunct_sepd_ret pib (x :: xs) t hxs (List.cons_ne_nil _ _)
    obtain ⟨hbuf, hout⟩ := GetOptPunct_buf pib (sepd (x :: xs) ++ t)
    rw [skipComma_sepd x xs t hx] at hbuf
    have hstep : (x :: xs).length + (k + 1) = (xs.length + (k + 1)) + 1 := by
      simp only [List.length_cons]; omega
    rw [hstep]
    simp only [GetNNumbers.loop, hi, ne_eq, not_false_eq_true, if_true, hret,
      Bool.false_eq_true, if_false, hbuf, hout, ENextLex_found pib x.2 _ LX_NUMBER hx.1
        (numeric_number x.2 hx), isExit_zero, not_true_eq_false, List.nil_append]
    exact ih (i + 1) k _ (Nat.succ_ne_zero i) (fun y hy => hxs y (List.mem_cons_of_mem _ hy))

/-- A call of `GetNNumbers` for `n` numbers, when the comma in front of the
first number has been taken and fewer than `n` numeric arguments follow. -/
theorem GetNNumbers_missing (L : LIBC) (pib : INPUTBUF) (t : List LEXEME) (ht : clean t)
    (hbad : missingNumber t = true) (xs : List (Bool × LEXEME)) (n : Nat) (hn : xs.length < n)
    (hxs : ∀ x ∈ xs, numeric x.2) (rgd : List double) :
    (GetNNumbers L ⟨pib, skipComma (sepd xs ++ t)⟩ (n : Int) rgd).ret =
        (if pib.cErrors > MAX_ERRORS then EXIT_ERROR else 1) ∧
      clean (GetNNumbers L ⟨pib, skipComma (sepd xs ++ t)⟩ (n : Int) rgd).buf.lex := by
  obtain ⟨k, rfl⟩ : ∃ k, n = xs.length + (k + 1) := ⟨n - xs.length - 1, by omega⟩
  cases xs with
  | nil =>
    have hcs := clean_skipComma t ht
    obtain ⟨he1, he2⟩ := ENextLex_missing pib (skipComma t) hcs hbad
    have hne := failed_ne_zero (pib.cErrors > MAX_ERRORS)
    have hclean : clean (skipComma t).tail := by
      cases hsk : skipComma t with
      | nil => intro l hl; simp at hl
      | cons a b => rw [hsk] at hcs; exact clean_tail a b hcs
    simp only [GetNNumbers, List.length_nil, Nat.zero_add, Int.toNat_ofNat, sepd, List.nil_append,
      GetNNumbers.loop, ne_eq, not_true_eq_false, if_false, isExit_zero, Bool.false_eq_true,
      he1, he2, hne, not_false_eq_true, if_true]
    split_ifs <;> exact ⟨rfl, hclean⟩
  | cons x xs =>
    have hx : numeric x.2 := hxs x (List.mem_cons_self _ _)
    have hstep : (x :: xs).length + (k + 1) = (xs.length + (k + 1)) + 1 := by
      simp only [List.length_cons]; omega
    rw [hstep]
    simp only [skipComma_sepd x xs t hx, GetNNumbers, Int.toNat_ofNat,
      GetNNumbers.loop, ne_eq, not_true_eq_false, if_false, isExit_zero, Bool.false_eq_true,
      ENextLex_found pib x.2 _ LX_NUMBER hx.1 (numeric_number x.2 hx), List.nil_append,
      Nat.zero_add]
    exact GetNNumbers_loop_missing L pib t ht hbad xs 1 k _ (by decide)
      (fun y hy => hxs y (List.mem_cons_of_mem _ hy))

/-- A call of `GetNNumbers` for `n` numbers, when the comma in front of the
first number has been taken and `n > 0` numeric arguments follow: no error and
no report, whatever the array holds. -/
theorem GetNNumbers_numeric_any (L : LIBC) (pib : INPUTBUF) (t : List LEXEME)
    (xs : List (Bool × LEXEME))
    (n : Nat) (hn : xs.length = n) (hn0 : n ≠ 0) (hxs : ∀ x ∈ xs, numeric x.2)
    (rgd : List double) :
    (GetNNumbers L ⟨pib, skipComma (sepd xs ++ t)⟩ (n : Int) rgd).ret = 0 ∧
      (GetNNumbers L ⟨pib, skipComma (sepd xs ++ t)⟩ (n : Int) rgd).buf = ⟨pib, t⟩ := by
  subst hn
  cases xs with
  | nil => exact absurd rfl hn0
  | cons x xs =>
    have hx : numeric x.2 := hxs x (List.mem_cons_self _ _)
    simp only [skipComma_sepd x xs t hx, GetNNumbers, List.length_cons, Int.toNat_ofNat,
      GetNNumbers.loop, ne_eq, not_true_eq_false, if_false, isExit_zero, Bool.false_eq_true,
      ENextLex_found pib x.2 _ LX_NUMBER hx.1 (numeric_number x.2 hx), List.nil_append,
      Nat.zero_add,
      GetNNumbers_loop_numeric L pib t xs 1 _ (by decide)
        (fun y hy => hxs y (List.mem_cons_of_mem _ hy)), and_self]

theorem GetNDoses_close_err (bErr : Int) (buf : TOKENBUF) (pifn : IFN) (out : List REPORT)
    (h : bErr ≠ 0) :
    (GetNDoses.close bErr buf pifn out).ret = 0 ∧ released (GetNDoses.close bErr buf pifn out).ifn := by
  refine ⟨?_, ?_⟩ <;>
    simp [GetNDoses.close, h, GetNDoses.exit, released, GetNDosesCleanUp]

theorem GetNDoses_exposures_err (L : LIBC) (bErr : Int) (pib : INPUTBUF) (t : List LEXEME)
    (pifn : IFN)
    (out : List REPORT) (h : bErr ≠ 0) (ht : clean t) :
    (GetNDoses.exposures L bErr ⟨pib, t⟩ pifn out).ret = 0 ∧
      released (GetNDoses.exposures L bErr ⟨pib, t⟩ pifn out).ifn := by
  obtain ⟨hp1, _, _⟩ := GetOptPunct_clean pib t ht
  simp only [GetNDoses.exposures, hp1, Bool.false_eq_true, if_false, h, false_and]
  exact GetNDoses_close_err bErr _ _ _ h

theorem GetNDoses_starts_err (L : LIBC) (bErr : Int) (pib : INPUTBUF) (t : List LEXEME) (pifn : IFN)
    (out : List REPORT) (h : bErr ≠ 0) (ht : clean t) :
    (GetNDoses.starts L bErr ⟨pib, t⟩ pifn out).ret = 0 ∧
      released (GetNDoses.starts L bErr ⟨pib, t⟩ pifn out).ifn := by
  obtain ⟨hp1, hp2, _⟩ := GetOptPunct_clean pib t ht
  simp only [GetNDoses.starts, hp1, Bool.false_eq_true, if_false, h, false_and, hp2]
  exact GetNDoses_exposures_err L bErr pib _ _ _ h (clean_skipComma t ht)

/-- A call of `EGetPunct` for the closing parenthesis where none is to be read:
one plain error report, fatal only when the error count already exceeds
`MAX_ERRORS`. -/
theorem EGetPunct_missing (pib : INPUTBUF) (t : List LEXEME) (h : clean t)
    (hbad : missingParen t = true) :
    (EGetPunct ⟨pib, t⟩ CH_RPAREN).ret = (if pib.cErrors > MAX_ERRORS then EXIT_ERROR else 1) := by
  have hrep : ∀ sz alt, report pib RE_EXPECTED sz alt =
      ⟨if pib.cErrors > MAX_ERRORS then EXIT_ERROR else 0, { pib with cErrors := pib.cErrors + 1 },
        [⟨RE_EXPECTED, false, decide (pib.cErrors > MAX_ERRORS), sz, alt⟩]⟩ :=
    fun sz alt => report_plain pib RE_EXPECTED sz alt (by decide) (by decide) (by decide)
  have h0 : ¬ (LX_NULL = LX_PUNCT ∧ "".data.head? = some CH_RPAREN) := by decide
  cases t with
  | nil =>
    simp only [EGetPunct, NextLex, isExit_zero, Bool.false_eq_true, if_false, h0, hrep]
    by_cases hc : pib.cErrors > MAX_ERRORS
    · simp [hc, isExit_EXIT_ERROR]
    · simp [hc, isExit_zero]
  | cons lx rest =>
    have hx := h lx (List.mem_cons_self _ _)
    have hb : ¬ (lx.iType = LX_PUNCT ∧ lx.szLex.data.head? = some CH_RPAREN) := by
      have h1 : ¬ lx.iType = LX_PUNCT ∨ ¬ lx.szLex.data.head? = some ')' := by
        simpa [missingParen] using hbad
      rintro ⟨a, b⟩
      rcases h1 with h | h
      · exact h a
      · exact h b
    simp only [EGetPunct, NextLex, hx, Bool.false_eq_true, if_false, hb, hrep]
    by_cases hc : pib.cErrors > MAX_ERRORS
    · simp [hc, isExit_EXIT_ERROR]
    · simp [hc, isExit_zero]

theorem GetNDoses_close_missing (pib : INPUTBUF) (t : List LEXEME) (pifn : IFN)
    (out : List REPORT) (ht : clean t) (hbad : missingParen t = true) :
    (GetNDoses.close 0 ⟨pib, t⟩ pifn out).ret =
        (if pib.cErrors > MAX_ERRORS then EXIT_ERROR else 0) ∧
      released (GetNDoses.close 0 ⟨pib, t⟩ pifn out).ifn := by
  have he := EGetPunct_missing pib t ht hbad
  by_cases hc : pib.cErrors > MAX_ERRORS
  · rw [if_pos hc] at he
    simp only [GetNDoses.close, if_true, he, isExit_EXIT_ERROR, and_self, if_pos hc]
    exact ⟨trivial, released_CleanUp _⟩
  · rw [if_neg hc] at he
    simp only [GetNDoses.close, if_true, he, isExit_one, Bool.false_eq_true, and_false, if_false,
      GetNDoses.exit, ne_eq, one_ne_zero, not_false_eq_true, if_neg hc]
    exact ⟨trivial, released_CleanUp _⟩

theorem GetNDoses_exposures_missing (L : LIBC) (pib : INPUTBUF) (t : List LEXEME) (pifn : IFN)
    (out : List REPORT) (xs : List (Bool × LEXEME)) (n : Nat) (hnd : pifn.nDoses = (n : Int))
    (hn : xs.length < n) (hxs : ∀ x ∈ xs, numeric x.2) (ht : clean t)
    (hbad : missingNumber t = true) :
    (GetNDoses.exposures L 0 ⟨pib, sepd xs ++ t⟩ pifn out).ret =
        (if pib.cErrors > MAX_ERRORS then EXIT_ERROR else 0) ∧
      released (GetNDoses.exposures L 0 ⟨pib, sepd xs ++ t⟩ pifn out).ifn := by
  obtain ⟨hp1, hp2, hp3⟩ := GetOptPunct_clean pib (sepd xs ++ t)
    (clean_append _ _ (sepd_ret xs hxs) ht)
  obtain ⟨hm1, hm2⟩ := GetNNumbers_missing L pib t ht hbad xs n hn hxs (pifn.rgTexps.getD [])
  by_cases hc : pib.cErrors > MAX_ERRORS
  · rw [if_pos hc] at hm1
    simp only [GetNDoses.exposures, hp1, Bool.false_eq_true, if_false, hp2, if_true, hnd, hm1,
      isExit_EXIT_ERROR, and_self, if_pos hc]
    exact ⟨trivial, released_CleanUp _⟩
  · rw [if_neg hc] at hm1
    simp only [GetNDoses.exposures, hp1, Bool.false_eq_true, if_false, hp2, if_true, hnd, hm1,
      isExit_one, and_false, if_neg hc]
    exact GetNDoses_close_err 1 _ _ _ one_ne_zero

theorem GetNDoses_starts_missing (L : LIBC) (pib : INPUTBUF) (t : List LEXEME) (pifn : IFN)
    (out : List REPORT) (xs : List (Bool × LEXEME)) (n : Nat) (hnd : pifn.nDoses = (n : Int))
    (hn : xs.length < n) (hxs : ∀ x ∈ xs, numeric x.2) (ht : clean t)
    (hbad : missingNumber t = true) :
    (GetNDoses.starts L 0 ⟨pib, sepd xs ++ t⟩ pifn out).ret =
        (if pib.cErrors > MAX_ERRORS then EXIT_ERROR else 0) ∧
      released (GetNDoses.starts L 0 ⟨pib, sepd xs ++ t⟩ pifn out).ifn := by
  obtain ⟨hp1, hp2, hp3⟩ := GetOptPunct_clean pib (sepd xs ++ t)
    (clean_append _ _ (sepd_ret xs hxs) ht)
  obtain ⟨hm1, hm2⟩ := GetNNumbers_missing L pib t ht hbad xs n hn hxs (pifn.rgT0s.getD [])
  by_cases hc : pib.cErrors > MAX_ERRORS
  · rw [if_pos hc] at hm1
    simp only [GetNDoses.starts, hp1, Bool.false_eq_true, if_false, hp2, if_true, hnd, hm1,
      isExit_EXIT_ERROR, and_self, if_pos hc]
    exact ⟨trivial, released_CleanUp _⟩
  · rw [if_neg hc] at hm1
    simp only [GetNDoses.starts, hp1, Bool.false_eq_true, if_false, hp2, if_true, hnd, hm1,
      isExit_one, and_false, if_neg hc]
    exact GetNDoses_exposures_err L 1 _ _ _ _ one_ne_zero hm2

theorem GetNDoses_lists_missing (L : LIBC) (pib : INPUTBUF) (t : List LEXEME) (pifn : IFN)
    (xs : List (Bool × LEXEME)) (n : Nat) (hnd : pifn.nDoses = (n : Int))
    (hn : xs.length < n) (hxs : ∀ x ∈ xs, numeric x.2) (ht : clean t)
    (hbad : missingNumber t = true) :
    (GetNDoses.lists L ⟨pib, sepd xs ++ t⟩ pifn).ret = 0 ∧
      released (GetNDoses.lists L ⟨pib, sepd xs ++ t⟩ pifn).ifn := by
  obtain ⟨hp1, hp2, hp3⟩ := GetOptPunct_clean pib (sepd xs ++ t)
    (clean_append _ _ (sepd_ret xs hxs) ht)
  obtain ⟨hm1, hm2⟩ := GetNNumbers_missing L pib t ht hbad xs n hn hxs (pifn.rgMags.getD [])
  have hne : (GetNNumbers L ⟨pib, skipComma (sepd xs ++ t)⟩ (n : Int) (pifn.rgMags.getD [])).ret ≠
      0 := by
    rw [hm1]; exact failed_ne_zero _
  simp only [GetNDoses.lists, hp1, Bool.false_eq_true, if_false, hp2, hnd]
  exact GetNDoses_starts_err L _ _ _ _ _ hne hm2

/-- The three stages of `GetNDoses.lists` over a full list of `n` numeric
arguments: each hands over to the next with `bErr` unset. -/
theorem GetNDoses_exposures_numeric (L : LIBC) (pib : INPUTBUF) (t : List LEXEME) (pifn : IFN)
    (out : List REPORT) (xs : List (Bool × LEXEME)) (n : Nat) (hnd : pifn.nDoses = (n : Int))
    (hn : xs.length = n) (hn0 : n ≠ 0) (hxs : ∀ x ∈ xs, numeric x.2) :
    ∃ pifn1 out1, GetNDoses.exposures L 0 ⟨pib, sepd xs ++ t⟩ pifn out =
      GetNDoses.close 0 ⟨pib, t⟩ pifn1 out1 := by
  have hne : xs ≠ [] := by
    intro e; rw [e] at hn; exact hn0 hn.symm
  have hp1 := GetOptPunct_sepd_ret pib xs t hxs hne
  obtain ⟨hp2, hp3⟩ := GetOptPunct_buf pib (sepd xs ++ t)
  obtain ⟨hm1, hm2⟩ := GetNNumbers_numeric_any L pib t xs n hn hn0 hxs (pifn.rgTexps.getD [])
  simp only [GetNDoses.exposures, hp1, Bool.false_eq_true, if_false, hp2, if_true, hnd, hm1, hm2,
    isExit_zero, and_false]
  exact ⟨_, _, rfl⟩

theorem GetNDoses_starts_numeric (L : LIBC) (pib : INPUTBUF) (t : List LEXEME) (pifn : IFN)
    (out : List REPORT) (xs : List (Bool × LEXEME)) (n : Nat) (hnd : pifn.nDoses = (n : Int))
    (hn : xs.length = n) (hn0 : n ≠ 0) (hxs : ∀ x ∈ xs, numeric x.2) :
    ∃ pifn1 out1, pifn1.nDoses = (n : Int) ∧
      GetNDoses.starts L 0 ⟨pib, sepd xs ++ t⟩ pifn out =
        GetNDoses.exposures L 0 ⟨pib, t⟩ pifn1 out1 := by
  have hne : xs ≠ [] := by
    intro e; rw [e] at hn; exact hn0 hn.symm
  have hp1 := GetOptPunct_sepd_ret pib xs t hxs hne
  obtain ⟨hp2, hp3⟩ := GetOptPunct_buf pib (sepd xs ++ t)
  obtain ⟨hm1, hm2⟩ := GetNNumbers_numeric_any L pib t xs n hn hn0 hxs (pifn.rgT0s.getD [])
  simp only [GetNDoses.starts, hp1, Bool.false_eq_true, if_false, hp2, if_true, hnd, hm1, hm2,
    isExit_zero, and_false]
  refine ⟨_, _, ?_, rfl⟩
  rfl

theorem GetNDoses_lists_numeric (L : LIBC) (pib : INPUTBUF) (t : List LEXEME) (pifn : IFN)
    (xs : List (Bool × LEXEME)) (n : Nat) (hnd : pifn.nDoses = (n : Int))
    (hn : xs.length = n) (hn0 : n ≠ 0) (hxs : ∀ x ∈ xs, numeric x.2) :
    ∃ pifn1 out1, pifn1.nDoses = (n : Int) ∧
      GetNDoses.lists L ⟨pib, sepd xs ++ t⟩ pifn = GetNDoses.starts L 0 ⟨pib, t⟩ pifn1 out1 := by
  have hne : xs ≠ [] := by
    intro e; rw [e] at hn; exact hn0 hn.symm
  have hp1 := GetOptPunct_sepd_ret pib xs t hxs hne
  obtain ⟨hp2, hp3⟩ := GetOptPunct_buf pib (sepd xs ++ t)
  obtain ⟨hm1, hm2⟩ := GetNNumbers_numeric_any L pib t xs n hn hn0 hxs (pifn.rgMags.getD [])
  simp only [GetNDoses.lists, hp1, Bool.false_eq_true, if_false, hp2, hnd, hm1, hm2]
  refine ⟨_, _, ?_, rfl⟩
  rfl

/-- The status of `ReportError`, with or without a buffer. -/
theorem ReportError_ret (pibIn : Option INPUTBUF) (wCode : Nat) (szMsg szAltMsg : Option String) :
    (ReportError pibIn wCode szMsg szAltMsg).1 =
      if (wCode &&& RE_FATAL) ≠ 0 ∨
          ((wCode ^^^ (wCode &&& (RE_FATAL ||| RE_WARNING))) ≠ 0 ∧ (wCode &&& RE_WARNING) = 0 ∧
            ∃ pib, pibIn = some pib ∧ pib.cErrors > MAX_ERRORS)
      then EXIT_ERROR else 0 := by
  cases pibIn with
  | none =>
    simp only [ReportError]
    by_cases hf : (wCode &&& RE_FATAL) = 0 <;> by_cases hw : (wCode &&& RE_WARNING) = 0 <;>
      by_cases hc : (wCode ^^^ (wCode &&& (RE_FATAL ||| RE_WARNING))) = 0 <;>
      simp [hf, hw, hc]
  | some pib =>
    simp only [ReportError]
    by_cases hf : (wCode &&& RE_FATAL) = 0 <;> by_cases hw : (wCode &&& RE_WARNING) = 0 <;>
      by_cases hc : (wCode ^^^ (wCode &&& (RE_FATAL ||| RE_WARNING))) = 0 <;>
      by_cases hm : pib.cErrors > MAX_ERRORS <;> simp [hf, hw, hc, hm]

/-- The buffer after `ReportError`: the error count goes up by one for a code
that is not zero without the warning flag, and nothing else changes. -/
theorem ReportError_count (pib : INPUTBUF) (wCode : Nat) (szMsg szAltMsg : Option String) :
    (ReportError (some pib) wCode szMsg szAltMsg).2.1 =
      some (if (wCode ^^^ (wCode &&& (RE_FATAL ||| RE_WARNING))) ≠ 0 ∧ (wCode &&& RE_WARNING) = 0
        then { pib with cErrors := pib.cErrors + 1 } else pib) := by
  simp only [ReportError]
  by_cases hw : (wCode &&& RE_WARNING) = 0 <;>
    by_cases hc : (wCode ^^^ (wCode &&& (RE_FATAL ||| RE_WARNING))) = 0 <;> simp [hw, hc]

theorem reportRets_plain (codes : List Nat) : ∀ (pibIn : INPUTBUF),
    (∀ w ∈ codes, (w &&& RE_FATAL) = 0 ∧ (w &&& RE_WARNING) = 0 ∧ w ≠ 0) →
    reportRets pibIn codes =
      (List.range codes.length).map
        (fun i => if pibIn.cErrors + i > MAX_ERRORS then EXIT_ERROR else 0) := by
  induction codes with
  | nil => intro _ _; rfl
  | cons w ws ih =>
    intro pibIn h
    obtain ⟨hf, hw, h0⟩ := h w (List.mem_cons_self _ _)
    have hrep := report_plain pibIn w "" none h0 hf hw
    rw [reportRets, hrep, ih _ (fun v hv => h v (List.mem_cons_of_mem _ hv))]
    simp only [List.length_cons, List.range_succ_eq_map, List.map_cons, List.map_map,
      Nat.add_zero]
    congr 1
    apply List.map_congr_left
    intro i _
    simp only [Function.comp_apply]
    have e : pibIn.cErrors + 1 + i = pibIn.cErrors + (i + 1) := by omega
    rw [e]

/-- C27: `ReportError` returns the fatal exit code iff the fatal flag is set in
the code, or the code without its severity flags is not zero, the warning flag
is not set, a buffer is given and its error count before the call exceeds
`MAX_ERRORS`, which is 20; in every other case it returns 0.  On a buffer a
warning leaves the error count as it is, and an error (a code that is not zero,
without the warning flag) raises it by exactly one.  So of successive plain
errors on one buffer that starts with count 0, the first 21 return 0 and the
22nd returns the fatal exit code. -/
theorem C27_ReportError_status_and_count :
    MAX_ERRORS = 20 ∧
    (∀ (pibIn : Option INPUTBUF) (wCode : Nat) (szMsg szAltMsg : Option String),
      ((ReportError pibIn wCode szMsg szAltMsg).1 = EXIT_ERROR ↔
        ((wCode &&& RE_FATAL) ≠ 0 ∨
          ((wCode ^^^ (wCode &&& (RE_FATAL ||| RE_WARNING))) ≠ 0 ∧ (wCode &&& RE_WARNING) = 0 ∧
            ∃ pib, pibIn = some pib ∧ pib.cErrors > MAX_ERRORS))) ∧
      ((ReportError pibIn wCode szMsg szAltMsg).1 = EXIT_ERROR ∨
        (ReportError pibIn wCode szMsg szAltMsg).1 = 0)) ∧
    (∀ (pib : INPUTBUF) (wCode : Nat) (szMsg szAltMsg : Option String),
      ((wCode &&& RE_WARNING) ≠ 0 →
        (ReportError (some pib) wCode szMsg szAltMsg).2.1 = some pib) ∧
      ((wCode &&& RE_WARNING) = 0 → (wCode ^^^ (wCode &&& (RE_FATAL ||| RE_WARNING))) ≠ 0 →
        (ReportError (some pib) wCode szMsg szAltMsg).2.1 =
          some { pib with cErrors := pib.cErrors + 1 })) ∧
    (∀ (pib : INPUTBUF) (codes : List Nat), pib.cErrors = 0 → codes.length = 22 →
      (∀ w ∈ codes, (w &&& RE_FATAL) = 0 ∧ (w &&& RE_WARNING) = 0 ∧ w ≠ 0) →
      reportRets pib codes = List.replicate 21 0 ++ [EXIT_ERROR]) := by
  refine ⟨rfl, fun pibIn wCode szMsg szAltMsg => ?_, fun pib wCode szMsg szAltMsg => ?_,
    fun pib codes h0 hlen hcodes => ?_⟩
  · rw [ReportError_ret]
    split_ifs with h
    · exact ⟨⟨fun _ => h, fun _ => rfl⟩, Or.inl rfl⟩
    · exact ⟨⟨fun e => absurd e (by decide), fun e => absurd e h⟩, Or.inr rfl⟩
  · rw [ReportError_count]
    refine ⟨fun hw => ?_, fun hw hc => ?_⟩
    · rw [if_neg (fun h => hw h.2)]
    · rw [if_pos ⟨hc, hw⟩]
  · rw [reportRets_plain codes pib hcodes, hlen, h0]
    decide

theorem C27_ReportError_status_and_count_witness :
    reportRets startBuf (List.replicate 22 RE_UNDEFINED) = List.replicate 21 0 ++ [EXIT_ERROR] :=
  C27_ReportError_status_and_count.2.2.2 startBuf (List.replicate 22 RE_UNDEFINED) (by decide)
    (by decide) (by decide)

/-- C28 (as stated, refuted): on a buffer at the start of the analysis,
`ReportError` with the out-of-memory code and no severity flag, as
`DefineGlobalVar` calls it, returns 0; so does the call with the warning
flag. -/
theorem C28_counterexample_out_of_memory_is_not_always_fatal :
    (ReportError (some startBuf) RE_OUTOFMEM (some "Dose") none).1 = 0 ∧
    (ReportError (some startBuf) (RE_OUTOFMEM ||| RE_WARNING) (some "Dose") none).1 = 0 ∧
    (0 : Int) ≠ EXIT_ERROR := by
  decide

/-- C28 (amended): `ReportError` has no rule of its own for the out-of-memory
code; the severity is the one the caller asks for.  With the fatal flag the
call returns the fatal exit code for every buffer, with or without the warning
flag; with the warning flag alone it returns 0; and without a flag it returns
the fatal exit code exactly when a buffer is given whose error count exceeds
`MAX_ERRORS`. -/
theorem C28_out_of_memory_is_as_fatal_as_asked :
    ∀ (pibIn : Option INPUTBUF) (szMsg szAltMsg : Option String),
      (ReportError pibIn (RE_OUTOFMEM ||| RE_FATAL) szMsg szAltMsg).1 = EXIT_ERROR ∧
      (ReportError pibIn (RE_OUTOFMEM ||| RE_FATAL ||| RE_WARNING) szMsg szAltMsg).1 =
        EXIT_ERROR ∧
      (ReportError pibIn (RE_OUTOFMEM ||| RE_WARNING) szMsg szAltMsg).1 = 0 ∧
      ((ReportError pibIn RE_OUTOFMEM szMsg szAltMsg).1 = EXIT_ERROR ↔
        ∃ pib, pibIn = some pib ∧ pib.cErrors > MAX_ERRORS) ∧
      ((ReportError pibIn RE_OUTOFMEM szMsg szAltMsg).1 = EXIT_ERROR ∨
        (ReportError pibIn RE_OUTOFMEM szMsg szAltMsg).1 = 0) := by
  intro pibIn szMsg szAltMsg
  have f1 : ((RE_OUTOFMEM ||| RE_FATAL) &&& RE_FATAL) ≠ 0 := by decide
  have f2 : ((RE_OUTOFMEM ||| RE_FATAL ||| RE_WARNING) &&& RE_FATAL) ≠ 0 := by decide
  have f3 : ((RE_OUTOFMEM ||| RE_WARNING) &&& RE_FATAL) = 0 := by decide
  have f4 : ((RE_OUTOFMEM ||| RE_WARNING) &&& RE_WARNING) ≠ 0 := by decide
  have f5 : (RE_OUTOFMEM &&& RE_FATAL) = 0 := by decide
  have f6 : (RE_OUTOFMEM &&& RE_WARNING) = 0 := by decide
  have f7 : (RE_OUTOFMEM ^^^ (RE_OUTOFMEM &&& (RE_FATAL ||| RE_WARNING))) ≠ 0 := by decide
  refine ⟨?_, ?_, ?_, ?_, ?_⟩
  · rw [ReportError_ret, if_pos (Or.inl f1)]
  · rw [ReportError_ret, if_pos (Or.inl f2)]
  · rw [ReportError_ret, if_neg]
    rintro (h | ⟨_, h, _⟩)
    · exact h f3
    · exact f4 h
  · rw [ReportError_ret]
    split_ifs with h
    · rcases h with h | ⟨_, _, h⟩
      · exact absurd f5 h
      · exact ⟨fun _ => h, fun _ => rfl⟩
    · exact ⟨fun e => absurd e (by decide), fun e => absurd (Or.inr ⟨f7, f6, e⟩) h⟩
  · rw [ReportError_ret]
    split_ifs
    · exact Or.inl rfl
    · exact Or.inr rfl

/-! ## Scenarios -/

/-- C29: from the empty table, `States { A };` and then, in the Dynamics
section, `dt (A) = -0.1 * A;` both return 0 without any report; Global Variables
holds the one record of `A`, a State without value, and Dynamics Equations the
one record of `A` with the Derivative kind and the text `-0.1 * A`; the other
stacks are empty. -/
theorem C29_state_with_derivative :
    stateWithDecay.map (fun p => (p.1.ret, p.1.out, p.2.ret, p.2.out, allStacks p.2.pib.pInfo))
      = some (0, [], 0, [],
          [[⟨"A", none, ID_STATE⟩],
           [⟨"A", some (EQN.text "-0.1 * A"), ID_DERIV ||| ID_SPACEFLAG⟩],
           [], [], [], [], [], [], []]) ∧
    TYPE [⟨"A", some (EQN.text "-0.1 * A"), ID_DERIV ||| ID_SPACEFLAG⟩] = ID_DERIV := by
  set_option synthInstance.maxSize 2048 in
  decide

/-- C30: the calls made for `Dose = 1.0;` followed by `Inputs { Dose };` from the
empty table return 0 and leave in Global Variables a record of Input kind whose
payload is the equation text `1.0`, not a dosing-function record. -/
theorem C30_promoted_input_keeps_equation_text :
    (defineThenDeclare numberScanner startBuf "Dose" "1.0" 0 KM_INPUTS).map
        (fun p => (p.1.ret, p.2.ret, p.2.pib.pInfo.pvmGloVars))
      = some (0, 0, [⟨"Dose", some (EQN.text "1.0"), ID_INPUT⟩]) ∧
    (run numberScanner startBuf
        [CALL.define 1 (some "Dose") (some "1.0") 0, CALL.declare 2 "Dose" KM_INPUTS]).map
        (fun p => p.pInfo.pvmGloVars)
      = some [⟨"Dose", some (EQN.text "1.0"), ID_INPUT⟩] := by
  decide

/-! ## Repeated definitions in a section -/

/-- C23: from the empty table, two assignments `x = 1.0;`, `x = 2.0;` to the
undeclared name `x` give two records in Scale Equations when made in the Scale
section and two in Jacobian Equations when made in the Jacobian section, without
any report; made in the Events or in the Roots section, the second assignment is
reported as a redefinition and ignored, and the section stack holds one record.
The local kind given to `x` in Events and Roots is that of the Jacobian. -/
theorem C23_second_local_assignment_in_events_is_ignored :
    (assignTwice numberScanner (sectionBuf CN_SCALE) "x" "1.0" "2.0").map
        (fun p => (p.1.ret, p.1.out, p.2.ret, p.2.out, p.2.pib.pInfo.pvmScaleEqns))
      = some (0, [], 0, [],
          [⟨"x", some (EQN.text "2.0"), ID_LOCALSCALE⟩,
           ⟨"x", some (EQN.text "1.0"), ID_LOCALSCALE⟩]) ∧
    (assignTwice numberScanner (sectionBuf CN_JACOB) "x" "1.0" "2.0").map
        (fun p => (p.1.ret, p.1.out, p.2.ret, p.2.out, p.2.pib.pInfo.pvmJacobEqns))
      = some (0, [], 0, [],
          [⟨"x", some (EQN.text "2.0"), ID_LOCALJACOB⟩,
           ⟨"x", some (EQN.text "1.0"), ID_LOCALJACOB⟩]) ∧
    (assignTwice numberScanner (sectionBuf CN_EVENTS) "x" "1.0" "2.0").map
        (fun p => (p.1.ret, p.1.out, p.2.ret, p.2.out, p.2.pib.pInfo.pvmEventEqns))
      = some (0, [], 0, [⟨RE_REDEF, true, false, "x", some "* Ignoring"⟩],
          [⟨"x", some (EQN.text "1.0"), ID_LOCALJACOB⟩]) ∧
    (assignTwice numberScanner (sectionBuf CN_ROOTS) "x" "1.0" "2.0").map
        (fun p => (p.1.ret, p.1.out, p.2.ret, p.2.out, p.2.pib.pInfo.pvmRootEqns))
      = some (0, [], 0, [⟨RE_REDEF, true, false, "x", some "* Ignoring"⟩],
          [⟨"x", some (EQN.text "1.0"), ID_LOCALJACOB⟩]) ∧
    ID_LOCALJACOB ≠ ID_LOCALEVENT ∧ ID_LOCALJACOB ≠ ID_LOCALROOT := by
  set_option synthInstance.maxSize 2048 in
  decide

/-- C24: with `k1` a Parameter of Global Variables, two assignments `k1 = 2.0;`,
`k1 = 3.0;` in the Scale section give two records for `k1` in Scale Equations
and no report, and likewise in the Jacobian section: the second definition is
not ignored.  The test `hType & ID_LOCALSCALE` of the rule is not zero for the
Parameter kind, nor is `hType & ID_LOCALJACOB`. -/
theorem C24_second_parameter_equation_is_not_ignored :
    GetVarType parmBuf.pInfo.pvmGloVars "k1" = ID_PARM ∧
    (assignTwice numberScanner (enter parmBuf CN_SCALE) "k1" "2.0" "3.0").map
        (fun p => (p.1.ret, p.1.out, p.2.ret, p.2.out, p.2.pib.pInfo.pvmScaleEqns))
      = some (0, [], 0, [],
          [⟨"k1", some (EQN.text "3.0"), ID_PARM⟩, ⟨"k1", some (EQN.text "2.0"), ID_PARM⟩]) ∧
    (assignTwice numberScanner (enter parmBuf CN_JACOB) "k1" "2.0" "3.0").map
        (fun p => (p.1.ret, p.1.out, p.2.ret, p.2.out, p.2.pib.pInfo.pvmJacobEqns))
      = some (0, [], 0, [],
          [⟨"k1", some (EQN.text "3.0"), ID_PARM⟩, ⟨"k1", some (EQN.text "2.0"), ID_PARM⟩]) ∧
    (ID_PARM &&& ID_LOCALSCALE) ≠ 0 ∧ (ID_PARM &&& ID_LOCALJACOB) ≠ 0 ∧
    ID_PARM ≠ ID_LOCALSCALE ∧ ID_PARM ≠ ID_LOCALJACOB := by
  set_option synthInstance.maxSize 2048 in
  decide

/-! ## Accepted equations and the section rules -/

theorem VerifyEqn_identifier_loud (X : SCANNER) (pibIn : INPUTBUF) (szLex : String) (bOK : Bool) :
    (VerifyEqn.identifier X pibIn szLex bOK).1.out = [] ∨
      isExit (VerifyEqn.identifier X pibIn szLex bOK).1.ret = true ∨
      (VerifyEqn.identifier X pibIn szLex bOK).2 = false := by
  have hf1 : ((RE_BADCONTEXT ||| RE_FATAL) &&& RE_FATAL) ≠ 0 := by decide
  have hex : isExit (report pibIn (RE_BADCONTEXT ||| RE_FATAL) szLex none).ret = true := by
    rw [report_ret_fatal _ _ _ _ hf1]; exact isExit_EXIT_ERROR
  unfold VerifyEqn.identifier
  simp only []
  split_ifs
  all_goals first
    | exact Or.inl rfl
    | exact Or.inr (Or.inl hex)

theorem VerifyEqn_identifier_quiet (X : SCANNER) (pibIn : INPUTBUF) (szLex : String) (bOK : Bool)
    (h2 : (VerifyEqn.identifier X pibIn szLex bOK).2 = true)
    (hx : isExit (VerifyEqn.identifier X pibIn szLex bOK).1.ret = false) :
    (VerifyEqn.identifier X pibIn szLex bOK).1.out = [] := by
  rcases VerifyEqn_identifier_loud X pibIn szLex bOK with h | h | h
  · exact h
  · rw [h] at hx; exact absurd hx (by decide)
  · rw [h] at h2; exact absurd h2 (by decide)

theorem VerifyEqn_switch_quiet (X : SCANNER) (pibIn : INPUTBUF) (lx : LEXEME) (bOK : Bool)
    (h2 : (VerifyEqn.switch X pibIn lx bOK).2 = true)
    (hx : isExit (VerifyEqn.switch X pibIn lx bOK).1.ret = false) :
    (VerifyEqn.switch X pibIn lx bOK).1.out = [] := by
  unfold VerifyEqn.switch at h2 hx ⊢
  split_ifs at h2 hx ⊢ <;> first
    | exact VerifyEqn_identifier_quiet X pibIn lx.szLex bOK h2 hx
    | exact absurd h2 (by decide)
    | rfl

theorem VerifyEqn_loop_quiet (X : SCANNER) (toks : List LEXEME) :
    ∀ (p : INPUTBUF) (bReturn bOK : Bool),
      isExit (VerifyEqn.loop X toks p bReturn bOK).ret = false →
      (VerifyEqn.loop X toks p bReturn bOK).ret ≠ 0 →
      (VerifyEqn.loop X toks p bReturn bOK).out = [] ∧ bReturn = true := by
  induction toks with
  | nil =>
    intro p b1 b2 _ h0
    cases b1
    · simp [VerifyEqn.loop] at h0
    · simp [VerifyEqn.loop]
  | cons lx rest ih =>
    intro p b1 b2 hx h0
    simp only [VerifyEqn.loop] at hx h0 ⊢
    by_cases h1 : isExit lx.ret = true
    · simp only [h1, if_true] at hx
      exact absurd hx (by decide)
    · simp only [h1, Bool.false_eq_true, if_false] at hx h0 ⊢
      by_cases h2 : isExit (VerifyEqn.switch X p lx b2).1.ret = true
      · simp only [h2, if_true] at hx
        exact absurd hx (by decide)
      · simp only [h2, Bool.false_eq_true, if_false] at hx h0 ⊢
        obtain ⟨hout, hb⟩ := ih _ _ _ hx h0
        simp only [Bool.and_eq_true] at hb
        have hq := VerifyEqn_switch_quiet X p lx b2 hb.2 (by simpa using h2)
        exact ⟨by rw [hq, hout]; rfl, hb.1⟩

/-- An equation that passes verification is verified without any report. -/
theorem VerifyEqn_accepted_out (X : SCANNER) (pibIn : INPUTBUF) (szEqn : String)
    (h : accepted X pibIn szEqn) : (VerifyEqn X pibIn szEqn).out = [] :=
  (VerifyEqn_loop_quiet X _ pibIn true true h.1 h.2).1

theorem map_out_nil (r : Option OUTCOME) :
    r.map (fun o2 => { o2 with out := [] ++ o2.out }) = r := by
  cases r with
  | none => rfl
  | some o => rfl

/-- When the equation passes verification, or is not verified at all,
`DefineVariable` is the section rule of the context, applied to a buffer that
differs from the given one at most in the error count and the delay flag. -/
theorem DefineVariable_accepted (X : SCANNER) (pibIn : INPUTBUF) (szName szEqn : String)
    (iKWCode : Int) (hctx : pibIn.pInfo.wContext ≠ CN_END)
    (hver : iKWCode ≠ KM_INLINE ∧
        (shadowedKind pibIn.pInfo szName ≠ ID_INPUT ∨ pibIn.pInfo.wContext ≠ CN_GLOBAL) →
      accepted X pibIn szEqn) :
    ∃ p, core p = core pibIn ∧
      DefineVariable X pibIn (some szName) (some szEqn) iKWCode =
        DefineVariable.dispatch X p (shadowedPTR pibIn.pInfo szName) szName szEqn iKWCode
          (shadowedKind pibIn.pInfo szName) := by
  by_cases hc : iKWCode ≠ KM_INLINE ∧
      (shadowedKind pibIn.pInfo szName ≠ ID_INPUT ∨ pibIn.pInfo.wContext ≠ CN_GLOBAL)
  · obtain ⟨hx, h0⟩ := hver hc
    have hout := VerifyEqn_accepted_out X pibIn szEqn ⟨hx, h0⟩
    refine ⟨(VerifyEqn X pibIn szEqn).pib, VerifyEqn_core X pibIn szEqn, ?_⟩
    unfold shadowedKind shadowedPTR at hc ⊢
    unfold DefineVariable
    simp only [hctx, if_false, if_pos hc, propagateResult, hx, Bool.false_eq_true, h0, hout]
    exact map_out_nil _
  · refine ⟨pibIn, rfl, ?_⟩
    unfold shadowedKind shadowedPTR at hc ⊢
    unfold DefineVariable
    simp only [hctx, if_false, if_neg hc, propagateResult, isExit_one, Bool.false_eq_true,
      one_ne_zero]
    exact map_out_nil _

theorem core_wContext (p q : INPUTBUF) (h : core p = core q) :
    p.pInfo.wContext = q.pInfo.wContext := by
  rw [core_eq_elim q p h]

theorem core_allStacks (p q : INPUTBUF) (h : core p = core q) :
    allStacks p.pInfo = allStacks q.pInfo := by
  rw [core_eq_elim q p h]
  rfl

theorem report_BADCONTEXT_FATAL (pibIn : INPUTBUF) (szMsg : String) (szAltMsg : Option String) :
    report pibIn (RE_BADCONTEXT ||| RE_FATAL) szMsg szAltMsg
      = ⟨EXIT_ERROR, { pibIn with cErrors := pibIn.cErrors + 1 },
          [⟨RE_BADCONTEXT, false, true, szMsg, szAltMsg⟩]⟩ := by
  have h1 : (RE_BADCONTEXT ||| RE_FATAL) &&& RE_FATAL = RE_FATAL := by decide
  have h2 : (RE_BADCONTEXT ||| RE_FATAL) &&& RE_WARNING = 0 := by decide
  have h3 : (RE_BADCONTEXT ||| RE_FATAL) ^^^
      ((RE_BADCONTEXT ||| RE_FATAL) &&& (RE_FATAL ||| RE_WARNING)) = RE_BADCONTEXT := by decide
  have h4 : RE_FATAL ≠ 0 := by decide
  have h5 : RE_BADCONTEXT ≠ 0 := by decide
  simp [report, ReportError, h1, h2, h3, h4, h5]

/-- The CalcOutputs rule of `DefineVariable.dispatch` for an Output, an
undeclared name, a local of CalcOutputs or an Inline statement: the equation is
prepended to CalcOutputs Equations. -/
theorem dispatch_CalcOutputs_defines (X : SCANNER) (p : INPUTBUF) (pvm : PVMMAPSTRCT)
    (szName szEqn : String) (iKWCode : Int) (hType : HANDLE)
    (hctx : p.pInfo.wContext = CN_CALCOUTPUTS)
    (hok : hType = ID_OUTPUT ∨ hType = ID_NULL ∨ hType = ID_LOCALCALCOUT ∨
      iKWCode = KM_INLINE) :
    ∃ o, DefineVariable.dispatch X p pvm szName szEqn iKWCode hType = some o ∧ o.ret = 0 ∧
      o.out = [] ∧
      ∃ h, o.pib.pInfo.pvmCalcOutEqns =
        ⟨szName, some (EQN.text szEqn), h⟩ :: p.pInfo.pvmCalcOutEqns := by
  have c1 : CN_CALCOUTPUTS ≠ CN_GLOBAL := by decide
  have c2 : CN_CALCOUTPUTS ≠ CN_DYNAMICS := by decide
  have c3 : CN_CALCOUTPUTS ≠ CN_JACOB := by decide
  have c4 : CN_CALCOUTPUTS ≠ CN_EVENTS := by decide
  have c5 : CN_CALCOUTPUTS ≠ CN_ROOTS := by decide
  have c6 : CN_CALCOUTPUTS ≠ CN_SCALE := by decide
  simp only [DefineVariable.dispatch, hctx, c1, c2, c3, c4, c5, c6, if_false, if_pos hok]
  unfold DefineCalcOutEqn
  by_cases hn : szName = "Inline"
  · simp [hn, propagate, AddEquationCalcOut, AddEquation, CopyString, isExit_zero, endEqn]
  · by_cases h0 : hType = 0
    · simp [hn, h0, propagate, AddEquationCalcOut, AddEquationGlo, AddEquation, CopyString,
        isExit_zero, endEqn]
    · simp [hn, h0, propagate, AddEquationCalcOut, AddEquation, CopyString, isExit_zero, endEqn]

/-- The CalcOutputs rule of `DefineVariable.dispatch` for any other kind, when
the statement is no Inline statement: the fatal report of a bad context. -/
theorem dispatch_CalcOutputs_rejects (X : SCANNER) (p : INPUTBUF) (pvm : PVMMAPSTRCT)
    (szName szEqn : String) (iKWCode : Int) (hType : HANDLE)
    (hctx : p.pInfo.wContext = CN_CALCOUTPUTS)
    (hbad : ¬ (hType = ID_OUTPUT ∨ hType = ID_NULL ∨ hType = ID_LOCALCALCOUT ∨
      iKWCode = KM_INLINE)) :
    DefineVariable.dispatch X p pvm szName szEqn iKWCode hType =
      some ⟨EXIT_ERROR, { p with cErrors := p.cErrors + 1 },
        [⟨RE_BADCONTEXT, false, true, szName,
          some ("Only outputs and local variables can be " ++
            "defined in CalcOutputs{} section.")⟩]⟩ := by
  have c1 : CN_CALCOUTPUTS ≠ CN_GLOBAL := by decide
  have c2 : CN_CALCOUTPUTS ≠ CN_DYNAMICS := by decide
  have c3 : CN_CALCOUTPUTS ≠ CN_JACOB := by decide
  have c4 : CN_CALCOUTPUTS ≠ CN_EVENTS := by decide
  have c5 : CN_CALCOUTPUTS ≠ CN_ROOTS := by decide
  have c6 : CN_CALCOUTPUTS ≠ CN_SCALE := by decide
  simp only [DefineVariable.dispatch, hctx, c1, c2, c3, c4, c5, c6, if_false, if_neg hbad,
    report_BADCONTEXT_FATAL, propagate, isExit_EXIT_ERROR, if_true]

/-- C21: in the CalcOutputs context, for every name and every equation that
passes verification (an Inline statement is not verified), `DefineVariable`
returns the fatal exit code and leaves every stack unchanged iff the statement
is not an Inline statement and the kind of the name in Global Variables, after
shadowing of the locals of other sections, is neither Output, nor the null kind
of an undeclared name, nor Local-to-CalcOutputs; the report is then that of a
bad context.  In all other cases it returns 0 without report and prepends a
record with the name and the equation to CalcOutputs Equations. -/
theorem C21_CalcOutputs_accepts_outputs_locals_inline (X : SCANNER) (pibIn : INPUTBUF)
    (szName szEqn : String) (iKWCode : Int) (hctx : pibIn.pInfo.wContext = CN_CALCOUTPUTS)
    (hver : iKWCode ≠ KM_INLINE → accepted X pibIn szEqn) :
    ∃ o, DefineVariable X pibIn (some szName) (some szEqn) iKWCode = some o ∧
      ((o.ret = EXIT_ERROR ∧ allStacks o.pib.pInfo = allStacks pibIn.pInfo) ↔
        (iKWCode ≠ KM_INLINE ∧ shadowedKind pibIn.pInfo szName ≠ ID_OUTPUT ∧
          shadowedKind pibIn.pInfo szName ≠ ID_NULL ∧
          shadowedKind pibIn.pInfo szName ≠ ID_LOCALCALCOUT)) ∧
      ((iKWCode ≠ KM_INLINE ∧ shadowedKind pibIn.pInfo szName ≠ ID_OUTPUT ∧
          shadowedKind pibIn.pInfo szName ≠ ID_NULL ∧
          shadowedKind pibIn.pInfo szName ≠ ID_LOCALCALCOUT) →
        o.out = [⟨RE_BADCONTEXT, false, true, szName,
          some "Only outputs and local variables can be defined in CalcOutputs{} section."⟩]) ∧
      (¬ (iKWCode ≠ KM_INLINE ∧ shadowedKind pibIn.pInfo szName ≠ ID_OUTPUT ∧
          shadowedKind pibIn.pInfo szName ≠ ID_NULL ∧
          shadowedKind pibIn.pInfo szName ≠ ID_LOCALCALCOUT) →
        o.ret = 0 ∧ o.out = [] ∧
        ∃ hType, o.pib.pInfo.pvmCalcOutEqns =
          ⟨szName, some (EQN.text szEqn), hType⟩ :: pibIn.pInfo.pvmCalcOutEqns) := by
  have c0 : pibIn.pInfo.wContext ≠ CN_END := by rw [hctx]; decide
  obtain ⟨p, hp, hD⟩ :=
    DefineVariable_accepted X pibIn szName szEqn iKWCode c0 (fun h => hver h.1)
  have hpc : p.pInfo.wContext = CN_CALCOUTPUTS := by
    rw [core_wContext p pibIn hp]; exact hctx
  have hps : allStacks p.pInfo = allStacks pibIn.pInfo := core_allStacks p pibIn hp
  have hcalc : p.pInfo.pvmCalcOutEqns = pibIn.pInfo.pvmCalcOutEqns := by
    rw [core_eq_elim pibIn p hp]
  by_cases hbad : iKWCode ≠ KM_INLINE ∧ shadowedKind pibIn.pInfo szName ≠ ID_OUTPUT ∧
      shadowedKind pibIn.pInfo szName ≠ ID_NULL ∧
      shadowedKind pibIn.pInfo szName ≠ ID_LOCALCALCOUT
  · have hno : ¬ (shadowedKind pibIn.pInfo szName = ID_OUTPUT ∨
        shadowedKind pibIn.pInfo szName = ID_NULL ∨
        shadowedKind pibIn.pInfo szName = ID_LOCALCALCOUT ∨ iKWCode = KM_INLINE) := by
      tauto
    rw [hD, dispatch_CalcOutputs_rejects X p _ szName szEqn iKWCode _ hpc hno]
    exact ⟨_, rfl, ⟨fun _ => hbad, fun _ => ⟨rfl, hps⟩⟩, fun _ => rfl, fun h => absurd hbad h⟩
  · have hok : shadowedKind pibIn.pInfo szName = ID_OUTPUT ∨
        shadowedKind pibIn.pInfo szName = ID_NULL ∨
        shadowedKind pibIn.pInfo szName = ID_LOCALCALCOUT ∨ iKWCode = KM_INLINE := by
      tauto
    obtain ⟨o, ho, hr, hout, h, hh⟩ :=
      dispatch_CalcOutputs_defines X p (shadowedPTR pibIn.pInfo szName) szName szEqn iKWCode _
        hpc hok
    rw [hD, ho]
    refine ⟨o, rfl, ⟨fun he => ?_, fun h => absurd h hbad⟩, fun h => absurd h hbad,
      fun _ => ⟨hr, hout, h, by rw [hh, hcalc]⟩⟩
    rw [hr] at he
    exact absurd he.1 (by decide)

theorem C21_CalcOutputs_accepts_outputs_locals_inline_witness :
    calcOutBuf.pInfo.wContext = CN_CALCOUTPUTS ∧ accepted numberScanner calcOutBuf "1.0" ∧
    shadowedKind calcOutBuf.pInfo "A" = ID_STATE ∧
    ∃ o, DefineVariable numberScanner calcOutBuf (some "A") (some "1.0") 0 = some o ∧
      ((o.ret = EXIT_ERROR ∧ allStacks o.pib.pInfo = allStacks calcOutBuf.pInfo) ↔
        ((0 : Int) ≠ KM_INLINE ∧ shadowedKind calcOutBuf.pInfo "A" ≠ ID_OUTPUT ∧
          shadowedKind calcOutBuf.pInfo "A" ≠ ID_NULL ∧
          shadowedKind calcOutBuf.pInfo "A" ≠ ID_LOCALCALCOUT)) ∧
      (((0 : Int) ≠ KM_INLINE ∧ shadowedKind calcOutBuf.pInfo "A" ≠ ID_OUTPUT ∧
          shadowedKind calcOutBuf.pInfo "A" ≠ ID_NULL ∧
          shadowedKind calcOutBuf.pInfo "A" ≠ ID_LOCALCALCOUT) →
        o.out = [⟨RE_BADCONTEXT, false, true, "A",
          some "Only outputs and local variables can be defined in CalcOutputs{} section."⟩]) ∧
      (¬ ((0 : Int) ≠ KM_INLINE ∧ shadowedKind calcOutBuf.pInfo "A" ≠ ID_OUTPUT ∧
          shadowedKind calcOutBuf.pInfo "A" ≠ ID_NULL ∧
          shadowedKind calcOutBuf.pInfo "A" ≠ ID_LOCALCALCOUT) →
        o.ret = 0 ∧ o.out = [] ∧
        ∃ hType, o.pib.pInfo.pvmCalcOutEqns =
          ⟨"A", some (EQN.text "1.0"), hType⟩ :: calcOutBuf.pInfo.pvmCalcOutEqns) :=
  ⟨by decide, by decide, by decide,
    C21_CalcOutputs_accepts_outputs_locals_inline numberScanner calcOutBuf "A" "1.0" 0
      (by decide) (fun _ => by decide)⟩

/-! ## Initial values and redefinitions in the Global section -/

theorem shadowedPTR_GLOBAL (pinfo : INPUTINFO) (szName : String)
    (hctx : pinfo.wContext = CN_GLOBAL) :
    shadowedPTR pinfo szName = GetVarPTR pinfo.pvmGloVars szName := by
  simp only [shadowedPTR, hctx, foreignLocal_GLOBAL, Bool.false_eq_true, if_false]

theorem shadowedKind_GLOBAL (pinfo : INPUTINFO) (szName : String)
    (hctx : pinfo.wContext = CN_GLOBAL) :
    shadowedKind pinfo szName = GetVarType pinfo.pvmGloVars szName := by
  simp only [shadowedKind, shadowedPTR_GLOBAL pinfo szName hctx, GetVarType]

/-- The Global rule for a State or an Output whose node has no payload yet: the
node is flagged as initialised and a record with the equation is prepended to
Global Variables. -/
theorem DefineGlobalVar_initial (X : SCANNER) (p : INPUTBUF) (node : VMMAPSTRCT)
    (rest : PVMMAPSTRCT) (szName szEqn : String) (hType : HANDLE) (hname : szName ≠ "Inline")
    (hk : hType = ID_STATE ∨ hType = ID_OUTPUT) (hnone : node.szEqn = none) :
    ∃ o, DefineGlobalVar X p (node :: rest) szName szEqn hType = some o ∧ o.ret = 0 ∧
      o.out = [] ∧
      ∃ g, o.pib.pInfo.pvmGloVars = ⟨szName, some (EQN.text szEqn), hType⟩ :: g := by
  have t1 : ID_STATE ≠ ID_NULL := by decide
  have t2 : ID_OUTPUT ≠ ID_NULL := by decide
  have t3 : ID_STATE ≠ ID_INPUT := by decide
  have t4 : ID_OUTPUT ≠ ID_INPUT := by decide
  rcases hk with hk | hk <;> subst hk <;>
    simp [DefineGlobalVar, hname, hnone, t1, t2, t3, t4, propagate, AddEquationGlo, AddEquation,
      CopyString, isExit_zero, storeGloEqn]

/-- The Global rule for a Parameter, or for a State, Input or Output whose node
already has a payload: a redefinition warning and nothing else. -/
theorem DefineGlobalVar_redefined (X : SCANNER) (p : INPUTBUF) (pvm : PVMMAPSTRCT)
    (szName szEqn : String) (hType : HANDLE) (hname : szName ≠ "Inline")
    (hk : hType = ID_PARM ∨ ((hType = ID_STATE ∨ hType = ID_INPUT ∨ hType = ID_OUTPUT) ∧
      ∃ node rest, pvm = node :: rest ∧ node.szEqn ≠ none)) :
    DefineGlobalVar X p pvm szName szEqn hType =
      some ⟨0, p, [⟨RE_REDEF, true, false, szName, none⟩]⟩ := by
  have t1 : ID_STATE ≠ ID_NULL := by decide
  have t2 : ID_OUTPUT ≠ ID_NULL := by decide
  have t3 : ID_INPUT ≠ ID_NULL := by decide
  have t4 : ID_PARM ≠ ID_NULL := by decide
  have t5 : ¬ (ID_PARM = ID_INPUT ∨ ID_PARM = ID_OUTPUT ∨ ID_PARM = ID_STATE) := by decide
  rcases hk with hk | ⟨hk, node, rest, hp, hv⟩
  · subst hk
    simp [DefineGlobalVar, hname, t4, t5, report_REDEF_WARNING, propagate, isExit_zero]
  · subst hp
    rcases hk with hk | hk | hk <;> subst hk <;>
      simp [DefineGlobalVar, hname, t1, t2, t3, hv, report_REDEF_WARNING, propagate, isExit_zero]

theorem dispatch_GLOBAL (X : SCANNER) (p : INPUTBUF) (pvm : PVMMAPSTRCT)
    (szName szEqn : String) (iKWCode : Int) (hType : HANDLE) (o : OUTCOME)
    (hctx : p.pInfo.wContext = CN_GLOBAL)
    (h : DefineGlobalVar X p pvm szName szEqn hType = some o) (h0 : o.ret = 0) :
    DefineVariable.dispatch X p pvm szName szEqn iKWCode hType = some ⟨0, o.pib, o.out⟩ := by
  simp [DefineVariable.dispatch, hctx, h, propagate, h0, isExit_zero]

theorem valueOf_cons_self (szName : String) (szEqn : Option EQN) (hType : HANDLE)
    (g : PVMMAPSTRCT) : valueOf (⟨szName, szEqn, hType⟩ :: g) szName = szEqn := by
  simp [valueOf, GetVarPTR]

/-- C25: in the Global context, for a name other than the reserved word `Inline`
whose kind in Global Variables is State or Output and whose record has no value
yet, and for every equation that passes verification, `DefineVariable` returns 0
without any report; afterwards the lookup of the name in Global Variables finds
a record of the same kind whose payload is the text of the assigned equation. -/
theorem C25_initial_value_of_state_or_output (X : SCANNER) (pibIn : INPUTBUF)
    (szName szEqn : String) (iKWCode : Int) (hctx : pibIn.pInfo.wContext = CN_GLOBAL)
    (hname : szName ≠ "Inline")
    (hkind : GetVarType pibIn.pInfo.pvmGloVars szName = ID_STATE ∨
      GetVarType pibIn.pInfo.pvmGloVars szName = ID_OUTPUT)
    (hnone : valueOf pibIn.pInfo.pvmGloVars szName = none)
    (hver : iKWCode ≠ KM_INLINE → accepted X pibIn szEqn) :
    ∃ o, DefineVariable X pibIn (some szName) (some szEqn) iKWCode = some o ∧
      o.ret = 0 ∧ o.out = [] ∧
      (∃ rest, GetVarPTR o.pib.pInfo.pvmGloVars szName =
        ⟨szName, some (EQN.text szEqn), GetVarType pibIn.pInfo.pvmGloVars szName⟩ :: rest) ∧
      GetVarType o.pib.pInfo.pvmGloVars szName = GetVarType pibIn.pInfo.pvmGloVars szName ∧
      valueOf o.pib.pInfo.pvmGloVars szName = some (EQN.text szEqn) := by
  have c0 : pibIn.pInfo.wContext ≠ CN_END := by rw [hctx]; decide
  obtain ⟨p, hp, hD⟩ :=
    DefineVariable_accepted X pibIn szName szEqn iKWCode c0 (fun h => hver h.1)
  have hpc : p.pInfo.wContext = CN_GLOBAL := by rw [core_wContext p pibIn hp]; exact hctx
  rw [shadowedPTR_GLOBAL _ _ hctx, shadowedKind_GLOBAL _ _ hctx] at hD
  have hmask : GetVarType pibIn.pInfo.pvmGloVars szName &&& ID_TYPEMASK =
      GetVarType pibIn.pInfo.pvmGloVars szName := by
    rcases hkind with h | h <;> rw [h] <;> decide
  cases hpvm : GetVarPTR pibIn.pInfo.pvmGloVars szName with
  | nil =>
    exfalso
    have : GetVarType pibIn.pInfo.pvmGloVars szName = ID_NULL := by
      simp only [GetVarType, hpvm, TYPE]
    rcases hkind with h | h <;> rw [h] at this <;> exact absurd this (by decide)
  | cons node rest =>
    have hnode : node.szEqn = none := by
      simpa only [valueOf, hpvm] using hnone
    obtain ⟨o, ho, hr, hout, g, hg⟩ :=
      DefineGlobalVar_initial X p node rest szName szEqn
        (GetVarType pibIn.pInfo.pvmGloVars szName) hname hkind hnode
    rw [hpvm] at hD
    rw [hD, dispatch_GLOBAL X p _ szName szEqn iKWCode _ o hpc ho hr]
    refine ⟨_, rfl, rfl, hout, ⟨g, ?_⟩, ?_, ?_⟩
    · simp only [hg, GetVarPTR, if_true]
    · rw [hg, GetVarType_cons_self, hmask]
    · simp only [hg, valueOf_cons_self]

theorem C25_initial_value_of_state_or_output_witness :
    stateBuf.pInfo.wContext = CN_GLOBAL ∧
    GetVarType stateBuf.pInfo.pvmGloVars "A" = ID_STATE ∧
    valueOf stateBuf.pInfo.pvmGloVars "A" = none ∧ accepted numberScanner stateBuf "1.0" ∧
    ∃ o, DefineVariable numberScanner stateBuf (some "A") (some "1.0") 0 = some o ∧
      o.ret = 0 ∧ o.out = [] ∧
      (∃ rest, GetVarPTR o.pib.pInfo.pvmGloVars "A" =
        ⟨"A", some (EQN.text "1.0"), GetVarType stateBuf.pInfo.pvmGloVars "A"⟩ :: rest) ∧
      GetVarType o.pib.pInfo.pvmGloVars "A" = GetVarType stateBuf.pInfo.pvmGloVars "A" ∧
      valueOf o.pib.pInfo.pvmGloVars "A" = some (EQN.text "1.0") :=
  ⟨by decide, by decide, by decide, by decide,
    C25_initial_value_of_state_or_output numberScanner stateBuf "A" "1.0" 0 (by decide)
      (by decide) (Or.inl (by decide)) (by decide) (fun _ => by decide)⟩

/-- C26: in the Global context, an assignment to a name other than the reserved
word `Inline` that is already a Parameter, or a State, Input or Output whose
record already has a value, with an equation that passes verification where it
is verified (the value of an Input is not), is reported as a redefinition
warning and ignored: `DefineVariable` returns 0, the only report is the
warning, and every stack is exactly as before, so that the lookup of the name
finds the value it found before. -/
theorem C26_redefinition_in_global_is_ignored (X : SCANNER) (pibIn : INPUTBUF)
    (szName szEqn : String) (iKWCode : Int) (hctx : pibIn.pInfo.wContext = CN_GLOBAL)
    (hname : szName ≠ "Inline")
    (hkind : GetVarType pibIn.pInfo.pvmGloVars szName = ID_PARM ∨
      ((GetVarType pibIn.pInfo.pvmGloVars szName = ID_STATE ∨
          GetVarType pibIn.pInfo.pvmGloVars szName = ID_INPUT ∨
          GetVarType pibIn.pInfo.pvmGloVars szName = ID_OUTPUT) ∧
        valueOf pibIn.pInfo.pvmGloVars szName ≠ none))
    (hver : iKWCode ≠ KM_INLINE → GetVarType pibIn.pInfo.pvmGloVars szName ≠ ID_INPUT →
      accepted X pibIn szEqn) :
    ∃ o, DefineVariable X pibIn (some szName) (some szEqn) iKWCode = some o ∧
      o.ret = 0 ∧ o.out = [⟨RE_REDEF, true, false, szName, none⟩] ∧
      allStacks o.pib.pInfo = allStacks pibIn.pInfo ∧
      valueOf o.pib.pInfo.pvmGloVars szName = valueOf pibIn.pInfo.pvmGloVars szName := by
  have c0 : pibIn.pInfo.wContext ≠ CN_END := by rw [hctx]; decide
  have hv : iKWCode ≠ KM_INLINE ∧
      (shadowedKind pibIn.pInfo szName ≠ ID_INPUT ∨ pibIn.pInfo.wContext ≠ CN_GLOBAL) →
      accepted X pibIn szEqn := by
    rintro ⟨h1, h2 | h2⟩
    · rw [shadowedKind_GLOBAL _ _ hctx] at h2
      exact hver h1 h2
    · exact absurd hctx h2
  obtain ⟨p, hp, hD⟩ := DefineVariable_accepted X pibIn szName szEqn iKWCode c0 hv
  have hpc : p.pInfo.wContext = CN_GLOBAL := by rw [core_wContext p pibIn hp]; exact hctx
  have hps : allStacks p.pInfo = allStacks pibIn.pInfo := core_allStacks p pibIn hp
  have hglo : p.pInfo.pvmGloVars = pibIn.pInfo.pvmGloVars := by
    rw [core_eq_elim pibIn p hp]
  rw [shadowedPTR_GLOBAL _ _ hctx, shadowedKind_GLOBAL _ _ hctx] at hD
  have hk : GetVarType pibIn.pInfo.pvmGloVars szName = ID_PARM ∨
      ((GetVarType pibIn.pInfo.pvmGloVars szName = ID_STATE ∨
          GetVarType pibIn.pInfo.pvmGloVars szName = ID_INPUT ∨
          GetVarType pibIn.pInfo.pvmGloVars szName = ID_OUTPUT) ∧
        ∃ node rest, GetVarPTR pibIn.pInfo.pvmGloVars szName = node :: rest ∧
          node.szEqn ≠ none) := by
    rcases hkind with h | ⟨h, hval⟩
    · exact Or.inl h
    · refine Or.inr ⟨h, ?_⟩
      cases hpvm : GetVarPTR pibIn.pInfo.pvmGloVars szName with
      | nil => simp [valueOf, hpvm] at hval
      | cons node rest =>
        refine ⟨node, rest, rfl, ?_⟩
        simpa only [valueOf, hpvm] using hval
  have hG := DefineGlobalVar_redefined X p (GetVarPTR pibIn.pInfo.pvmGloVars szName) szName
    szEqn (GetVarType pibIn.pInfo.pvmGloVars szName) hname hk
  rw [hD, dispatch_GLOBAL X p _ szName szEqn iKWCode _ _ hpc hG rfl]
  exact ⟨_, rfl, rfl, rfl, hps, by rw [hglo]⟩

theorem C26_redefinition_in_global_is_ignored_witness :
    parmBuf.pInfo.wContext = CN_GLOBAL ∧
    GetVarType parmBuf.pInfo.pvmGloVars "k1" = ID_PARM ∧ accepted numberScanner parmBuf "2.0" ∧
    ∃ o, DefineVariable numberScanner parmBuf (some "k1") (some "2.0") 0 = some o ∧
      o.ret = 0 ∧ o.out = [⟨RE_REDEF, true, false, "k1", none⟩] ∧
      allStacks o.pib.pInfo = allStacks parmBuf.pInfo ∧
      valueOf o.pib.pInfo.pvmGloVars "k1" = valueOf parmBuf.pInfo.pvmGloVars "k1" :=
  ⟨by decide, by decide, by decide,
    C26_redefinition_in_global_is_ignored numberScanner parmBuf "k1" "2.0" 0 (by decide)
      (by decide) (Or.inl (by decide)) (fun _ _ => by decide)⟩

/-! ## Names local to another section -/

theorem GetVarPTR_filter_self (pvm : PVMMAPSTRCT) (szName : String) :
    GetVarPTR (pvm.filter (fun q => q.szName ≠ szName)) szName = [] := by
  induction pvm with
  | nil => rfl
  | cons r rest ih =>
    rw [List.filter_cons]
    by_cases h : r.szName = szName
    · have hp : decide (r.szName ≠ szName) = false := by simp [h]
      simp only [hp, Bool.false_eq_true, if_false]
      exact ih
    · have hp : decide (r.szName ≠ szName) = true := by simp [h]
      have h2 : ¬ szName = r.szName := fun e => h e.symm
      simp only [hp, if_true, GetVarPTR, h2, if_false]
      exact ih

theorem GetVarType_filter_other (pvm : PVMMAPSTRCT) (szName sz : String) (h : sz ≠ szName) :
    GetVarType (pvm.filter (fun q => q.szName ≠ szName)) sz = GetVarType pvm sz := by
  induction pvm with
  | nil => rfl
  | cons r rest ih =>
    simp only [GetVarType] at ih ⊢
    rw [List.filter_cons]
    by_cases h1 : r.szName = szName
    · have hp : decide (r.szName ≠ szName) = false := by simp [h1]
      have h2 : ¬ sz = r.szName := fun e => h (e.trans h1)
      simp only [hp, Bool.false_eq_true, if_false, GetVarPTR, h2]
      exact ih
    · have hp : decide (r.szName ≠ szName) = true := by simp [h1]
      by_cases h3 : sz = r.szName
      · simp only [hp, if_true, GetVarPTR, h3, TYPE]
      · simp only [hp, if_true, GetVarPTR, h3, if_false]
        exact ih

theorem report_absent (pibIn : INPUTBUF) (szName : String) (wCode : Nat) (szMsg : String)
    (szAltMsg : Option String) :
    report (absent pibIn szName) wCode szMsg szAltMsg =
      absentOutcome (report pibIn wCode szMsg szAltMsg) szName := by
  simp only [report, ReportError, absentOutcome]
  split <;> rfl

theorem VerifyEqn_identifier_absent (X : SCANNER) (pibIn : INPUTBUF) (szName szLex : String)
    (bOK : Bool) (h : szLex ≠ szName) :
    VerifyEqn.identifier X (absent pibIn szName) szLex bOK =
      (absentOutcome (VerifyEqn.identifier X pibIn szLex bOK).1 szName,
        (VerifyEqn.identifier X pibIn szLex bOK).2) := by
  have hg : GetVarType (absent pibIn szName).pInfo.pvmGloVars szLex =
      GetVarType pibIn.pInfo.pvmGloVars szLex := GetVarType_filter_other _ _ _ h
  have hw : (absent pibIn szName).pInfo.wContext = pibIn.pInfo.wContext := rfl
  have hd : (absent pibIn szName).pInfo.bDelays = pibIn.pInfo.bDelays := rfl
  unfold VerifyEqn.identifier
  by_cases hkw : (X.GetKeywordCode szLex).1 ≠ 0
  · simp only [if_pos hkw, hw]
    split_ifs <;> rfl
  · simp only [if_neg hkw]
    by_cases hfn : GetFnType X szLex ≠ 0
    · simp only [if_pos hfn, report_BADCONTEXT_FATAL, isExit_EXIT_ERROR, if_true]
      rfl
    · simp only [if_neg hfn, isExit_zero, Bool.false_eq_true, if_false, hg, hw, hd]
      split_ifs <;> rfl

theorem VerifyEqn_switch_absent (X : SCANNER) (pibIn : INPUTBUF) (szName : String) (lx : LEXEME)
    (bOK : Bool) (h : lx.iType = LX_IDENTIFIER → lx.szLex ≠ szName) :
    VerifyEqn.switch X (absent pibIn szName) lx bOK =
      (absentOutcome (VerifyEqn.switch X pibIn lx bOK).1 szName,
        (VerifyEqn.switch X pibIn lx bOK).2) := by
  unfold VerifyEqn.switch
  by_cases hid : lx.iType = LX_IDENTIFIER
  · simp only [if_pos hid]
    exact VerifyEqn_identifier_absent X pibIn szName lx.szLex bOK (h hid)
  · simp only [if_neg hid, report_absent]
    split_ifs <;> rfl

theorem VerifyEqn_loop_absent (X : SCANNER) (szName : String) (toks : List LEXEME) :
    ∀ (p : INPUTBUF) (bReturn bOK : Bool),
      (∀ lx ∈ toks, lx.iType = LX_IDENTIFIER → lx.szLex ≠ szName) →
      VerifyEqn.loop X toks (absent p szName) bReturn bOK =
        absentOutcome (VerifyEqn.loop X toks p bReturn bOK) szName := by
  induction toks with
  | nil => intro p b1 b2 _; rfl
  | cons lx rest ih =>
    intro p b1 b2 h
    have hsw := VerifyEqn_switch_absent X p szName lx b2 (h lx (List.mem_cons_self _ _))
    have hrest := fun q c1 c2 => ih q c1 c2 (fun l hl => h l (List.mem_cons_of_mem _ hl))
    have hret : (absentOutcome (VerifyEqn.switch X p lx b2).1 szName).ret =
        (VerifyEqn.switch X p lx b2).1.ret := rfl
    have hpib : (absentOutcome (VerifyEqn.switch X p lx b2).1 szName).pib =
        absent (VerifyEqn.switch X p lx b2).1.pib szName := rfl
    simp only [VerifyEqn.loop, hsw, hret, hpib, hrest]
    split_ifs <;> rfl

/-- When the equation does not mention the name, `VerifyEqn` gives the same
status and reports whether or not Global Variables holds records of the name. -/
theorem VerifyEqn_absent (X : SCANNER) (pibIn : INPUTBUF) (szName szEqn : String)
    (h : ∀ lx ∈ X.NextLex szEqn, lx.iType = LX_IDENTIFIER → lx.szLex ≠ szName) :
    VerifyEqn X (absent pibIn szName) szEqn = absentOutcome (VerifyEqn X pibIn szEqn) szName :=
  VerifyEqn_loop_absent X szName _ pibIn true true h

theorem glue_bare (pibIn : INPUTBUF) : glue (bare pibIn) pibIn.pInfo.pvmGloVars = pibIn := by
  simp [glue, bare]

theorem absent_eq_glue (pibIn : INPUTBUF) (szName : String) :
    absent pibIn szName =
      glue (bare pibIn) (pibIn.pInfo.pvmGloVars.filter (fun q => q.szName ≠ szName)) := by
  simp [glue, bare, absent]

theorem DefineDynamicsEqn_glue (p : INPUTBUF) (g : PVMMAPSTRCT) (szName szEqn : String)
    (hType : HANDLE) :
    ∃ o, DefineDynamicsEqn p szName szEqn hType = some o ∧ isExit o.ret = false ∧
      DefineDynamicsEqn (glue p g) szName szEqn hType = some (glueOutcome o g) ∧
      (hType = ID_NULL → szName ≠ "Inline" →
        ∃ h, o.pib.pInfo.pvmGloVars = ⟨szName, none, h⟩ :: p.pInfo.pvmGloVars) := by
  unfold DefineDynamicsEqn
  split_ifs <;>
    simp_all [propagate, AddEquationDyn, AddEquationGlo, AddEquation, CopyString, isExit_zero,
      endEqn, glue, glueOutcome, report_REDEF_WARNING]

theorem DefineScaleEqn_glue (p : INPUTBUF) (g : PVMMAPSTRCT) (szName szEqn : String) :
    ∃ o, DefineScaleEqn p szName szEqn ID_NULL = some o ∧ isExit o.ret = false ∧
      DefineScaleEqn (glue p g) szName szEqn ID_NULL = some (glueOutcome o g) ∧
      (szName ≠ "Inline" →
        ∃ h, o.pib.pInfo.pvmGloVars = ⟨szName, none, h⟩ :: p.pInfo.pvmGloVars) := by
  by_cases hn : szName = "Inline"
  · simp [DefineScaleEqn, hn, propagate, AddEquationScale, AddEquation, CopyString, isExit_zero,
      endEqn, glue, glueOutcome]
  · by_cases hs : GetVarPTR p.pInfo.pvmScaleEqns szName = []
    · simp [DefineScaleEqn, hn, hs, propagate, AddEquationScale, AddEquationGlo, AddEquation,
        CopyString, isExit_zero, endEqn, glue, glueOutcome, spaceFlag, ID_NULL]
    · simp [DefineScaleEqn, hn, hs, propagate, AddEquationScale, AddEquationGlo, AddEquation,
        CopyString, isExit_zero, endEqn, glue, glueOutcome, spaceFlag, report_REDEF_WARNING,
        ID_NULL]

theorem DefineJacobEqn_glue (p : INPUTBUF) (g : PVMMAPSTRCT) (szName szEqn : String) :
    ∃ o, DefineJacobEqn p szName szEqn ID_NULL = some o ∧ isExit o.ret = false ∧
      DefineJacobEqn (glue p g) szName szEqn ID_NULL = some (glueOutcome o g) ∧
      (szName ≠ "Inline" →
        ∃ h, o.pib.pInfo.pvmGloVars = ⟨szName, none, h⟩ :: p.pInfo.pvmGloVars) := by
  by_cases hn : szName = "Inline"
  · simp [DefineJacobEqn, hn, propagate, AddEquationJacob, AddEquation, CopyString, isExit_zero,
      endEqn, glue, glueOutcome]
  · by_cases hs : GetVarPTR p.pInfo.pvmJacobEqns szName = []
    · simp [DefineJacobEqn, hn, hs, propagate, AddEquationJacob, AddEquationGlo, AddEquation,
        CopyString, isExit_zero, endEqn, glue, glueOutcome, spaceFlag, ID_NULL]
    · simp [DefineJacobEqn, hn, hs, propagate, AddEquationJacob, AddEquationGlo, AddEquation,
        CopyString, isExit_zero, endEqn, glue, glueOutcome, spaceFlag, report_REDEF_WARNING,
        ID_NULL]

theorem DefineEventEqn_glue (p : INPUTBUF) (g : PVMMAPSTRCT) (szName szEqn : String) :
    ∃ o, DefineEventEqn p szName szEqn ID_NULL = some o ∧ isExit o.ret = false ∧
      DefineEventEqn (glue p g) szName szEqn ID_NULL = some (glueOutcome o g) ∧
      (szName ≠ "Inline" →
        ∃ h, o.pib.pInfo.pvmGloVars = ⟨szName, none, h⟩ :: p.pInfo.pvmGloVars) := by
  by_cases hn : szName = "Inline"
  · simp [DefineEventEqn, hn, propagate, AddEquationEvent, AddEquation, CopyString, isExit_zero,
      endEqn, glue, glueOutcome]
  · by_cases hs : GetVarPTR p.pInfo.pvmEventEqns szName = []
    · simp [DefineEventEqn, hn, hs, propagate, AddEquationEvent, AddEquationGlo, AddEquation,
        CopyString, isExit_zero, endEqn, glue, glueOutcome, spaceFlag, ID_NULL]
    · simp [DefineEventEqn, hn, hs, propagate, AddEquationEvent, AddEquationGlo, AddEquation,
        CopyString, isExit_zero, endEqn, glue, glueOutcome, spaceFlag, report_REDEF_WARNING,
        ID_NULL]

theorem DefineRootEqn_glue (p : INPUTBUF) (g : PVMMAPSTRCT) (szName szEqn : String) :
    ∃ o, DefineRootEqn p szName szEqn ID_NULL = some o ∧ isExit o.ret = false ∧
      DefineRootEqn (glue p g) szName szEqn ID_NULL = some (glueOutcome o g) ∧
      (szName ≠ "Inline" →
        ∃ h, o.pib.pInfo.pvmGloVars = ⟨szName, none, h⟩ :: p.pInfo.pvmGloVars) := by
  by_cases hn : szName = "Inline"
  · simp [DefineRootEqn, hn, propagate, AddEquationRoot, AddEquation, CopyString, isExit_zero,
      endEqn, glue, glueOutcome]
  · by_cases hs : GetVarPTR p.pInfo.pvmRootEqns szName = []
    · simp [DefineRootEqn, hn, hs, propagate, AddEquationRoot, AddEquationGlo, AddEquation,
        CopyString, isExit_zero, endEqn, glue, glueOutcome, spaceFlag, ID_NULL]
    · simp [DefineRootEqn, hn, hs, propagate, AddEquationRoot, AddEquationGlo, AddEquation,
        CopyString, isExit_zero, endEqn, glue, glueOutcome, spaceFlag, report_REDEF_WARNING,
        ID_NULL]

theorem DefineCalcOutEqn_glue (p : INPUTBUF) (g : PVMMAPSTRCT) (szName szEqn : String) :
    ∃ o, DefineCalcOutEqn p szName szEqn ID_NULL = some o ∧ isExit o.ret = false ∧
      DefineCalcOutEqn (glue p g) szName szEqn ID_NULL = some (glueOutcome o g) ∧
      (szName ≠ "Inline" →
        ∃ h, o.pib.pInfo.pvmGloVars = ⟨szName, none, h⟩ :: p.pInfo.pvmGloVars) := by
  by_cases hn : szName = "Inline"
  · simp [DefineCalcOutEqn, hn, propagate, AddEquationCalcOut, AddEquation, CopyString,
      isExit_zero, endEqn, glue, glueOutcome]
  · simp [DefineCalcOutEqn, hn, propagate, AddEquationCalcOut, AddEquationGlo, AddEquation,
      CopyString, isExit_zero, endEqn, glue, glueOutcome, spaceFlag, ID_NULL]

theorem propagate_done_eq (r : Option OUTCOME) (o : OUTCOME)
    (h : r = some o) (hx : isExit o.ret = false) :
    propagate r (fun pib => some ⟨0, pib, []⟩) = some ⟨0, o.pib, o.out ++ []⟩ := by
  subst h
  simp [propagate, hx]

/-- The section rules for a name that `DefineVariable` treats as undeclared
never read Global Variables: records below the stack are carried along, and in
the six sections a plain assignment to a name other than `Inline` prepends one
fresh record for the name. -/
theorem dispatch_glue (X : SCANNER) (p : INPUTBUF) (g : PVMMAPSTRCT) (szName szEqn : String)
    (iKWCode : Int) (hctx : p.pInfo.wContext ≠ CN_GLOBAL) :
    ∃ o, DefineVariable.dispatch X p [] szName szEqn iKWCode ID_NULL = some o ∧
      DefineVariable.dispatch X (glue p g) [] szName szEqn iKWCode ID_NULL =
        some (glueOutcome o g) ∧
      ((p.pInfo.wContext = CN_DYNAMICS ∨ p.pInfo.wContext = CN_SCALE ∨
          p.pInfo.wContext = CN_JACOB ∨ p.pInfo.wContext = CN_EVENTS ∨
          p.pInfo.wContext = CN_ROOTS ∨ p.pInfo.wContext = CN_CALCOUTPUTS) →
        szName ≠ "Inline" → iKWCode ≠ KM_DXDT → iKWCode ≠ KM_FUNCTION →
        ∃ h, o.pib.pInfo.pvmGloVars = ⟨szName, none, h⟩ :: p.pInfo.pvmGloVars) := by
  have hw : (glue p g).pInfo.wContext = p.pInfo.wContext := rfl
  have hs : ¬ (ID_NULL = ID_STATE ∧ iKWCode ≠ KM_DXDT) := fun h => absurd h.1 (by decide)
  have hok : ID_NULL = ID_OUTPUT ∨ ID_NULL = ID_NULL ∨ ID_NULL = ID_LOCALCALCOUT ∨
      iKWCode = KM_INLINE := Or.inr (Or.inl rfl)
  unfold DefineVariable.dispatch
  simp only [hw, if_neg hctx, if_neg hs, if_pos hok]
  by_cases h1 : p.pInfo.wContext = CN_DYNAMICS
  · simp only [if_pos h1]
    by_cases k1 : iKWCode = KM_DXDT
    · obtain ⟨o, ho, hx, hg, _⟩ := DefineDynamicsEqn_glue p g szName szEqn ID_DERIV
      simp only [if_pos k1, propagate_done_eq _ o ho hx, propagate_done_eq _ _ hg hx]
      exact ⟨_, rfl, rfl, fun _ _ h _ => absurd k1 h⟩
    · by_cases k2 : iKWCode = KM_FUNCTION
      · obtain ⟨o, ho, hx, hg, _⟩ := DefineDynamicsEqn_glue p g szName szEqn ID_FUNCTION
        simp only [if_neg k1, if_pos k2, propagate_done_eq _ o ho hx,
          propagate_done_eq _ _ hg hx]
        exact ⟨_, rfl, rfl, fun _ _ _ h => absurd k2 h⟩
      · obtain ⟨o, ho, hx, hg, hf⟩ := DefineDynamicsEqn_glue p g szName szEqn ID_NULL
        simp only [if_neg k1, if_neg k2, propagate_done_eq _ o ho hx,
          propagate_done_eq _ _ hg hx]
        exact ⟨_, rfl, rfl, fun _ hn _ _ => hf rfl hn⟩
  · by_cases h2 : p.pInfo.wContext = CN_JACOB
    · obtain ⟨o, ho, hx, hg, hf⟩ := DefineJacobEqn_glue p g szName szEqn
      simp only [if_neg h1, if_pos h2, propagate_done_eq _ o ho hx, propagate_done_eq _ _ hg hx]
      exact ⟨_, rfl, rfl, fun _ hn _ _ => hf hn⟩
    · by_cases h3 : p.pInfo.wContext = CN_EVENTS
      · obtain ⟨o, ho, hx, hg, hf⟩ := DefineEventEqn_glue p g szName szEqn
        simp only [if_neg h1, if_neg h2, if_pos h3, propagate_done_eq _ o ho hx,
          propagate_done_eq _ _ hg hx]
        exact ⟨_, rfl, rfl, fun _ hn _ _ => hf hn⟩
      · by_cases h4 : p.pInfo.wContext = CN_ROOTS
        · obtain ⟨o, ho, hx, hg, hf⟩ := DefineRootEqn_glue p g szName szEqn
          simp only [if_neg h1, if_neg h2, if_neg h3, if_pos h4, propagate_done_eq _ o ho hx,
            propagate_done_eq _ _ hg hx]
          exact ⟨_, rfl, rfl, fun _ hn _ _ => hf hn⟩
        · by_cases h5 : p.pInfo.wContext = CN_SCALE
          · obtain ⟨o, ho, hx, hg, hf⟩ := DefineScaleEqn_glue p g szName szEqn
            simp only [if_neg h1, if_neg h2, if_neg h3, if_neg h4, if_pos h5,
              propagate_done_eq _ o ho hx, propagate_done_eq _ _ hg hx]
            exact ⟨_, rfl, rfl, fun _ hn _ _ => hf hn⟩
          · by_cases h6 : p.pInfo.wContext = CN_CALCOUTPUTS
            · obtain ⟨o, ho, hx, hg, hf⟩ := DefineCalcOutEqn_glue p g szName szEqn
              simp only [if_neg h1, if_neg h2, if_neg h3, if_neg h4, if_neg h5, if_pos h6,
                propagate_done_eq _ o ho hx, propagate_done_eq _ _ hg hx]
              exact ⟨_, rfl, rfl, fun _ hn _ _ => hf hn⟩
            · simp only [if_neg h1, if_neg h2, if_neg h3, if_neg h4, if_neg h5, if_neg h6]
              refine ⟨_, rfl, rfl, fun hC => ?_⟩
              rcases hC with h | h | h | h | h | h
              · exact absurd h h1
              · exact absurd h h5
              · exact absurd h h2
              · exact absurd h h3
              · exact absurd h h4
              · exact absurd h h6

/-- The test of `DefineVariable` for a name local to another section is, in the
six sections, the condition of the shadowing rule as its description words it:
the kind is a local kind, and not the one of the current section. -/
theorem foreignLocal_eq_localElsewhere (wContext : Nat) (hType : HANDLE)
    (hC : wContext = CN_DYNAMICS ∨ wContext = CN_SCALE ∨ wContext = CN_JACOB ∨
      wContext = CN_EVENTS ∨ wContext = CN_ROOTS ∨ wContext = CN_CALCOUTPUTS) :
    foreignLocal wContext hType = localElsewhere wContext hType := by
  by_cases h1 : hType = ID_LOCALDYN
  · subst h1; rcases hC with h | h | h | h | h | h <;> subst h <;> decide
  by_cases h2 : hType = ID_LOCALSCALE
  · subst h2; rcases hC with h | h | h | h | h | h <;> subst h <;> decide
  by_cases h3 : hType = ID_LOCALJACOB
  · subst h3; rcases hC with h | h | h | h | h | h <;> subst h <;> decide
  by_cases h4 : hType = ID_LOCALEVENT
  · subst h4; rcases hC with h | h | h | h | h | h <;> subst h <;> decide
  by_cases h5 : hType = ID_LOCALROOT
  · subst h5; rcases hC with h | h | h | h | h | h <;> subst h <;> decide
  by_cases h6 : hType = ID_LOCALCALCOUT
  · subst h6; rcases hC with h | h | h | h | h | h <;> subst h <;> decide
  have e1 : (hType == ID_LOCALDYN) = false := by simpa using h1
  have e2 : (hType == ID_LOCALSCALE) = false := by simpa using h2
  have e3 : (hType == ID_LOCALJACOB) = false := by simpa using h3
  have e4 : (hType == ID_LOCALEVENT) = false := by simpa using h4
  have e5 : (hType == ID_LOCALROOT) = false := by simpa using h5
  have e6 : (hType == ID_LOCALCALCOUT) = false := by simpa using h6
  simp only [foreignLocal, localElsewhere, e1, e2, e3, e4, e5, e6, Bool.or_self, Bool.and_false,
    Bool.false_and]

/-- When `DefineVariable` treats the name as undeclared, it is the verification
of the equation followed by the section rule for an undeclared name. -/
theorem DefineVariable_undeclared (X : SCANNER) (pibIn : INPUTBUF) (szName szEqn : String)
    (iKWCode : Int) (hctx : pibIn.pInfo.wContext ≠ CN_END)
    (hptr : shadowedPTR pibIn.pInfo szName = []) :
    DefineVariable X pibIn (some szName) (some szEqn) iKWCode =
      propagateResult
        (some (if iKWCode ≠ KM_INLINE then VerifyEqn X pibIn szEqn else ⟨1, pibIn, []⟩))
        (fun ret pib =>
          if ret = 0 then some ⟨0, pib, []⟩
          else DefineVariable.dispatch X pib [] szName szEqn iKWCode ID_NULL) := by
  have t : ID_NULL ≠ ID_INPUT := by decide
  unfold shadowedPTR at hptr
  unfold DefineVariable
  simp only [hctx, if_false, hptr]
  simp only [TYPE, t, ne_eq, not_false_eq_true, true_or, and_true]

/-- C22 (as stated, refuted): after the Dynamics assignment `x = 1.0;` the name
`x` is local to Dynamics.  In the Scale section the assignment `x = x;` is
accepted: a fresh Global record and a Scale equation are prepended.  On the
table without the record of `x` the same call returns the fatal exit code and
inserts nothing, because the equation mentions an undefined name: verification
looks names up in Global Variables without the shadowing.  And for a name local
to Scale, the call made for `dt (x) = 1.0;` in Dynamics prepends a Dynamics
equation but no Global record. -/
theorem C22_counterexample_equation_mentions_the_name :
    (DefineVariable numberScanner { sectionBuf CN_DYNAMICS with iLineNum := 2 } (some "x")
        (some "1.0") 0).map (fun o => enter { o.pib with iLineNum := 4 } CN_SCALE) =
      some scaleAfterDynamics ∧
    localElsewhere CN_SCALE (GetVarType scaleAfterDynamics.pInfo.pvmGloVars "x") = true ∧
    (DefineVariable wordScanner scaleAfterDynamics (some "x") (some "x") 0).map
        (fun o => (o.ret, o.pib.pInfo.pvmGloVars, o.pib.pInfo.pvmScaleEqns)) =
      some (0,
        [⟨"x", none, ID_LOCALSCALE ||| ID_SPACEFLAG⟩, ⟨"x", none, ID_LOCALDYN ||| ID_SPACEFLAG⟩],
        [⟨"x", some (EQN.text "x"), ID_LOCALSCALE ||| ID_SPACEFLAG⟩]) ∧
    (DefineVariable wordScanner (absent scaleAfterDynamics "x") (some "x") (some "x") 0).map
        (fun o => (o.ret, o.pib.pInfo.pvmGloVars, o.pib.pInfo.pvmScaleEqns)) =
      some (EXIT_ERROR, [], []) ∧
    (DefineVariable numberScanner (sectionBuf CN_SCALE) (some "x") (some "1.0") 0).map
        (fun o => enter { o.pib with iLineNum := 4 } CN_DYNAMICS) = some dynamicsAfterScale ∧
    localElsewhere CN_DYNAMICS (GetVarType dynamicsAfterScale.pInfo.pvmGloVars "x") = true ∧
    (DefineVariable numberScanner dynamicsAfterScale (some "x") (some "1.0") KM_DXDT).map
        (fun o => (o.ret, o.pib.pInfo.pvmGloVars, o.pib.pInfo.pvmDynEqns)) =
      some (0, [⟨"x", none, ID_LOCALSCALE⟩],
        [⟨"x", some (EQN.text "1.0"), ID_DERIV ||| ID_SPACEFLAG⟩]) := by
  set_option synthInstance.maxSize 2048 in
  decide

/-- C22 (amended): in each of the six section contexts, for a name whose kind in
Global Variables is local to another section, and an equation that does not
mention the name itself, `DefineVariable` returns the same status, writes the
same reports and makes exactly the insertions it makes on the table without the
records of the name: the records `ins` prepended to Global Variables are the
same, the records that were there stay as they are, and every other field of
the buffer, the section stacks among them, comes out the same.  For a plain
assignment (no `dt`, no `Function`) to a name other than `Inline` whose equation
passes verification, `ins` is one fresh record for the name. -/
theorem C22_foreign_local_is_shadowed (X : SCANNER) (pibIn : INPUTBUF)
    (szName szEqn : String) (iKWCode : Int)
    (hC : pibIn.pInfo.wContext = CN_DYNAMICS ∨ pibIn.pInfo.wContext = CN_SCALE ∨
      pibIn.pInfo.wContext = CN_JACOB ∨ pibIn.pInfo.wContext = CN_EVENTS ∨
      pibIn.pInfo.wContext = CN_ROOTS ∨ pibIn.pInfo.wContext = CN_CALCOUTPUTS)
    (hloc : localElsewhere pibIn.pInfo.wContext
      (GetVarType pibIn.pInfo.pvmGloVars szName) = true)
    (hself : iKWCode ≠ KM_INLINE →
      ∀ lx ∈ X.NextLex szEqn, lx.iType = LX_IDENTIFIER → lx.szLex ≠ szName) :
    ∃ o o' ins,
      DefineVariable X pibIn (some szName) (some szEqn) iKWCode = some o ∧
      DefineVariable X (absent pibIn szName) (some szName) (some szEqn) iKWCode = some o' ∧
      o'.ret = o.ret ∧ o'.out = o.out ∧
      o.pib.pInfo.pvmGloVars = ins ++ pibIn.pInfo.pvmGloVars ∧
      o'.pib = { o.pib with pInfo := { o.pib.pInfo with
        pvmGloVars := ins ++ (absent pibIn szName).pInfo.pvmGloVars } } ∧
      ((iKWCode ≠ KM_INLINE → accepted X pibIn szEqn) → szName ≠ "Inline" →
        iKWCode ≠ KM_DXDT → iKWCode ≠ KM_FUNCTION →
        ∃ hType, ins = [⟨szName, none, hType⟩]) := by
  have c0 : pibIn.pInfo.wContext ≠ CN_END := by
    rcases hC with h | h | h | h | h | h <;> rw [h] <;> decide
  have cg : pibIn.pInfo.wContext ≠ CN_GLOBAL := by
    rcases hC with h | h | h | h | h | h <;> rw [h] <;> decide
  have hptr : shadowedPTR pibIn.pInfo szName = [] := by
    unfold shadowedPTR
    rw [foreignLocal_eq_localElsewhere _ _ hC]
    simp only [GetVarType] at hloc
    rw [if_pos hloc]
  have hptr' : shadowedPTR (absent pibIn szName).pInfo szName = [] := by
    unfold shadowedPTR
    have hnil : GetVarPTR (absent pibIn szName).pInfo.pvmGloVars szName = [] :=
      GetVarPTR_filter_self _ _
    rw [hnil]
    split_ifs <;> rfl
  rw [DefineVariable_undeclared X pibIn szName szEqn iKWCode c0 hptr,
    DefineVariable_undeclared X (absent pibIn szName) szName szEqn iKWCode c0 hptr']
  obtain ⟨W, hW, hW', hcore, hacc⟩ : ∃ W : OUTCOME,
      (if iKWCode ≠ KM_INLINE then VerifyEqn X pibIn szEqn else ⟨1, pibIn, []⟩) = W ∧
      (if iKWCode ≠ KM_INLINE then VerifyEqn X (absent pibIn szName) szEqn
        else ⟨1, absent pibIn szName, []⟩) = absentOutcome W szName ∧
      core W.pib = core pibIn ∧
      ((iKWCode ≠ KM_INLINE → accepted X pibIn szEqn) →
        isExit W.ret = false ∧ W.ret ≠ 0) := by
    by_cases hk : iKWCode ≠ KM_INLINE
    · refine ⟨VerifyEqn X pibIn szEqn, if_pos hk, ?_, VerifyEqn_core X pibIn szEqn,
        fun h => h hk⟩
      rw [if_pos hk]
      exact VerifyEqn_absent X pibIn szName szEqn (hself hk)
    · refine ⟨⟨1, pibIn, []⟩, if_neg hk, ?_, rfl, fun _ => ⟨isExit_one, one_ne_zero⟩⟩
      rw [if_neg hk]
      rfl
  rw [hW, hW']
  have hglo : W.pib.pInfo.pvmGloVars = pibIn.pInfo.pvmGloVars := by
    rw [core_eq_elim pibIn W.pib hcore]
  have hctxW : W.pib.pInfo.wContext = pibIn.pInfo.wContext := core_wContext _ _ hcore
  have hr' : (absentOutcome W szName).ret = W.ret := rfl
  have ho' : (absentOutcome W szName).out = W.out := rfl
  have hp' : (absentOutcome W szName).pib = absent W.pib szName := rfl
  simp only [propagateResult, hr', ho', hp']
  by_cases hx : isExit W.ret = true
  · simp only [hx, if_true]
    refine ⟨W, absentOutcome W szName, [], rfl, rfl, rfl, rfl, by rw [hglo]; rfl, ?_, ?_⟩
    · show absent W.pib szName = _
      simp only [absent, hglo, List.nil_append]
    · intro ha
      have h1 := (hacc ha).1
      rw [hx] at h1
      exact absurd h1 (by decide)
  · by_cases h0 : W.ret = 0
    · simp only [hx, if_false, h0, if_true, Option.map_some']
      refine ⟨_, _, [], rfl, rfl, rfl, rfl, by rw [hglo]; rfl, ?_, ?_⟩
      · simp only [absent, hglo, List.nil_append]
      · intro ha
        exact absurd h0 (hacc ha).2
    · have cgW : (bare W.pib).pInfo.wContext ≠ CN_GLOBAL := by
        show W.pib.pInfo.wContext ≠ CN_GLOBAL
        rw [hctxW]; exact cg
      have hCW : (bare W.pib).pInfo.wContext = CN_DYNAMICS ∨
          (bare W.pib).pInfo.wContext = CN_SCALE ∨ (bare W.pib).pInfo.wContext = CN_JACOB ∨
          (bare W.pib).pInfo.wContext = CN_EVENTS ∨ (bare W.pib).pInfo.wContext = CN_ROOTS ∨
          (bare W.pib).pInfo.wContext = CN_CALCOUTPUTS := by
        show W.pib.pInfo.wContext = CN_DYNAMICS ∨ W.pib.pInfo.wContext = CN_SCALE ∨
          W.pib.pInfo.wContext = CN_JACOB ∨ W.pib.pInfo.wContext = CN_EVENTS ∨
          W.pib.pInfo.wContext = CN_ROOTS ∨ W.pib.pInfo.wContext = CN_CALCOUTPUTS
        rw [hctxW]; exact hC
      obtain ⟨ob, hob, hg, hfresh⟩ :=
        dispatch_glue X (bare W.pib) W.pib.pInfo.pvmGloVars szName szEqn iKWCode cgW
      obtain ⟨ob2, hob2, hg2, _⟩ :=
        dispatch_glue X (bare W.pib)
          (W.pib.pInfo.pvmGloVars.filter (fun q => q.szName ≠ szName)) szName szEqn iKWCode cgW
      have hsame : ob2 = ob := Option.some.inj (hob2.symm.trans hob)
      rw [hsame] at hg2
      rw [glue_bare] at hg
      rw [← absent_eq_glue] at hg2
      simp only [hx, if_false, h0, hg, hg2, Option.map_some']
      refine ⟨_, _, ob.pib.pInfo.pvmGloVars, rfl, rfl, rfl, rfl, ?_, ?_, ?_⟩
      · show ob.pib.pInfo.pvmGloVars ++ W.pib.pInfo.pvmGloVars = _
        rw [hglo]
      · simp only [glueOutcome, glue, absent, hglo]
      · intro _ hn hk1 hk2
        obtain ⟨h, hh⟩ := hfresh hCW hn hk1 hk2
        exact ⟨h, hh⟩

theorem C22_foreign_local_is_shadowed_witness :
    scaleAfterDynamics.pInfo.wContext = CN_SCALE ∧
    localElsewhere scaleAfterDynamics.pInfo.wContext
      (GetVarType scaleAfterDynamics.pInfo.pvmGloVars "x") = true ∧
    (∀ lx ∈ numberScanner.NextLex "2.0", lx.iType = LX_IDENTIFIER → lx.szLex ≠ "x") ∧
    ∃ o o' ins,
      DefineVariable numberScanner scaleAfterDynamics (some "x") (some "2.0") 0 = some o ∧
      DefineVariable numberScanner (absent scaleAfterDynamics "x") (some "x") (some "2.0") 0 =
        some o' ∧
      o'.ret = o.ret ∧ o'.out = o.out ∧
      o.pib.pInfo.pvmGloVars = ins ++ scaleAfterDynamics.pInfo.pvmGloVars ∧
      o'.pib = { o.pib with pInfo := { o.pib.pInfo with
        pvmGloVars := ins ++ (absent scaleAfterDynamics "x").pInfo.pvmGloVars } } ∧
      (((0 : Int) ≠ KM_INLINE → accepted numberScanner scaleAfterDynamics "2.0") →
        "x" ≠ "Inline" → (0 : Int) ≠ KM_DXDT → (0 : Int) ≠ KM_FUNCTION →
        ∃ hType, ins = [⟨"x", none, hType⟩]) :=
  ⟨by decide, by decide, by decide,
    C22_foreign_local_is_shadowed numberScanner scaleAfterDynamics "x" "2.0" 0
      (Or.inr (Or.inl (by decide))) (by decide) (fun _ => by decide)⟩

/-! ## Definitions that are dropped, and the assertion of the Global rule -/

theorem propagate_isSome (r : Option OUTCOME) (k : INPUTBUF → Option OUTCOME)
    (hr : r.isSome = true) (hk : ∀ p, (k p).isSome = true) : (propagate r k).isSome = true := by
  cases r with
  | none => simp at hr
  | some o =>
    simp only [propagate]
    split_ifs
    · rfl
    · have h := hk o.pib
      cases hq : k o.pib with
      | none => rw [hq] at h; simp at h
      | some q => rfl

theorem propagateResult_isSome (r : Option OUTCOME) (k : Int → INPUTBUF → Option OUTCOME)
    (hr : r.isSome = true) (hk : ∀ ret p, (k ret p).isSome = true) :
    (propagateResult r k).isSome = true := by
  cases r with
  | none => simp at hr
  | some o =>
    simp only [propagateResult]
    split_ifs
    · rfl
    · have h := hk o.ret o.pib
      cases hq : k o.ret o.pib with
      | none => rw [hq] at h; simp at h
      | some q => rfl

/-- The assertion `pvm != NULL` of `DefineGlobalVar` holds whenever the kind
passed in is the kind of the node passed in. -/
theorem DefineGlobalVar_isSome (X : SCANNER) (p : INPUTBUF) (pvm : PVMMAPSTRCT)
    (szName szEqn : String) :
    (DefineGlobalVar X p pvm szName szEqn (TYPE pvm)).isSome = true := by
  cases pvm with
  | nil =>
    by_cases hn : szName = "Inline"
    · simp [DefineGlobalVar, hn, propagate, AddEquationGlo, isExit_zero, AddEquation_some]
    · simp [DefineGlobalVar, hn, TYPE, propagate, AddEquationGlo, isExit_zero, AddEquation_some]
  | cons node rest =>
    unfold DefineGlobalVar
    simp only []
    split_ifs <;> first
      | exact propagate_isSome _ _ rfl (fun _ => rfl)
      | exact propagateResult_isSome _ _ rfl (fun _ _ => by split_ifs <;> rfl)

theorem propagateResult_some_isSome (o : OUTCOME) (k : Int → INPUTBUF → Option OUTCOME)
    (hk : (k o.ret o.pib).isSome = true) : (propagateResult (some o) k).isSome = true := by
  simp only [propagateResult]
  split_ifs
  · rfl
  · cases hq : k o.ret o.pib with
    | none => rw [hq] at hk; simp at hk
    | some q => rfl

theorem dispatch_GLOBAL_isSome (X : SCANNER) (p : INPUTBUF) (pvm : PVMMAPSTRCT)
    (szName szEqn : String) (iKWCode : Int) (hctx : p.pInfo.wContext = CN_GLOBAL) :
    (DefineVariable.dispatch X p pvm szName szEqn iKWCode (TYPE pvm)).isSome = true := by
  simp only [DefineVariable.dispatch, hctx, if_true]
  exact propagate_isSome _ _ (DefineGlobalVar_isSome X p pvm szName szEqn) (fun _ => rfl)

/-- C40: when `DefineVariable` runs in the Global context, for every table, name,
equation and keyword code, the call completes: neither its own assertion nor
the assertion `pvm != NULL` of `DefineGlobalVar` fails.  The node passed to
`DefineGlobalVar` is the one found by the lookup of the name in Global
Variables, and the kind passed is the kind of that node; so when the kind is
State, Input or Output the node is not `NULL`. -/
theorem C40_global_assertion_never_fails (X : SCANNER) (pibIn : INPUTBUF)
    (szName szEqn : Option String) (iKWCode : Int) (hctx : pibIn.pInfo.wContext = CN_GLOBAL) :
    (∃ o, DefineVariable X pibIn szName szEqn iKWCode = some o) ∧
    ∀ sz, shadowedPTR pibIn.pInfo sz = GetVarPTR pibIn.pInfo.pvmGloVars sz ∧
      shadowedKind pibIn.pInfo sz = TYPE (GetVarPTR pibIn.pInfo.pvmGloVars sz) ∧
      ((shadowedKind pibIn.pInfo sz = ID_STATE ∨ shadowedKind pibIn.pInfo sz = ID_INPUT ∨
          shadowedKind pibIn.pInfo sz = ID_OUTPUT) →
        shadowedPTR pibIn.pInfo sz ≠ []) := by
  have c0 : pibIn.pInfo.wContext ≠ CN_END := by rw [hctx]; decide
  refine ⟨?_, fun sz => ⟨shadowedPTR_GLOBAL _ _ hctx, ?_, ?_⟩⟩
  · rw [← Option.isSome_iff_exists]
    unfold DefineVariable
    rw [if_neg c0]
    cases szName with
    | none => rfl
    | some sz =>
      cases szEqn with
      | none => rfl
      | some e =>
        simp only [hctx, foreignLocal_GLOBAL, Bool.false_eq_true, if_false]
        refine propagateResult_some_isSome _ _ ?_
        split_ifs with h1 h2
        · rfl
        · refine dispatch_GLOBAL_isSome X _ _ sz e iKWCode ?_
          rw [core_wContext _ pibIn (VerifyEqn_core X pibIn e)]
          exact hctx
        · rfl
        · exact dispatch_GLOBAL_isSome X _ _ sz e iKWCode hctx
  · rw [shadowedKind, shadowedPTR_GLOBAL _ _ hctx]
  · intro h h0
    rw [shadowedKind, h0] at h
    rcases h with h | h | h <;> exact absurd h (by decide)

theorem C40_global_assertion_never_fails_witness :
    stateBuf.pInfo.wContext = CN_GLOBAL ∧
    shadowedKind stateBuf.pInfo "A" = ID_STATE ∧
    ((∃ o, DefineVariable numberScanner stateBuf (some "A") (some "1.0") 0 = some o) ∧
    ∀ sz, shadowedPTR stateBuf.pInfo sz = GetVarPTR stateBuf.pInfo.pvmGloVars sz ∧
      shadowedKind stateBuf.pInfo sz = TYPE (GetVarPTR stateBuf.pInfo.pvmGloVars sz) ∧
      ((shadowedKind stateBuf.pInfo sz = ID_STATE ∨ shadowedKind stateBuf.pInfo sz = ID_INPUT ∨
          shadowedKind stateBuf.pInfo sz = ID_OUTPUT) →
        shadowedPTR stateBuf.pInfo sz ≠ [])) :=
  ⟨by decide, by decide,
    C40_global_assertion_never_fails numberScanner stateBuf (some "A") (some "1.0") 0
      (by decide)⟩

theorem shadowedKind_INPUT (pinfo : INPUTINFO) (szName : String)
    (h : GetVarType pinfo.pvmGloVars szName = ID_INPUT) :
    shadowedKind pinfo szName = ID_INPUT := by
  have hT : TYPE (GetVarPTR pinfo.pvmGloVars szName) = ID_INPUT := h
  simp only [shadowedKind, shadowedPTR, hT, foreignLocal_INPUT, Bool.false_eq_true, if_false]

/-- C36: for every context other than the end of the input, every name and
every equation, when `DefineVariable` consults `VerifyEqn` (the statement is no
Inline statement, and not the value of an Input in the Global context) and
`VerifyEqn` returns `FALSE`, `DefineVariable` returns 0, writes the reports of
`VerifyEqn` and no other, and leaves all nine stacks exactly as they were. -/
theorem C36_rejected_definition_is_dropped (X : SCANNER) (pibIn : INPUTBUF)
    (szName szEqn : String) (iKWCode : Int) (hctx : pibIn.pInfo.wContext ≠ CN_END)
    (hkw : iKWCode ≠ KM_INLINE)
    (hin : shadowedKind pibIn.pInfo szName ≠ ID_INPUT ∨ pibIn.pInfo.wContext ≠ CN_GLOBAL)
    (hrej : (VerifyEqn X pibIn szEqn).ret = 0) :
    ∃ o, DefineVariable X pibIn (some szName) (some szEqn) iKWCode = some o ∧
      o.ret = 0 ∧ o.out = (VerifyEqn X pibIn szEqn).out ∧
      allStacks o.pib.pInfo = allStacks pibIn.pInfo := by
  have hin2 : GetVarType pibIn.pInfo.pvmGloVars szName ≠ ID_INPUT ∨
      pibIn.pInfo.wContext ≠ CN_GLOBAL := by
    rcases hin with h | h
    · exact Or.inl (fun e => h (shadowedKind_INPUT _ _ e))
    · exact Or.inr h
  refine ⟨VerifyEqn X pibIn szEqn,
    DefineVariable_rejected X pibIn szName szEqn iKWCode hctx hkw hin2 (Or.inl hrej), hrej, rfl,
    core_allStacks _ _ (VerifyEqn_core X pibIn szEqn)⟩

theorem C36_rejected_definition_is_dropped_witness :
    startBuf.pInfo.wContext ≠ CN_END ∧ (VerifyEqn punctScanner startBuf ";").ret = 0 ∧
    ∃ o, DefineVariable punctScanner startBuf (some "x") (some ";") 0 = some o ∧
      o.ret = 0 ∧ o.out = (VerifyEqn punctScanner startBuf ";").out ∧
      allStacks o.pib.pInfo = allStacks startBuf.pInfo :=
  ⟨by decide, by decide,
    C36_rejected_definition_is_dropped punctScanner startBuf "x" ";" 0 (by decide) (by decide)
      (Or.inl (by decide)) (by decide)⟩

theorem setFirstEqn_none (pvm : PVMMAPSTRCT) (szName : String)
    (h : valueOf pvm szName = none) : setFirstEqn pvm szName none = pvm := by
  induction pvm with
  | nil => rfl
  | cons r rest ih =>
    by_cases hn : szName = r.szName
    · have hr : r.szEqn = none := by simpa [valueOf, GetVarPTR, hn] using h
      obtain ⟨a, b, c⟩ := r
      simp only at hr
      subst hr
      simp [setFirstEqn, hn]
    · have h2 : valueOf rest szName = none := by simpa [valueOf, GetVarPTR, hn] using h
      simp [setFirstEqn, hn, ih h2]

/-- C37: in the Global context, for a name other than the reserved word `Inline`
whose kind is Input and whose record has no value yet, when `GetInputFn`
returns `FALSE` for the assigned specification, `DefineVariable` returns 0 and
leaves Global Variables and the eight other stacks exactly as before: no record
is added, the kind of the name is still Input and its payload is still absent,
which is the condition under which a later assignment is a first definition. -/
theorem C37_failed_dosing_leaves_input_unset (X : SCANNER) (pibIn : INPUTBUF)
    (szName szEqn : String) (iKWCode : Int) (hctx : pibIn.pInfo.wContext = CN_GLOBAL)
    (hname : szName ≠ "Inline")
    (hkind : GetVarType pibIn.pInfo.pvmGloVars szName = ID_INPUT)
    (hnone : valueOf pibIn.pInfo.pvmGloVars szName = none)
    (hfail : (X.GetInputFn pibIn szEqn).ret = 0) :
    ∃ o, DefineVariable X pibIn (some szName) (some szEqn) iKWCode = some o ∧
      o.ret = 0 ∧ o.out = (X.GetInputFn pibIn szEqn).out ∧
      allStacks o.pib.pInfo = allStacks pibIn.pInfo ∧
      GetVarType o.pib.pInfo.pvmGloVars szName = ID_INPUT ∧
      valueOf o.pib.pInfo.pvmGloVars szName = none := by
  have c0 : pibIn.pInfo.wContext ≠ CN_END := by rw [hctx]; decide
  have hT : TYPE (GetVarPTR pibIn.pInfo.pvmGloVars szName) = ID_INPUT := hkind
  have t1 : ID_INPUT ≠ ID_NULL := by decide
  cases hpvm : GetVarPTR pibIn.pInfo.pvmGloVars szName with
  | nil =>
    rw [hpvm] at hT
    exact absurd hT (by decide)
  | cons node rest =>
    have hnode : node.szEqn = none := by simpa only [valueOf, hpvm] using hnone
    rw [hpvm] at hT
    have hstore2 : storeGloEqn { pibIn with cErrors := (X.GetInputFn pibIn szEqn).cErrors }
        (node :: rest) none = { pibIn with cErrors := (X.GetInputFn pibIn szEqn).cErrors } := by
      have h2 := storeGloEqn_GetVarPTR
        { pibIn with cErrors := (X.GetInputFn pibIn szEqn).cErrors } szName none
      simp only [hpvm] at h2
      rw [h2, setFirstEqn_none _ _ hnone]
    unfold DefineVariable
    simp only [c0, if_false, hctx, foreignLocal_GLOBAL, Bool.false_eq_true, hT, or_self,
      and_false, propagateResult, isExit_one, one_ne_zero, DefineVariable.dispatch, if_true, hpvm,
      DefineGlobalVar, hname, t1, true_or, hnode, hfail, isExit_zero, ne_eq,
      not_true_eq_false, hstore2, propagate, Option.map_some', List.append_nil, List.nil_append]
    exact ⟨_, rfl, rfl, rfl, rfl, hkind, hnone⟩

theorem C37_failed_dosing_leaves_input_unset_witness :
    globalDoseBuf.pInfo.wContext = CN_GLOBAL ∧
    GetVarType globalDoseBuf.pInfo.pvmGloVars "Dose" = ID_INPUT ∧
    valueOf globalDoseBuf.pInfo.pvmGloVars "Dose" = none ∧
    (numberScanner.GetInputFn globalDoseBuf "PerDose (1)").ret = 0 ∧
    ∃ o, DefineVariable numberScanner globalDoseBuf (some "Dose") (some "PerDose (1)") 0 =
        some o ∧
      o.ret = 0 ∧ o.out = (numberScanner.GetInputFn globalDoseBuf "PerDose (1)").out ∧
      allStacks o.pib.pInfo = allStacks globalDoseBuf.pInfo ∧
      GetVarType o.pib.pInfo.pvmGloVars "Dose" = ID_INPUT ∧
      valueOf o.pib.pInfo.pvmGloVars "Dose" = none :=
  ⟨by decide, by decide, by decide, by decide,
    C37_failed_dosing_leaves_input_unset numberScanner globalDoseBuf "Dose" "PerDose (1)" 0
      (by decide) (by decide) (by decide) (by decide) (by decide)⟩

/-! ## First assignments in a section, and States in Dynamics -/

/-- C33: from the empty table, the first assignment `x = 1.0;` to the name `x`
in the Dynamics, Scale, Jacobian and CalcOutputs sections prepends to Global
Variables a record for `x` without equation whose kind is the local kind of
that section, and prepends the equation to the stack of the section.  In the
Events and in the Roots section the equation is prepended to the stack of the
section as well, but the kind of the Global record (and of the equation) is
Local-to-Jacobian, not the local kind of Events or of Roots. -/
theorem C33_first_local_in_events_is_local_to_jacobian :
    (DefineVariable numberScanner (sectionBuf CN_DYNAMICS) (some "x") (some "1.0") 0).map
        (fun o => (o.ret, o.pib.pInfo.pvmGloVars, o.pib.pInfo.pvmDynEqns)) =
      some (0, [⟨"x", none, ID_LOCALDYN ||| ID_SPACEFLAG⟩],
        [⟨"x", some (EQN.text "1.0"), ID_LOCALDYN ||| ID_SPACEFLAG⟩]) ∧
    (DefineVariable numberScanner (sectionBuf CN_SCALE) (some "x") (some "1.0") 0).map
        (fun o => (o.ret, o.pib.pInfo.pvmGloVars, o.pib.pInfo.pvmScaleEqns)) =
      some (0, [⟨"x", none, ID_LOCALSCALE⟩], [⟨"x", some (EQN.text "1.0"), ID_LOCALSCALE⟩]) ∧
    (DefineVariable numberScanner (sectionBuf CN_JACOB) (some "x") (some "1.0") 0).map
        (fun o => (o.ret, o.pib.pInfo.pvmGloVars, o.pib.pInfo.pvmJacobEqns)) =
      some (0, [⟨"x", none, ID_LOCALJACOB⟩], [⟨"x", some (EQN.text "1.0"), ID_LOCALJACOB⟩]) ∧
    (DefineVariable numberScanner (sectionBuf CN_CALCOUTPUTS) (some "x") (some "1.0") 0).map
        (fun o => (o.ret, o.pib.pInfo.pvmGloVars, o.pib.pInfo.pvmCalcOutEqns)) =
      some (0, [⟨"x", none, ID_LOCALCALCOUT⟩],
        [⟨"x", some (EQN.text "1.0"), ID_LOCALCALCOUT⟩]) ∧
    (DefineVariable numberScanner (sectionBuf CN_EVENTS) (some "x") (some "1.0") 0).map
        (fun o => (o.ret, o.pib.pInfo.pvmGloVars, o.pib.pInfo.pvmEventEqns)) =
      some (0, [⟨"x", none, ID_LOCALJACOB⟩], [⟨"x", some (EQN.text "1.0"), ID_LOCALJACOB⟩]) ∧
    (DefineVariable numberScanner (sectionBuf CN_ROOTS) (some "x") (some "1.0") 0).map
        (fun o => (o.ret, o.pib.pInfo.pvmGloVars, o.pib.pInfo.pvmRootEqns)) =
      some (0, [⟨"x", none, ID_LOCALJACOB⟩], [⟨"x", some (EQN.text "1.0"), ID_LOCALJACOB⟩]) ∧
    TYPE [⟨"x", none, ID_LOCALDYN ||| ID_SPACEFLAG⟩] = localKindOf CN_DYNAMICS ∧
    ID_LOCALSCALE = localKindOf CN_SCALE ∧ ID_LOCALJACOB = localKindOf CN_JACOB ∧
    ID_LOCALCALCOUT = localKindOf CN_CALCOUTPUTS ∧
    localKindOf CN_EVENTS = ID_LOCALEVENT ∧ localKindOf CN_ROOTS = ID_LOCALROOT ∧
    ID_LOCALJACOB ≠ ID_LOCALEVENT ∧ ID_LOCALJACOB ≠ ID_LOCALROOT := by
  set_option synthInstance.maxSize 2048 in
  decide

theorem foreignLocal_STATE (wContext : Nat) : foreignLocal wContext ID_STATE = false := by
  have h1 : (ID_STATE == ID_LOCALDYN) = false := by decide
  have h2 : (ID_STATE == ID_LOCALSCALE) = false := by decide
  have h3 : (ID_STATE == ID_LOCALJACOB) = false := by decide
  have h4 : (ID_STATE == ID_LOCALEVENT) = false := by decide
  have h5 : (ID_STATE == ID_LOCALROOT) = false := by decide
  have h6 : (ID_STATE == ID_LOCALCALCOUT) = false := by decide
  simp only [foreignLocal, h1, h2, h3, h4, h5, h6, Bool.or_self, Bool.and_false]

theorem shadowedKind_STATE (pinfo : INPUTINFO) (szName : String)
    (h : GetVarType pinfo.pvmGloVars szName = ID_STATE) :
    shadowedKind pinfo szName = ID_STATE := by
  have hT : TYPE (GetVarPTR pinfo.pvmGloVars szName) = ID_STATE := h
  simp only [shadowedKind, shadowedPTR, hT, foreignLocal_STATE, Bool.false_eq_true, if_false]

/-- The Dynamics rule of `DefineVariable.dispatch` for a plain assignment to a
name of State kind: the equation is prepended to Dynamics Equations, and the
warning of a non-standard assignment is reported. -/
theorem DefineVariable_dispatch_STATE (X : SCANNER) (pibIn : INPUTBUF) (pvm : PVMMAPSTRCT)
    (szName szEqn : String) (iKWCode : Int) (hctx : pibIn.pInfo.wContext = CN_DYNAMICS)
    (hname : szName ≠ "Inline") (hdxdt : iKWCode ≠ KM_DXDT) (hfn : iKWCode ≠ KM_FUNCTION) :
    DefineVariable.dispatch X pibIn pvm szName szEqn iKWCode ID_STATE =
      some ⟨0, { pibIn with iLNPrev := pibIn.iLineNum, pInfo := { pibIn.pInfo with
          pvmDynEqns := ⟨szName, some (EQN.text szEqn), ID_STATE ||| ID_SPACEFLAG⟩ ::
            pibIn.pInfo.pvmDynEqns } },
        [⟨RE_REDEF, true, false, szName,
          some ("Non-standard assignment in Dynamics section. " ++
            "Potential state discontinuity.\n")⟩]⟩ := by
  have c1 : CN_DYNAMICS ≠ CN_GLOBAL := by decide
  have t0 : ID_STATE ≠ 0 := by decide
  have t1 : ID_STATE ≠ ID_NULL := by decide
  have t2 : ID_STATE ≠ ID_LOCALDYN := by decide
  have t3 : ID_STATE ≠ ID_FUNCTION := by decide
  simp only [DefineVariable.dispatch, hctx, c1, if_false, if_true, hdxdt, hfn, DefineDynamicsEqn,
    hname, t0, t1, t2, t3, true_or, or_true, and_self, true_and, ne_eq, not_false_eq_true,
    report_REDEF_WARNING, propagate, endEqn, isExit_zero, AddEquationDyn, AddEquation_some,
    Option.getD_some, Option.map_some', Bool.false_eq_true, List.append_nil, List.nil_append]

/-- C34 (as stated, refuted): in the Dynamics section, with `A` declared as a
State, the plain assignment `A = 1.0;` returns 0, reports the warning of a
non-standard assignment, and prepends the equation to Dynamics Equations with
the State kind. -/
theorem C34_counterexample_state_assigned_in_dynamics :
    GetVarType dynamicsStateBuf.pInfo.pvmGloVars "A" = ID_STATE ∧
    dynamicsStateBuf.pInfo.wContext = CN_DYNAMICS ∧ dynamicsStateBuf.pInfo.pvmDynEqns = [] ∧
    (DefineVariable numberScanner dynamicsStateBuf (some "A") (some "1.0") 0).map
        (fun o => (o.ret, o.out, o.pib.pInfo.pvmDynEqns)) =
      some (0,
        [⟨RE_REDEF, true, false, "A",
          some "Non-standard assignment in Dynamics section. Potential state discontinuity.\n"⟩],
        [⟨"A", some (EQN.text "1.0"), ID_STATE ||| ID_SPACEFLAG⟩]) := by
  decide

/-- C34 (amended): in the Dynamics context, an assignment that is neither a `dt`
nor a `Function` statement, to a name other than `Inline` whose kind in Global
Variables is State, with an equation that passes verification, is accepted as
a non-standard assignment: `DefineVariable` returns 0, the only
report is the redefinition warning of a potential state discontinuity, one
record with the name, the equation and the State kind is prepended to Dynamics
Equations, and the eight other stacks are as before. -/
theorem C34_state_assignment_in_dynamics_is_nonstandard (X : SCANNER) (pibIn : INPUTBUF)
    (szName szEqn : String) (iKWCode : Int) (hctx : pibIn.pInfo.wContext = CN_DYNAMICS)
    (hkind : GetVarType pibIn.pInfo.pvmGloVars szName = ID_STATE) (hname : szName ≠ "Inline")
    (hdxdt : iKWCode ≠ KM_DXDT) (hfn : iKWCode ≠ KM_FUNCTION)
    (hver : iKWCode ≠ KM_INLINE → accepted X pibIn szEqn) :
    ∃ o, DefineVariable X pibIn (some szName) (some szEqn) iKWCode = some o ∧
      o.ret = 0 ∧
      o.out = [⟨RE_REDEF, true, false, szName,
        some "Non-standard assignment in Dynamics section. Potential state discontinuity.\n"⟩] ∧
      o.pib.pInfo.pvmDynEqns =
        ⟨szName, some (EQN.text szEqn), ID_STATE ||| ID_SPACEFLAG⟩ :: pibIn.pInfo.pvmDynEqns ∧
      TYPE o.pib.pInfo.pvmDynEqns = ID_STATE ∧
      allStacks { o.pib.pInfo with pvmDynEqns := pibIn.pInfo.pvmDynEqns } =
        allStacks pibIn.pInfo := by
  have c0 : pibIn.pInfo.wContext ≠ CN_END := by rw [hctx]; decide
  obtain ⟨p, hp, hD⟩ :=
    DefineVariable_accepted X pibIn szName szEqn iKWCode c0 (fun h => hver h.1)
  have hpc : p.pInfo.wContext = CN_DYNAMICS := by rw [core_wContext p pibIn hp]; exact hctx
  have hps : allStacks p.pInfo = allStacks pibIn.pInfo := core_allStacks p pibIn hp
  have hdyn : p.pInfo.pvmDynEqns = pibIn.pInfo.pvmDynEqns := by
    rw [core_eq_elim pibIn p hp]
  rw [shadowedKind_STATE _ _ hkind,
    DefineVariable_dispatch_STATE X p _ szName szEqn iKWCode hpc hname hdxdt hfn] at hD
  refine ⟨_, hD, rfl, rfl, ?_, ?_, ?_⟩
  · show _ :: p.pInfo.pvmDynEqns = _
    rw [hdyn]
  · show (ID_STATE ||| ID_SPACEFLAG) &&& ID_TYPEMASK = ID_STATE
    decide
  · rw [← hps, ← hdyn]

theorem C34_state_assignment_in_dynamics_is_nonstandard_witness :
    dynamicsStateBuf.pInfo.wContext = CN_DYNAMICS ∧
    GetVarType dynamicsStateBuf.pInfo.pvmGloVars "A" = ID_STATE ∧
    accepted numberScanner dynamicsStateBuf "1.0" ∧
    ∃ o, DefineVariable numberScanner dynamicsStateBuf (some "A") (some "1.0") 0 = some o ∧
      o.ret = 0 ∧
      o.out = [⟨RE_REDEF, true, false, "A",
        some "Non-standard assignment in Dynamics section. Potential state discontinuity.\n"⟩] ∧
      o.pib.pInfo.pvmDynEqns =
        ⟨"A", some (EQN.text "1.0"), ID_STATE ||| ID_SPACEFLAG⟩ ::
          dynamicsStateBuf.pInfo.pvmDynEqns ∧
      TYPE o.pib.pInfo.pvmDynEqns = ID_STATE ∧
      allStacks { o.pib.pInfo with pvmDynEqns := dynamicsStateBuf.pInfo.pvmDynEqns } =
        allStacks dynamicsStateBuf.pInfo :=
  ⟨by decide, by decide, by decide,
    C34_state_assignment_in_dynamics_is_nonstandard numberScanner dynamicsStateBuf "A" "1.0" 0
      (by decide) (by decide) (by decide) (by decide) (by decide) (fun _ => by decide)⟩

/-! ## Release of the table and the entry point -/

theorem Cleanup_release_eq (pvm : PVMMAPSTRCT) :
    Cleanup.release pvm = if Cleanup.allocated pvm then some [] else none := by
  induction pvm with
  | nil => simp [Cleanup.release, Cleanup.allocated]
  | cons r rest ih =>
    by_cases hr : r.szEqn = some EQN.vszHasInitializer
    · simp [Cleanup.release, Cleanup.allocated, hr]
    · simp only [Cleanup.release, if_neg hr, ih]
      simp [Cleanup.allocated, hr]

/-- C31: `Cleanup` completes, with all nine stacks empty, exactly for the tables
whose Local Compartments stack is empty and whose other stacks hold no record
flagged with the static string `vszHasInitializer`.  For every table whose
Local Compartments stack holds a record, the last loop reads
`pinfo->pvmJacobEqns->pvmNextVar` after the Jacobian loop has set
`pvmJacobEqns` to `NULL`: `Cleanup` does not complete.  So it is for the table
left by a template model with one SBML compartment, all of whose equations are
allocated texts.  A record flagged `vszHasInitializer`, as `States { A };` and
`A = 1.0;` leave it in Global Variables, makes `Cleanup` call `free` on the
static string. -/
theorem C31_Cleanup_reads_null_with_local_compartments :
    (∀ pinfo : INPUTINFO,
      Cleanup pinfo = if Cleanup.releasable pinfo ∧ pinfo.pvmLocalCpts = [] then
        some (emptied pinfo) else none) ∧
    (∀ pinfo : INPUTINFO, pinfo.pvmLocalCpts ≠ [] → Cleanup pinfo = none) ∧
    (∀ pinfo : INPUTINFO, allStacks (emptied pinfo) = List.replicate 9 []) ∧
    templateInfo.pvmLocalCpts = [⟨"liver", some (EQN.text "1.0"), ID_COMPARTMENT⟩] ∧
    Cleanup.releasable templateInfo ∧
    Cleanup templateInfo = none ∧
    Cleanup parmInfo = some (emptied parmInfo) ∧
    (run numberScanner startBuf initialiseCalls).map
        (fun p => (p.pInfo.pvmGloVars, p.pInfo.pvmLocalCpts, Cleanup p.pInfo))
      = some ([⟨"A", some (EQN.text "1.0"), ID_STATE⟩,
          ⟨"A", some EQN.vszHasInitializer, ID_STATE⟩], [], none) := by
  have hgen : ∀ pinfo : INPUTINFO,
      Cleanup pinfo = if Cleanup.releasable pinfo ∧ pinfo.pvmLocalCpts = [] then
        some (emptied pinfo) else none := by
    intro pinfo
    simp only [Cleanup, Cleanup_release_eq, Cleanup.releasable]
    by_cases h1 : Cleanup.allocated pinfo.pvmGloVars
    swap
    · simp [h1]
    by_cases h2 : Cleanup.allocated pinfo.pvmDynEqns
    swap
    · simp [h1, h2]
    by_cases h3 : Cleanup.allocated pinfo.pvmScaleEqns
    swap
    · simp [h1, h2, h3]
    by_cases h4 : Cleanup.allocated pinfo.pvmJacobEqns
    swap
    · simp [h1, h2, h3, h4]
    by_cases h5 : Cleanup.allocated pinfo.pvmCalcOutEqns
    swap
    · simp [h1, h2, h3, h4, h5]
    by_cases h6 : Cleanup.allocated pinfo.pvmEventEqns
    swap
    · simp [h1, h2, h3, h4, h5, h6]
    by_cases h7 : Cleanup.allocated pinfo.pvmRootEqns
    swap
    · simp [h1, h2, h3, h4, h5, h6, h7]
    by_cases h8 : Cleanup.allocated pinfo.pvmCpts
    swap
    · simp [h1, h2, h3, h4, h5, h6, h7, h8]
    simp only [if_pos h1, if_pos h2, if_pos h3, if_pos h4, if_pos h5, if_pos h6, if_pos h7,
      if_pos h8, Option.some_bind, h1, h2, h3, h4, h5, h6, h7, h8, and_self, true_and]
    cases hl : pinfo.pvmLocalCpts with
    | nil => simp [Cleanup.releaseLocalCpts, emptied, hl]
    | cons r rest => simp [Cleanup.releaseLocalCpts]
  refine ⟨hgen, ?_, fun _ => rfl, rfl, by decide, by decide, by decide, by decide⟩
  intro pinfo hl
  rw [hgen, if_neg (fun h => hl h.2)]

/-- The value returned by `c_mod`, and the routines it calls, in terms of the
statuses of argument handling, `ReadModel` and the writer: a value is returned
only when `Cleanup` completes; it is then 0 when none of the three statuses is
an exit code and -1 otherwise, and after an exit code of `ReadModel` no writer
is called. -/
theorem c_mod_cases (D : DRIVER) :
    ((D.ReadModel (D.GetCmdLineArgs InitInfo).2).1 = EXIT_ERROR ∨
        (D.ReadModel (D.GetCmdLineArgs InitInfo).2).1 = EXIT_NOERROR →
      STAGE.Write_R_Model ∉ (c_mod D).calls ∧ STAGE.WriteModel ∉ (c_mod D).calls) ∧
    ((c_mod D).ret = none ∨ (c_mod D).ret = some 0 ∨ (c_mod D).ret = some (-1)) ∧
    ((c_mod D).ret = some 0 →
      isExit (D.GetCmdLineArgs InitInfo).1 = false ∧
      isExit (D.ReadModel (D.GetCmdLineArgs InitInfo).2).1 = false ∧
      (STAGE.Write_R_Model ∈ (c_mod D).calls ∨ STAGE.WriteModel ∈ (c_mod D).calls)) := by
  unfold c_mod
  simp only []
  split_ifs with h1 h2 h3 h4 h5 <;>
    simp_all [isExit, or_comm] <;>
    (try cases Cleanup _ <;> simp)

/-- C32: in a run where argument handling, `ReadModel` and the writer all finish
with status 0 and the analysis leaves a record in Local Compartments (a
template model with one SBML compartment), `c_mod` calls the writer and then
`Cleanup`, which does not complete: no value is returned, where 0 is due.  With
an empty Local Compartments stack the same run returns 0; when `ReadModel`
returns an exit code, no writer is called, and -1 is returned if `Cleanup`
completes. -/
theorem C32_c_mod_returns_nothing_after_template_model :
    c_mod (quietDriver templateInfo) =
      ⟨none, [STAGE.GetCmdLineArgs, STAGE.ReadModel, STAGE.Write_R_Model, STAGE.Cleanup]⟩ ∧
    c_mod (quietDriver parmInfo) =
      ⟨some 0, [STAGE.GetCmdLineArgs, STAGE.ReadModel, STAGE.Write_R_Model, STAGE.Cleanup]⟩ ∧
    c_mod (failedDriver EXIT_ERROR parmInfo) =
      ⟨some (-1), [STAGE.GetCmdLineArgs, STAGE.ReadModel, STAGE.Cleanup]⟩ ∧
    c_mod (failedDriver EXIT_ERROR templateInfo) =
      ⟨none, [STAGE.GetCmdLineArgs, STAGE.ReadModel, STAGE.Cleanup]⟩ := by
  decide

/-! ## Handles of adjacent records -/

theorem CalculateVarHandle_loop_run (hType : HANDLE) (run post : PVMMAPSTRCT)
    (hrun : ∀ r ∈ run, r.hType = hType) (hpost : ∀ r ∈ post.head?, r.hType ≠ hType) :
    ∀ cSameType, CalculateVarHandle.loop hType (run ++ post) cSameType =
      cSameType + run.length := by
  induction run with
  | nil =>
    intro c
    cases post with
    | nil => simp [CalculateVarHandle.loop]
    | cons q rest =>
      have hq : q.hType ≠ hType := hpost q (by simp)
      simp [CalculateVarHandle.loop, hq]
  | cons r rest ih =>
    intro c
    have hr : r.hType = hType := hrun r (List.mem_cons_self _ _)
    have ih2 := ih (fun q hq => hrun q (List.mem_cons_of_mem _ hq)) (c + 1)
    have hcons : (r :: rest) ++ post = r :: (rest ++ post) := rfl
    rw [hcons]
    simp only [CalculateVarHandle.loop, hr, if_true]
    rw [ih2]
    simp only [List.length_cons]
    omega

theorem GetVarPTR_append_cons (pre post : PVMMAPSTRCT) (r : VMMAPSTRCT)
    (h : ∀ q ∈ pre, q.szName ≠ r.szName) :
    GetVarPTR (pre ++ r :: post) r.szName = r :: post := by
  induction pre with
  | nil => simp [GetVarPTR]
  | cons q rest ih =>
    have hq : ¬ r.szName = q.szName := fun e => h q (List.mem_cons_self _ _) e.symm
    simp only [List.cons_append, GetVarPTR, if_neg hq]
    exact ih (fun x hx => h x (List.mem_cons_of_mem _ hx))

/-- C38 (as stated, refuted): the two Scale assignments `a = 1.0;` and, after a
blank line, `b = 2.0;` leave in Global Variables two records of the kind
Local-to-Scale next to each other, the second with the space flag.  For both
names `CalculateVarHandle` counts 0 records after them: the ordinals are 0 and
0, not 1 and 0. -/
theorem C38_counterexample_space_flag_ends_the_count :
    (run numberScanner (sectionBuf CN_SCALE)
        [CALL.define 1 (some "a") (some "1.0") 0, CALL.define 3 (some "b") (some "2.0") 0]).map
        (fun p => p.pInfo.pvmGloVars) = some flaggedLocals ∧
    flaggedLocals.map (fun q => q.hType &&& ID_TYPEMASK) = [ID_LOCALSCALE, ID_LOCALSCALE] ∧
    ["b", "a"].map (CalculateVarHandle.count flaggedLocals) = [0, 0] ∧
    ["b", "a"].map (CalculateVarHandle flaggedLocals) =
      [ID_LOCALSCALE ||| ID_SPACEFLAG ||| 0, ID_LOCALSCALE ||| 0] ∧
    ["b", "a"].map (CalculateVarHandle.count flaggedLocals) ≠ [1, 0] := by
  decide

/-- C38 (amended): in a stack in which records with one and the same field
`hType` (the same kind and the same space flag) lie next to each other,
followed by no record or by a record with another `hType`, the counter of
`CalculateVarHandle` for a record of that run that is the first of its name in
the stack is the number of records of the run behind it: from head to tail the
ordinals are k-1, k-2, ..., 0, which is the position of the record in the run in
declaration order, and the handle is `hType` combined with that ordinal. -/
theorem C38_adjacent_records_get_descending_ordinals (pre ahead behind post : PVMMAPSTRCT)
    (r : VMMAPSTRCT) (hType : HANDLE)
    (hrun : ∀ q ∈ ahead ++ r :: behind, q.hType = hType)
    (hpost : ∀ q ∈ post.head?, q.hType ≠ hType)
    (hfirst : ∀ q ∈ pre ++ ahead, q.szName ≠ r.szName) :
    CalculateVarHandle.count (pre ++ (ahead ++ r :: behind) ++ post) r.szName =
      (ahead ++ r :: behind).length - 1 - ahead.length ∧
    CalculateVarHandle (pre ++ (ahead ++ r :: behind) ++ post) r.szName =
      hType ||| ((ahead ++ r :: behind).length - 1 - ahead.length) ∧
    ((ReversePointers (ahead ++ r :: behind)).get? ((ahead ++ r :: behind).length - 1 -
      ahead.length) = some r) := by
  have hlen : (ahead ++ r :: behind).length - 1 - ahead.length = behind.length := by
    simp only [List.length_append, List.length_cons]
    omega
  have hsplit : pre ++ (ahead ++ r :: behind) ++ post = (pre ++ ahead) ++ r :: (behind ++ post) := by
    simp only [List.append_assoc, List.cons_append]
  have hptr : GetVarPTR (pre ++ (ahead ++ r :: behind) ++ post) r.szName =
      r :: (behind ++ post) := by
    rw [hsplit]
    exact GetVarPTR_append_cons _ _ r hfirst
  have hr : r.hType = hType := hrun r (by simp)
  have hcount : CalculateVarHandle.loop hType (behind ++ post) 0 = behind.length := by
    rw [CalculateVarHandle_loop_run hType behind post
      (fun q hq => hrun q (by simp [hq])) hpost 0]
    omega
  refine ⟨?_, ?_, ?_⟩
  · simp only [CalculateVarHandle.count, hptr, hr, hcount, hlen]
  · simp only [CalculateVarHandle, hptr, hr, hcount, hlen]
  · rw [hlen]
    have hrev : ReversePointers (ahead ++ r :: behind) = behind.reverse ++ r :: ahead.reverse := by
      simp [ReversePointers, ReversePointers_loop_eq]
    rw [hrev, List.get?_eq_getElem?, List.getElem?_append_right (by simp)]
    simp

theorem C38_adjacent_records_get_descending_ordinals_witness :
    threeParms = [] ++ ([⟨"c", some (EQN.text "3"), ID_PARM⟩] ++
      ⟨"b", some (EQN.text "2"), ID_PARM⟩ :: [⟨"a", some (EQN.text "1"), ID_PARM⟩]) ++ [] ∧
    CalculateVarHandle.count threeParms "b" = 3 - 1 - 1 ∧
    CalculateVarHandle threeParms "b" = ID_PARM ||| (3 - 1 - 1) ∧
    (ReversePointers threeParms).get? (3 - 1 - 1) = some ⟨"b", some (EQN.text "2"), ID_PARM⟩ :=
  ⟨by decide,
    C38_adjacent_records_get_descending_ordinals [] [⟨"c", some (EQN.text "3"), ID_PARM⟩]
      [⟨"a", some (EQN.text "1"), ID_PARM⟩] [] ⟨"b", some (EQN.text "2"), ID_PARM⟩ ID_PARM
      (by decide) (by decide) (by decide)⟩

/-! ## The counter of Scale equations -/

theorem scaleSlack_report (pibIn : INPUTBUF) (wCode : Nat) (szMsg : String)
    (szAltMsg : Option String) :
    scaleSlack (report pibIn wCode szMsg szAltMsg).pib.pInfo = scaleSlack pibIn.pInfo := by
  rw [report_pInfo]

theorem scaleSlack_DefineScaleEqn (p : INPUTBUF) (szName szEqn : String) (hType : HANDLE) :
    ∀ o, DefineScaleEqn p szName szEqn hType = some o →
      scaleSlack o.pib.pInfo = scaleSlack p.pInfo := by
  unfold DefineScaleEqn
  simp only []
  split_ifs <;>
    simp only [propagate, AddEquationScale, AddEquationGlo, AddEquation_some, isExit_zero, endEqn,
      report_REDEF_WARNING, Option.getD_some, Bool.false_eq_true, if_false, Option.map_some',
      List.append_nil, List.nil_append] <;>
    (try split_ifs) <;>
    simp [scaleSlack]

theorem scaleSlack_DefineDynamicsEqn (p : INPUTBUF) (szName szEqn : String) (hType : HANDLE) :
    ∀ o, DefineDynamicsEqn p szName szEqn hType = some o →
      scaleSlack o.pib.pInfo = scaleSlack p.pInfo := by
  unfold DefineDynamicsEqn
  simp only []
  split_ifs <;>
    simp [propagate, AddEquationDyn, AddEquationGlo, AddEquation_some, isExit_zero, endEqn,
      report_REDEF_WARNING, scaleSlack]

theorem scaleSlack_DefineJacobEqn (p : INPUTBUF) (szName szEqn : String) (hType : HANDLE) :
    ∀ o, DefineJacobEqn p szName szEqn hType = some o →
      scaleSlack o.pib.pInfo = scaleSlack p.pInfo := by
  unfold DefineJacobEqn
  simp only []
  split_ifs <;>
    simp only [propagate, AddEquationJacob, AddEquationGlo, AddEquation_some, isExit_zero, endEqn,
      report_REDEF_WARNING, Option.getD_some, Bool.false_eq_true, if_false, Option.map_some',
      List.append_nil, List.nil_append] <;>
    (try split_ifs) <;>
    simp [scaleSlack]

theorem scaleSlack_DefineEventEqn (p : INPUTBUF) (szName szEqn : String) (hType : HANDLE) :
    ∀ o, DefineEventEqn p szName szEqn hType = some o →
      scaleSlack o.pib.pInfo = scaleSlack p.pInfo := by
  unfold DefineEventEqn
  simp only []
  split_ifs <;>
    simp only [propagate, AddEquationEvent, AddEquationGlo, AddEquation_some, isExit_zero, endEqn,
      report_REDEF_WARNING, Option.getD_some, Bool.false_eq_true, if_false, Option.map_some',
      List.append_nil, List.nil_append] <;>
    (try split_ifs) <;>
    simp [scaleSlack]

theorem scaleSlack_DefineRootEqn (p : INPUTBUF) (szName szEqn : String) (hType : HANDLE) :
    ∀ o, DefineRootEqn p szName szEqn hType = some o →
      scaleSlack o.pib.pInfo = scaleSlack p.pInfo := by
  unfold DefineRootEqn
  simp only []
  split_ifs <;>
    simp only [propagate, AddEquationRoot, AddEquationGlo, AddEquation_some, isExit_zero, endEqn,
      report_REDEF_WARNING, Option.getD_some, Bool.false_eq_true, if_false, Option.map_some',
      List.append_nil, List.nil_append] <;>
    (try split_ifs) <;>
    simp [scaleSlack]

theorem scaleSlack_DefineCalcOutEqn (p : INPUTBUF) (szName szEqn : String) (hType : HANDLE) :
    ∀ o, DefineCalcOutEqn p szName szEqn hType = some o →
      scaleSlack o.pib.pInfo = scaleSlack p.pInfo := by
  unfold DefineCalcOutEqn
  simp only []
  split_ifs <;>
    simp [propagate, AddEquationCalcOut, AddEquationGlo, AddEquation_some, isExit_zero, endEqn,
      scaleSlack]

theorem scaleSlack_storeGloEqn (p : INPUTBUF) (pvm : PVMMAPSTRCT) (szEqn : Option EQN) :
    scaleSlack (storeGloEqn p pvm szEqn).pInfo = scaleSlack p.pInfo := rfl

theorem scaleSlack_DefineGlobalVar (X : SCANNER) (p : INPUTBUF) (pvm : PVMMAPSTRCT)
    (szName szEqn : String) (hType : HANDLE) :
    ∀ o, DefineGlobalVar X p pvm szName szEqn hType = some o →
      scaleSlack o.pib.pInfo = scaleSlack p.pInfo := by
  intro o h
  cases pvm with
  | nil =>
    unfold DefineGlobalVar at h
    simp only [] at h
    split_ifs at h
    all_goals first
      | (have hp := propagate_done_pib _ _ h; rw [hp, scaleSlack_report])
      | (simp [propagate, AddEquationGlo, AddEquation_some, isExit_zero] at h; rw [← h]; rfl)
  | cons node rest =>
    unfold DefineGlobalVar at h
    simp only [] at h
    split_ifs at h
    all_goals first
      | (have hp := propagate_done_pib _ _ h; rw [hp, scaleSlack_report])
      | (simp [propagate, AddEquationGlo, AddEquation_some, isExit_zero] at h; rw [← h]; rfl)
      | (simp only [propagateResult] at h; split_ifs at h <;> simp at h <;> rw [← h] <;> rfl)

theorem scaleSlack_DeclareModelVar (p : INPUTBUF) (szName : String) (iKWCode : Int) :
    ∀ o, DeclareModelVar p szName iKWCode = some o →
      scaleSlack o.pib.pInfo = scaleSlack p.pInfo := by
  intro o h
  have hK := DeclareModelVar_valid p szName iKWCode o h
  rw [DeclareModelVar_eq p szName iKWCode hK] at h
  split_ifs at h <;> simp only [Option.some.injEq] at h <;> rw [← h] <;> rfl

theorem scaleSlack_propagate (r : Option OUTCOME) (k : INPUTBUF → Option OUTCOME)
    (p : INPUTBUF) (hr : ∀ o, r = some o → scaleSlack o.pib.pInfo = scaleSlack p.pInfo)
    (hk : ∀ q o, k q = some o → scaleSlack o.pib.pInfo = scaleSlack q.pInfo) :
    ∀ o, propagate r k = some o → scaleSlack o.pib.pInfo = scaleSlack p.pInfo := by
  intro o h
  cases r with
  | none => simp [propagate] at h
  | some o1 =>
    simp only [propagate] at h
    split_ifs at h
    · rw [Option.some.injEq] at h
      rw [← h]
      exact hr o1 rfl
    · cases hq : k o1.pib with
      | none => rw [hq] at h; simp at h
      | some o2 =>
        rw [hq] at h
        simp only [Option.map_some', Option.some.injEq] at h
        rw [← h]
        exact (hk o1.pib o2 hq).trans (hr o1 rfl)

theorem scaleSlack_done (q : INPUTBUF) :
    ∀ o, (some ⟨0, q, []⟩ : Option OUTCOME) = some o →
      scaleSlack o.pib.pInfo = scaleSlack q.pInfo := by
  intro o h
  rw [Option.some.injEq] at h
  rw [← h]

theorem scaleSlack_some_report (p : INPUTBUF) (wCode : Nat) (szMsg : String)
    (szAltMsg : Option String) :
    ∀ o, some (report p wCode szMsg szAltMsg) = some o →
      scaleSlack o.pib.pInfo = scaleSlack p.pInfo := by
  intro o h
  rw [Option.some.injEq] at h
  rw [← h, scaleSlack_report]

theorem scaleSlack_dispatch (X : SCANNER) (p : INPUTBUF) (pvm : PVMMAPSTRCT)
    (szName szEqn : String) (iKWCode : Int) (hType : HANDLE) :
    ∀ o, DefineVariable.dispatch X p pvm szName szEqn iKWCode hType = some o →
      scaleSlack o.pib.pInfo = scaleSlack p.pInfo := by
  intro o h
  unfold DefineVariable.dispatch at h
  simp only [] at h
  by_cases h0 : p.pInfo.wContext = CN_GLOBAL
  · rw [if_pos h0] at h
    exact scaleSlack_propagate _ _ p (scaleSlack_DefineGlobalVar X p pvm szName szEqn hType)
      (fun q => scaleSlack_done q) o h
  rw [if_neg h0] at h
  by_cases h1 : p.pInfo.wContext = CN_DYNAMICS
  · rw [if_pos h1] at h
    refine scaleSlack_propagate _ _ p ?_ ?_ o h
    · intro o1 e
      split_ifs at e
      · exact scaleSlack_DefineDynamicsEqn p szName szEqn ID_DERIV o1 e
      · exact scaleSlack_DefineDynamicsEqn p szName szEqn ID_FUNCTION o1 e
      · exact scaleSlack_DefineDynamicsEqn p szName szEqn hType o1 e
    · intro q o2 e
      split_ifs at e
      · exact scaleSlack_propagate _ _ q (scaleSlack_some_report q _ _ _)
          (fun q2 => scaleSlack_done q2) o2 e
      · exact scaleSlack_done q o2 e
  rw [if_neg h1] at h
  by_cases h2 : p.pInfo.wContext = CN_JACOB
  · rw [if_pos h2] at h
    exact scaleSlack_propagate _ _ p (scaleSlack_DefineJacobEqn p szName szEqn hType)
      (fun q => scaleSlack_done q) o h
  rw [if_neg h2] at h
  by_cases h3 : p.pInfo.wContext = CN_EVENTS
  · rw [if_pos h3] at h
    exact scaleSlack_propagate _ _ p (scaleSlack_DefineEventEqn p szName szEqn hType)
      (fun q => scaleSlack_done q) o h
  rw [if_neg h3] at h
  by_cases h4 : p.pInfo.wContext = CN_ROOTS
  · rw [if_pos h4] at h
    exact scaleSlack_propagate _ _ p (scaleSlack_DefineRootEqn p szName szEqn hType)
      (fun q => scaleSlack_done q) o h
  rw [if_neg h4] at h
  by_cases h5 : p.pInfo.wContext = CN_SCALE
  · rw [if_pos h5] at h
    exact scaleSlack_propagate _ _ p (scaleSlack_DefineScaleEqn p szName szEqn hType)
      (fun q => scaleSlack_done q) o h
  rw [if_neg h5] at h
  by_cases h6 : p.pInfo.wContext = CN_CALCOUTPUTS
  · rw [if_pos h6] at h
    split_ifs at h
    · exact scaleSlack_propagate _ _ p (scaleSlack_DefineCalcOutEqn p szName szEqn hType)
        (fun q => scaleSlack_done q) o h
    · exact scaleSlack_propagate _ _ p (scaleSlack_some_report p _ _ _)
        (fun q => scaleSlack_done q) o h
  rw [if_neg h6] at h
  exact scaleSlack_done p o h

theorem scaleSlack_propagateResult (r : Option OUTCOME)
    (k : Int → INPUTBUF → Option OUTCOME) (p : INPUTBUF)
    (hr : ∀ o, r = some o → scaleSlack o.pib.pInfo = scaleSlack p.pInfo)
    (hk : ∀ ret q o, k ret q = some o → scaleSlack o.pib.pInfo = scaleSlack q.pInfo) :
    ∀ o, propagateResult r k = some o → scaleSlack o.pib.pInfo = scaleSlack p.pInfo := by
  intro o h
  cases r with
  | none => simp [propagateResult] at h
  | some o1 =>
    simp only [propagateResult] at h
    split_ifs at h
    · rw [Option.some.injEq] at h
      rw [← h]
      exact hr o1 rfl
    · cases hq : k o1.ret o1.pib with
      | none => rw [hq] at h; simp at h
      | some o2 =>
        rw [hq] at h
        simp only [Option.map_some', Option.some.injEq] at h
        rw [← h]
        exact (hk o1.ret o1.pib o2 hq).trans (hr o1 rfl)

theorem scaleSlack_core (p q : INPUTBUF) (h : core p = core q) :
    scaleSlack p.pInfo = scaleSlack q.pInfo := by
  rw [core_eq_elim q p h]
  rfl

/-- A call of `DefineVariable`, in any section, changes the counter
`scale_eqns_cnt` by the number of records it adds to Scale Equations. -/
theorem scaleSlack_DefineVariable (X : SCANNER) (p : INPUTBUF) (szName szEqn : Option String)
    (iKWCode : Int) :
    ∀ o, DefineVariable X p szName szEqn iKWCode = some o →
      scaleSlack o.pib.pInfo = scaleSlack p.pInfo := by
  intro o h
  unfold DefineVariable at h
  split_ifs at h
  cases szName with
  | none => exact scaleSlack_done p o h
  | some sz =>
    cases szEqn with
    | none => exact scaleSlack_done p o h
    | some e =>
      simp only [] at h
      refine scaleSlack_propagateResult _ _ p ?_ ?_ o h
      · intro o1 e1
        rw [Option.some.injEq] at e1
        rw [← e1]
        split_ifs <;> first
          | rfl
          | exact scaleSlack_core _ _ (VerifyEqn_core X p e)
      · intro ret q o2 e2
        split_ifs at e2 <;> first
          | exact scaleSlack_done q o2 e2
          | exact scaleSlack_dispatch X q _ sz e iKWCode _ o2 e2

/-- The counter `scale_eqns_cnt` is off by the same amount before and after
any sequence of declarations, definitions and changes of section. -/
theorem scaleSlack_walk (X : SCANNER) (steps : List STEP) :
    ∀ p q : INPUTBUF, walk X p steps = some q →
      scaleSlack q.pInfo = scaleSlack p.pInfo := by
  induction steps with
  | nil =>
    intro p q h
    simp only [walk, Option.some.injEq] at h
    rw [h]
  | cons s rest ih =>
    intro p q h
    cases s with
    | enter wContext =>
      simp only [walk] at h
      rw [ih _ q h]
      rfl
    | call c =>
      simp only [walk] at h
      cases hc : c.exec X p with
      | none => rw [hc] at h; simp at h
      | some o =>
        rw [hc] at h
        simp only [] at h
        rw [ih o.pib q h]
        cases c with
        | declare iLineNum szName iKWCode =>
          simp only [CALL.exec] at hc
          exact scaleSlack_DeclareModelVar { p with iLineNum := iLineNum } szName iKWCode o hc
        | define iLineNum szName szEqn iKWCode =>
          simp only [CALL.exec] at hc
          exact scaleSlack_DefineVariable X { p with iLineNum := iLineNum } szName szEqn
            iKWCode o hc

/-- C39: in every table state reached from `InitInfo` by calls of
`DeclareModelVar` and `DefineVariable`, with changes of section in between, the
counter `scale_eqns_cnt` equals the number of records in Scale Equations. -/
theorem C39_scale_counter_counts_scale_records (X : SCANNER) (pibIn pibOut : INPUTBUF)
    (steps : List STEP) (hinit : pibIn.pInfo = InitInfo)
    (hwalk : walk X pibIn steps = some pibOut) :
    pibOut.pInfo.scale_eqns_cnt = (pibOut.pInfo.pvmScaleEqns.length : Int) := by
  have h := scaleSlack_walk X steps pibIn pibOut hwalk
  rw [hinit] at h
  have h0 : scaleSlack InitInfo = 0 := rfl
  rw [h0] at h
  unfold scaleSlack at h
  omega

/-- C39 at a model that assigns a local variable twice and a State twice in
the Scale section: three records are stored, the fourth assignment is ignored,
and the counter is three. -/
theorem C39_scale_counter_counts_scale_records_witness :
    startBuf.pInfo = InitInfo ∧
    walk numberScanner startBuf scaleSteps = some scaleEnd ∧
    scaleEnd.pInfo.pvmScaleEqns.length = 3 ∧
    scaleEnd.pInfo.scale_eqns_cnt = (scaleEnd.pInfo.pvmScaleEqns.length : Int) :=
  ⟨rfl, by decide, by decide,
    C39_scale_counter_counts_scale_records numberScanner startBuf scaleEnd scaleSteps rfl
      (by decide)⟩

/-! ## Differential equations built from SBML reactions -/

theorem snprintf_fits (n : Nat) (sz : String) (h : strlen sz < n) : snprintf n sz = sz := by
  unfold snprintf
  have hl : sz.data.length ≤ n - 1 := by
    have : sz.data.length = strlen sz := rfl
    omega
  rw [List.take_of_length_le hl]

theorem strlen_append (a b : String) : strlen (a ++ b) = strlen a + strlen b :=
  String.length_append a b

theorem snprintf_plus : snprintf MAX_LEX " + " = " + " := by decide

theorem snprintf_minus : snprintf MAX_LEX " - " = " - " := by decide

/-- `AugmentEquation` on a record that holds an equation text: the text the
specification gives is stored whole, and the nodes behind the record are kept. -/
theorem AugmentEquation_text (pvm : VMMAPSTRCT) (pvmNextVar : PVMMAPSTRCT) (e r s : String)
    (sign : OPSIGNS) (he : pvm.szEqn = some (EQN.text e))
    (hlen : strlen e + strlen s + strlen r + 8 < 2 ^ 31) :
    AugmentEquation (pvm :: pvmNextVar) (some r) (some s) sign
      = some (0, { pvm with szEqn := some (EQN.text (augmented e r s sign)) } :: pvmNextVar) := by
  have h3 : strlen " + " = 3 := by decide
  have h3m : strlen " - " = 3 := by decide
  have h1 : strlen " " = 1 := by decide
  have h3s : strlen " * " = 3 := by decide
  cases sign
  · simp only [AugmentEquation, he, snprintf_plus, h3, augmented]
    rw [if_neg (by omega)]
    by_cases hs : s = "1"
    · simp only [if_pos hs]
      rw [snprintf_fits _ _ (by simp only [strlen_append, h3]; omega)]
    · simp only [if_neg hs]
      rw [snprintf_fits _ _ (by simp only [strlen_append, h3, h1, h3s]; omega)]
  · simp only [AugmentEquation, he, snprintf_minus, h3m, augmented]
    rw [if_neg (by omega)]
    by_cases hs : s = "1"
    · simp only [if_pos hs]
      rw [snprintf_fits _ _ (by simp only [strlen_append, h3m]; omega)]
    · simp only [if_neg hs]
      rw [snprintf_fits _ _ (by simp only [strlen_append, h3m, h1, h3s]; omega)]

theorem take_length_sub_suffix (pre post : PVMMAPSTRCT) :
    (pre ++ post).take ((pre ++ post).length - post.length) = pre := by
  have h : (pre ++ post).length - post.length = pre.length := by
    simp only [List.length_append]; omega
  rw [h, List.take_left]

/-- `ConstructEqn` on a State that has a record with an equation text in
Dynamics: that record gets the augmented text, with minus for a reactant and
plus otherwise, and nothing else in the buffer changes. -/
theorem ConstructEqn_State (X : SCANNER) (pibIn : INPUTBUF) (szRName : String)
    (eType : VARTYPES) (szSName szStoichio e : String) (pre post : PVMMAPSTRCT)
    (pvm : VMMAPSTRCT)
    (hstate : GetVarType pibIn.pInfo.pvmGloVars szSName = ID_STATE)
    (hdyn : pibIn.pInfo.pvmDynEqns = pre ++ pvm :: post)
    (hname : pvm.szName = szSName) (hpre : ∀ q ∈ pre, q.szName ≠ szSName)
    (he : pvm.szEqn = some (EQN.text e))
    (hlen : strlen e + strlen szStoichio + strlen szRName + 8 < 2 ^ 31) :
    ConstructEqn X pibIn szRName eType szSName szStoichio
      = some ⟨0, { pibIn with pInfo := { pibIn.pInfo with
          pvmDynEqns := pre ++ { pvm with szEqn := some (EQN.text (augmented e szRName szStoichio
            (if eType = VARTYPES.reactant then OPSIGNS.minus else OPSIGNS.plus))) } :: post } },
          []⟩ := by
  subst hname
  have hglo : GetVarPTR pibIn.pInfo.pvmGloVars pvm.szName ≠ [] := by
    intro h
    unfold GetVarType at hstate
    rw [h] at hstate
    exact absurd hstate (by decide)
  have hptr : GetVarPTR pibIn.pInfo.pvmDynEqns pvm.szName = pvm :: post := by
    rw [hdyn]
    exact GetVarPTR_append_cons pre post pvm hpre
  have hne : GetVarPTR pibIn.pInfo.pvmDynEqns pvm.szName ≠ [] := by
    rw [hptr]
    exact List.cons_ne_nil _ _
  have htake : pibIn.pInfo.pvmDynEqns.take
      (pibIn.pInfo.pvmDynEqns.length - (pvm :: post).length) = pre := by
    rw [hdyn]
    exact take_length_sub_suffix pre (pvm :: post)
  unfold ConstructEqn
  simp only [ConstructEqn.pad, if_neg hglo, hstate, if_true, if_neg hne]
  simp only [propagate, isExit_zero, Bool.false_eq_true, if_false, hptr,
    AugmentEquation_text pvm post e szRName szStoichio _ he hlen, htake, Option.map_some',
    List.append_nil]

/-- C35: for every record with equation text `e`, reaction name `r` and
stoichiometry `s` (of lengths that fit `int`), `AugmentEquation` replaces the
text by `e`, the sign and `r` when `s` is exactly `1`, and by `e`, the sign, a
space, `s`, ` * ` and `r` otherwise, whole; `ConstructEqn` on a State with such
a record in Dynamics applies it with minus for a reactant and plus for a
product and changes nothing else in the buffer; on a State without a record in
Dynamics it first defines a derivative with empty text (run for the State `A`
and a reaction that produces it, the empty text having no lexical element). -/
theorem C35_AugmentEquation_appends_signed_term :
    (∀ (pvm : VMMAPSTRCT) (pvmNextVar : PVMMAPSTRCT) (e r s : String) (sign : OPSIGNS),
      pvm.szEqn = some (EQN.text e) →
      strlen e + strlen s + strlen r + 8 < 2 ^ 31 →
      AugmentEquation (pvm :: pvmNextVar) (some r) (some s) sign
        = some (0, { pvm with szEqn := some (EQN.text (augmented e r s sign)) } :: pvmNextVar)) ∧
    (∀ e r s : String,
      augmented e r "1" OPSIGNS.plus = e ++ " + " ++ r ∧
      augmented e r "1" OPSIGNS.minus = e ++ " - " ++ r ∧
      (s ≠ "1" → augmented e r s OPSIGNS.plus = e ++ " + " ++ " " ++ s ++ " * " ++ r) ∧
      (s ≠ "1" → augmented e r s OPSIGNS.minus = e ++ " - " ++ " " ++ s ++ " * " ++ r)) ∧
    (∀ (X : SCANNER) (pibIn : INPUTBUF) (szRName : String) (eType : VARTYPES)
        (szSName szStoichio e : String) (pre post : PVMMAPSTRCT) (pvm : VMMAPSTRCT),
      GetVarType pibIn.pInfo.pvmGloVars szSName = ID_STATE →
      pibIn.pInfo.pvmDynEqns = pre ++ pvm :: post →
      pvm.szName = szSName → (∀ q ∈ pre, q.szName ≠ szSName) →
      pvm.szEqn = some (EQN.text e) →
      strlen e + strlen szStoichio + strlen szRName + 8 < 2 ^ 31 →
      ConstructEqn X pibIn szRName eType szSName szStoichio
        = some ⟨0, { pibIn with pInfo := { pibIn.pInfo with
            pvmDynEqns := pre ++ { pvm with szEqn := some (EQN.text
              (augmented e szRName szStoichio
                (if eType = VARTYPES.reactant then OPSIGNS.minus else OPSIGNS.plus))) } :: post } },
            []⟩) ∧
    ConstructEqn (fixedScanner []) dynamicsStateBuf "r1" VARTYPES.product "A" "1"
      = some ⟨0, { dynamicsStateBuf with
          iLNPrev := 3,
          pInfo := { dynamicsStateBuf.pInfo with
            pvmDynEqns := [⟨"A", some (EQN.text " + r1"), ID_DERIV ||| ID_SPACEFLAG⟩] } }, []⟩ := by
  refine ⟨AugmentEquation_text, ?_, ConstructEqn_State, by decide⟩
  intro e r s
  refine ⟨rfl, rfl, ?_, ?_⟩
  · intro hs
    simp only [augmented, if_neg hs]
  · intro hs
    simp only [augmented, if_neg hs]

/-- C35 at a reaction `r1` that consumes two `A`: the derivative of `A`, empty
so far, becomes ` -  2 * r1`, and the derivative of `B` above it is kept. -/
theorem C35_AugmentEquation_appends_signed_term_witness :
    AugmentEquation [⟨"B", some (EQN.text "k * B"), ID_DERIV⟩] (some "r1") (some "1")
        OPSIGNS.plus
      = some (0, [⟨"B", some (EQN.text (augmented "k * B" "r1" "1" OPSIGNS.plus)), ID_DERIV⟩]) ∧
    augmented "k * B" "r1" "1" OPSIGNS.plus = "k * B + r1" ∧
    ConstructEqn numberScanner reactionBuf "r1" VARTYPES.reactant "A" "2"
      = some ⟨0, { reactionBuf with pInfo := { reactionBuf.pInfo with
          pvmDynEqns := [⟨"B", some (EQN.text "k * B"), ID_DERIV ||| ID_SPACEFLAG⟩] ++
            { (⟨"A", some (EQN.text ""), ID_DERIV ||| ID_SPACEFLAG⟩ : VMMAPSTRCT) with
              szEqn := some (EQN.text (augmented "" "r1" "2"
                (if VARTYPES.reactant = VARTYPES.reactant then OPSIGNS.minus
                 else OPSIGNS.plus))) } :: [] } }, []⟩ ∧
    augmented "" "r1" "2" OPSIGNS.minus = " -  2 * r1" :=
  ⟨C35_AugmentEquation_appends_signed_term.1 ⟨"B", some (EQN.text "k * B"), ID_DERIV⟩ []
      "k * B" "r1" "1" OPSIGNS.plus rfl (by decide),
    by decide,
    C35_AugmentEquation_appends_signed_term.2.2.1 numberScanner reactionBuf "r1"
      VARTYPES.reactant "A" "2" "" [⟨"B", some (EQN.text "k * B"), ID_DERIV ||| ID_SPACEFLAG⟩] []
      ⟨"A", some (EQN.text ""), ID_DERIV ||| ID_SPACEFLAG⟩ (by decide) rfl rfl (by decide) rfl
      (by decide),
    by decide⟩

end MCSimMod
